import Mathlib

/-! Tuna audio HAL (`audio/audio_hw.c`): routing, gain model, call control, streams

A shallow embedding of the routing and stream-management core of `audio_hw.c`.

* C integers are `Int`/`Nat`; device and channel masks are `Nat` bit patterns combined with
  `&&&`, `|||`.
* The ALSA mixer, the RIL client, the PCM transport and the effect plug-ins are external
  collaborators.  Their state is threaded explicitly: `hw_state` holds the mixer controls
  (looked up by name, as every access of the HAL goes through `mixer_get_ctl_by_name`) together
  with the ordered log of the requests the HAL issued.
* `audio_hw.h` is not part of the sources: its constants, macros and route tables are the fields
  of `audio_hw_h`, over which every definition is parametrised.
-/

namespace Tuna

/-! ## Constants of the Android system headers (`system/audio.h`, `errno.h`) -/

def EINVAL : Int := 22
def ENOMEM : Int := 12
def ENOSYS : Int := 38
def AUDIO_MODE_NORMAL : Int := 0
def AUDIO_MODE_RINGTONE : Int := 1
def AUDIO_MODE_IN_CALL : Int := 2
def AUDIO_MODE_IN_COMMUNICATION : Int := 3

def AUDIO_DEVICE_NONE : Nat := 0
def AUDIO_DEVICE_BIT_IN : Nat := 0x80000000
def AUDIO_DEVICE_OUT_EARPIECE : Nat := 0x1
def AUDIO_DEVICE_OUT_SPEAKER : Nat := 0x2
def AUDIO_DEVICE_OUT_WIRED_HEADSET : Nat := 0x4
def AUDIO_DEVICE_OUT_WIRED_HEADPHONE : Nat := 0x8
def AUDIO_DEVICE_OUT_BLUETOOTH_SCO : Nat := 0x10
def AUDIO_DEVICE_OUT_BLUETOOTH_SCO_HEADSET : Nat := 0x20
def AUDIO_DEVICE_OUT_BLUETOOTH_SCO_CARKIT : Nat := 0x40
def AUDIO_DEVICE_OUT_ALL_SCO : Nat := 0x70
def AUDIO_DEVICE_OUT_AUX_DIGITAL : Nat := 0x400
def AUDIO_DEVICE_OUT_DGTL_DOCK_HEADSET : Nat := 0x1000
def AUDIO_DEVICE_IN_BUILTIN_MIC : Nat := 0x80000004
def AUDIO_DEVICE_IN_ALL_SCO : Nat := 0x80000008
def AUDIO_DEVICE_IN_WIRED_HEADSET : Nat := 0x80000010
def AUDIO_DEVICE_IN_BACK_MIC : Nat := 0x80000080

def AUDIO_SOURCE_MIC : Int := 1
def AUDIO_SOURCE_CAMCORDER : Int := 5
def AUDIO_SOURCE_VOICE_RECOGNITION : Int := 6
def AUDIO_SOURCE_VOICE_COMMUNICATION : Int := 7

def AUDIO_FORMAT_PCM_16_BIT : Int := 1

def AUDIO_OUTPUT_FLAG_DIRECT : Nat := 0x1
def AUDIO_OUTPUT_FLAG_DEEP_BUFFER : Nat := 0x8

def AUDIO_CHANNEL_IN_FRONT_BACK : Nat := 0x30
def AUDIO_CHANNEL_OUT_STEREO : Nat := 0x3
def AUDIO_CHANNEL_OUT_5POINT1 : Nat := 0x3F
def AUDIO_CHANNEL_OUT_7POINT1 : Nat := 0x63F

/-- Bitwise complement of a 32-bit mask (`~x` on `uint32_t`). -/
def not32 (x : Nat) : Nat := 0xFFFFFFFF ^^^ (x % 2 ^ 32)

/-- Number of set bits (`popcount`). -/
def popcount (x : Nat) : Nat := (Nat.digits 2 x).sum

/-! ## `audio_hw.h`: constants, macros and tables taken as parameters -/

/-- Modelled from the spec: the TTY modes `off | vco | hco | full` of `enum tty_modes`, declared
in the missing `audio_hw.h`. -/
inductive tty_modes
  | TTY_MODE_OFF
  | TTY_MODE_VCO
  | TTY_MODE_HCO
  | TTY_MODE_FULL
  deriving DecidableEq, Repr

open tty_modes

/-- One entry of a route table (`struct route_setting`): a named control and either an
enumerated string value or an integer value. -/
structure route_setting where
  ctl_name : String
  intval : Int
  strval : Option String
  deriving DecidableEq, Repr

/-- A (main, auxiliary) channel configuration (`channel_config_t`). -/
structure channel_config_t where
  main_channels : Nat
  aux_channels : Nat
  deriving DecidableEq, Repr

/-- The handles of `struct mixer_ctls`: each is the name under which `adev_open` looked the
control up. -/
structure mixer_ctls where
  dl1_eq : String
  mm_dl1_volume : String
  tones_dl1_volume : String
  mm_dl2_volume : String
  vx_dl2_volume : String
  tones_dl2_volume : String
  mm_dl1 : String
  vx_dl1 : String
  tones_dl1 : String
  mm_dl2 : String
  vx_dl2 : String
  tones_dl2 : String
  dl2_mono : String
  dl1_headset : String
  dl1_bt : String
  earpiece_enable : String
  left_capture : String
  right_capture : String
  amic_ul_volume : String
  voice_ul_volume : String
  sidetone_capture : String
  headset_volume : String
  speaker_volume : String
  earpiece_volume : String
  deriving DecidableEq, Repr

/-- The contents of `audio_hw.h` the code refers to.  The header is not among the sources, so
its constants, conversion macros and route tables are parameters. -/
structure audio_hw_h where
  ctl_names : mixer_ctls
  MIXER_ABE_GAIN_0DB : Int
  DB_TO_ABE_GAIN : Int → Int
  DB_TO_HEADSET_VOLUME : Int → Int
  DB_TO_SPEAKER_VOLUME : Int → Int
  DB_TO_EARPIECE_VOLUME : Int → Int
  DB_FROM_SPEAKER_VOLUME : Int → Int
  NORMAL_SPEAKER_VOLUME : Int
  NORMAL_HEADPHONE_VOLUME : Int
  NORMAL_HEADSET_VOLUME : Int
  NORMAL_EARPIECE_VOLUME : Int
  VOICE_CALL_SPEAKER_VOLUME : Int
  VOICE_CALL_HEADSET_VOLUME : Int
  VOICE_CALL_EARPIECE_VOLUME : Int
  VOIP_SPEAKER_VOLUME : Int
  VOIP_HEADSET_VOLUME : Int
  VOIP_EARPIECE_VOLUME : Int
  HEADPHONE_VOLUME_TTY : Int
  RINGTONE_HEADSET_VOLUME_OFFSET : Int
  VOICE_CALL_MAIN_MIC_VOLUME : Int
  VOICE_CALL_HEADSET_MIC_VOLUME : Int
  VOICE_CALL_SUB_MIC_VOLUME : Int
  CAPTURE_MAIN_MIC_VOLUME : Int
  CAPTURE_HEADSET_MIC_VOLUME : Int
  CAPTURE_SUB_MIC_VOLUME : Int
  CAMCORDER_MAIN_MIC_VOLUME : Int
  CAMCORDER_HEADSET_MIC_VOLUME : Int
  CAMCORDER_SUB_MIC_VOLUME : Int
  VOICE_RECOGNITION_MAIN_MIC_VOLUME : Int
  VOICE_RECOGNITION_HEADSET_MIC_VOLUME : Int
  VOICE_RECOGNITION_SUB_MIC_VOLUME : Int
  VOIP_MAIN_MIC_VOLUME : Int
  VOIP_HEADSET_MIC_VOLUME : Int
  VOIP_SUB_MIC_VOLUME : Int
  MIXER_4KHZ_LPF_0DB : String
  MIXER_FLAT_RESPONSE : String
  MIXER_MAIN_MIC : String
  MIXER_HS_MIC : String
  MIXER_SUB_MIC : String
  SOUND_AUDIO_PATH_HANDSET : Int
  SOUND_AUDIO_PATH_HEADSET : Int
  SOUND_AUDIO_PATH_SPEAKER : Int
  SOUND_AUDIO_PATH_BLUETOOTH : Int
  SOUND_AUDIO_PATH_BLUETOOTH_NO_NR : Int
  SOUND_AUDIO_PATH_HEADPHONE : Int
  hs_output : List route_setting
  hf_output : List route_setting
  vx_ul_amic_left : List route_setting
  vx_ul_amic_right : List route_setting
  vx_ul_bt : List route_setting
  mm_ul2_bt : List route_setting
  mm_ul2_amic_left : List route_setting
  mm_ul2_amic_right : List route_setting
  mm_ul2_amic_dual_main_sub : List route_setting
  mm_ul2_amic_dual_sub_main : List route_setting
  defaults : List route_setting
  VX_NB_SAMPLING_RATE : Nat
  VX_WB_SAMPLING_RATE : Nat
  MM_UL_SAMPLING_RATE : Nat
  MM_FULL_POWER_SAMPLING_RATE : Nat
  MM_LOW_POWER_SAMPLING_RATE : Nat
  DEFAULT_OUT_SAMPLING_RATE : Nat
  CAPTURE_PERIOD_SIZE : Nat
  HDMI_MULTI_PERIOD_COUNT : Nat
  PORT_MODEM : Nat
  PORT_MM2_UL : Nat
  PORT_TONES : Nat
  PORT_SPDIF : Nat
  PORT_HDMI : Nat
  PORT_MM : Nat
  MAX_PREPROCESSORS : Nat
  in_aux_cnl_configs : List channel_config_t
  DEEP_BUFFER_LONG_PERIOD_WRITE_THRES : Int
  DEEP_BUFFER_SHORT_PERIOD_WRITE_THRES : Int

/-! ## The mixer and the request log -/

/-- One ALSA mixer control as the HAL sees it: its integer values (one per channel, so that
`mixer_ctl_get_num_values` is the length), the maximum of its range and its enumerated value. -/
structure mixer_ctl where
  values : List Int
  range_max : Int
  enum_value : String
  deriving DecidableEq, Repr

/-- A request issued by the HAL to the mixer or to the RIL client. -/
inductive hw_event
  | set_value (ctl : String) (id : Nat) (value : Int)
  | set_enum (ctl : String) (value : String)
  | ril_call_audio_path (path : Int)
  | ril_call_volume (volume : Nat)
  deriving DecidableEq, Repr

/-- The hardware-side state driven by the HAL: the mixer controls by name and the ordered log
of all requests issued so far (oldest first). -/
structure hw_state where
  ctls : String → Option mixer_ctl
  trace : List hw_event

/-- Apply `g` to the control named `n`, if the mixer has one. -/
def modify_ctl (n : String) (g : mixer_ctl → mixer_ctl) (m : String → Option mixer_ctl) :
    String → Option mixer_ctl :=
  fun k => if k = n then (m k).map g else m k

/-- The effect of one request on a single control. -/
def hw_event.on_ctl : hw_event → mixer_ctl → mixer_ctl
  | .set_value _ id v, c => { c with values := c.values.set id v }
  | .set_enum _ s, c => { c with enum_value := s }
  | .ril_call_audio_path _, c => c
  | .ril_call_volume _, c => c

/-- The control a request addresses (none for RIL requests). -/
def hw_event.target : hw_event → Option String
  | .set_value n _ _ => some n
  | .set_enum n _ => some n
  | .ril_call_audio_path _ => none
  | .ril_call_volume _ => none

/-- The effect of one request on the mixer controls: a write through an absent (NULL) handle or
with a channel index out of range changes nothing, as in tinyalsa. -/
def hw_event.apply (e : hw_event) (m : String → Option mixer_ctl) : String → Option mixer_ctl :=
  match e.target with
  | some n => modify_ctl n e.on_ctl m
  | none => m

/-- Issue one request: update the controls and append it to the log. -/
def hw_state.emit (s : hw_state) (e : hw_event) : hw_state :=
  { ctls := e.apply s.ctls, trace := s.trace ++ [e] }

/-- Issue a sequence of requests in order. -/
def hw_state.emits (s : hw_state) (es : List hw_event) : hw_state :=
  es.foldl hw_state.emit s

/-- Lookup of a control by name: `mixer_get_ctl_by_name`. -/
def mixer_get_ctl_by_name (s : hw_state) (name : String) : Option String :=
  if (s.ctls name).isSome then some name else none

/-- Number of values of a control: `mixer_ctl_get_num_values` (0 for a NULL handle). -/
def mixer_ctl_get_num_values (s : hw_state) (ctl : String) : Nat :=
  match s.ctls ctl with
  | some c => c.values.length
  | none => 0

/-- Maximum of the range of a control: `mixer_ctl_get_range_max` (`-EINVAL` for a NULL handle). -/
def mixer_ctl_get_range_max (s : hw_state) (ctl : String) : Int :=
  match s.ctls ctl with
  | some c => c.range_max
  | none => -EINVAL

/-- Write of one channel of a control: `mixer_ctl_set_value`. -/
def mixer_ctl_set_value (s : hw_state) (ctl : String) (id : Nat) (value : Int) : hw_state :=
  s.emit (.set_value ctl id value)

/-- Write of an enumerated control: `mixer_ctl_set_enum_by_string`. -/
def mixer_ctl_set_enum_by_string (s : hw_state) (ctl : String) (value : String) : hw_state :=
  s.emit (.set_enum ctl value)

/-- Request to the RIL client: `ril_set_call_audio_path`. -/
def ril_set_call_audio_path (s : hw_state) (path : Int) : hw_state :=
  s.emit (.ril_call_audio_path path)

/-- Request to the RIL client: `ril_set_call_volume` (the volume is an uninterpreted float). -/
def ril_set_call_volume (s : hw_state) (volume : Nat) : hw_state :=
  s.emit (.ril_call_volume volume)

/-- The inner loop of `set_route_by_array`: `for (j = 0; j < num_values; j++) set_value(ctl, j, v)`. -/
def set_all_values (s : hw_state) (ctl : String) (value : Int) : hw_state :=
  (List.range (mixer_ctl_get_num_values s ctl)).foldl
    (fun s j => mixer_ctl_set_value s ctl j value) s

/-- Application of a route table: `set_route_by_array`.  Stops with `-EINVAL` at the first
entry whose control is missing; `enable = false` writes "Off" / 0. -/
def set_route_by_array (s : hw_state) (route : List route_setting) (enable : Bool) :
    Int × hw_state :=
  match route with
  | [] => (0, s)
  | r :: rest =>
    match mixer_get_ctl_by_name s r.ctl_name with
    | none => (-EINVAL, s)
    | some ctl =>
      let s :=
        match r.strval with
        | some str =>
          if enable then mixer_ctl_set_enum_by_string s ctl str
          else mixer_ctl_set_enum_by_string s ctl "Off"
        | none =>
          if enable then set_all_values s ctl r.intval
          else set_all_values s ctl 0
      set_route_by_array s rest enable

/-! ## Streams and the device -/

/-- A transport endpoint handle returned by `pcm_open`.  `ready` is what `pcm_is_ready` answers. -/
structure pcm where
  id : Nat
  port : Nat
  capture : Bool
  rate : Nat
  ready : Bool
  deriving DecidableEq, Repr

/-- One slot of `in->preprocessors[]` (`struct effect_info_s`).  `channel_configs` is the array
of `num_channel_configs` configurations the effect declared (empty when the pointer is NULL). -/
structure effect_info_s where
  effect_itfe : Option Nat
  channel_configs : List channel_config_t
  deriving DecidableEq, Repr

/-- The fields of `struct tuna_stream_in` the routing and negotiation code reads or writes. -/
structure tuna_stream_in where
  standby : Bool
  pcm : Option pcm
  source : Int
  device : Nat
  main_channels : Nat
  aux_channels : Nat
  aux_channels_changed : Bool
  config_channels : Nat
  config_rate : Nat
  requested_rate : Nat
  resampler : Option Nat
  need_echo_reference : Bool
  echo_reference : Option Nat
  preprocessors : List effect_info_s
  num_preprocessors : Nat
  read_buf_frames : Nat
  read_buf_size : Nat
  proc_buf_frames : Nat
  proc_buf_size : Nat
  deriving DecidableEq, Repr

/-- The fields of `struct tuna_stream_out`; `pcm_normal`, `pcm_spdif`, `pcm_hdmi` are the
entries `PCM_NORMAL`, `PCM_SPDIF`, `PCM_HDMI` of `out->pcm[PCM_TOTAL]`. -/
structure tuna_stream_out where
  standby : Bool
  pcm_normal : Option pcm
  pcm_spdif : Option pcm
  pcm_hdmi : Option pcm
  echo_reference : Option Nat
  use_long_periods : Bool
  write_threshold : Int
  muted : Bool
  restart_periods_cnt : Nat
  channel_mask : Nat
  hdmi_rate : Nat
  deriving DecidableEq, Repr

/-- Index of `adev->outputs[OUTPUT_TOTAL]`. -/
inductive output_type
  | OUTPUT_DEEP_BUF
  | OUTPUT_LOW_LATENCY
  | OUTPUT_HDMI
  deriving DecidableEq, Repr

open output_type

/-- The fields of `struct tuna_audio_device`.  `active_input` and `echo_reference` are handles
(pointers); output streams live in the `outputs` table. -/
structure tuna_audio_device where
  mixer_ctls : mixer_ctls
  mode : Int
  out_device : Nat
  in_device : Nat
  pcm_modem_dl : Option pcm
  pcm_modem_ul : Option pcm
  in_call : Bool
  voice_volume : Nat
  active_input : Option Nat
  outputs : output_type → Option tuna_stream_out
  mic_mute : Bool
  tty_mode : tty_modes
  echo_reference : Option Nat
  bluetooth_nrec : Bool
  wb_amr : Int
  screen_off : Bool

/-! ## Routing engine and gain model -/

/-- Equaliser selection: `set_eq_filter`. -/
def set_eq_filter (h : audio_hw_h) (adev : tuna_audio_device) (s : hw_state) : hw_state :=
  let dl1_eq_applicable := adev.out_device &&& (AUDIO_DEVICE_OUT_WIRED_HEADSET |||
    AUDIO_DEVICE_OUT_WIRED_HEADPHONE ||| AUDIO_DEVICE_OUT_EARPIECE)
  if adev.mode = AUDIO_MODE_IN_CALL ∧ dl1_eq_applicable ≠ 0 ∧
      adev.tty_mode = TTY_MODE_OFF ∧ adev.wb_amr = 0 then
    mixer_ctl_set_enum_by_string s adev.mixer_ctls.dl1_eq h.MIXER_4KHZ_LPF_0DB
  else
    mixer_ctl_set_enum_by_string s adev.mixer_ctls.dl1_eq h.MIXER_FLAT_RESPONSE

/-- Modem-side audio path selection: `set_incall_device`. -/
def set_incall_device (h : audio_hw_h) (adev : tuna_audio_device) (s : hw_state) : hw_state :=
  let device_type :=
    if adev.out_device = AUDIO_DEVICE_OUT_EARPIECE then h.SOUND_AUDIO_PATH_HANDSET
    else if adev.out_device = AUDIO_DEVICE_OUT_SPEAKER ∨
        adev.out_device = AUDIO_DEVICE_OUT_AUX_DIGITAL ∨
        adev.out_device = AUDIO_DEVICE_OUT_DGTL_DOCK_HEADSET then h.SOUND_AUDIO_PATH_SPEAKER
    else if adev.out_device = AUDIO_DEVICE_OUT_WIRED_HEADSET then h.SOUND_AUDIO_PATH_HEADSET
    else if adev.out_device = AUDIO_DEVICE_OUT_WIRED_HEADPHONE then h.SOUND_AUDIO_PATH_HEADPHONE
    else if adev.out_device = AUDIO_DEVICE_OUT_BLUETOOTH_SCO ∨
        adev.out_device = AUDIO_DEVICE_OUT_BLUETOOTH_SCO_HEADSET ∨
        adev.out_device = AUDIO_DEVICE_OUT_BLUETOOTH_SCO_CARKIT then
      (if adev.bluetooth_nrec then h.SOUND_AUDIO_PATH_BLUETOOTH
       else h.SOUND_AUDIO_PATH_BLUETOOTH_NO_NR)
    else h.SOUND_AUDIO_PATH_HANDSET
  ril_set_call_audio_path s device_type

/-- The `main ? a : (headset ? b : (sub ? c : 0))` selection of `set_input_volumes`. -/
def mic_volume (main_mic_on headset_mic_on sub_mic_on : Bool) (a b c : Int) : Int :=
  if main_mic_on then a else if headset_mic_on then b else if sub_mic_on then c else 0

/-- Capture gain: `set_input_volumes`.  `act` is the stream `adev->active_input` points to. -/
def set_input_volumes (h : audio_hw_h) (adev : tuna_audio_device) (act : Option tuna_stream_in)
    (main_mic_on headset_mic_on sub_mic_on : Bool) (s : hw_state) : hw_state :=
  let volume : Int :=
    if adev.mode = AUDIO_MODE_IN_CALL then
      h.DB_TO_ABE_GAIN (mic_volume main_mic_on headset_mic_on sub_mic_on
        h.VOICE_CALL_MAIN_MIC_VOLUME h.VOICE_CALL_HEADSET_MIC_VOLUME h.VOICE_CALL_SUB_MIC_VOLUME)
    else
      match act with
      | some ai =>
        if ai.source = AUDIO_SOURCE_MIC then
          h.DB_TO_ABE_GAIN (mic_volume main_mic_on headset_mic_on sub_mic_on
            h.CAPTURE_MAIN_MIC_VOLUME h.CAPTURE_HEADSET_MIC_VOLUME h.CAPTURE_SUB_MIC_VOLUME)
        else if ai.source = AUDIO_SOURCE_CAMCORDER then
          h.DB_TO_ABE_GAIN (mic_volume main_mic_on headset_mic_on sub_mic_on
            h.CAMCORDER_MAIN_MIC_VOLUME h.CAMCORDER_HEADSET_MIC_VOLUME h.CAMCORDER_SUB_MIC_VOLUME)
        else if ai.source = AUDIO_SOURCE_VOICE_RECOGNITION then
          h.DB_TO_ABE_GAIN (mic_volume main_mic_on headset_mic_on sub_mic_on
            h.VOICE_RECOGNITION_MAIN_MIC_VOLUME h.VOICE_RECOGNITION_HEADSET_MIC_VOLUME
            h.VOICE_RECOGNITION_SUB_MIC_VOLUME)
        else if ai.source = AUDIO_SOURCE_VOICE_COMMUNICATION then
          h.DB_TO_ABE_GAIN (mic_volume main_mic_on headset_mic_on sub_mic_on
            h.VOIP_MAIN_MIC_VOLUME h.VOIP_HEADSET_MIC_VOLUME h.VOIP_SUB_MIC_VOLUME)
        else h.MIXER_ABE_GAIN_0DB
      | none => h.MIXER_ABE_GAIN_0DB
  let s := mixer_ctl_set_value s adev.mixer_ctls.amic_ul_volume 0 volume
  mixer_ctl_set_value s adev.mixer_ctls.amic_ul_volume 1 volume

/-- The local variables of `set_output_volumes` once its gain computation is done. -/
structure output_volumes where
  speaker_volume : Int
  headset_volume : Int
  earpiece_volume : Int
  speaker_volume_overrange : Int
  dl1_volume_correction : Int
  dl2_volume_correction : Int
  deriving DecidableEq, Repr

/-- The gain computation of `set_output_volumes` (everything but the control writes), given the
speaker maximum `speaker_max_db` read from the speaker volume control. -/
def compute_output_volumes (h : audio_hw_h) (adev : tuna_audio_device) (tty_volume : Bool)
    (speaker_max_db : Int) : output_volumes :=
  let headphone_on := adev.out_device &&& AUDIO_DEVICE_OUT_WIRED_HEADPHONE
  let speaker_on := adev.out_device &&& AUDIO_DEVICE_OUT_SPEAKER
  let speaker_volume_overrange := h.MIXER_ABE_GAIN_0DB
  let normal_speaker_volume := h.NORMAL_SPEAKER_VOLUME
  let normal_headphone_volume := h.NORMAL_HEADPHONE_VOLUME
  let normal_headset_volume := h.NORMAL_HEADSET_VOLUME
  let normal_earpiece_volume := h.NORMAL_EARPIECE_VOLUME
  let speaker_volume :=
    if adev.mode = AUDIO_MODE_IN_CALL then h.VOICE_CALL_SPEAKER_VOLUME
    else if adev.mode = AUDIO_MODE_IN_COMMUNICATION then h.VOIP_SPEAKER_VOLUME
    else normal_speaker_volume
  let headset_volume :=
    if adev.mode = AUDIO_MODE_IN_CALL then h.VOICE_CALL_HEADSET_VOLUME
    else if adev.mode = AUDIO_MODE_IN_COMMUNICATION then h.VOIP_HEADSET_VOLUME
    else if headphone_on ≠ 0 then normal_headphone_volume
    else normal_headset_volume
  let earpiece_volume :=
    if adev.mode = AUDIO_MODE_IN_CALL then h.VOICE_CALL_EARPIECE_VOLUME
    else if adev.mode = AUDIO_MODE_IN_COMMUNICATION then h.VOIP_EARPIECE_VOLUME
    else normal_earpiece_volume
  let headset_volume :=
    if tty_volume then h.HEADPHONE_VOLUME_TTY
    else if adev.mode = AUDIO_MODE_RINGTONE then headset_volume + h.RINGTONE_HEADSET_VOLUME_OFFSET
    else headset_volume
  let dl1_volume_correction :=
    if headphone_on ≠ 0 then normal_headphone_volume - headset_volume
    else if adev.out_device &&& AUDIO_DEVICE_OUT_WIRED_HEADSET ≠ 0 then
      normal_headset_volume - headset_volume
    else normal_earpiece_volume - earpiece_volume
  let dl2_volume_correction :=
    if speaker_on ≠ 0 then normal_speaker_volume - speaker_volume else 0
  let speaker_volume_overrange :=
    if speaker_volume > speaker_max_db then
      speaker_volume_overrange + (speaker_volume - speaker_max_db)
    else speaker_volume_overrange
  let speaker_volume :=
    if speaker_volume > speaker_max_db then speaker_max_db else speaker_volume
  let speaker_volume_overrange :=
    if speaker_on = 0 then h.MIXER_ABE_GAIN_0DB else speaker_volume_overrange
  { speaker_volume := speaker_volume
    headset_volume := headset_volume
    earpiece_volume := earpiece_volume
    speaker_volume_overrange := speaker_volume_overrange
    dl1_volume_correction := dl1_volume_correction
    dl2_volume_correction := dl2_volume_correction }

/-- The control writes of `set_output_volumes` (lines 372-408), given the computed gains. -/
def write_output_volumes (h : audio_hw_h) (adev : tuna_audio_device) (v : output_volumes)
    (s : hw_state) : hw_state :=
  let c := adev.mixer_ctls
  let s := mixer_ctl_set_value s c.speaker_volume 0 (h.DB_TO_SPEAKER_VOLUME v.speaker_volume)
  let s := mixer_ctl_set_value s c.headset_volume 0 (h.DB_TO_HEADSET_VOLUME v.headset_volume)
  let s := mixer_ctl_set_value s c.speaker_volume 1 (h.DB_TO_SPEAKER_VOLUME v.speaker_volume)
  let s := mixer_ctl_set_value s c.headset_volume 1 (h.DB_TO_HEADSET_VOLUME v.headset_volume)
  let s :=
    if adev.mode = AUDIO_MODE_IN_CALL then
      let s := mixer_ctl_set_value s c.tones_dl1_volume 0
        (h.MIXER_ABE_GAIN_0DB + v.dl1_volume_correction)
      let s := mixer_ctl_set_value s c.vx_dl2_volume 0 v.speaker_volume_overrange
      mixer_ctl_set_value s c.tones_dl2_volume 0
        (v.speaker_volume_overrange + v.dl2_volume_correction)
    else if adev.mode = AUDIO_MODE_IN_COMMUNICATION ∨ adev.mode = AUDIO_MODE_RINGTONE then
      let s := mixer_ctl_set_value s c.tones_dl1_volume 0 h.MIXER_ABE_GAIN_0DB
      mixer_ctl_set_value s c.tones_dl2_volume 0 v.speaker_volume_overrange
    else
      let s := mixer_ctl_set_value s c.tones_dl1_volume 0
        (h.MIXER_ABE_GAIN_0DB + v.dl1_volume_correction)
      mixer_ctl_set_value s c.tones_dl2_volume 0
        (v.speaker_volume_overrange + v.dl2_volume_correction)
  let s := mixer_ctl_set_value s c.mm_dl1_volume 0
    (h.MIXER_ABE_GAIN_0DB + v.dl1_volume_correction)
  let s := mixer_ctl_set_value s c.mm_dl2_volume 0
    (v.speaker_volume_overrange + v.dl2_volume_correction)
  mixer_ctl_set_value s c.earpiece_volume 0 (h.DB_TO_EARPIECE_VOLUME v.earpiece_volume)

/-- Output gains: `set_output_volumes`.  The speaker maximum is read from the speaker volume
control, the gains are computed by `compute_output_volumes` and written by
`write_output_volumes` in the order of the source. -/
def set_output_volumes (h : audio_hw_h) (adev : tuna_audio_device) (tty_volume : Bool)
    (s : hw_state) : hw_state :=
  let speaker_max_db :=
    h.DB_FROM_SPEAKER_VOLUME (mixer_ctl_get_range_max s adev.mixer_ctls.speaker_volume)
  write_output_volumes h adev (compute_output_volumes h adev tty_volume speaker_max_db) s

/-- The output classification of `select_output_device` after the in-call TTY override of the
receive path (the locals `headset_on`, `headphone_on`, `speaker_on`, `earpiece_on`, `bt_on`
and `tty_volume`). -/
structure out_flags where
  headset_on : Nat
  headphone_on : Nat
  speaker_on : Nat
  earpiece_on : Nat
  bt_on : Nat
  tty_volume : Bool
  deriving DecidableEq, Repr

/-- Lines 494-529 of `select_output_device`: classification of `out_device` and the forced
receive path when in a call and not on Bluetooth SCO. -/
def rx_flags (adev : tuna_audio_device) : out_flags :=
  let headset_on := adev.out_device &&& AUDIO_DEVICE_OUT_WIRED_HEADSET
  let headphone_on := adev.out_device &&& AUDIO_DEVICE_OUT_WIRED_HEADPHONE
  let speaker_on := adev.out_device &&& AUDIO_DEVICE_OUT_SPEAKER
  let earpiece_on := adev.out_device &&& AUDIO_DEVICE_OUT_EARPIECE
  let bt_on := adev.out_device &&& AUDIO_DEVICE_OUT_ALL_SCO
  if adev.mode = AUDIO_MODE_IN_CALL ∧ bt_on = 0 then
    match adev.tty_mode with
    | TTY_MODE_FULL | TTY_MODE_VCO =>
      { headphone_on := 1, headset_on := 0, speaker_on := 0, earpiece_on := 0, bt_on := bt_on,
        tty_volume := true }
    | TTY_MODE_HCO =>
      { headphone_on := 0, headset_on := 0, speaker_on := 1, earpiece_on := 0, bt_on := bt_on,
        tty_volume := false }
    | TTY_MODE_OFF =>
      { headphone_on := headphone_on, headset_on := headset_on,
        speaker_on :=
          if adev.out_device &&&
              (AUDIO_DEVICE_OUT_AUX_DIGITAL ||| AUDIO_DEVICE_OUT_DGTL_DOCK_HEADSET) ≠ 0
          then 1 else speaker_on,
        earpiece_on := earpiece_on, bt_on := bt_on, tty_volume := false }
  else
    { headphone_on := headphone_on, headset_on := headset_on, speaker_on := speaker_on,
      earpiece_on := earpiece_on, bt_on := bt_on, tty_volume := false }

/-- Lines 565-584 of `select_output_device`: the forced transmit path according to the TTY mode
when in a call and not on Bluetooth SCO. -/
def tx_flags (adev : tuna_audio_device) (f : out_flags) : out_flags :=
  match adev.tty_mode with
  | TTY_MODE_FULL | TTY_MODE_HCO =>
    { f with headphone_on := 0, headset_on := 1, speaker_on := 0, earpiece_on := 0 }
  | TTY_MODE_VCO =>
    { f with headphone_on := 0, headset_on := 0, speaker_on := 1, earpiece_on := 0 }
  | TTY_MODE_OFF => f

/-- C truth value of an integer as written to a control. -/
def b2i (b : Bool) : Int := if b then 1 else 0

/-- Lines 485-554 of `select_output_device`: mute of the voice uplink when in a call, front-end
and back-end switches, output stage routes and equaliser. -/
def select_output_device_switch (h : audio_hw_h) (adev : tuna_audio_device) (s : hw_state) :
    hw_state :=
  let c := adev.mixer_ctls
  let in_call : Bool := decide (adev.mode = AUDIO_MODE_IN_CALL)
  let s :=
    if in_call then
      let s := mixer_ctl_set_value s c.voice_ul_volume 0 0
      mixer_ctl_set_value s c.voice_ul_volume 1 0
    else s
  let f := rx_flags adev
  let dl1_on := f.headset_on ||| f.headphone_on ||| f.earpiece_on ||| f.bt_on
  let s := mixer_ctl_set_value s c.mm_dl2 0 f.speaker_on
  let s := mixer_ctl_set_value s c.tones_dl2 0 f.speaker_on
  let s := mixer_ctl_set_value s c.vx_dl2 0 (b2i (decide (f.speaker_on ≠ 0) && in_call))
  let s := mixer_ctl_set_value s c.mm_dl1 0 dl1_on
  let s := mixer_ctl_set_value s c.tones_dl1 0 dl1_on
  let s := mixer_ctl_set_value s c.vx_dl1 0 (b2i (decide (dl1_on ≠ 0) && in_call))
  let s := mixer_ctl_set_value s c.dl1_headset 0
    (f.headset_on ||| f.headphone_on ||| f.earpiece_on : Nat)
  let s := mixer_ctl_set_value s c.dl1_bt 0 f.bt_on
  let s := mixer_ctl_set_value s c.dl2_mono 0 (b2i (!in_call && decide (f.speaker_on ≠ 0)))
  let s := mixer_ctl_set_value s c.earpiece_enable 0 f.earpiece_on
  let s := (set_route_by_array s h.hs_output (decide (f.headset_on ||| f.headphone_on ≠ 0))).2
  let s := (set_route_by_array s h.hf_output (decide (f.speaker_on ≠ 0))).2
  set_eq_filter h adev s

/-- Lines 557-615 of `select_output_device`: the in-call capture path, the modem audio path,
the unmute of the voice uplink and the sidetone switch. -/
def select_output_device_capture (h : audio_hw_h) (adev : tuna_audio_device)
    (act : Option tuna_stream_in) (s : hw_state) : hw_state :=
  let c := adev.mixer_ctls
  let in_call : Bool := decide (adev.mode = AUDIO_MODE_IN_CALL)
  let f := rx_flags adev
  let sidetone_capture_on : Nat :=
    if in_call ∧ f.bt_on = 0 then (tx_flags adev f).earpiece_on else 0
  let s :=
    if in_call then
      let s :=
        if f.bt_on ≠ 0 then
          (set_route_by_array s h.vx_ul_bt (decide (f.bt_on ≠ 0))).2
        else
          let t := tx_flags adev f
          let s :=
            if t.headset_on ≠ 0 ∨ t.headphone_on ≠ 0 ∨ t.earpiece_on ≠ 0 then
              (set_route_by_array s h.vx_ul_amic_left true).2
            else if t.speaker_on ≠ 0 then
              (set_route_by_array s h.vx_ul_amic_right true).2
            else
              (set_route_by_array s h.vx_ul_amic_left false).2
          let s := mixer_ctl_set_enum_by_string s c.left_capture
            (if t.earpiece_on ≠ 0 ∨ t.headphone_on ≠ 0 then h.MIXER_MAIN_MIC
             else if t.headset_on ≠ 0 then h.MIXER_HS_MIC else "Off")
          let s := mixer_ctl_set_enum_by_string s c.right_capture
            (if t.speaker_on ≠ 0 then h.MIXER_SUB_MIC else "Off")
          set_input_volumes h adev act
            (decide (t.earpiece_on ≠ 0 ∨ t.headphone_on ≠ 0))
            (decide (t.headset_on ≠ 0)) (decide (t.speaker_on ≠ 0)) s
      let s := set_incall_device h adev s
      let s := mixer_ctl_set_value s c.voice_ul_volume 0 h.MIXER_ABE_GAIN_0DB
      mixer_ctl_set_value s c.voice_ul_volume 1 h.MIXER_ABE_GAIN_0DB
    else s
  mixer_ctl_set_value s c.sidetone_capture 0 sidetone_capture_on

/-- Output routing: `select_output_device`, in source order: the switches
(`select_output_device_switch`), the gains (`set_output_volumes`, with the `tty_volume` flag of
the receive-path override) and the in-call capture path (`select_output_device_capture`).
`act` is the stream `adev->active_input` points to.  The device structure is only read; every
effect is a mixer write or a RIL request. -/
def select_output_device (h : audio_hw_h) (adev : tuna_audio_device)
    (act : Option tuna_stream_in) (s : hw_state) : hw_state :=
  let s := select_output_device_switch h adev s
  let s := set_output_volumes h adev (rx_flags adev).tty_volume s
  select_output_device_capture h adev act s

/-- Capture routing: `select_input_device`.  `act` is the stream `adev->active_input` points
to. -/
def select_input_device (h : audio_hw_h) (adev : tuna_audio_device)
    (act : Option tuna_stream_in) (s : hw_state) : hw_state :=
  let c := adev.mixer_ctls
  let bt_on := adev.in_device &&& AUDIO_DEVICE_IN_ALL_SCO
  let sub_mic_on : Bool :=
    if bt_on = 0 then
      match act with
      | some ai =>
        if adev.mode ≠ AUDIO_MODE_IN_CALL then
          decide (ai.source = AUDIO_SOURCE_CAMCORDER) ||
            (decide (adev.out_device &&& AUDIO_DEVICE_OUT_SPEAKER ≠ 0) &&
              decide (ai.source = AUDIO_SOURCE_VOICE_COMMUNICATION))
        else false
      | none => false
    else false
  let headset_on : Nat :=
    if bt_on = 0 ∧ sub_mic_on = false then adev.in_device &&& AUDIO_DEVICE_IN_WIRED_HEADSET
    else 0
  let main_mic_on : Nat :=
    if bt_on = 0 ∧ sub_mic_on = false then adev.in_device &&& AUDIO_DEVICE_IN_BUILTIN_MIC
    else 0
  if bt_on ≠ 0 then
    let s := (set_route_by_array s h.mm_ul2_bt true).2
    set_input_volumes h adev act (decide (main_mic_on ≠ 0)) (decide (headset_on ≠ 0))
      sub_mic_on s
  else
    let multi : Bool :=
      match act with
      | some ai =>
        decide (ai.aux_channels ≠ 0) || decide (ai.main_channels = AUDIO_CHANNEL_IN_FRONT_BACK)
      | none => false
    let s :=
      if multi then
        if main_mic_on ≠ 0 then (set_route_by_array s h.mm_ul2_amic_dual_main_sub true).2
        else if sub_mic_on then (set_route_by_array s h.mm_ul2_amic_dual_sub_main true).2
        else (set_route_by_array s h.mm_ul2_amic_dual_main_sub false).2
      else
        if main_mic_on ≠ 0 ∨ headset_on ≠ 0 then (set_route_by_array s h.mm_ul2_amic_left true).2
        else if sub_mic_on then (set_route_by_array s h.mm_ul2_amic_right true).2
        else (set_route_by_array s h.mm_ul2_amic_left false).2
    let sub_mic_on' : Bool := if multi ∧ main_mic_on ≠ 0 then true else sub_mic_on
    let main_mic_on' : Bool :=
      if multi ∧ main_mic_on = 0 ∧ sub_mic_on then true else decide (main_mic_on ≠ 0)
    let s := mixer_ctl_set_enum_by_string s c.right_capture
      (if sub_mic_on' then h.MIXER_SUB_MIC else "Off")
    let s := mixer_ctl_set_enum_by_string s c.left_capture
      (if main_mic_on' then h.MIXER_MAIN_MIC
       else if headset_on ≠ 0 then h.MIXER_HS_MIC else "Off")
    set_input_volumes h adev act main_mic_on' (decide (headset_on ≠ 0)) sub_mic_on' s

/-! ## The transport, the heap of streams and the whole HAL state -/

/-- The PCM transport: the endpoints currently open (ready or not) and the next fresh id. -/
structure alsa_state where
  open_pcms : List pcm
  next_id : Nat
  deriving DecidableEq, Repr

/-- Transport open: `pcm_open`.  Always returns a handle; `ready` is the outcome reported by
`pcm_is_ready`. -/
def pcm_open (a : alsa_state) (port : Nat) (capture : Bool) (rate : Nat) (ready : Bool) :
    pcm × alsa_state :=
  let p : pcm := { id := a.next_id, port := port, capture := capture, rate := rate,
                   ready := ready }
  (p, { open_pcms := p :: a.open_pcms, next_id := a.next_id + 1 })

/-- Transport close: `pcm_close`. -/
def pcm_close (a : alsa_state) (p : Option pcm) : alsa_state :=
  match p with
  | some p => { a with open_pcms := a.open_pcms.filter (fun q => decide (q.id ≠ p.id)) }
  | none => a

/-- Everything the HAL entry points read or write: the device structure, the input streams
allocated on the heap (by handle), the mixer with the request log, the transport, the echo
reference objects alive, and the global `pcm_config_vx.rate`. -/
structure hal where
  adev : tuna_audio_device
  ins : Nat → Option tuna_stream_in
  next_in : Nat
  hw : hw_state
  alsa : alsa_state
  echo_refs : List Nat
  next_ref : Nat
  pcm_config_vx_rate : Nat

/-- The stream `adev->active_input` points to. -/
def hal.act (w : hal) : Option tuna_stream_in :=
  match w.adev.active_input with
  | some i => w.ins i
  | none => none

/-- Output routing on the whole state: `select_output_device(adev)`. -/
def hal.select_output_device (h : audio_hw_h) (w : hal) : hal :=
  { w with hw := Tuna.select_output_device h w.adev w.act w.hw }

/-- Capture routing on the whole state: `select_input_device(adev)`. -/
def hal.select_input_device (h : audio_hw_h) (w : hal) : hal :=
  { w with hw := Tuna.select_input_device h w.adev w.act w.hw }

/-! ## Call controller -/

/-- Opening of the modem endpoints: `start_call`.  `dl_ready`, `ul_ready` are the outcomes of
the two transport opens. -/
def start_call (h : audio_hw_h) (w : hal) (dl_ready ul_ready : Bool) : Int × hal :=
  let w := { w with pcm_config_vx_rate :=
    if w.adev.wb_amr ≠ 0 then h.VX_WB_SAMPLING_RATE else h.VX_NB_SAMPLING_RATE }
  let r1 : Bool × hal :=
    match w.adev.pcm_modem_dl with
    | none =>
      let o := pcm_open w.alsa h.PORT_MODEM false w.pcm_config_vx_rate dl_ready
      (o.1.ready, { w with alsa := o.2, adev := { w.adev with pcm_modem_dl := some o.1 } })
    | some _ => (true, w)
  let w := r1.2
  if r1.1 = false then
    -- err_open_dl
    (-ENOMEM, { w with alsa := pcm_close w.alsa w.adev.pcm_modem_dl,
                       adev := { w.adev with pcm_modem_dl := none } })
  else
    let r2 : Bool × hal :=
      match w.adev.pcm_modem_ul with
      | none =>
        let o := pcm_open w.alsa h.PORT_MODEM true w.pcm_config_vx_rate ul_ready
        (o.1.ready, { w with alsa := o.2, adev := { w.adev with pcm_modem_ul := some o.1 } })
      | some _ => (true, w)
    let w := r2.2
    if r2.1 = false then
      -- err_open_ul, falling through to err_open_dl
      let w := { w with alsa := pcm_close w.alsa w.adev.pcm_modem_ul,
                        adev := { w.adev with pcm_modem_ul := none } }
      (-ENOMEM, { w with alsa := pcm_close w.alsa w.adev.pcm_modem_dl,
                         adev := { w.adev with pcm_modem_dl := none } })
    else
      -- pcm_start on both endpoints
      (0, w)

/-- Closing of the modem endpoints: `end_call`. -/
def end_call (w : hal) : hal :=
  let a := pcm_close w.alsa w.adev.pcm_modem_dl
  let a := pcm_close a w.adev.pcm_modem_ul
  { w with alsa := a, adev := { w.adev with pcm_modem_dl := none, pcm_modem_ul := none } }

/-! ## Echo reference broker -/

/-- Replace the output stream in slot `t` of `adev->outputs`. -/
def hal.set_out (w : hal) (t : output_type) (o : Option tuna_stream_out) : hal :=
  { w with adev := { w.adev with outputs := fun k => if k = t then o else w.adev.outputs k } }

/-- Update the output stream in slot `t`, if there is one. -/
def hal.update_out (w : hal) (t : output_type) (g : tuna_stream_out → tuna_stream_out) : hal :=
  w.set_out t ((w.adev.outputs t).map g)

/-- Replace the input stream with handle `i` on the heap. -/
def hal.set_in (w : hal) (i : Nat) (s : Option tuna_stream_in) : hal :=
  { w with ins := fun k => if k = i then s else w.ins k }

/-- Update the input stream with handle `i`, if it is allocated. -/
def hal.update_in (w : hal) (i : Nat) (g : tuna_stream_in → tuna_stream_in) : hal :=
  w.set_in i ((w.ins i).map g)

/-- Unbinding of the writer: `remove_echo_reference` (the final `write(reference, NULL)` has no
effect on the modelled state). -/
def remove_echo_reference (out : tuna_stream_out) (reference : Option Nat) : tuna_stream_out :=
  if out.echo_reference = reference then { out with echo_reference := none } else out

/-- Release of the device's echo reference: `put_echo_reference`.  `release_echo_reference`
destroys the object, i.e. removes it from `echo_refs`. -/
def put_echo_reference (w : hal) (reference : Option Nat) : hal :=
  if w.adev.echo_reference ≠ none ∧ reference = w.adev.echo_reference then
    let w :=
      match w.adev.outputs OUTPUT_LOW_LATENCY with
      | some out =>
        if out.standby = false then
          w.set_out OUTPUT_LOW_LATENCY (some (remove_echo_reference out reference))
        else w
      | none => w
    let w := { w with echo_refs := w.echo_refs.filter (fun r => decide (some r ≠ reference)) }
    { w with adev := { w.adev with echo_reference := none } }
  else w

/-- Acquisition of an echo reference: `get_echo_reference`.  `status` is the outcome of
`create_echo_reference`, which allocates a fresh object on success and stores NULL on
failure. -/
def get_echo_reference (w : hal) (status : Int) : Option Nat × hal :=
  let w := put_echo_reference w w.adev.echo_reference
  let w :=
    match w.adev.outputs OUTPUT_LOW_LATENCY with
    | some out =>
      if out.standby = false then
        if status = 0 then
          let r := w.next_ref
          let w := { w with echo_refs := r :: w.echo_refs, next_ref := r + 1,
                            adev := { w.adev with echo_reference := some r } }
          -- add_echo_reference(adev->outputs[OUTPUT_LOW_LATENCY], adev->echo_reference)
          w.update_out OUTPUT_LOW_LATENCY (fun o => { o with echo_reference := some r })
        else
          { w with adev := { w.adev with echo_reference := none } }
      else w
    | none => w
  (w.adev.echo_reference, w)

/-! ## Standby -/

/-- Whether every open output stream is in standby (the loop over `adev->outputs`). -/
def all_outputs_in_standby (adev : tuna_audio_device) : Bool :=
  [OUTPUT_DEEP_BUF, OUTPUT_LOW_LATENCY, OUTPUT_HDMI].all fun t =>
    match adev.outputs t with
    | some o => o.standby
    | none => true

/-- Body of `do_output_standby` for the stream in slot `t`; `hdmi_clause` stands for the
`USE_HDMI_AUDIO` block that forces the low-latency output to standby. -/
def do_output_standby_body (h : audio_hw_h) (w : hal) (t : output_type)
    (hdmi_clause : hal → hal) : hal :=
  match w.adev.outputs t with
  | none => w
  | some out =>
    if out.standby = false then
      let a := pcm_close (pcm_close (pcm_close w.alsa out.pcm_normal) out.pcm_spdif) out.pcm_hdmi
      let w := { w with alsa := a }
      let w := w.set_out t (some { out with standby := true, pcm_normal := none,
                                            pcm_spdif := none, pcm_hdmi := none })
      let w :=
        if all_outputs_in_standby w.adev = true ∧ w.adev.mode ≠ AUDIO_MODE_IN_CALL then
          let s := (set_route_by_array w.hw h.hs_output false).2
          { w with hw := (set_route_by_array s h.hf_output false).2 }
        else w
      let w := hdmi_clause w
      -- stop writing to echo reference
      w.update_out t (fun o => { o with echo_reference := none })
    else w

/-- Standby of the output stream in slot `t`: `do_output_standby`.  For the HDMI output the
low-latency output is forced to standby as well (for which the HDMI block is void). -/
def do_output_standby (h : audio_hw_h) (w : hal) (t : output_type) : hal :=
  do_output_standby_body h w t fun w =>
    if t = OUTPUT_HDMI then
      match w.adev.outputs OUTPUT_LOW_LATENCY with
      | some ll =>
        if ll.standby = false then do_output_standby_body h w OUTPUT_LOW_LATENCY (fun w => w)
        else w
      | none => w
    else w

/-- Standby of the input stream with handle `i`: `do_input_standby`. -/
def do_input_standby (h : audio_hw_h) (w : hal) (i : Nat) : hal :=
  match w.ins i with
  | none => w
  | some s =>
    if s.standby = false then
      let w := { w with alsa := pcm_close w.alsa s.pcm }
      let w := w.update_in i (fun s => { s with pcm := none })
      let w := { w with adev := { w.adev with active_input := none } }
      let w :=
        if w.adev.mode ≠ AUDIO_MODE_IN_CALL then
          ({ w with adev := { w.adev with in_device := AUDIO_DEVICE_NONE } }).select_input_device h
        else w
      let w :=
        if s.echo_reference ≠ none then
          let w := put_echo_reference w s.echo_reference
          w.update_in i (fun s => { s with echo_reference := none })
        else w
      w.update_in i (fun s => { s with standby := true })
    else w

/-- Standby of the active streams used for voice: `force_all_standby`. -/
def force_all_standby (h : audio_hw_h) (w : hal) : hal :=
  let w :=
    match w.adev.outputs OUTPUT_LOW_LATENCY with
    | some out => if out.standby = false then do_output_standby h w OUTPUT_LOW_LATENCY else w
    | none => w
  match w.adev.active_input with
  | some i => do_input_standby h w i
  | none => w

/-! ## Mode and call state -/

/-- Mode transition: `select_mode`.  `dl_ready`, `ul_ready` are the outcomes of the modem
transport opens of `start_call`. -/
def select_mode (h : audio_hw_h) (w : hal) (dl_ready ul_ready : Bool) : hal :=
  if w.adev.mode = AUDIO_MODE_IN_CALL then
    if w.adev.in_call = false then
      let w := force_all_standby h w
      let w :=
        if w.adev.out_device = AUDIO_DEVICE_OUT_SPEAKER then
          { w with adev := { w.adev with
              out_device := AUDIO_DEVICE_OUT_EARPIECE
              in_device := AUDIO_DEVICE_IN_BUILTIN_MIC &&& not32 AUDIO_DEVICE_BIT_IN } }
        else
          { w with adev := { w.adev with
              out_device := w.adev.out_device &&& not32 AUDIO_DEVICE_OUT_SPEAKER } }
      let w := w.select_output_device h
      let w := (start_call h w dl_ready ul_ready).2
      let w := { w with hw := ril_set_call_volume w.hw w.adev.voice_volume }
      { w with adev := { w.adev with in_call := true } }
    else w
  else
    if w.adev.in_call = true then
      let w := { w with adev := { w.adev with in_call := false } }
      let w := end_call w
      let w := force_all_standby h w
      let w := w.select_output_device h
      w.select_input_device h
    else w

/-- Entry point `adev_set_mode`. -/
def adev_set_mode (h : audio_hw_h) (w : hal) (mode : Int) (dl_ready ul_ready : Bool) :
    Int × hal :=
  if w.adev.mode ≠ mode then
    (0, select_mode h { w with adev := { w.adev with mode := mode } } dl_ready ul_ready)
  else (0, w)

/-- Callback `audio_set_wb_amr_callback`: on a change of the wideband flag during a call the
modem endpoints are reopened at the new rate. -/
def audio_set_wb_amr_callback (h : audio_hw_h) (w : hal) (enable : Int)
    (dl_ready ul_ready : Bool) : hal :=
  if w.adev.wb_amr ≠ enable then
    let w := { w with adev := { w.adev with wb_amr := enable } }
    if w.adev.in_call = true then
      let w := end_call w
      let w := { w with hw := set_eq_filter h w.adev w.hw }
      (start_call h w dl_ready ul_ready).2
    else w
  else w

/-- Entry point `adev_set_voice_volume` (the volume is an uninterpreted float). -/
def adev_set_voice_volume (w : hal) (volume : Nat) : Int × hal :=
  let w := { w with adev := { w.adev with voice_volume := volume } }
  if w.adev.mode = AUDIO_MODE_IN_CALL then
    (0, { w with hw := ril_set_call_volume w.hw volume })
  else (0, w)

/-- Entry point `adev_set_mic_mute`. -/
def adev_set_mic_mute (h : audio_hw_h) (w : hal) (state : Bool) : Int × hal :=
  let w := { w with adev := { w.adev with mic_mute := state } }
  if w.adev.mode = AUDIO_MODE_IN_CALL then
    let volume : Int := if state then 0 else h.MIXER_ABE_GAIN_0DB
    let s := mixer_ctl_set_value w.hw w.adev.mixer_ctls.voice_ul_volume 0 volume
    (0, { w with hw := mixer_ctl_set_value s w.adev.mixer_ctls.voice_ul_volume 1 volume })
  else (0, w)

/-- Entry point `adev_set_parameters`.  Each argument is the value found for the key
(`tty_mode`, `bt_headset_nrec`, `screen_state`), if the key is present; the result is the
return value of the last `str_parms_get_str` (the length of the value, or `-ENOENT`). -/
def adev_set_parameters (h : audio_hw_h) (w : hal) (tty : Option String)
    (bt_nrec : Option String) (screen_state : Option String) : Int × hal :=
  let r1 : Option hal :=
    match tty with
    | some value =>
      let m : Option tty_modes :=
        if value = "tty_off" then some TTY_MODE_OFF
        else if value = "tty_vco" then some TTY_MODE_VCO
        else if value = "tty_hco" then some TTY_MODE_HCO
        else if value = "tty_full" then some TTY_MODE_FULL
        else none
      match m with
      | none => none
      | some tty_mode =>
        if tty_mode ≠ w.adev.tty_mode then
          let w := { w with adev := { w.adev with tty_mode := tty_mode } }
          if w.adev.mode = AUDIO_MODE_IN_CALL then some (w.select_output_device h) else some w
        else some w
    | none => some w
  match r1 with
  | none => (-EINVAL, w)
  | some w =>
    let w :=
      match bt_nrec with
      | some value => { w with adev := { w.adev with bluetooth_nrec := decide (value = "on") } }
      | none => w
    let w :=
      match screen_state with
      | some value => { w with adev := { w.adev with screen_off := !decide (value = "on") } }
      | none => w
    let ret : Int :=
      match screen_state with
      | some value => value.length
      | none => -2
    (ret, w)

/-! ## Output stream engine -/

/-- Lines 696-744 of `start_output_stream_low_latency`: the routing and the transport opens
the current device selection requires.  `r_normal`, `r_spdif`, `r_hdmi` are the outcomes of
the opens that take place. -/
def open_low_latency_pcms (h : audio_hw_h) (w : hal) (r_normal r_spdif r_hdmi : Bool) : hal :=
  let w := if w.adev.mode ≠ AUDIO_MODE_IN_CALL then w.select_output_device h else w
  let w :=
    if w.adev.out_device &&&
        not32 (AUDIO_DEVICE_OUT_DGTL_DOCK_HEADSET ||| AUDIO_DEVICE_OUT_AUX_DIGITAL) ≠ 0 then
      let o := pcm_open w.alsa h.PORT_TONES false h.MM_FULL_POWER_SAMPLING_RATE r_normal
      ({ w with alsa := o.2 }).update_out OUTPUT_LOW_LATENCY
        (fun out => { out with pcm_normal := some o.1 })
    else w
  let w :=
    if w.adev.out_device &&& AUDIO_DEVICE_OUT_DGTL_DOCK_HEADSET ≠ 0 then
      let o := pcm_open w.alsa h.PORT_SPDIF false h.MM_FULL_POWER_SAMPLING_RATE r_spdif
      ({ w with alsa := o.2 }).update_out OUTPUT_LOW_LATENCY
        (fun out => { out with pcm_spdif := some o.1 })
    else w
  let hdmi_free : Bool :=
    match w.adev.outputs OUTPUT_HDMI with
    | some hd => hd.standby
    | none => true
  if w.adev.out_device &&& AUDIO_DEVICE_OUT_AUX_DIGITAL ≠ 0 ∧ hdmi_free = true then
    let o := pcm_open w.alsa h.PORT_HDMI false h.MM_LOW_POWER_SAMPLING_RATE r_hdmi
    ({ w with alsa := o.2 }).update_out OUTPUT_LOW_LATENCY
      (fun out => { out with pcm_hdmi := some o.1 })
  else w

/-- Whether a transport handle is set but could not be opened properly. -/
def pcm_bad (p : Option pcm) : Bool :=
  match p with
  | some q => !q.ready
  | none => false

/-- Lines 746-754 of `start_output_stream_low_latency`: the loop over `out->pcm[]` that closes
and clears every endpoint that is not ready; the result tells whether all were ready
(`success`). -/
def close_bad_low_latency_pcms (w : hal) : Bool × hal :=
  match w.adev.outputs OUTPUT_LOW_LATENCY with
  | none => (true, w)
  | some out =>
    let a := if pcm_bad out.pcm_normal then pcm_close w.alsa out.pcm_normal else w.alsa
    let a := if pcm_bad out.pcm_spdif then pcm_close a out.pcm_spdif else a
    let a := if pcm_bad out.pcm_hdmi then pcm_close a out.pcm_hdmi else a
    let success : Bool :=
      !(pcm_bad out.pcm_normal || pcm_bad out.pcm_spdif || pcm_bad out.pcm_hdmi)
    (success, ({ w with alsa := a }).update_out OUTPUT_LOW_LATENCY (fun out =>
      { out with
        pcm_normal := if pcm_bad out.pcm_normal then none else out.pcm_normal
        pcm_spdif := if pcm_bad out.pcm_spdif then none else out.pcm_spdif
        pcm_hdmi := if pcm_bad out.pcm_hdmi then none else out.pcm_hdmi }))

/-- Activation of the low-latency output: `start_output_stream_low_latency`: the opens
(`open_low_latency_pcms`), the loop closing every endpoint that is not ready
(`close_bad_low_latency_pcms`), then on success the binding of the device's echo reference. -/
def start_output_stream_low_latency (h : audio_hw_h) (w : hal)
    (r_normal r_spdif r_hdmi : Bool) : Int × hal :=
  let w := open_low_latency_pcms h w r_normal r_spdif r_hdmi
  let r := close_bad_low_latency_pcms w
  let w := r.2
  if r.1 = true then
    let w :=
      if w.adev.echo_reference ≠ none then
        w.update_out OUTPUT_LOW_LATENCY
          (fun o => { o with echo_reference := w.adev.echo_reference })
      else w
    (0, w)
  else (-ENOMEM, w)

/-- Activation of the deep-buffer output: `start_output_stream_deep_buffer`. -/
def start_output_stream_deep_buffer (h : audio_hw_h) (w : hal) (ready : Bool) : Int × hal :=
  let w := if w.adev.mode ≠ AUDIO_MODE_IN_CALL then w.select_output_device h else w
  let o := pcm_open w.alsa h.PORT_MM false h.MM_FULL_POWER_SAMPLING_RATE ready
  let w := ({ w with alsa := o.2 }).update_out OUTPUT_DEEP_BUF
    (fun out => { out with pcm_normal := some o.1 })
  if o.1.ready = false then
    let w := { w with alsa := pcm_close w.alsa (some o.1) }
    (-ENOMEM, w.update_out OUTPUT_DEEP_BUF (fun out => { out with pcm_normal := none }))
  else
    let use_long_periods : Bool := w.adev.screen_off && w.adev.active_input.isNone
    (0, w.update_out OUTPUT_DEEP_BUF (fun out => { out with
      use_long_periods := use_long_periods
      write_threshold :=
        if use_long_periods then h.DEEP_BUFFER_LONG_PERIOD_WRITE_THRES
        else h.DEEP_BUFFER_SHORT_PERIOD_WRITE_THRES }))

/-- Activation of the HDMI output: `start_output_stream_hdmi`. -/
def start_output_stream_hdmi (h : audio_hw_h) (w : hal) (ready : Bool) : Int × hal :=
  let w :=
    match w.adev.outputs OUTPUT_LOW_LATENCY with
    | some ll => if ll.standby = false then do_output_standby h w OUTPUT_LOW_LATENCY else w
    | none => w
  let rate :=
    match w.adev.outputs OUTPUT_HDMI with
    | some out => out.hdmi_rate
    | none => 0
  let o := pcm_open w.alsa h.PORT_HDMI false rate ready
  let w := ({ w with alsa := o.2 }).update_out OUTPUT_HDMI
    (fun out => { out with pcm_hdmi := some o.1 })
  if o.1.ready = false then
    let w := { w with alsa := pcm_close w.alsa (some o.1) }
    (-ENOMEM, w.update_out OUTPUT_HDMI (fun out => { out with pcm_hdmi := none }))
  else (0, w)

/-- Whether the active input captures for VoIP (`adev->active_input &&
adev->active_input->source == AUDIO_SOURCE_VOICE_COMMUNICATION`). -/
def hal.voip_input_active (w : hal) : Bool :=
  match w.act with
  | some ai => decide (ai.source = AUDIO_SOURCE_VOICE_COMMUNICATION)
  | none => false

/-- Write entry point of the low-latency output: `out_write_low_latency`.  The frames written
do not affect the modelled state; `write_status` is what the transport write (`PCM_WRITE`)
returns.  The status at the `exit:` label only decides whether the caller is paced by a sleep;
the result is the return value.  The definition gives the state and the value a call leaves
when it returns; whether the data path (the echo reference write and the transport writes) has
a defined result is the subject of `out_write_low_latency_full`. -/
def out_write_low_latency (h : audio_hw_h) (w : hal) (bytes : Nat)
    (r_normal r_spdif r_hdmi : Bool) (write_status : Int) : Int × hal :=
  match w.adev.outputs OUTPUT_LOW_LATENCY with
  | none => (bytes, w)
  | some out =>
    if out.standby = true then
      let r := start_output_stream_low_latency h w r_normal r_spdif r_hdmi
      if r.1 ≠ 0 then (bytes, r.2)
      else
        let w := r.2.update_out OUTPUT_LOW_LATENCY (fun o => { o with standby := false })
        let force_input_standby := w.voip_input_active
        -- resampling, echo reference write and transport writes
        let ret := write_status
        -- exit: if (ret != 0) usleep(...)
        let _paced : Bool := decide (ret ≠ 0)
        let w :=
          if force_input_standby = true then
            match w.adev.active_input with
            | some i => do_input_standby h w i
            | none => w
          else w
        (bytes, w)
    else
      let ret := write_status
      let _paced : Bool := decide (ret ≠ 0)
      (bytes, w)

/-- Write entry point of the deep-buffer output: `out_write_deep_buffer`.  `write_status` is
what the transport write (`pcm_mmap_write`) returns; the status at the `exit:` label only
decides whether the caller is paced by a sleep.  The wait loop on the level of the kernel
buffer (lines 1473-1495) writes no modelled field and is left out: the definition gives the
state and the value a call leaves when that loop ends. -/
def out_write_deep_buffer (h : audio_hw_h) (w : hal) (bytes : Nat) (ready : Bool)
    (write_status : Int) : Int × hal :=
  match w.adev.outputs OUTPUT_DEEP_BUF with
  | none => (bytes, w)
  | some out =>
    let r : Int × hal :=
      if out.standby = true then
        let r := start_output_stream_deep_buffer h w ready
        if r.1 ≠ 0 then r
        else (0, r.2.update_out OUTPUT_DEEP_BUF (fun o => { o with standby := false }))
      else (0, w)
    if r.1 ≠ 0 then (bytes, r.2)
    else
      let w := r.2
      let use_long_periods : Bool := w.adev.screen_off && w.adev.active_input.isNone
      let w := w.update_out OUTPUT_DEEP_BUF (fun o =>
        if use_long_periods ≠ o.use_long_periods then
          { o with
            write_threshold :=
              if use_long_periods then h.DEEP_BUFFER_LONG_PERIOD_WRITE_THRES
              else h.DEEP_BUFFER_SHORT_PERIOD_WRITE_THRES
            use_long_periods := use_long_periods }
        else o)
      let ret := write_status
      -- exit: if (ret != 0) usleep(...)
      let _paced : Bool := decide (ret ≠ 0)
      (bytes, w)

/-- Write entry point of the HDMI output: `out_write_hdmi`. -/
def out_write_hdmi (h : audio_hw_h) (w : hal) (bytes : Nat) (ready : Bool) : Int × hal :=
  match w.adev.outputs OUTPUT_HDMI with
  | none => (bytes, w)
  | some out =>
    let w : hal :=
      if out.standby = true then
        let r := start_output_stream_hdmi h w ready
        if r.1 ≠ 0 then r.2
        else r.2.update_out OUTPUT_HDMI (fun o => { o with standby := false })
      else w
    -- workaround: force reopening the pcm driver after writing a few periods
    match w.adev.outputs OUTPUT_HDMI with
    | none => (bytes, w)
    | some out =>
      if out.restart_periods_cnt > 0 then
        let w := w.update_out OUTPUT_HDMI
          (fun o => { o with restart_periods_cnt := o.restart_periods_cnt - 1 })
        if out.restart_periods_cnt - 1 = 0 then (bytes, do_output_standby h w OUTPUT_HDMI)
        else (bytes, w)
      else (bytes, w)

/-- Entry point `out_set_volume_hdmi`. -/
def out_set_volume_hdmi (w : hal) (left_is_zero : Bool) : Int × hal :=
  (0, w.update_out OUTPUT_HDMI (fun o => { o with muted := left_is_zero }))

/-- Entry point `out_standby` for the stream in slot `t`. -/
def out_standby (h : audio_hw_h) (w : hal) (t : output_type) : Int × hal :=
  (0, do_output_standby h w t)

/-- Entry point `out_set_parameters` for the stream in slot `t`; `routing` is the value of the
routing key, if present. -/
def out_set_parameters (h : audio_hw_h) (w : hal) (t : output_type) (routing : Option Nat) :
    hal :=
  match routing, w.adev.outputs t with
  | some val, some out =>
    if w.adev.out_device ≠ val ∧ val ≠ 0 then
      let ll_active : Bool := decide (t = OUTPUT_LOW_LATENCY) && !out.standby
      let force_input_standby : Bool := ll_active && w.voip_input_active
      let w :=
        if ll_active = true ∧
            (((val &&& AUDIO_DEVICE_OUT_AUX_DIGITAL) ^^^
                (w.adev.out_device &&& AUDIO_DEVICE_OUT_AUX_DIGITAL) ≠ 0) ∨
             ((val &&& AUDIO_DEVICE_OUT_DGTL_DOCK_HEADSET) ^^^
                (w.adev.out_device &&& AUDIO_DEVICE_OUT_DGTL_DOCK_HEADSET) ≠ 0) ∨
             (w.adev.out_device &&&
                (AUDIO_DEVICE_OUT_AUX_DIGITAL ||| AUDIO_DEVICE_OUT_DGTL_DOCK_HEADSET) ≠ 0) ∨
             ((val &&& AUDIO_DEVICE_OUT_SPEAKER) ^^^
                (w.adev.out_device &&& AUDIO_DEVICE_OUT_SPEAKER) ≠ 0) ∨
             w.adev.mode = AUDIO_MODE_IN_CALL) then
          do_output_standby h w t
        else w
      let w :=
        if t ≠ OUTPUT_HDMI then
          ({ w with adev := { w.adev with out_device := val } }).select_output_device h
        else w
      if force_input_standby = true then
        match w.adev.active_input with
        | some i => do_input_standby h w i
        | none => w
      else w
    else w
  | _, _ => w

/-- Modelled HDMI capability query: `out_read_hdmi_channel_masks` accepts 6 or 8 channels. -/
def out_read_hdmi_channel_masks (max_channels : Int) : Int :=
  if max_channels ≠ 6 ∧ max_channels ≠ 8 then -ENOSYS else 0

/-- The freshly allocated (`calloc`) output stream as `adev_open_output_stream` initialises
it. -/
def new_stream_out (channel_mask hdmi_rate restart_periods_cnt : Nat) : tuna_stream_out where
  standby := true
  pcm_normal := none
  pcm_spdif := none
  pcm_hdmi := none
  echo_reference := none
  use_long_periods := false
  write_threshold := 0
  muted := false
  restart_periods_cnt := restart_periods_cnt
  channel_mask := channel_mask
  hdmi_rate := hdmi_rate

/-- Entry point `adev_open_output_stream`.  `alloc_ok` is the outcome of `calloc`,
`max_channels` what the HDMI mixer reports, `resampler_status` the outcome of
`create_resampler`.  The result is the return value, the slot holding the new stream (the
handle stored in `*stream_out`, none for NULL) and the new state. -/
def adev_open_output_stream (h : audio_hw_h) (w : hal) (devices flags : Nat)
    (sample_rate channel_mask : Nat) (alloc_ok : Bool) (max_channels : Int)
    (resampler_status : Int) : Int × Option output_type × hal :=
  if alloc_ok = false then (-ENOMEM, none, w)
  else
    let r : Int × output_type × tuna_stream_out :=
      if flags &&& AUDIO_OUTPUT_FLAG_DIRECT ≠ 0 ∧ devices = AUDIO_DEVICE_OUT_AUX_DIGITAL then
        if (w.adev.outputs OUTPUT_HDMI).isSome then
          (-ENOSYS, OUTPUT_HDMI, new_stream_out AUDIO_CHANNEL_OUT_STEREO 0 0)
        else if out_read_hdmi_channel_masks max_channels ≠ 0 then
          (out_read_hdmi_channel_masks max_channels, OUTPUT_HDMI,
            new_stream_out AUDIO_CHANNEL_OUT_STEREO 0 0)
        else
          (0, OUTPUT_HDMI, new_stream_out
            (if channel_mask = 0 then AUDIO_CHANNEL_OUT_5POINT1 else channel_mask)
            (if sample_rate = 0 then h.MM_FULL_POWER_SAMPLING_RATE else sample_rate)
            (h.HDMI_MULTI_PERIOD_COUNT * 2))
      else if flags &&& AUDIO_OUTPUT_FLAG_DEEP_BUFFER ≠ 0 then
        if (w.adev.outputs OUTPUT_DEEP_BUF).isSome then
          (-ENOSYS, OUTPUT_DEEP_BUF, new_stream_out AUDIO_CHANNEL_OUT_STEREO 0 0)
        else (0, OUTPUT_DEEP_BUF, new_stream_out AUDIO_CHANNEL_OUT_STEREO 0 0)
      else
        if (w.adev.outputs OUTPUT_LOW_LATENCY).isSome then
          (-ENOSYS, OUTPUT_LOW_LATENCY, new_stream_out AUDIO_CHANNEL_OUT_STEREO 0 0)
        else (0, OUTPUT_LOW_LATENCY, new_stream_out AUDIO_CHANNEL_OUT_STEREO 0 0)
    if r.1 ≠ 0 then (r.1, none, w)
    else if resampler_status ≠ 0 then (resampler_status, none, w)
    else (0, some r.2.1, w.set_out r.2.1 (some r.2.2))

/-- Entry point `adev_close_output_stream` for the stream in slot `t`. -/
def adev_close_output_stream (h : audio_hw_h) (w : hal) (t : output_type) : hal :=
  match w.adev.outputs t with
  | none => w
  | some _ => (do_output_standby h w t).set_out t none

/-! ## Preprocessing chain: auxiliary channel negotiation -/

/-- The attached effects: the first `num_preprocessors` slots of `in->preprocessors[]`. -/
def tuna_stream_in.effects (s : tuna_stream_in) : List effect_info_s :=
  s.preprocessors.take s.num_preprocessors

/-- The innermost loop of `in_get_aux_channels`: whether one of the configurations declared by
the effect equals `cur` (`memcmp(...) == 0`). -/
def effect_declares (e : effect_info_s) (cur : channel_config_t) : Bool :=
  e.channel_configs.any (fun c => decide (c = cur))

/-- The loop over the preprocessors of `in_get_aux_channels`, from index `idx_preproc` with
`match_cnt` matches so far; it stops as soon as one preprocessor does not match. -/
def match_loop (cur : channel_config_t) :
    List effect_info_s → (idx_preproc : Nat) → (match_cnt : Nat) → Nat
  | [], _, match_cnt => match_cnt
  | e :: rest, idx_preproc, match_cnt =>
    if match_cnt = idx_preproc then
      match_loop cur rest (idx_preproc + 1)
        (if effect_declares e cur then match_cnt + 1 else match_cnt)
    else match_cnt

/-- One iteration of the loop over `in_aux_cnl_configs` in `in_get_aux_channels`. -/
def aux_step (s : tuna_stream_in) (new_chcfg cur_chcfg : channel_config_t) : channel_config_t :=
  if cur_chcfg.main_channels = s.main_channels then
    if match_loop cur_chcfg s.effects 0 0 = s.num_preprocessors then
      if popcount cur_chcfg.aux_channels > popcount new_chcfg.aux_channels then cur_chcfg
      else new_chcfg
    else new_chcfg
  else new_chcfg

/-- Negotiation of the auxiliary channels: `in_get_aux_channels`. -/
def in_get_aux_channels (h : audio_hw_h) (s : tuna_stream_in) : Nat :=
  if s.num_preprocessors = 0 then 0
  else if s.device &&& (AUDIO_DEVICE_IN_BUILTIN_MIC ||| AUDIO_DEVICE_IN_BACK_MIC) = 0 then 0
  else (h.in_aux_cnl_configs.foldl (aux_step s) { main_channels := 0, aux_channels := 0 }).aux_channels

/-- Outcome of one effect command: the return value of `command` and the status it replies. -/
structure effect_cmd_result where
  fct_status : Int
  cmd_status : Int
  deriving DecidableEq, Repr

/-- Outcomes of the four commands `in_configure_effect_channels` sends to an effect. -/
structure configure_outcome where
  get_config : Int
  set_config : effect_cmd_result
  set_feature_config : effect_cmd_result
  enable : effect_cmd_result
  deriving DecidableEq, Repr

/-- The macro `GET_COMMAND_STATUS`. -/
def GET_COMMAND_STATUS (status fct_status cmd_status : Int) : Int :=
  if fct_status ≠ 0 then fct_status
  else if cmd_status ≠ 0 then cmd_status
  else status

/-- Configuration of one effect: `in_configure_effect_channels`, as a function of the outcomes
of its commands. -/
def in_configure_effect_channels (o : configure_outcome) : Int :=
  if o.get_config ≠ 0 then o.get_config
  else
    let status := GET_COMMAND_STATUS 0 o.set_config.fct_status o.set_config.cmd_status
    let status := GET_COMMAND_STATUS status o.set_feature_config.fct_status
      o.set_feature_config.cmd_status
    GET_COMMAND_STATUS status o.enable.fct_status o.enable.cmd_status

/-- What the effects answer during one call of `in_reconfigure_channels`: `each i` for the
preprocessor in slot `i`, `added` for the effect being added. -/
structure reconfigure_oracle where
  each : Nat → configure_outcome
  added : configure_outcome

/-- Reconfiguration of the effects: `in_reconfigure_channels`. -/
def in_reconfigure_channels (s : tuna_stream_in) (effect : Option Nat)
    (channel_config : channel_config_t) (config_changed : Bool) (o : reconfigure_oracle) : Int :=
  if config_changed then
    (List.range s.num_preprocessors).foldl
      (fun status i =>
        let cur_status := in_configure_effect_channels (o.each i)
        if cur_status ≠ 0 then cur_status else status) 0
  else if effect ≠ none ∧ channel_config.aux_channels ≠ 0 then
    in_configure_effect_channels o.added
  else 0

/-- Renegotiation: `in_update_aux_channels` for the input stream with handle `i`.  `o1`, `o2`
are the answers of the effects to the first reconfiguration and to the fallback one. -/
def in_update_aux_channels (h : audio_hw_h) (w : hal) (i : Nat) (effect : Option Nat)
    (o1 o2 : reconfigure_oracle) : hal :=
  match w.ins i with
  | none => w
  | some s =>
    let aux_channels := in_get_aux_channels h s
    let status := in_reconfigure_channels s effect
      { main_channels := s.main_channels, aux_channels := aux_channels }
      (decide (aux_channels ≠ s.aux_channels)) o1
    -- on error the aux channels configuration is reset (the status of the second
    -- in_reconfigure_channels is ignored)
    let aux_channels := if status ≠ 0 then 0 else aux_channels
    let _fallback := if status ≠ 0 then
        in_reconfigure_channels s effect
          { main_channels := s.main_channels, aux_channels := 0 } true o2
      else 0
    if s.aux_channels ≠ aux_channels then
      let w := w.update_in i (fun s => { s with aux_channels_changed := true,
                                                aux_channels := aux_channels })
      do_input_standby h w i
    else w

/-! ## Input stream engine -/

/-- Validation of a capture configuration: `check_input_parameters`. -/
def check_input_parameters (sample_rate : Nat) (format : Int) (channel_count : Int) : Int :=
  if format ≠ AUDIO_FORMAT_PCM_16_BIT then -EINVAL
  else if channel_count < 1 ∨ channel_count > 2 then -EINVAL
  else if sample_rate = 8000 ∨ sample_rate = 11025 ∨ sample_rate = 16000 ∨
      sample_rate = 22050 ∨ sample_rate = 24000 ∨ sample_rate = 32000 ∨
      sample_rate = 44100 ∨ sample_rate = 48000 then 0
  else -EINVAL

/-- First part of `start_input_stream` (lines 1584-1611): the stream becomes the active input,
the capture route is selected outside of a call, and a pending change of the auxiliary channels
is applied.  `resampler_status` is the outcome of `create_resampler`. -/
def start_input_stream_route (h : audio_hw_h) (w : hal) (i : Nat) (resampler_status : Int) :
    hal :=
  let w := { w with adev := { w.adev with active_input := some i } }
  let w :=
    if w.adev.mode ≠ AUDIO_MODE_IN_CALL then
      let device := match w.ins i with
        | some s => s.device
        | none => 0
      ({ w with adev := { w.adev with in_device := device } }).select_input_device h
    else w
  w.update_in i (fun s =>
    if s.aux_channels_changed then
      { s with
        aux_channels_changed := false
        config_channels := popcount (s.main_channels ||| s.aux_channels)
        resampler :=
          match s.resampler with
          | some r => if resampler_status = 0 then some r else none
          | none => none }
    else s)

/-- Second part of `start_input_stream` (lines 1613-1617): the echo reference is fetched when
the stream needs one and has none.  `echo_status` is the outcome of `create_echo_reference`. -/
def start_input_stream_echo (w : hal) (i : Nat) (echo_status : Int) : hal :=
  let need_ref : Bool :=
    match w.ins i with
    | some s => s.need_echo_reference && s.echo_reference.isNone
    | none => false
  if need_ref then
    let r := get_echo_reference w echo_status
    r.2.update_in i (fun s => { s with echo_reference := r.1 })
  else w

/-- Activation of the input stream with handle `i`: `start_input_stream`.
`resampler_status`, `echo_status` and `pcm_ready` are the outcomes of `create_resampler`,
`create_echo_reference` and the transport open. -/
def start_input_stream (h : audio_hw_h) (w : hal) (i : Nat) (resampler_status : Int)
    (echo_status : Int) (pcm_ready : Bool) : Int × hal :=
  let w := start_input_stream_route h w i resampler_status
  let w := start_input_stream_echo w i echo_status
  let rate := match w.ins i with
    | some s => s.config_rate
    | none => 0
  let o := pcm_open w.alsa h.PORT_MM2_UL true rate pcm_ready
  let w := ({ w with alsa := o.2 }).update_in i (fun s => { s with pcm := some o.1 })
  if o.1.ready = false then
    let w := { w with alsa := pcm_close w.alsa (some o.1) }
    (-ENOMEM, { w with adev := { w.adev with active_input := none } })
  else
    (0, w.update_in i (fun s => { s with read_buf_frames := 0, read_buf_size := 0,
                                          proc_buf_frames := 0, proc_buf_size := 0 }))

/-- What the data path of one `in_read` leaves in the buffer bookkeeping of the stream, and
the status it returns (`process_frames`, `read_frames` or `pcm_read`).  The frames themselves
are not modelled; any values are allowed. -/
structure read_outcome where
  read_buf_frames : Nat
  read_buf_size : Nat
  proc_buf_frames : Nat
  proc_buf_size : Nat
  status : Int
  deriving DecidableEq, Repr

/-- Read entry point: `in_read` for the input stream with handle `i`.  The status at the
`exit:` label only decides whether the caller is paced by a sleep; the result is the return
value.  The data path (`process_frames`, `read_frames` or `pcm_read`) is represented by its
outcome `io`: the definition gives the state and the value a call leaves when the loops of
the data path end. -/
def in_read (h : audio_hw_h) (w : hal) (i : Nat) (bytes : Nat) (resampler_status : Int)
    (echo_status : Int) (pcm_ready : Bool) (io : read_outcome) : Int × hal :=
  match w.ins i with
  | none => (bytes, w)
  | some s =>
    let r : Int × hal :=
      if s.standby = true then
        let r := start_input_stream h w i resampler_status echo_status pcm_ready
        if r.1 = 0 then (0, r.2.update_in i (fun s => { s with standby := false })) else r
      else (0, w)
    if r.1 < 0 then (bytes, r.2)
    else
      -- process_frames / read_frames / pcm_read
      let ret := if io.status > 0 then 0 else io.status
      -- exit: if (ret < 0) usleep(...)
      let _paced : Bool := decide (ret < 0)
      (bytes, r.2.update_in i (fun s => { s with
        read_buf_frames := io.read_buf_frames, read_buf_size := io.read_buf_size,
        proc_buf_frames := io.proc_buf_frames, proc_buf_size := io.proc_buf_size }))

/-- Entry point `in_standby`. -/
def in_standby (h : audio_hw_h) (w : hal) (i : Nat) : Int × hal :=
  (0, do_input_standby h w i)

/-- Entry point `in_set_parameters`; `source` and `routing` are the values of the input-source
and routing keys, if present. -/
def in_set_parameters (h : audio_hw_h) (w : hal) (i : Nat) (source : Option Int)
    (routing : Option Nat) (o1 o2 : reconfigure_oracle) : hal :=
  match w.ins i with
  | none => w
  | some s =>
    let src_change : Bool :=
      match source with
      | some val => decide (s.source ≠ val ∧ val ≠ 0)
      | none => false
    let w :=
      match source with
      | some val => if src_change then w.update_in i (fun s => { s with source := val }) else w
      | none => w
    let dev_change : Bool :=
      match routing with
      | some v => decide (s.device ≠ v &&& not32 AUDIO_DEVICE_BIT_IN ∧
          v &&& not32 AUDIO_DEVICE_BIT_IN ≠ 0)
      | none => false
    let w :=
      match routing with
      | some v =>
        if dev_change then
          let w := w.update_in i (fun s => { s with device := v &&& not32 AUDIO_DEVICE_BIT_IN })
          in_update_aux_channels h w i none o1 o2
        else w
      | none => w
    if src_change || dev_change then do_input_standby h w i else w

/-- The effect removal of `in_remove_audio_effect` (lines 2541-2568) on the stream structure:
the status and the stream with the slots compacted.  Iteration `i` either moves slot `i` down
(once the effect was found) or tests slot `i`. -/
def remove_preprocessor (s : tuna_stream_in) (effect : Nat) : Int × tuna_stream_in :=
  if s.num_preprocessors = 0 then (-ENOSYS, s)
  else
    let r := (List.range s.num_preprocessors).foldl
      (fun (st : Int × List effect_info_s) i =>
        if st.1 = 0 then
          (st.1, st.2.set (i - 1) (st.2.getD i { effect_itfe := none, channel_configs := [] }))
        else if (st.2.getD i { effect_itfe := none, channel_configs := [] }).effect_itfe
            = some effect then (0, st.2)
        else st)
      (-EINVAL, s.preprocessors)
    if r.1 ≠ 0 then (r.1, s)
    else
      (0, { s with
        num_preprocessors := s.num_preprocessors - 1
        preprocessors := r.2.set (s.num_preprocessors - 1)
          { effect_itfe := none, channel_configs := [] } })

/-- The reply of an effect to the query of its supported channel configurations
(`in_read_audio_effect_channel_configs`). -/
structure channel_configs_reply where
  cmd_status : Int
  reply_status : Int
  configs : List channel_config_t
  deriving DecidableEq, Repr

/-- The effect insertion of `in_add_audio_effect` (lines 2506-2510) on the stream structure. -/
def append_preprocessor (s : tuna_stream_in) (effect : Nat) (reply : channel_configs_reply) :
    tuna_stream_in :=
  let slot := s.preprocessors.getD s.num_preprocessors { effect_itfe := none, channel_configs := [] }
  let slot := { slot with effect_itfe := some effect }
  let slot :=
    if reply.cmd_status ≠ 0 then slot
    else if reply.reply_status ≠ 0 then slot
    else { slot with channel_configs := reply.configs }
  { s with
    preprocessors := s.preprocessors.set s.num_preprocessors slot
    num_preprocessors := s.num_preprocessors + 1 }

/-- Entry point `in_add_audio_effect` for the input stream with handle `i`.  `desc_status` and
`is_aec` are what `get_descriptor` answers, `reply` the declared channel configurations. -/
def in_add_audio_effect (h : audio_hw_h) (w : hal) (i : Nat) (effect : Nat) (desc_status : Int)
    (is_aec : Bool) (reply : channel_configs_reply) (o1 o2 : reconfigure_oracle) : Int × hal :=
  match w.ins i with
  | none => (-EINVAL, w)
  | some s =>
    if s.num_preprocessors ≥ h.MAX_PREPROCESSORS then (-ENOSYS, w)
    else if desc_status ≠ 0 then (desc_status, w)
    else
      let w := w.set_in i (some (append_preprocessor s effect reply))
      let w := in_update_aux_channels h w i (some effect) o1 o2
      let w :=
        if is_aec then
          let w := w.update_in i (fun s => { s with need_echo_reference := true })
          -- in_configure_reverse only sends commands to the effects
          do_input_standby h w i
        else w
      (0, w)

/-- Entry point `in_remove_audio_effect` for the input stream with handle `i`. -/
def in_remove_audio_effect (h : audio_hw_h) (w : hal) (i : Nat) (effect : Nat)
    (desc_status : Int) (is_aec : Bool) (o1 o2 : reconfigure_oracle) : Int × hal :=
  match w.ins i with
  | none => (-EINVAL, w)
  | some s =>
    let r := remove_preprocessor s effect
    if r.1 ≠ 0 then (r.1, w)
    else
      let w := w.set_in i (some r.2)
      let w := in_update_aux_channels h w i none o1 o2
      if desc_status ≠ 0 then (desc_status, w)
      else if is_aec then
        let w := w.update_in i (fun s => { s with need_echo_reference := false })
        (0, do_input_standby h w i)
      else (0, w)

/-- The freshly allocated (`calloc`) input stream as `adev_open_input_stream` initialises it. -/
def new_stream_in (h : audio_hw_h) (devices sample_rate channel_mask : Nat)
    (resampler : Option Nat) : tuna_stream_in where
  standby := true
  pcm := none
  source := 0
  device := devices &&& not32 AUDIO_DEVICE_BIT_IN
  main_channels := channel_mask
  aux_channels := 0
  aux_channels_changed := false
  config_channels := popcount channel_mask
  config_rate := h.MM_UL_SAMPLING_RATE
  requested_rate := sample_rate
  resampler := resampler
  need_echo_reference := false
  echo_reference := none
  preprocessors := List.replicate h.MAX_PREPROCESSORS { effect_itfe := none, channel_configs := [] }
  num_preprocessors := 0
  read_buf_frames := 0
  read_buf_size := 0
  proc_buf_frames := 0
  proc_buf_size := 0

/-- Entry point `adev_open_input_stream`.  `alloc_ok` and `resampler_status` are the outcomes
of `calloc` and `create_resampler`.  The result is the return value, the handle of the new
stream (none for NULL) and the new state. -/
def adev_open_input_stream (h : audio_hw_h) (w : hal) (devices : Nat) (sample_rate : Nat)
    (format : Int) (channel_mask : Nat) (alloc_ok : Bool) (resampler_status : Int) :
    Int × Option Nat × hal :=
  let channel_count : Int := popcount channel_mask
  if check_input_parameters sample_rate format channel_count ≠ 0 then (-EINVAL, none, w)
  else if alloc_ok = false then (-ENOMEM, none, w)
  else if sample_rate ≠ h.MM_UL_SAMPLING_RATE ∧ resampler_status ≠ 0 then (-EINVAL, none, w)
  else
    let resampler : Option Nat :=
      if sample_rate ≠ h.MM_UL_SAMPLING_RATE then some 0 else none
    let i := w.next_in
    (0, some i, { w.set_in i (some (new_stream_in h devices sample_rate channel_mask resampler))
                  with next_in := i + 1 })

/-- Entry point `adev_close_input_stream` for the input stream with handle `i`. -/
def adev_close_input_stream (h : audio_hw_h) (w : hal) (i : Nat) : hal :=
  match w.ins i with
  | none => w
  | some _ => (do_input_standby h w i).set_in i none

/-! ## Capture buffer size, capture delay and the capture data path -/

/-- Reduction to an unsigned 32-bit value: the arithmetic of `unsigned int`, `uint32_t` and
`size_t` on the 32-bit target of the device. -/
def u32 (x : Nat) : Nat := x % 2 ^ 32

/-- Reduction to a signed 32-bit value: the conversions to `long` and `int32_t` on the 32-bit
target of the device (two's complement). -/
def to_int32 (x : Int) : Int := (x + 2147483648) % 4294967296 - 2147483648

/-- Capture buffer size in bytes: `get_input_buffer_size`.  The period size and the rate are
the fields of `pcm_config_mm_ul` (`CAPTURE_PERIOD_SIZE`, `MM_UL_SAMPLING_RATE`); the product
is formed in `unsigned int`, the rest in `size_t`. -/
def get_input_buffer_size (h : audio_hw_h) (sample_rate : Nat) (format : Int)
    (channel_count : Int) : Nat :=
  if check_input_parameters sample_rate format channel_count ≠ 0 then 0
  else
    let size := u32 (h.CAPTURE_PERIOD_SIZE * sample_rate) / h.MM_UL_SAMPLING_RATE
    let size := u32 (u32 (size + 15) / 16 * 16)
    u32 (size * channel_count.toNat * 2)

/-- Entry point `adev_get_input_buffer_size` for a configuration with the given rate, format
and channel mask. -/
def adev_get_input_buffer_size (h : audio_hw_h) (sample_rate : Nat) (format : Int)
    (channel_mask : Nat) : Nat :=
  let channel_count : Int := popcount channel_mask
  if check_input_parameters sample_rate format channel_count ≠ 0 then 0
  else get_input_buffer_size h sample_rate format channel_count

/-- A point in time as `struct timespec`. -/
structure timespec where
  tv_sec : Int
  tv_nsec : Int
  deriving DecidableEq, Repr

/-- The fields of `struct echo_reference_buffer` that `get_capture_delay` fills. -/
structure echo_reference_buffer where
  time_stamp : timespec
  delay_ns : Int
  deriving DecidableEq, Repr

/-- Whether every control `adev_open` looks up by name exists in the mixer. -/
def all_ctls_found (s : hw_state) (c : mixer_ctls) : Bool :=
  [c.dl1_eq, c.mm_dl1_volume, c.tones_dl1_volume, c.mm_dl2_volume, c.vx_dl2_volume,
   c.tones_dl2_volume, c.mm_dl1, c.vx_dl1, c.tones_dl1, c.mm_dl2, c.vx_dl2, c.tones_dl2,
   c.dl2_mono, c.dl1_headset, c.dl1_bt, c.earpiece_enable, c.left_capture, c.right_capture,
   c.amic_ul_volume, c.voice_ul_volume, c.sidetone_capture, c.headset_volume,
   c.speaker_volume, c.earpiece_volume].all
    fun name => (mixer_get_ctl_by_name s name).isSome

/-- The device structure after `calloc` and the assignments of `adev_open`. -/
def new_adev (h : audio_hw_h) : tuna_audio_device where
  mixer_ctls := h.ctl_names
  mode := AUDIO_MODE_NORMAL
  out_device := AUDIO_DEVICE_OUT_SPEAKER
  in_device := AUDIO_DEVICE_IN_BUILTIN_MIC &&& not32 AUDIO_DEVICE_BIT_IN
  pcm_modem_dl := none
  pcm_modem_ul := none
  in_call := false
  voice_volume := 0x3F800000
  active_input := none
  outputs := fun _ => none
  mic_mute := false
  tty_mode := TTY_MODE_OFF
  echo_reference := none
  bluetooth_nrec := true
  wb_amr := 0
  screen_off := false

/-- Entry point `adev_open`.  `name_ok` is the comparison of the interface name, `alloc_ok`
the outcome of `calloc`, `mixer` what `mixer_open` returns (none for NULL) and `a` the
transport.  The result is the return value and the state of the opened device. -/
def adev_open (h : audio_hw_h) (name_ok alloc_ok : Bool) (mixer : Option hw_state)
    (a : alsa_state) : Int × Option hal :=
  if name_ok = false then (-EINVAL, none)
  else if alloc_ok = false then (-ENOMEM, none)
  else
    match mixer with
    | none => (-EINVAL, none)
    | some s =>
      if all_ctls_found s h.ctl_names = false then (-EINVAL, none)
      else
        let s := (set_route_by_array s h.defaults true).2
        let adev := new_adev h
        let s := select_output_device h adev none s
        (0, some { adev := adev, ins := fun _ => none, next_in := 0, hw := s, alsa := a,
                   echo_refs := [], next_ref := 0,
                   pcm_config_vx_rate := h.VX_NB_SAMPLING_RATE })

/-- One entry point of the HAL, taken as atomic, leads from `w` to `w'`.  The arguments of the
constructors are the arguments of the call and the outcomes of the external collaborators. -/
inductive step (h : audio_hw_h) : hal → hal → Prop
  | set_mode (w : hal) (mode : Int) (dl_ready ul_ready : Bool) :
      step h w (adev_set_mode h w mode dl_ready ul_ready).2
  | set_parameters (w : hal) (tty bt_nrec screen_state : Option String) :
      step h w (adev_set_parameters h w tty bt_nrec screen_state).2
  | set_mic_mute (w : hal) (state : Bool) : step h w (adev_set_mic_mute h w state).2
  | set_voice_volume (w : hal) (volume : Nat) : step h w (adev_set_voice_volume w volume).2
  | wb_amr (w : hal) (enable : Int) (dl_ready ul_ready : Bool) :
      step h w (audio_set_wb_amr_callback h w enable dl_ready ul_ready)
  | open_output (w : hal) (devices flags sample_rate channel_mask : Nat) (alloc_ok : Bool)
      (max_channels resampler_status : Int) :
      step h w (adev_open_output_stream h w devices flags sample_rate channel_mask alloc_ok
        max_channels resampler_status).2.2
  | close_output (w : hal) (t : output_type) : step h w (adev_close_output_stream h w t)
  | out_standby (w : hal) (t : output_type) : step h w (out_standby h w t).2
  | out_set_parameters (w : hal) (t : output_type) (routing : Option Nat) :
      step h w (out_set_parameters h w t routing)
  | out_set_volume_hdmi (w : hal) (left_is_zero : Bool) :
      step h w (out_set_volume_hdmi w left_is_zero).2
  | write_low_latency (w : hal) (bytes : Nat) (r_normal r_spdif r_hdmi : Bool)
      (write_status : Int) :
      step h w (out_write_low_latency h w bytes r_normal r_spdif r_hdmi write_status).2
  | write_deep_buffer (w : hal) (bytes : Nat) (ready : Bool) (write_status : Int) :
      step h w (out_write_deep_buffer h w bytes ready write_status).2
  | write_hdmi (w : hal) (bytes : Nat) (ready : Bool) :
      step h w (out_write_hdmi h w bytes ready).2
  | open_input (w : hal) (devices sample_rate : Nat) (format : Int) (channel_mask : Nat)
      (alloc_ok : Bool) (resampler_status : Int) :
      step h w (adev_open_input_stream h w devices sample_rate format channel_mask alloc_ok
        resampler_status).2.2
  | close_input (w : hal) (i : Nat) : step h w (adev_close_input_stream h w i)
  | in_standby (w : hal) (i : Nat) : step h w (in_standby h w i).2
  | in_set_parameters (w : hal) (i : Nat) (source : Option Int) (routing : Option Nat)
      (o1 o2 : reconfigure_oracle) : step h w (in_set_parameters h w i source routing o1 o2)
  | in_read (w : hal) (i : Nat) (bytes : Nat) (resampler_status echo_status : Int)
      (pcm_ready : Bool) (io : read_outcome) :
      step h w (in_read h w i bytes resampler_status echo_status pcm_ready io).2
  | add_audio_effect (w : hal) (i effect : Nat) (desc_status : Int) (is_aec : Bool)
      (reply : channel_configs_reply) (o1 o2 : reconfigure_oracle) :
      step h w (in_add_audio_effect h w i effect desc_status is_aec reply o1 o2).2
  | remove_audio_effect (w : hal) (i effect : Nat) (desc_status : Int) (is_aec : Bool)
      (o1 o2 : reconfigure_oracle) :
      step h w (in_remove_audio_effect h w i effect desc_status is_aec o1 o2).2

/-- The states reachable from a successful `adev_open` by any sequence of entry points. -/
inductive reachable (h : audio_hw_h) : hal → Prop
  | opened (name_ok alloc_ok : Bool) (mixer : Option hw_state) (a : alsa_state) (w : hal)
      (hw : adev_open h name_ok alloc_ok mixer a = (0, some w)) : reachable h w
  | next (w w' : hal) (hr : reachable h w) (hs : step h w w') : reachable h w'

/-! ## The data path of the low-latency write -/

/-- The array `out->pcm[PCM_TOTAL]` in index order. -/
def tuna_stream_out.pcms (o : tuna_stream_out) : List (Option pcm) :=
  [o.pcm_normal, o.pcm_spdif, o.pcm_hdmi]

/-- What the transport answers for an endpoint: the status, the available frames and the time
stamp of `pcm_get_htimestamp`, and the size `pcm_get_buffer_size` returns. -/
structure htimestamp_reply where
  status : Int
  avail : Nat
  tstamp : timespec
  buffer_size : Nat
  deriving DecidableEq, Repr

/-- The search loop of `get_playback_delay` (line 962) over the entries of `out->pcm[]` from
index `primary_pcm` on: the index of the first open endpoint, and the length of the array
(`PCM_TOTAL`) if there is none. -/
def find_primary_pcm : List (Option pcm) → (primary_pcm : Nat) → Nat
  | [], primary_pcm => primary_pcm
  | p :: rest, primary_pcm =>
    if p.isNone then find_primary_pcm rest (primary_pcm + 1) else primary_pcm

/-- Playback delay: `get_playback_delay` for `frames` frames; `ts` is what the transport
answers for an endpoint.  The result is the return value and the buffer fields filled in.
There is no result when `primary_pcm` is not the index of an open endpoint: with no endpoint
open the loop ends at `PCM_TOTAL`, and `out->pcm[primary_pcm]` reads past the end of the array
and hands what it finds to the transport.  The arithmetic is that of a 32-bit `size_t` and
`long`. -/
def get_playback_delay (h : audio_hw_h) (out : tuna_stream_out) (frames : Nat)
    (ts : pcm → htimestamp_reply) : Option (Int × echo_reference_buffer) :=
  let primary_pcm := find_primary_pcm out.pcms 0
  match out.pcms[primary_pcm]? with
  | some (some p) =>
    let r := ts p
    if r.status < 0 then
      some (r.status, { time_stamp := { tv_sec := 0, tv_nsec := 0 }, delay_ns := 0 })
    else
      let kernel_frames := u32 (r.buffer_size + 2 ^ 32 - u32 r.avail)
      some (0, { time_stamp := r.tstamp,
                 delay_ns := to_int32
                   (((u32 (kernel_frames + frames) : Nat) : Int) * 1000000000 /
                     h.MM_FULL_POWER_SAMPLING_RATE) })
  | _ => none

/-- The loop "Write to all active PCMs" of `out_write_low_latency` (lines 1373-1388) over the
entries of `out->pcm[]` not yet visited: the value of `ret` after the loop.  `pcm_write p` is
the status of `PCM_WRITE` on the endpoint `p`. -/
def write_active_pcms (pcm_write : pcm → Int) : List (Option pcm) → (ret : Int) → Int
  | [], ret => ret
  | none :: rest, ret => write_active_pcms pcm_write rest ret
  | some p :: rest, _ =>
    if pcm_write p ≠ 0 then pcm_write p else write_active_pcms pcm_write rest (pcm_write p)

/-- Outcomes of the external calls in the data path of one `out_write_low_latency`, and the
indeterminate value `ret0` that the uninitialised local `ret` holds when the stream is active
on entry. -/
structure write_outcome where
  ts : pcm → htimestamp_reply
  pcm_write : pcm → Int
  ret0 : Int

/-- Write entry point of the low-latency output with its data path: `out_write_low_latency`
(lines 1315-1411).  `out_frames` is the frame count handed to `get_playback_delay`.  The
result is the return value and the new state, and there is none when the call has no defined
behaviour, which is when the stream has an echo reference bound and `get_playback_delay` has no
result. -/
def out_write_low_latency_full (h : audio_hw_h) (w : hal) (bytes : Nat)
    (r_normal r_spdif r_hdmi : Bool) (out_frames : Nat) (o : write_outcome) :
    Option (Int × hal) :=
  match w.adev.outputs OUTPUT_LOW_LATENCY with
  | none => some (bytes, w)
  | some out =>
    let start := start_output_stream_low_latency h w r_normal r_spdif r_hdmi
    if out.standby = true ∧ start.1 ≠ 0 then
      -- goto exit with ret != 0: the caller is paced by a sleep
      some (bytes, start.2)
    else
      let w1 : hal :=
        if out.standby = true then
          start.2.update_out OUTPUT_LOW_LATENCY (fun o => { o with standby := false })
        else w
      let force_input_standby : Bool := out.standby && w1.voip_input_active
      let ret : Int := if out.standby = true then 0 else o.ret0
      match w1.adev.outputs OUTPUT_LOW_LATENCY with
      | none => none
      | some out1 =>
        -- if (out->echo_reference != NULL): get_playback_delay, then the echo reference write
        let delay_defined : Bool :=
          if out1.echo_reference ≠ none then
            (get_playback_delay h out1 out_frames o.ts).isSome
          else true
        if delay_defined = false then none
        else
          let ret := write_active_pcms o.pcm_write out1.pcms ret
          -- exit: if (ret != 0) usleep(...)
          let _paced : Bool := decide (ret ≠ 0)
          let w2 : hal :=
            if force_input_standby = true then
              match w1.adev.active_input with
              | some i => do_input_standby h w1 i
              | none => w1
            else w1
          some (bytes, w2)

/-! ## A concrete configuration

Concrete values for the constants of `audio_hw.h` (those of the AOSP tuna tree) and a concrete
mixer and device, used to evaluate the code on explicit inputs. -/

/-- The control names `MIXER_*` of the concrete configuration. -/
def sample_ctls : mixer_ctls where
  dl1_eq := "DL1 Equalizer"
  mm_dl1_volume := "DL1 Media Playback Volume"
  tones_dl1_volume := "DL1 Tones Playback Volume"
  mm_dl2_volume := "DL2 Media Playback Volume"
  vx_dl2_volume := "DL2 Voice Playback Volume"
  tones_dl2_volume := "DL2 Tones Playback Volume"
  mm_dl1 := "DL1 Mixer Multimedia"
  vx_dl1 := "DL1 Mixer Voice"
  tones_dl1 := "DL1 Mixer Tones"
  mm_dl2 := "DL2 Mixer Multimedia"
  vx_dl2 := "DL2 Mixer Voice"
  tones_dl2 := "DL2 Mixer Tones"
  dl2_mono := "DL2 Mono Mixer"
  dl1_headset := "DL1 PDM Switch"
  dl1_bt := "DL1 BT_VX Switch"
  earpiece_enable := "Earphone Enable Switch"
  left_capture := "Analog Left Capture Route"
  right_capture := "Analog Right Capture Route"
  amic_ul_volume := "AMIC UL Volume"
  voice_ul_volume := "AUDUL Voice UL Volume"
  sidetone_capture := "Sidetone Mixer Capture"
  headset_volume := "Headset Playback Volume"
  speaker_volume := "Handsfree Playback Volume"
  earpiece_volume := "Earphone Playback Volume"

/-- Concrete conversion `DB_TO_ABE_GAIN`. -/
def sample_db_to_abe (x : Int) : Int := x + 120

/-- A concrete instance of the header constants. -/
def sample_h : audio_hw_h where
  ctl_names := sample_ctls
  MIXER_ABE_GAIN_0DB := 120
  DB_TO_ABE_GAIN := sample_db_to_abe
  DB_TO_HEADSET_VOLUME := fun x => (x + 30) / 2
  DB_TO_SPEAKER_VOLUME := fun x => (x + 52) / 2
  DB_TO_EARPIECE_VOLUME := fun x => (x + 24) / 2
  DB_FROM_SPEAKER_VOLUME := fun x => x * 2 - 52
  NORMAL_SPEAKER_VOLUME := 4
  NORMAL_HEADPHONE_VOLUME := -6
  NORMAL_HEADSET_VOLUME := -12
  NORMAL_EARPIECE_VOLUME := -2
  VOICE_CALL_SPEAKER_VOLUME := 9
  VOICE_CALL_HEADSET_VOLUME := -6
  VOICE_CALL_EARPIECE_VOLUME := 2
  VOIP_SPEAKER_VOLUME := 9
  VOIP_HEADSET_VOLUME := -6
  VOIP_EARPIECE_VOLUME := 6
  HEADPHONE_VOLUME_TTY := -2
  RINGTONE_HEADSET_VOLUME_OFFSET := -14
  VOICE_CALL_MAIN_MIC_VOLUME := -4
  VOICE_CALL_HEADSET_MIC_VOLUME := 8
  VOICE_CALL_SUB_MIC_VOLUME := -4
  CAPTURE_MAIN_MIC_VOLUME := 13
  CAPTURE_HEADSET_MIC_VOLUME := 12
  CAPTURE_SUB_MIC_VOLUME := 20
  CAMCORDER_MAIN_MIC_VOLUME := 13
  CAMCORDER_HEADSET_MIC_VOLUME := 12
  CAMCORDER_SUB_MIC_VOLUME := 10
  VOICE_RECOGNITION_MAIN_MIC_VOLUME := 5
  VOICE_RECOGNITION_HEADSET_MIC_VOLUME := 14
  VOICE_RECOGNITION_SUB_MIC_VOLUME := -4
  VOIP_MAIN_MIC_VOLUME := 13
  VOIP_HEADSET_MIC_VOLUME := 12
  VOIP_SUB_MIC_VOLUME := 20
  MIXER_4KHZ_LPF_0DB := "4Khz LPF   0dB"
  MIXER_FLAT_RESPONSE := "Flat response"
  MIXER_MAIN_MIC := "Main Mic"
  MIXER_HS_MIC := "Headset Mic"
  MIXER_SUB_MIC := "Sub Mic"
  SOUND_AUDIO_PATH_HANDSET := 0
  SOUND_AUDIO_PATH_HEADSET := 1
  SOUND_AUDIO_PATH_SPEAKER := 2
  SOUND_AUDIO_PATH_BLUETOOTH := 3
  SOUND_AUDIO_PATH_BLUETOOTH_NO_NR := 4
  SOUND_AUDIO_PATH_HEADPHONE := 5
  hs_output :=
    [ { ctl_name := "Headset Left Playback", intval := 0, strval := some "HS DAC" },
      { ctl_name := "Headset Right Playback", intval := 0, strval := some "HS DAC" } ]
  hf_output :=
    [ { ctl_name := "Handsfree Left Playback", intval := 0, strval := some "HF DAC" },
      { ctl_name := "Handsfree Right Playback", intval := 0, strval := some "HF DAC" } ]
  vx_ul_amic_left :=
    [ { ctl_name := "MUX_VX0", intval := 0, strval := some "AMic0" },
      { ctl_name := "Voice Capture Mixer Capture", intval := 1, strval := none } ]
  vx_ul_amic_right :=
    [ { ctl_name := "MUX_VX0", intval := 0, strval := some "AMic1" },
      { ctl_name := "Voice Capture Mixer Capture", intval := 1, strval := none } ]
  vx_ul_bt :=
    [ { ctl_name := "MUX_VX0", intval := 0, strval := some "BT Left" },
      { ctl_name := "Voice Capture Mixer Capture", intval := 1, strval := none } ]
  mm_ul2_bt := [ { ctl_name := "MUX_UL10", intval := 0, strval := some "BT Left" } ]
  mm_ul2_amic_left := [ { ctl_name := "MUX_UL10", intval := 0, strval := some "AMic0" } ]
  mm_ul2_amic_right := [ { ctl_name := "MUX_UL10", intval := 0, strval := some "AMic1" } ]
  mm_ul2_amic_dual_main_sub :=
    [ { ctl_name := "MUX_UL10", intval := 0, strval := some "AMic0" },
      { ctl_name := "MUX_UL11", intval := 0, strval := some "AMic1" } ]
  mm_ul2_amic_dual_sub_main :=
    [ { ctl_name := "MUX_UL10", intval := 0, strval := some "AMic1" },
      { ctl_name := "MUX_UL11", intval := 0, strval := some "AMic0" } ]
  defaults := [ { ctl_name := "DL1 Mixer Multimedia", intval := 0, strval := none } ]
  VX_NB_SAMPLING_RATE := 8000
  VX_WB_SAMPLING_RATE := 16000
  MM_UL_SAMPLING_RATE := 44100
  MM_FULL_POWER_SAMPLING_RATE := 48000
  MM_LOW_POWER_SAMPLING_RATE := 44100
  DEFAULT_OUT_SAMPLING_RATE := 44100
  CAPTURE_PERIOD_SIZE := 1024
  HDMI_MULTI_PERIOD_COUNT := 4
  PORT_MODEM := 5
  PORT_MM2_UL := 1
  PORT_TONES := 3
  PORT_SPDIF := 9
  PORT_HDMI := 0
  PORT_MM := 0
  MAX_PREPROCESSORS := 3
  in_aux_cnl_configs :=
    [ { main_channels := 0x10, aux_channels := 0x20 },
      { main_channels := 0xC, aux_channels := 0x8 } ]
  DEEP_BUFFER_LONG_PERIOD_WRITE_THRES := 3850
  DEEP_BUFFER_SHORT_PERIOD_WRITE_THRES := 1925

/-- A concrete mixer: every control exists with two values, all 0, and range maximum 29. -/
def sample_hw : hw_state where
  ctls := fun _ => some { values := [0, 0], range_max := 29, enum_value := "Off" }
  trace := []

/-- The device as `adev_open` leaves its fields (normal mode, speaker selected). -/
def sample_adev : tuna_audio_device where
  mixer_ctls := sample_ctls
  mode := AUDIO_MODE_NORMAL
  out_device := AUDIO_DEVICE_OUT_SPEAKER
  in_device := 0x4
  pcm_modem_dl := none
  pcm_modem_ul := none
  in_call := false
  voice_volume := 0
  active_input := none
  outputs := fun _ => none
  mic_mute := false
  tty_mode := TTY_MODE_OFF
  echo_reference := none
  bluetooth_nrec := true
  wb_amr := 0
  screen_off := false

/-- A concrete HAL state around `sample_adev`. -/
def sample_hal : hal where
  adev := sample_adev
  ins := fun _ => none
  next_in := 0
  hw := sample_hw
  alsa := { open_pcms := [], next_id := 0 }
  echo_refs := []
  next_ref := 0
  pcm_config_vx_rate := 8000

/-- A call with TTY mode HCO while a wired headset is the selected output device. -/
def sample_adev_hco : tuna_audio_device :=
  { sample_adev with
    mode := AUDIO_MODE_IN_CALL
    tty_mode := TTY_MODE_HCO
    out_device := AUDIO_DEVICE_OUT_WIRED_HEADSET }


/-- The state a successful `adev_open` leaves on the concrete mixer. -/
def opened_hal : hal where
  adev := new_adev sample_h
  ins := fun _ => none
  next_in := 0
  hw := select_output_device sample_h (new_adev sample_h) none
    (set_route_by_array sample_hw sample_h.defaults true).2
  alsa := { open_pcms := [], next_id := 0 }
  echo_refs := []
  next_ref := 0
  pcm_config_vx_rate := 8000

/-- Answers of an effect that accepts every command. -/
def sample_oracle : reconfigure_oracle where
  each := fun _ => ⟨0, ⟨0, 0⟩, ⟨0, 0⟩, ⟨0, 0⟩⟩
  added := ⟨0, ⟨0, 0⟩, ⟨0, 0⟩, ⟨0, 0⟩⟩

/-- A voice-over-IP session on the concrete device: the low-latency output is opened and
written to, an input stream is opened on the built-in microphone, an echo canceller (handle 7)
is attached to it, and the input is read. -/
def voip_hal : hal :=
  let w := opened_hal
  let w := (adev_open_output_stream sample_h w AUDIO_DEVICE_OUT_SPEAKER 0 44100
    AUDIO_CHANNEL_OUT_STEREO true 0 0).2.2
  let w := (out_write_low_latency sample_h w 4096 true true true 0).2
  let w := (adev_open_input_stream sample_h w AUDIO_DEVICE_IN_BUILTIN_MIC 44100
    AUDIO_FORMAT_PCM_16_BIT 0x10 true 0).2.2
  let w := (in_add_audio_effect sample_h w 0 7 0 true
    { cmd_status := 0, reply_status := 0, configs := [] } sample_oracle sample_oracle).2
  (in_read sample_h w 0 4096 0 0 true ⟨0, 0, 0, 0, 0⟩).2

/-- An attached effect (handle 7) that declares the pair (0x10, 0x20). -/
def sample_effect : effect_info_s where
  effect_itfe := some 7
  channel_configs := [{ main_channels := 0x10, aux_channels := 0x20 }]

/-- An unused slot of `in->preprocessors[]`. -/
def empty_slot : effect_info_s where
  effect_itfe := none
  channel_configs := []

/-- An input stream on the built-in microphone with main mask 0x10 and `sample_effect` as its
only attached effect. -/
def sample_in : tuna_stream_in :=
  { new_stream_in sample_h AUDIO_DEVICE_IN_BUILTIN_MIC 44100 0x10 none with
    preprocessors := [sample_effect, empty_slot, empty_slot]
    num_preprocessors := 1 }

/-- The stream `sample_in` with a second attached effect (handle 8) that declares no
configuration. -/
def sample_in2 : tuna_stream_in :=
  { sample_in with
    preprocessors := [sample_effect, { effect_itfe := some 8, channel_configs := [] }, empty_slot]
    num_preprocessors := 2 }

/-- The stream `sample_in` with no attached effect. -/
def empty_in : tuna_stream_in :=
  { sample_in with
    preprocessors := [empty_slot, empty_slot, empty_slot]
    num_preprocessors := 0 }

/-- The concrete HAL state with `sample_in` allocated under handle 0. -/
def sample_hal_in : hal := sample_hal.set_in 0 (some sample_in)

/-- The concrete HAL state with the low-latency output already open. -/
def occupied_hal : hal :=
  sample_hal.set_out OUTPUT_LOW_LATENCY (some (new_stream_out AUDIO_CHANNEL_OUT_STEREO 0 0))

/-- The concrete device with the speaker and the digital dock selected and the low-latency
output open and in standby. -/
def dock_hal : hal :=
  ({ sample_hal with
     adev := { sample_adev with
       out_device := AUDIO_DEVICE_OUT_SPEAKER ||| AUDIO_DEVICE_OUT_DGTL_DOCK_HEADSET } }).set_out
    OUTPUT_LOW_LATENCY (some (new_stream_out AUDIO_CHANNEL_OUT_STEREO 0 0))

/-- The concrete device with HDMI and a wired headset selected and the low-latency output
active: the output was opened and written to once. -/
def digital_headset_hal : hal :=
  let w : hal := { sample_hal with
    adev := { sample_adev with
      out_device := AUDIO_DEVICE_OUT_AUX_DIGITAL ||| AUDIO_DEVICE_OUT_WIRED_HEADSET } }
  let w := (adev_open_output_stream sample_h w
    (AUDIO_DEVICE_OUT_AUX_DIGITAL ||| AUDIO_DEVICE_OUT_WIRED_HEADSET) 0 44100
    AUDIO_CHANNEL_OUT_STEREO true 0 0).2.2
  (out_write_low_latency sample_h w 4096 true true true 0).2

/-- The low-latency output stream of `digital_headset_hal`: active, with the analog and the
HDMI endpoint open. -/
def digital_headset_out : tuna_stream_out :=
  { new_stream_out AUDIO_CHANNEL_OUT_STEREO 0 0 with
    standby := false
    pcm_normal := some { id := 0, port := 3, capture := false, rate := 48000, ready := true }
    pcm_hdmi := some { id := 1, port := 0, capture := false, rate := 44100, ready := true } }

/-- A call on the earpiece, TTY off. -/
def sample_adev_call : tuna_audio_device :=
  { sample_adev with mode := AUDIO_MODE_IN_CALL, out_device := AUDIO_DEVICE_OUT_EARPIECE }

/-- Two capture clients on the concrete device: an input stream is opened and read, then a
second input stream is opened and read. -/
def two_inputs_hal : hal :=
  let w := opened_hal
  let w := (adev_open_input_stream sample_h w AUDIO_DEVICE_IN_BUILTIN_MIC 44100
    AUDIO_FORMAT_PCM_16_BIT 0x10 true 0).2.2
  let w := (in_read sample_h w 0 4096 0 0 true ⟨0, 0, 0, 0, 0⟩).2
  let w := (adev_open_input_stream sample_h w AUDIO_DEVICE_IN_BUILTIN_MIC 44100
    AUDIO_FORMAT_PCM_16_BIT 0x10 true 0).2.2
  (in_read sample_h w 1 4096 0 0 true ⟨0, 0, 0, 0, 0⟩).2

/-- One capture client on the concrete device: an input stream is opened and read. -/
def one_input_hal : hal :=
  let w := opened_hal
  let w := (adev_open_input_stream sample_h w AUDIO_DEVICE_IN_BUILTIN_MIC 44100
    AUDIO_FORMAT_PCM_16_BIT 0x10 true 0).2.2
  (in_read sample_h w 0 4096 0 0 true ⟨0, 0, 0, 0, 0⟩).2

/-- The concrete header constants with a default route table that names a control which is
not among the handles of the device. -/
def sample_h_eq : audio_hw_h :=
  { sample_h with
    defaults := [ { ctl_name := "DL2 Left Equalizer", intval := 0, strval := some "Flat response" },
                  { ctl_name := "DL1 Mixer Multimedia", intval := 0, strval := none } ] }

/-- A concrete mixer that has every control except "DL2 Left Equalizer". -/
def sparse_hw : hw_state where
  ctls := fun k =>
    if k = "DL2 Left Equalizer" then none
    else some { values := [0, 0], range_max := 29, enum_value := "Off" }
  trace := []

/-- A voice-over-IP session (mode IN_COMMUNICATION) on the speaker. -/
def sample_adev_voip : tuna_audio_device :=
  { sample_adev with mode := AUDIO_MODE_IN_COMMUNICATION }

/-- The concrete device with the wired headset microphone as the only input device. -/
def sample_adev_headset_in : tuna_audio_device :=
  { sample_adev with in_device := AUDIO_DEVICE_IN_WIRED_HEADSET &&& not32 AUDIO_DEVICE_BIT_IN }

/-- An active input stream of the general capture source whose negotiated auxiliary channel
mask is not zero. -/
def sample_in_aux : tuna_stream_in :=
  { sample_in with source := AUDIO_SOURCE_MIC, aux_channels := 0x20, standby := false }

/-- The concrete device after an input stream was opened and an effect (handle 7) that declares
no channel configuration was attached to it. -/
def effect_hal : hal :=
  let w := (adev_open_input_stream sample_h opened_hal AUDIO_DEVICE_IN_BUILTIN_MIC 44100
    AUDIO_FORMAT_PCM_16_BIT 0x10 true 0).2.2
  (in_add_audio_effect sample_h w 0 7 0 false
    { cmd_status := 0, reply_status := 0, configs := [] } sample_oracle sample_oracle).2

/-- The concrete device in a call with the microphone muted, after a change of the TTY mode:
the call is entered, the microphone is muted, and the TTY mode is set to HCO. -/
def muted_call_hal : hal :=
  let w := (adev_set_mode sample_h opened_hal AUDIO_MODE_IN_CALL true true).2
  let w := (adev_set_mic_mute sample_h w true).2
  (adev_set_parameters sample_h w (some "tty_hco") none none).2


/-- The opened device with a deep-buffer output that was activated by a write while the screen
was on, after which the screen was turned off. -/
def deep_hal : hal :=
  let w := (adev_open_output_stream sample_h opened_hal AUDIO_DEVICE_OUT_SPEAKER
    AUDIO_OUTPUT_FLAG_DEEP_BUFFER 44100 AUDIO_CHANNEL_OUT_STEREO true 2 0).2.2
  let w := (out_write_deep_buffer sample_h w 4096 true 0).2
  (adev_set_parameters sample_h w none none (some "off")).2

/-- The stream `sample_in` whose attached effect declares the pairs (0x10, 0x20) and
(0x10, 0x60); the table of the concrete header holds the first pair only. -/
def wide_in : tuna_stream_in :=
  { sample_in with
    preprocessors :=
      [{ effect_itfe := some 7,
         channel_configs := [{ main_channels := 0x10, aux_channels := 0x20 },
                             { main_channels := 0x10, aux_channels := 0x60 }] },
       empty_slot, empty_slot] }

/-- The concrete device with the HDMI output active, the output routed to the digital output
alone, the low-latency output activated by a write, and an input stream with an echo canceller
(handle 7) read once: the low-latency output is active without any endpoint and has the echo
reference bound. -/
def bare_hal : hal :=
  let w := opened_hal
  let w := (adev_open_output_stream sample_h w AUDIO_DEVICE_OUT_SPEAKER 0 44100
    AUDIO_CHANNEL_OUT_STEREO true 0 0).2.2
  let w := (adev_open_output_stream sample_h w AUDIO_DEVICE_OUT_AUX_DIGITAL
    AUDIO_OUTPUT_FLAG_DIRECT 44100 0 true 6 0).2.2
  let w := (out_write_hdmi sample_h w 4096 true).2
  let w := out_set_parameters sample_h w OUTPUT_LOW_LATENCY (some AUDIO_DEVICE_OUT_AUX_DIGITAL)
  let w := (out_write_low_latency sample_h w 4096 true true true 0).2
  let w := (adev_open_input_stream sample_h w AUDIO_DEVICE_IN_BUILTIN_MIC 44100
    AUDIO_FORMAT_PCM_16_BIT 0x10 true 0).2.2
  let w := (in_add_audio_effect sample_h w 0 7 0 true
    { cmd_status := 0, reply_status := 0, configs := [] } sample_oracle sample_oracle).2
  (in_read sample_h w 0 4096 0 0 true ⟨0, 0, 0, 0, 0⟩).2
/-! ## Request sequences

Every routing function only issues requests, and which requests it issues depends on the mixer
only through its shape (which controls exist, how many values each has, and its range), never on
the current values.  `Emits f` states this for a state transformer `f`. -/

/-- The part of the mixer that writes never change: per control, its number of values and the
maximum of its range. -/
def ctl_shape (m : String → Option mixer_ctl) : String → Option (Nat × Int) :=
  fun k => (m k).map (fun c => (c.values.length, c.range_max))

/-- Apply a sequence of requests to the controls. -/
def apply_all (es : List hw_event) (m : String → Option mixer_ctl) : String → Option mixer_ctl :=
  es.foldl (fun m e => e.apply m) m

/-- The transformer `f` only issues requests, chosen from the shape of the mixer alone. -/
def Emits (f : hw_state → hw_state) : Prop :=
  ∃ E : (String → Option (Nat × Int)) → List hw_event, ∀ s, f s = s.emits (E (ctl_shape s.ctls))

/-- The requests issued between state `s` and a later state `s'`. -/
def issued (s s' : hw_state) : List hw_event := s'.trace.drop s.trace.length

/-! ## The echo reference invariant -/

/-- The echo reference invariant on the three components it concerns: the objects alive are
exactly the one in the device's slot, and an output stream with a binding is the low-latency
output, is active, and is bound to the device's echo reference. -/
def echo_ok (refs : List Nat) (dev_ref : Option Nat)
    (outs : output_type → Option tuna_stream_out) : Prop :=
  refs = dev_ref.toList ∧
  ∀ t out, outs t = some out → out.echo_reference ≠ none →
    t = OUTPUT_LOW_LATENCY ∧ out.standby = false ∧ out.echo_reference = dev_ref

/-- The echo reference invariant of a HAL state. -/
def echo_inv (w : hal) : Prop :=
  echo_ok w.echo_refs w.adev.echo_reference w.adev.outputs

/-- What the echo reference invariant reads of an output stream. -/
def out_view (o : tuna_stream_out) : Bool × Option Nat := (o.standby, o.echo_reference)

/-- The state `w'` agrees with `w` on everything the echo reference invariant reads. -/
def same_echo (w w' : hal) : Prop :=
  w'.echo_refs = w.echo_refs ∧ w'.adev.echo_reference = w.adev.echo_reference ∧
  ∀ t, (w'.adev.outputs t).map out_view = (w.adev.outputs t).map out_view


/-! ## Auxiliary channel negotiation -/

/-- A configuration common to the attached effects, in the words of the specification: a pair
whose main mask is the stream's and which appears in the declared configuration list of every
attached effect. -/
def declared_by_all (s : tuna_stream_in) (c : channel_config_t) : Prop :=
  c.main_channels = s.main_channels ∧ ∀ e ∈ s.effects, c ∈ e.channel_configs

instance (s : tuna_stream_in) (c : channel_config_t) : Decidable (declared_by_all s c) := by
  unfold declared_by_all
  exact inferInstance

/-- A candidate of `in_get_aux_channels`: a pair of the driver's table `in_aux_cnl_configs`
whose main mask is the stream's and which every attached effect declares, that is, a pair of
the table that is `declared_by_all`. -/
def common_config (h : audio_hw_h) (s : tuna_stream_in) (c : channel_config_t) : Prop :=
  c ∈ h.in_aux_cnl_configs ∧ c.main_channels = s.main_channels ∧
  ∀ e ∈ s.effects, c ∈ e.channel_configs

instance (h : audio_hw_h) (s : tuna_stream_in) (c : channel_config_t) :
    Decidable (common_config h s c) := by
  unfold common_config
  exact inferInstance

/-- Every command that `in_configure_effect_channels` sends to an effect succeeds: the call
returns 0 and, for the commands that reply a status, the status replied is 0. -/
def commands_succeed (o : configure_outcome) : Prop :=
  o.get_config = 0 ∧
  o.set_config.fct_status = 0 ∧ o.set_config.cmd_status = 0 ∧
  o.set_feature_config.fct_status = 0 ∧ o.set_feature_config.cmd_status = 0 ∧
  o.enable.fct_status = 0 ∧ o.enable.cmd_status = 0

instance (o : configure_outcome) : Decidable (commands_succeed o) := by
  unfold commands_succeed
  exact inferInstance

/-- The reconfiguration of the effects succeeds, in the words of the specification: every
effect that is addressed accepts every command.  All attached effects are addressed when the
configuration changed, only the effect being added when it did not change and auxiliary
channels are present, and none otherwise. -/
def reconfigure_succeeds (s : tuna_stream_in) (effect : Option Nat) (aux_channels : Nat)
    (config_changed : Bool) (o : reconfigure_oracle) : Prop :=
  if config_changed then ∀ k < s.num_preprocessors, commands_succeed (o.each k)
  else if effect ≠ none ∧ aux_channels ≠ 0 then commands_succeed o.added
  else True

/-- What the effect list of an input stream consists of: the slots and the number of attached
effects. -/
def fx_view (s : tuna_stream_in) : List effect_info_s × Nat :=
  (s.preprocessors, s.num_preprocessors)

/-- The state `w'` has the same effect lists as `w`. -/
def same_fx (w w' : hal) : Prop :=
  ∀ k, (w'.ins k).map fx_view = (w.ins k).map fx_view

/-! ## Output stream variants -/

/-- The variant an open request selects: the branches of `adev_open_output_stream` on `flags`
and `devices`. -/
def requested_output_type (devices flags : Nat) : output_type :=
  if flags &&& AUDIO_OUTPUT_FLAG_DIRECT ≠ 0 ∧ devices = AUDIO_DEVICE_OUT_AUX_DIGITAL then
    OUTPUT_HDMI
  else if flags &&& AUDIO_OUTPUT_FLAG_DEEP_BUFFER ≠ 0 then OUTPUT_DEEP_BUF
  else OUTPUT_LOW_LATENCY

/-! ## Views of the streams for the standby and routing claims -/

/-- The activity of an output stream: its standby flag and its transport endpoints. -/
def pcm_view (o : tuna_stream_out) : Bool × Option pcm × Option pcm × Option pcm :=
  (o.standby, o.pcm_normal, o.pcm_spdif, o.pcm_hdmi)

/-! ## The mute window of the voice uplink -/

/-- The transformer `f` only appends requests to the log: first the requests `pre`, then
requests none of which addresses the control `n`, then the requests `post`. -/
def Avoids (n : String) (pre post : List hw_event) (f : hw_state → hw_state) : Prop :=
  ∀ s, ∃ es, (f s).trace = s.trace ++ (pre ++ es ++ post) ∧ ∀ e ∈ es, e.target ≠ some n

/-- The controls of the device other than the voice uplink volume. -/
def other_ctls (c : mixer_ctls) : List String :=
  [c.dl1_eq, c.mm_dl1_volume, c.tones_dl1_volume, c.mm_dl2_volume, c.vx_dl2_volume,
    c.tones_dl2_volume, c.mm_dl1, c.vx_dl1, c.tones_dl1, c.mm_dl2, c.vx_dl2, c.tones_dl2,
    c.dl2_mono, c.dl1_headset, c.dl1_bt, c.earpiece_enable, c.left_capture, c.right_capture,
    c.amic_ul_volume, c.sidetone_capture, c.headset_volume, c.speaker_volume, c.earpiece_volume]

/-- The voice uplink volume control is a control of its own: no other control of the device
and no entry of a route table applied by output routing has its name. -/
def vul_exclusive (h : audio_hw_h) (c : mixer_ctls) : Prop :=
  (∀ n ∈ other_ctls c, n ≠ c.voice_ul_volume) ∧
  ∀ r ∈ h.hs_output ++ h.hf_output ++ h.vx_ul_bt ++ h.vx_ul_amic_left ++ h.vx_ul_amic_right,
    r.ctl_name ≠ c.voice_ul_volume

instance (h : audio_hw_h) (c : mixer_ctls) : Decidable (vul_exclusive h c) := by
  unfold vul_exclusive
  exact inferInstance

/-! ## The single active input -/

/-- Every active input stream is the one the device's `active_input` refers to. -/
def in_inv (w : hal) : Prop :=
  ∀ k s, w.ins k = some s → s.standby = false → w.adev.active_input = some k

/-- The state `w'` agrees with `w` on what `in_inv` reads: the device's `active_input` and the
standby flag of every input stream. -/
def same_in (w w' : hal) : Prop :=
  w'.adev.active_input = w.adev.active_input ∧
  ∀ k, (w'.ins k).map (fun s => s.standby) = (w.ins k).map (fun s => s.standby)

/-- The condition under which the input stream with handle `i` is read in the state `w`: if the
read has to start the stream (it is in standby), no input stream is active. -/
def start_alone (w : hal) (i : Nat) : Prop :=
  ∀ s, w.ins i = some s → s.standby = true → ∀ k t, w.ins k = some t → t.standby = true

/-- One entry point of the HAL leads from `w` to `w'`, as in `step`, where `in_read` is only
called under the condition `start_alone`. -/
inductive solo_step (h : audio_hw_h) : hal → hal → Prop
  | set_mode (w : hal) (mode : Int) (dl_ready ul_ready : Bool) :
      solo_step h w (adev_set_mode h w mode dl_ready ul_ready).2
  | set_parameters (w : hal) (tty bt_nrec screen_state : Option String) :
      solo_step h w (adev_set_parameters h w tty bt_nrec screen_state).2
  | set_mic_mute (w : hal) (state : Bool) : solo_step h w (adev_set_mic_mute h w state).2
  | set_voice_volume (w : hal) (volume : Nat) :
      solo_step h w (adev_set_voice_volume w volume).2
  | wb_amr (w : hal) (enable : Int) (dl_ready ul_ready : Bool) :
      solo_step h w (audio_set_wb_amr_callback h w enable dl_ready ul_ready)
  | open_output (w : hal) (devices flags sample_rate channel_mask : Nat) (alloc_ok : Bool)
      (max_channels resampler_status : Int) :
      solo_step h w (adev_open_output_stream h w devices flags sample_rate channel_mask alloc_ok
        max_channels resampler_status).2.2
  | close_output (w : hal) (t : output_type) : solo_step h w (adev_close_output_stream h w t)
  | out_standby (w : hal) (t : output_type) : solo_step h w (out_standby h w t).2
  | out_set_parameters (w : hal) (t : output_type) (routing : Option Nat) :
      solo_step h w (out_set_parameters h w t routing)
  | out_set_volume_hdmi (w : hal) (left_is_zero : Bool) :
      solo_step h w (out_set_volume_hdmi w left_is_zero).2
  | write_low_latency (w : hal) (bytes : Nat) (r_normal r_spdif r_hdmi : Bool)
      (write_status : Int) :
      solo_step h w (out_write_low_latency h w bytes r_normal r_spdif r_hdmi write_status).2
  | write_deep_buffer (w : hal) (bytes : Nat) (ready : Bool) (write_status : Int) :
      solo_step h w (out_write_deep_buffer h w bytes ready write_status).2
  | write_hdmi (w : hal) (bytes : Nat) (ready : Bool) :
      solo_step h w (out_write_hdmi h w bytes ready).2
  | open_input (w : hal) (devices sample_rate : Nat) (format : Int) (channel_mask : Nat)
      (alloc_ok : Bool) (resampler_status : Int) :
      solo_step h w (adev_open_input_stream h w devices sample_rate format channel_mask alloc_ok
        resampler_status).2.2
  | close_input (w : hal) (i : Nat) : solo_step h w (adev_close_input_stream h w i)
  | in_standby (w : hal) (i : Nat) : solo_step h w (in_standby h w i).2
  | in_set_parameters (w : hal) (i : Nat) (source : Option Int) (routing : Option Nat)
      (o1 o2 : reconfigure_oracle) : solo_step h w (in_set_parameters h w i source routing o1 o2)
  | in_read (w : hal) (i : Nat) (bytes : Nat) (resampler_status echo_status : Int)
      (pcm_ready : Bool) (io : read_outcome) (alone : start_alone w i) :
      solo_step h w (in_read h w i bytes resampler_status echo_status pcm_ready io).2
  | add_audio_effect (w : hal) (i effect : Nat) (desc_status : Int) (is_aec : Bool)
      (reply : channel_configs_reply) (o1 o2 : reconfigure_oracle) :
      solo_step h w (in_add_audio_effect h w i effect desc_status is_aec reply o1 o2).2
  | remove_audio_effect (w : hal) (i effect : Nat) (desc_status : Int) (is_aec : Bool)
      (o1 o2 : reconfigure_oracle) :
      solo_step h w (in_remove_audio_effect h w i effect desc_status is_aec o1 o2).2

/-- The states reachable from a successful `adev_open` by any sequence of entry points in
which no input stream is started while an input stream is active. -/
inductive solo_reachable (h : audio_hw_h) : hal → Prop
  | opened (name_ok alloc_ok : Bool) (mixer : Option hw_state) (a : alsa_state) (w : hal)
      (hw : adev_open h name_ok alloc_ok mixer a = (0, some w)) : solo_reachable h w
  | next (w w' : hal) (hr : solo_reachable h w) (hs : solo_step h w w') : solo_reachable h w'

/-! ## Controls looked up at initialisation -/

/-- The names `adev_open` looks up, in the order of the source. -/
def named_ctls (c : mixer_ctls) : List String :=
  [c.dl1_eq, c.mm_dl1_volume, c.tones_dl1_volume, c.mm_dl2_volume, c.vx_dl2_volume,
   c.tones_dl2_volume, c.mm_dl1, c.vx_dl1, c.tones_dl1, c.mm_dl2, c.vx_dl2, c.tones_dl2,
   c.dl2_mono, c.dl1_headset, c.dl1_bt, c.earpiece_enable, c.left_capture, c.right_capture,
   c.amic_ul_volume, c.voice_ul_volume, c.sidetone_capture, c.headset_volume,
   c.speaker_volume, c.earpiece_volume]

/-! ## The call flag and the modem endpoints -/

/-- The states reachable from a successful `adev_open` by `adev_set_mode` calls and
wideband-AMR notifications, with any outcome of the modem transport opens if `ok` is false and
with every modem transport open succeeding if `ok` is true. -/
inductive call_reachable (h : audio_hw_h) (ok : Bool) : hal → Prop
  | opened (name_ok alloc_ok : Bool) (mixer : Option hw_state) (a : alsa_state) (w : hal)
      (hw : adev_open h name_ok alloc_ok mixer a = (0, some w)) : call_reachable h ok w
  | set_mode (w : hal) (mode : Int) (dl_ready ul_ready : Bool) (hr : call_reachable h ok w)
      (hok : ok = true → dl_ready = true ∧ ul_ready = true) :
      call_reachable h ok (adev_set_mode h w mode dl_ready ul_ready).2
  | wb_amr (w : hal) (enable : Int) (dl_ready ul_ready : Bool) (hr : call_reachable h ok w)
      (hok : ok = true → dl_ready = true ∧ ul_ready = true) :
      call_reachable h ok (audio_set_wb_amr_callback h w enable dl_ready ul_ready)

/-- The relation between the call flag and the modem endpoints: the endpoints are both open or
both closed, closed outside of a call, and (if `ok`) open during a call. -/
def modem_inv (ok : Bool) (w : hal) : Prop :=
  w.adev.pcm_modem_dl.isSome = w.adev.pcm_modem_ul.isSome ∧
  (w.adev.in_call = false → w.adev.pcm_modem_dl = none ∧ w.adev.pcm_modem_ul = none) ∧
  (ok = true → w.adev.in_call = true →
    w.adev.pcm_modem_dl.isSome = true ∧ w.adev.pcm_modem_ul.isSome = true)

/-! ## The write threshold of the deep-buffer output -/

/-- The deep-buffer output stream of the state. -/
def deep_out (w : hal) : Option tuna_stream_out := w.adev.outputs OUTPUT_DEEP_BUF

/-- The threshold rule of the deep-buffer output: the long-period threshold in long-period
mode, the short-period threshold otherwise. -/
def threshold_ok (h : audio_hw_h) (o : tuna_stream_out) : Prop :=
  o.write_threshold =
    if o.use_long_periods then h.DEEP_BUFFER_LONG_PERIOD_WRITE_THRES
    else h.DEEP_BUFFER_SHORT_PERIOD_WRITE_THRES

/-- The threshold invariant: an active deep-buffer output obeys the threshold rule. -/
def deep_inv (h : audio_hw_h) (w : hal) : Prop :=
  ∀ o, deep_out w = some o → o.standby = false → threshold_ok h o

/-- A deep-buffer output that is active in `w2` is the one of `w1`, unchanged. -/
def deep_keep (w1 w2 : hal) : Prop :=
  ∀ o, deep_out w2 = some o → o.standby = false → deep_out w1 = some o
/-! ## Lemmas on request sequences -/

theorem emits_nil (s : hw_state) : s.emits [] = s := rfl

theorem emits_cons (s : hw_state) (e : hw_event) (es : List hw_event) :
    s.emits (e :: es) = (s.emit e).emits es := rfl

theorem emits_append (s : hw_state) (a b : List hw_event) :
    s.emits (a ++ b) = (s.emits a).emits b := by
  simp [hw_state.emits, List.foldl_append]

theorem emits_ctls (s : hw_state) (es : List hw_event) :
    (s.emits es).ctls = apply_all es s.ctls := by
  induction es generalizing s with
  | nil => rfl
  | cons e es ih => rw [emits_cons, ih]; rfl

theorem emits_trace (s : hw_state) (es : List hw_event) :
    (s.emits es).trace = s.trace ++ es := by
  induction es generalizing s with
  | nil => simp [emits_nil]
  | cons e es ih => rw [emits_cons, ih]; simp [hw_state.emit]

theorem on_ctl_length (e : hw_event) (c : mixer_ctl) :
    (e.on_ctl c).values.length = c.values.length := by
  cases e <;> simp [hw_event.on_ctl]

theorem on_ctl_range_max (e : hw_event) (c : mixer_ctl) :
    (e.on_ctl c).range_max = c.range_max := by
  cases e <;> simp [hw_event.on_ctl]

theorem apply_shape (e : hw_event) (m : String → Option mixer_ctl) :
    ctl_shape (e.apply m) = ctl_shape m := by
  funext k
  unfold hw_event.apply ctl_shape
  cases e.target with
  | none => rfl
  | some n =>
    simp only [modify_ctl]
    split
    · cases m k <;> simp [on_ctl_length, on_ctl_range_max]
    · rfl

theorem apply_all_shape (es : List hw_event) (m : String → Option mixer_ctl) :
    ctl_shape (apply_all es m) = ctl_shape m := by
  induction es generalizing m with
  | nil => rfl
  | cons e es ih =>
    show ctl_shape (apply_all es (e.apply m)) = _
    rw [ih, apply_shape]

theorem emits_shape (s : hw_state) (es : List hw_event) :
    ctl_shape (s.emits es).ctls = ctl_shape s.ctls := by
  rw [emits_ctls, apply_all_shape]

theorem Emits.id : Emits (fun s => s) := ⟨fun _ => [], fun _ => rfl⟩

theorem Emits.comp {f g : hw_state → hw_state} (hg : Emits g) (hf : Emits f) :
    Emits (fun s => g (f s)) := by
  obtain ⟨Ef, hf⟩ := hf
  obtain ⟨Eg, hg⟩ := hg
  refine ⟨fun sh => Ef sh ++ Eg sh, fun s => ?_⟩
  show g (f s) = s.emits (Ef (ctl_shape s.ctls) ++ Eg (ctl_shape s.ctls))
  rw [hg, hf, emits_shape, emits_append]

theorem Emits.emit (e : hw_event) : Emits (fun s => s.emit e) :=
  ⟨fun _ => [e], fun _ => rfl⟩

theorem Emits.ite {f g : hw_state → hw_state} (c : Prop) [Decidable c]
    (hf : Emits f) (hg : Emits g) : Emits (fun s => if c then f s else g s) := by
  by_cases hc : c
  · simpa [hc] using hf
  · simpa [hc] using hg

theorem Emits.of_shape {α : Type} (r : (String → Option (Nat × Int)) → α)
    (F : α → hw_state → hw_state) (hF : ∀ x, Emits (F x)) :
    Emits (fun s => F (r (ctl_shape s.ctls)) s) := by
  choose E hE using hF
  exact ⟨fun sh => E (r sh) sh, fun s => hE _ s⟩

theorem Emits.set_value {f : hw_state → hw_state} (hf : Emits f) (ctl : String) (id : Nat)
    (v : Int) : Emits (fun s => mixer_ctl_set_value (f s) ctl id v) :=
  Emits.comp (Emits.emit _) hf

theorem Emits.set_enum {f : hw_state → hw_state} (hf : Emits f) (ctl : String)
    (v : String) : Emits (fun s => mixer_ctl_set_enum_by_string (f s) ctl v) :=
  Emits.comp (Emits.emit _) hf

theorem foldl_emit (l : List Nat) (e : Nat → hw_event) (s : hw_state) :
    l.foldl (fun s j => s.emit (e j)) s = s.emits (l.map e) := by
  induction l generalizing s with
  | nil => rfl
  | cons a l ih => simp only [List.foldl_cons, List.map_cons, emits_cons, ih]

theorem num_values_shape (s : hw_state) (ctl : String) :
    mixer_ctl_get_num_values s ctl = ((ctl_shape s.ctls ctl).map Prod.fst).getD 0 := by
  unfold mixer_ctl_get_num_values ctl_shape
  cases s.ctls ctl <;> rfl

theorem range_max_shape (s : hw_state) (ctl : String) :
    mixer_ctl_get_range_max s ctl = ((ctl_shape s.ctls ctl).map Prod.snd).getD (-EINVAL) := by
  unfold mixer_ctl_get_range_max ctl_shape
  cases s.ctls ctl <;> rfl

theorem get_ctl_shape (s : hw_state) (name : String) :
    mixer_get_ctl_by_name s name = if (ctl_shape s.ctls name).isSome then some name else none := by
  unfold mixer_get_ctl_by_name ctl_shape
  cases s.ctls name <;> rfl

theorem Emits.set_all_values_base (ctl : String) (v : Int) :
    Emits (fun s => set_all_values s ctl v) := by
  refine ⟨fun sh => (List.range (((sh ctl).map Prod.fst).getD 0)).map
    (fun j => hw_event.set_value ctl j v), fun s => ?_⟩
  show set_all_values s ctl v = _
  unfold set_all_values
  rw [num_values_shape]
  exact foldl_emit _ _ s

theorem Emits.set_route_base (route : List route_setting) (enable : Bool) :
    Emits (fun s => (set_route_by_array s route enable).2) := by
  induction route with
  | nil => exact Emits.id
  | cons r rest ih =>
    let F : Bool → hw_state → hw_state := fun b s =>
      if b = true then
        (set_route_by_array
          (match r.strval with
            | some str =>
              if enable = true then mixer_ctl_set_enum_by_string s r.ctl_name str
              else mixer_ctl_set_enum_by_string s r.ctl_name "Off"
            | none =>
              if enable = true then set_all_values s r.ctl_name r.intval
              else set_all_values s r.ctl_name 0) rest enable).2
      else s
    let q : (String → Option (Nat × Int)) → Bool := fun sh => (sh r.ctl_name).isSome
    have key : (fun s => (set_route_by_array s (r :: rest) enable).2) =
        fun s => F (q (ctl_shape s.ctls)) s := by
      funext s
      simp only [set_route_by_array, get_ctl_shape, F, q]
      by_cases hs : (ctl_shape s.ctls r.ctl_name).isSome = true
      · simp only [hs, if_true]
      · simp only [hs, if_false]
        simp
    rw [key]
    refine Emits.of_shape q F (fun b => ?_)
    refine Emits.ite _ ?_ Emits.id
    refine Emits.comp ih ?_
    cases r.strval with
    | some str => exact Emits.ite _ (Emits.emit _) (Emits.emit _)
    | none => exact Emits.ite _ (Emits.set_all_values_base _ _) (Emits.set_all_values_base _ _)

theorem Emits.set_route {f : hw_state → hw_state} (hf : Emits f) (route : List route_setting)
    (enable : Bool) : Emits (fun s => (set_route_by_array (f s) route enable).2) :=
  Emits.comp (Emits.set_route_base route enable) hf

theorem Emits.set_eq_filter_base (h : audio_hw_h) (adev : tuna_audio_device) :
    Emits (set_eq_filter h adev) := by
  show Emits (fun s => set_eq_filter h adev s)
  simp only [set_eq_filter]
  exact Emits.ite _ (Emits.emit _) (Emits.emit _)

theorem Emits.set_incall_device_base (h : audio_hw_h) (adev : tuna_audio_device) :
    Emits (set_incall_device h adev) :=
  Emits.emit _

theorem Emits.set_input_volumes_base (h : audio_hw_h) (adev : tuna_audio_device)
    (act : Option tuna_stream_in) (a b c : Bool) :
    Emits (set_input_volumes h adev act a b c) := by
  show Emits (fun s => set_input_volumes h adev act a b c s)
  simp only [set_input_volumes]
  exact Emits.set_value (Emits.set_value Emits.id _ _ _) _ _ _

theorem Emits.write_output_volumes_base (h : audio_hw_h) (adev : tuna_audio_device)
    (v : output_volumes) : Emits (write_output_volumes h adev v) := by
  show Emits (fun s => write_output_volumes h adev v s)
  simp only [write_output_volumes]
  repeat (first
    | exact Emits.id
    | with_reducible apply Emits.set_value
    | with_reducible apply Emits.ite)

theorem Emits.set_output_volumes_base (h : audio_hw_h) (adev : tuna_audio_device)
    (tty_volume : Bool) : Emits (set_output_volumes h adev tty_volume) := by
  have key : set_output_volumes h adev tty_volume = fun s =>
      (fun (x : Int) (s : hw_state) => write_output_volumes h adev
        (compute_output_volumes h adev tty_volume (h.DB_FROM_SPEAKER_VOLUME x)) s)
      ((fun sh => ((sh adev.mixer_ctls.speaker_volume).map Prod.snd).getD (-EINVAL))
        (ctl_shape s.ctls)) s := by
    funext s
    simp only [set_output_volumes, range_max_shape]
  rw [key]
  exact Emits.of_shape
    (fun sh => ((sh adev.mixer_ctls.speaker_volume).map Prod.snd).getD (-EINVAL))
    (fun (x : Int) (s : hw_state) => write_output_volumes h adev
        (compute_output_volumes h adev tty_volume (h.DB_FROM_SPEAKER_VOLUME x)) s)
    (fun x => Emits.write_output_volumes_base h adev _)

theorem Emits.post {g f : hw_state → hw_state} (hg : Emits g) (hf : Emits f) :
    Emits (fun s => g (f s)) := Emits.comp hg hf

theorem Emits.select_output_device_switch_base (h : audio_hw_h) (adev : tuna_audio_device) :
    Emits (select_output_device_switch h adev) := by
  show Emits (fun s => select_output_device_switch h adev s)
  simp only [select_output_device_switch]
  repeat (first
    | exact Emits.id
    | with_reducible apply Emits.set_value
    | with_reducible apply Emits.set_route
    | with_reducible apply Emits.ite
    | with_reducible apply Emits.post (Emits.set_eq_filter_base h adev))

theorem Emits.select_output_device_capture_base (h : audio_hw_h) (adev : tuna_audio_device)
    (act : Option tuna_stream_in) : Emits (select_output_device_capture h adev act) := by
  show Emits (fun s => select_output_device_capture h adev act s)
  simp only [select_output_device_capture]
  repeat (first
    | exact Emits.id
    | with_reducible apply Emits.set_value
    | with_reducible apply Emits.set_enum
    | with_reducible apply Emits.set_route
    | with_reducible apply Emits.ite
    | with_reducible apply Emits.post (Emits.set_incall_device_base h adev)
    | with_reducible apply Emits.post (Emits.set_input_volumes_base h adev act _ _ _))

theorem Emits.select_output_device_base (h : audio_hw_h) (adev : tuna_audio_device)
    (act : Option tuna_stream_in) : Emits (select_output_device h adev act) := by
  show Emits (fun s => select_output_device_capture h adev act
    (set_output_volumes h adev (rx_flags adev).tty_volume (select_output_device_switch h adev s)))
  exact Emits.post (Emits.select_output_device_capture_base h adev act)
    (Emits.post (Emits.set_output_volumes_base h adev _)
      (Emits.select_output_device_switch_base h adev))

theorem Emits.select_input_device_base (h : audio_hw_h) (adev : tuna_audio_device)
    (act : Option tuna_stream_in) : Emits (select_input_device h adev act) := by
  show Emits (fun s => select_input_device h adev act s)
  simp only [select_input_device]
  repeat (first
    | exact Emits.id
    | with_reducible apply Emits.set_enum
    | with_reducible apply Emits.set_route
    | with_reducible apply Emits.ite
    | with_reducible apply Emits.post (Emits.set_input_volumes_base h adev act _ _ _))

/-! ## Re-issuing a request sequence changes nothing -/

theorem modify_ctl_modify_ctl (n : String) (g g' : mixer_ctl → mixer_ctl)
    (m : String → Option mixer_ctl) :
    modify_ctl n g (modify_ctl n g' m) = modify_ctl n (fun c => g (g' c)) m := by
  funext k
  unfold modify_ctl
  by_cases hk : k = n
  · simp [hk, Option.map_map, Function.comp_def]
  · simp [hk]

theorem modify_ctl_comm_of_ne {n n' : String} (hn : n ≠ n') (g g' : mixer_ctl → mixer_ctl)
    (m : String → Option mixer_ctl) :
    modify_ctl n g (modify_ctl n' g' m) = modify_ctl n' g' (modify_ctl n g m) := by
  funext k
  unfold modify_ctl
  by_cases hk : k = n
  · have : k ≠ n' := fun hk' => hn (hk ▸ hk')
    simp [hk, this, hn]
  · by_cases hk' : k = n'
    · subst hk'
      have : ¬ k = n := hk
      simp [this]
    · simp [hk, hk']

/-- Two writes to one control either absorb (the later one wins) or commute. -/
theorem on_ctl_absorb_or_comm (a b : hw_event) :
    (∀ c, a.on_ctl (b.on_ctl c) = a.on_ctl c) ∨
    (∀ c, a.on_ctl (b.on_ctl c) = b.on_ctl (a.on_ctl c)) := by
  cases a with
  | set_value n i v =>
    cases b with
    | set_value n' i' v' =>
      by_cases hi : i = i'
      · left; intro c; subst hi; simp [hw_event.on_ctl, List.set_set]
      · right; intro c
        simp only [hw_event.on_ctl]
        rw [List.set_comm v' v c.values (Ne.symm hi)]
    | set_enum n' t => right; intro c; rfl
    | ril_call_audio_path p => right; intro c; rfl
    | ril_call_volume p => right; intro c; rfl
  | set_enum n t =>
    cases b with
    | set_value n' i' v' => right; intro c; rfl
    | set_enum n' t' => left; intro c; rfl
    | ril_call_audio_path p => right; intro c; rfl
    | ril_call_volume p => right; intro c; rfl
  | ril_call_audio_path p => right; intro c; cases b <;> rfl
  | ril_call_volume p => right; intro c; cases b <;> rfl

theorem on_ctl_idem (a : hw_event) (c : mixer_ctl) : a.on_ctl (a.on_ctl c) = a.on_ctl c := by
  cases a <;> simp [hw_event.on_ctl, List.set_set]

theorem apply_idem (a : hw_event) (m : String → Option mixer_ctl) :
    a.apply (a.apply m) = a.apply m := by
  unfold hw_event.apply
  cases a.target with
  | none => rfl
  | some n =>
    simp only [modify_ctl_modify_ctl, on_ctl_idem]

/-- Two requests either absorb (the later one wins) or commute. -/
theorem apply_absorb_or_comm (a b : hw_event) :
    (∀ m, a.apply (b.apply m) = a.apply m) ∨
    (∀ m, a.apply (b.apply m) = b.apply (a.apply m)) := by
  unfold hw_event.apply
  cases ha : a.target with
  | none => right; intro m; rfl
  | some n =>
    cases hb : b.target with
    | none => right; intro m; rfl
    | some n' =>
      by_cases hn : n = n'
      · subst hn
        rcases on_ctl_absorb_or_comm a b with h | h
        · left; intro m
          simp only [modify_ctl_modify_ctl, h]
        · right; intro m
          simp only [modify_ctl_modify_ctl, h]
      · right; intro m
        exact modify_ctl_comm_of_ne hn _ _ m

theorem apply_all_append (u w : List hw_event) (m : String → Option mixer_ctl) :
    apply_all (u ++ w) m = apply_all w (apply_all u m) := by
  simp [apply_all, List.foldl_append]

theorem apply_all_snoc (w : List hw_event) (b : hw_event) (m : String → Option mixer_ctl) :
    apply_all (w ++ [b]) m = b.apply (apply_all w m) := by
  rw [apply_all_append]; rfl

/-- A request repeated after an intervening sequence makes its first issue redundant. -/
theorem apply_sandwich (a : hw_event) (w : List hw_event) (m : String → Option mixer_ctl) :
    a.apply (apply_all w (a.apply m)) = a.apply (apply_all w m) := by
  induction w using List.reverseRecOn with
  | nil => exact apply_idem a m
  | append_singleton w b ih =>
    rw [apply_all_snoc, apply_all_snoc]
    rcases apply_absorb_or_comm a b with hab | hab
    · rw [hab, hab, ih]
    · rw [hab, hab, ih]

/-- Issuing a sequence of requests twice leaves the controls as after issuing it once. -/
theorem apply_all_idem (w : List hw_event) (m : String → Option mixer_ctl) :
    apply_all w (apply_all w m) = apply_all w m := by
  induction w using List.reverseRecOn generalizing m with
  | nil => rfl
  | append_singleton w a ih =>
    rw [apply_all_snoc, apply_all_snoc, apply_sandwich, ih]

/-- A transformer that only issues requests is idempotent on the mixer controls. -/
theorem Emits.idem {f : hw_state → hw_state} (hf : Emits f) (s : hw_state) :
    (f (f s)).ctls = (f s).ctls := by
  obtain ⟨E, hE⟩ := hf
  rw [hE (f s), hE s, emits_shape, emits_ctls, emits_ctls, apply_all_idem]

/-! ## Requests issued by the routing functions -/

theorem issued_emits (s : hw_state) (es : List hw_event) : issued s (s.emits es) = es := by
  simp [issued, emits_trace]

theorem Emits.issued_spec {f : hw_state → hw_state} (hf : Emits f) (s : hw_state) :
    f s = s.emits (issued s (f s)) := by
  obtain ⟨E, hE⟩ := hf
  rw [hE s, issued_emits]

theorem Emits.shape_eq {f : hw_state → hw_state} (hf : Emits f) (s : hw_state) :
    ctl_shape (f s).ctls = ctl_shape s.ctls := by
  obtain ⟨E, hE⟩ := hf
  rw [hE s, emits_shape]

theorem Emits.range_max_eq {f : hw_state → hw_state} (hf : Emits f) (s : hw_state)
    (ctl : String) : mixer_ctl_get_range_max (f s) ctl = mixer_ctl_get_range_max s ctl := by
  rw [range_max_shape, range_max_shape, hf.shape_eq]

/-- Requests issued by an inner step are among those issued by the whole sequence. -/
theorem issued_mid {f g k : hw_state → hw_state} (hf : Emits f) (hg : Emits g) (hk : Emits k)
    (s : hw_state) (e : hw_event) (he : e ∈ issued (f s) (g (f s))) :
    e ∈ issued s (k (g (f s))) := by
  have h1 := hf.issued_spec s
  have h2 := hg.issued_spec (f s)
  have h3 := hk.issued_spec (g (f s))
  have : k (g (f s)) = s.emits (issued s (f s) ++ issued (f s) (g (f s)) ++
      issued (g (f s)) (k (g (f s)))) := by
    rw [emits_append, emits_append, ← h1, ← h2, ← h3]
  rw [this, issued_emits]
  simp [he]

theorem issued_write_output_volumes (h : audio_hw_h) (adev : tuna_audio_device)
    (v : output_volumes) (s : hw_state) :
    issued s (write_output_volumes h adev v s) =
      [ .set_value adev.mixer_ctls.speaker_volume 0 (h.DB_TO_SPEAKER_VOLUME v.speaker_volume),
        .set_value adev.mixer_ctls.headset_volume 0 (h.DB_TO_HEADSET_VOLUME v.headset_volume),
        .set_value adev.mixer_ctls.speaker_volume 1 (h.DB_TO_SPEAKER_VOLUME v.speaker_volume),
        .set_value adev.mixer_ctls.headset_volume 1 (h.DB_TO_HEADSET_VOLUME v.headset_volume) ]
      ++ (if adev.mode = AUDIO_MODE_IN_CALL then
            [ .set_value adev.mixer_ctls.tones_dl1_volume 0
                (h.MIXER_ABE_GAIN_0DB + v.dl1_volume_correction),
              .set_value adev.mixer_ctls.vx_dl2_volume 0 v.speaker_volume_overrange,
              .set_value adev.mixer_ctls.tones_dl2_volume 0
                (v.speaker_volume_overrange + v.dl2_volume_correction) ]
          else if adev.mode = AUDIO_MODE_IN_COMMUNICATION ∨ adev.mode = AUDIO_MODE_RINGTONE then
            [ .set_value adev.mixer_ctls.tones_dl1_volume 0 h.MIXER_ABE_GAIN_0DB,
              .set_value adev.mixer_ctls.tones_dl2_volume 0 v.speaker_volume_overrange ]
          else
            [ .set_value adev.mixer_ctls.tones_dl1_volume 0
                (h.MIXER_ABE_GAIN_0DB + v.dl1_volume_correction),
              .set_value adev.mixer_ctls.tones_dl2_volume 0
                (v.speaker_volume_overrange + v.dl2_volume_correction) ])
      ++ [ .set_value adev.mixer_ctls.mm_dl1_volume 0
             (h.MIXER_ABE_GAIN_0DB + v.dl1_volume_correction),
           .set_value adev.mixer_ctls.mm_dl2_volume 0
             (v.speaker_volume_overrange + v.dl2_volume_correction),
           .set_value adev.mixer_ctls.earpiece_volume 0
             (h.DB_TO_EARPIECE_VOLUME v.earpiece_volume) ] := by
  unfold write_output_volumes issued
  simp only [mixer_ctl_set_value, hw_state.emit]
  split_ifs <;> simp

theorem issued_set_output_volumes (h : audio_hw_h) (adev : tuna_audio_device)
    (tty_volume : Bool) (s : hw_state) :
    issued s (set_output_volumes h adev tty_volume s) =
      issued s (write_output_volumes h adev (compute_output_volumes h adev tty_volume
        (h.DB_FROM_SPEAKER_VOLUME (mixer_ctl_get_range_max s adev.mixer_ctls.speaker_volume))) s) :=
  rfl

theorem compute_speaker_volume (h : audio_hw_h) (adev : tuna_audio_device) (tty_volume : Bool)
    (speaker_max_db : Int) :
    (compute_output_volumes h adev tty_volume speaker_max_db).speaker_volume =
      min (if adev.mode = AUDIO_MODE_IN_CALL then h.VOICE_CALL_SPEAKER_VOLUME
           else if adev.mode = AUDIO_MODE_IN_COMMUNICATION then h.VOIP_SPEAKER_VOLUME
           else h.NORMAL_SPEAKER_VOLUME) speaker_max_db := by
  simp only [compute_output_volumes]
  split_ifs <;> omega

theorem compute_speaker_volume_overrange (h : audio_hw_h) (adev : tuna_audio_device)
    (tty_volume : Bool) (speaker_max_db : Int) :
    (compute_output_volumes h adev tty_volume speaker_max_db).speaker_volume_overrange =
      if adev.out_device &&& AUDIO_DEVICE_OUT_SPEAKER ≠ 0 ∧
          (if adev.mode = AUDIO_MODE_IN_CALL then h.VOICE_CALL_SPEAKER_VOLUME
           else if adev.mode = AUDIO_MODE_IN_COMMUNICATION then h.VOIP_SPEAKER_VOLUME
           else h.NORMAL_SPEAKER_VOLUME) > speaker_max_db
      then h.MIXER_ABE_GAIN_0DB +
          ((if adev.mode = AUDIO_MODE_IN_CALL then h.VOICE_CALL_SPEAKER_VOLUME
            else if adev.mode = AUDIO_MODE_IN_COMMUNICATION then h.VOIP_SPEAKER_VOLUME
            else h.NORMAL_SPEAKER_VOLUME) - speaker_max_db)
      else h.MIXER_ABE_GAIN_0DB := by
  simp only [compute_output_volumes]
  split_ifs <;> first | rfl | omega

theorem compute_dl2_volume_correction (h : audio_hw_h) (adev : tuna_audio_device)
    (tty_volume : Bool) (speaker_max_db : Int) :
    (compute_output_volumes h adev tty_volume speaker_max_db).dl2_volume_correction =
      if adev.out_device &&& AUDIO_DEVICE_OUT_SPEAKER ≠ 0 then
        h.NORMAL_SPEAKER_VOLUME -
          (if adev.mode = AUDIO_MODE_IN_CALL then h.VOICE_CALL_SPEAKER_VOLUME
           else if adev.mode = AUDIO_MODE_IN_COMMUNICATION then h.VOIP_SPEAKER_VOLUME
           else h.NORMAL_SPEAKER_VOLUME)
      else 0 := by
  simp only [compute_output_volumes]

/-! ## Preservation of the echo reference invariant -/

theorem echo_ok_update (refs : List Nat) (dev_ref : Option Nat)
    (outs : output_type → Option tuna_stream_out) (t : output_type)
    (g : tuna_stream_out → tuna_stream_out)
    (hg : ∀ o, (g o).echo_reference = none ∨
      ((g o).echo_reference = o.echo_reference ∧ (o.standby = false → (g o).standby = false)))
    (hok : echo_ok refs dev_ref outs) :
    echo_ok refs dev_ref (fun k => if k = t then (outs t).map g else outs k) := by
  refine ⟨hok.1, fun t' out' h1 h2 => ?_⟩
  by_cases ht : t' = t
  · subst ht
    simp only [if_true] at h1
    cases ho : outs t' with
    | none => simp [ho] at h1
    | some o =>
      simp only [ho, Option.map_some', Option.some.injEq] at h1
      subst h1
      rcases hg o with hn | ⟨he, hs⟩
      · exact absurd hn h2
      · have := hok.2 t' o ho (he ▸ h2)
        exact ⟨this.1, hs this.2.1, he ▸ this.2.2⟩
  · simp only [ht, if_false] at h1
    exact hok.2 t' out' h1 h2

theorem echo_ok_set (refs : List Nat) (dev_ref : Option Nat)
    (outs : output_type → Option tuna_stream_out) (t : output_type)
    (o : Option tuna_stream_out) (ho : ∀ x, o = some x → x.echo_reference = none)
    (hok : echo_ok refs dev_ref outs) :
    echo_ok refs dev_ref (fun k => if k = t then o else outs k) := by
  refine ⟨hok.1, fun t' out' h1 h2 => ?_⟩
  by_cases ht : t' = t
  · simp only [ht, if_true] at h1
    exact absurd (ho out' h1) h2
  · simp only [ht, if_false] at h1
    exact hok.2 t' out' h1 h2

theorem echo_inv_update_out (w : hal) (t : output_type)
    (g : tuna_stream_out → tuna_stream_out)
    (hg : ∀ o, (g o).echo_reference = none ∨
      ((g o).echo_reference = o.echo_reference ∧ (o.standby = false → (g o).standby = false)))
    (hinv : echo_inv w) : echo_inv (w.update_out t g) :=
  echo_ok_update _ _ _ t g hg hinv

theorem echo_inv_set_out (w : hal) (t : output_type) (o : Option tuna_stream_out)
    (ho : ∀ x, o = some x → x.echo_reference = none) (hinv : echo_inv w) :
    echo_inv (w.set_out t o) :=
  echo_ok_set _ _ _ t o ho hinv

/-- A state that differs from `w` in nothing the invariant reads satisfies it if `w` does. -/
theorem echo_inv_congr {w w' : hal} (h1 : w'.echo_refs = w.echo_refs)
    (h2 : w'.adev.echo_reference = w.adev.echo_reference)
    (h3 : w'.adev.outputs = w.adev.outputs) (hinv : echo_inv w) : echo_inv w' := by
  unfold echo_inv at *
  rw [h1, h2, h3]
  exact hinv

theorem put_echo_reference_spec (w : hal) (reference : Option Nat)
    (hc : w.adev.echo_reference ≠ none ∧ reference = w.adev.echo_reference) :
    (put_echo_reference w reference).echo_refs =
        w.echo_refs.filter (fun r => decide (some r ≠ reference)) ∧
    (put_echo_reference w reference).adev.echo_reference = none ∧
    (put_echo_reference w reference).adev.outputs = fun k =>
      if k = OUTPUT_LOW_LATENCY then
        (w.adev.outputs OUTPUT_LOW_LATENCY).map
          (fun o => if o.standby = false then remove_echo_reference o reference else o)
      else w.adev.outputs k := by
  unfold put_echo_reference
  rw [if_pos hc]
  cases ho : w.adev.outputs OUTPUT_LOW_LATENCY with
  | none =>
    refine ⟨rfl, rfl, ?_⟩
    funext k
    by_cases hk : k = OUTPUT_LOW_LATENCY
    · subst hk; simp [ho]
    · simp [hk]
  | some out =>
    by_cases hs : out.standby = false
    · refine ⟨by simp [hs, hal.set_out], by simp [hs, hal.set_out], ?_⟩
      funext k
      by_cases hk : k = OUTPUT_LOW_LATENCY
      · subst hk; simp [hs, hal.set_out]
      · simp [hs, hk, hal.set_out]
    · refine ⟨by simp [hs], by simp [hs], ?_⟩
      funext k
      by_cases hk : k = OUTPUT_LOW_LATENCY
      · subst hk; simp [hs, ho]
      · simp [hs, hk]

theorem echo_inv_put (w : hal) (reference : Option Nat) (hinv : echo_inv w) :
    echo_inv (put_echo_reference w reference) := by
  by_cases hc : w.adev.echo_reference ≠ none ∧ reference = w.adev.echo_reference
  · obtain ⟨h1, h2, h3⟩ := put_echo_reference_spec w reference hc
    obtain ⟨hne, href⟩ := hc
    obtain ⟨r, hr⟩ := Option.ne_none_iff_exists'.mp hne
    have hrefs : w.echo_refs = [r] := by rw [hinv.1, hr]; rfl
    unfold echo_inv echo_ok
    rw [h1, h2, h3]
    refine ⟨by rw [hrefs, href, hr]; simp, fun t out ho hb => ?_⟩
    exfalso
    by_cases ht : t = OUTPUT_LOW_LATENCY
    · subst ht
      simp only [if_true] at ho
      cases hll : w.adev.outputs OUTPUT_LOW_LATENCY with
      | none => simp [hll] at ho
      | some ll =>
        simp only [hll, Option.map_some', Option.some.injEq] at ho
        subst ho
        by_cases hs : ll.standby = false
        · simp only [hs, if_true] at hb
          unfold remove_echo_reference at hb
          split_ifs at hb with hq
          · exact hb rfl
          · exact hq ((hinv.2 _ ll hll hb).2.2.trans href.symm)
        · simp only [hs, if_false] at hb
          exact hs (hinv.2 _ ll hll hb).2.1
    · simp only [ht, if_false] at ho
      exact ht (hinv.2 t out ho hb).1
  · unfold put_echo_reference
    rw [if_neg hc]
    exact hinv

/-- After `put_echo_reference` of the device's own reference the device slot is empty. -/
theorem put_own_echo_reference (w : hal) :
    (put_echo_reference w w.adev.echo_reference).adev.echo_reference = none := by
  by_cases hc : w.adev.echo_reference ≠ none
  · exact (put_echo_reference_spec w _ ⟨hc, rfl⟩).2.1
  · unfold put_echo_reference
    rw [if_neg (fun h => hc h.1)]
    exact not_not.mp hc

theorem echo_inv_get (w : hal) (status : Int) (hinv : echo_inv w) :
    echo_inv (get_echo_reference w status).2 := by
  have h1 := echo_inv_put w w.adev.echo_reference hinv
  have h2 := put_own_echo_reference w
  unfold get_echo_reference
  generalize put_echo_reference w w.adev.echo_reference = w1 at h1 h2
  simp only
  cases ho : w1.adev.outputs OUTPUT_LOW_LATENCY with
  | none => exact h1
  | some out =>
    by_cases hs : out.standby = false
    · simp only [hs, if_true]
      by_cases hst : status = 0
      · simp only [hst, if_true]
        have hrefs : w1.echo_refs = [] := by rw [h1.1, h2]; rfl
        unfold echo_inv echo_ok hal.update_out hal.set_out
        simp only [hrefs, ho, Option.map_some']
        refine ⟨rfl, fun t o hto hb => ?_⟩
        by_cases ht : t = OUTPUT_LOW_LATENCY
        · subst ht
          simp only [if_true, Option.some.injEq] at hto
          subst hto
          exact ⟨rfl, hs, rfl⟩
        · simp only [ht, if_false] at hto
          exact absurd (h1.2 t o hto hb).1 ht
      · simp only [hst, if_false]
        unfold echo_inv echo_ok
        refine ⟨by show w1.echo_refs = _; rw [h1.1, h2], fun t o hto hb => ?_⟩
        have := h1.2 t o hto hb
        rw [h2] at this
        exact absurd this.2.2 hb
    · simp only [hs, if_false]
      exact h1

theorem echo_inv_update_in (w : hal) (i : Nat) (g : tuna_stream_in → tuna_stream_in)
    (hinv : echo_inv w) : echo_inv (w.update_in i g) :=
  echo_inv_congr rfl rfl rfl hinv

theorem echo_inv_set_in (w : hal) (i : Nat) (s : Option tuna_stream_in)
    (hinv : echo_inv w) : echo_inv (w.set_in i s) :=
  echo_inv_congr rfl rfl rfl hinv

theorem echo_inv_select_output_device (h : audio_hw_h) (w : hal) (hinv : echo_inv w) :
    echo_inv (w.select_output_device h) :=
  echo_inv_congr rfl rfl rfl hinv

theorem echo_inv_select_input_device (h : audio_hw_h) (w : hal) (hinv : echo_inv w) :
    echo_inv (w.select_input_device h) :=
  echo_inv_congr rfl rfl rfl hinv

/-- Replacing the device structure by one with the same echo reference slot and the same
outputs, and anything but the echo reference objects, keeps the invariant. -/
theorem echo_inv_with (w : hal) (adev : tuna_audio_device) (ins : Nat → Option tuna_stream_in)
    (next_in : Nat) (hw : hw_state) (alsa : alsa_state) (next_ref rate : Nat)
    (h1 : adev.echo_reference = w.adev.echo_reference) (h2 : adev.outputs = w.adev.outputs)
    (hinv : echo_inv w) :
    echo_inv { adev := adev, ins := ins, next_in := next_in, hw := hw, alsa := alsa,
               echo_refs := w.echo_refs, next_ref := next_ref, pcm_config_vx_rate := rate } :=
  echo_inv_congr (w := w) rfl h1 h2 hinv

theorem echo_inv_no_binding {w : hal} (hinv : echo_inv w) {t : output_type}
    {out : tuna_stream_out} (ho : w.adev.outputs t = some out) (ht : t ≠ OUTPUT_LOW_LATENCY) :
    out.echo_reference = none := by
  by_contra hb
  exact ht (hinv.2 t out ho hb).1

theorem echo_inv_standby_binding {w : hal} (hinv : echo_inv w) {t : output_type}
    {out : tuna_stream_out} (ho : w.adev.outputs t = some out) (hs : out.standby = true) :
    out.echo_reference = none := by
  by_contra hb
  have := (hinv.2 t out ho hb).2.1
  rw [hs] at this
  exact Bool.noConfusion this

theorem echo_inv_start_call (h : audio_hw_h) (w : hal) (dl ul : Bool) (hinv : echo_inv w) :
    echo_inv (start_call h w dl ul).2 := by
  unfold start_call
  simp only
  split_ifs <;> (repeat' split) <;> exact echo_inv_congr rfl rfl rfl hinv

theorem echo_inv_end_call (w : hal) (hinv : echo_inv w) : echo_inv (end_call w) :=
  echo_inv_congr rfl rfl rfl hinv

theorem echo_inv_standby_body_plain (h : audio_hw_h) (w : hal) (t : output_type)
    (hinv : echo_inv w) : echo_inv (do_output_standby_body h w t (fun w => w)) := by
  unfold do_output_standby_body
  cases ho : w.adev.outputs t with
  | none => exact hinv
  | some out =>
    by_cases hs : out.standby = false
    · simp only [hs, if_true]
      have key : echo_inv (w.set_out t (some
          { out with
            standby := true, pcm_normal := none, pcm_spdif := none, pcm_hdmi := none,
            echo_reference := none })) :=
        echo_inv_set_out w t _ (by intro x hx; cases hx; rfl) hinv
      refine echo_inv_congr ?_ ?_ ?_ key
      · split_ifs <;> rfl
      · split_ifs <;> rfl
      · funext k
        by_cases hk : k = t
        · subst hk
          split_ifs <;> simp [hal.update_out, hal.set_out]
        · split_ifs <;> simp [hal.update_out, hal.set_out, hk]
    · simp only [hs, if_false]
      exact hinv

theorem echo_inv_standby_body (h : audio_hw_h) (w : hal) (t : output_type)
    (clause : hal → hal) (ht : t ≠ OUTPUT_LOW_LATENCY)
    (hclause : ∀ w', echo_inv w' → echo_inv (clause w')) (hinv : echo_inv w) :
    echo_inv (do_output_standby_body h w t clause) := by
  unfold do_output_standby_body
  cases ho : w.adev.outputs t with
  | none => exact hinv
  | some out =>
    by_cases hs : out.standby = false
    · simp only [hs, if_true]
      apply echo_inv_update_out _ _ _ (fun o => Or.inl rfl)
      apply hclause
      have hb := echo_inv_no_binding hinv ho ht
      have key : echo_inv (w.set_out t (some
          { out with
            standby := true, pcm_normal := none, pcm_spdif := none, pcm_hdmi := none })) :=
        echo_inv_set_out w t _ (by intro x hx; cases hx; exact hb) hinv
      refine echo_inv_congr ?_ ?_ ?_ key
      · split_ifs <;> rfl
      · split_ifs <;> rfl
      · split_ifs <;> rfl
    · simp only [hs, if_false]
      exact hinv

theorem echo_inv_do_output_standby (h : audio_hw_h) (w : hal) (t : output_type)
    (hinv : echo_inv w) : echo_inv (do_output_standby h w t) := by
  by_cases ht : t = OUTPUT_LOW_LATENCY
  · subst ht
    exact echo_inv_standby_body_plain h w _ hinv
  · unfold do_output_standby
    apply echo_inv_standby_body h w t _ ht _ hinv
    intro w' hw'
    split_ifs
    · cases hll : w'.adev.outputs OUTPUT_LOW_LATENCY with
      | none => exact hw'
      | some ll =>
        simp only
        split_ifs
        · exact echo_inv_standby_body_plain h w' _ hw'
        · exact hw'
    · exact hw'

theorem echo_inv_do_input_standby (h : audio_hw_h) (w : hal) (i : Nat) (hinv : echo_inv w) :
    echo_inv (do_input_standby h w i) := by
  unfold do_input_standby
  cases hi : w.ins i with
  | none => exact hinv
  | some s =>
    simp only
    split_ifs <;>
    repeat (first
      | exact hinv
      | with_reducible apply echo_inv_update_in
      | with_reducible apply echo_inv_put
      | with_reducible apply echo_inv_select_input_device
      | refine echo_inv_with _ _ _ _ _ _ _ _ rfl rfl ?_)

theorem echo_inv_force_all_standby (h : audio_hw_h) (w : hal) (hinv : echo_inv w) :
    echo_inv (force_all_standby h w) := by
  unfold force_all_standby
  have h1 : echo_inv (match w.adev.outputs OUTPUT_LOW_LATENCY with
      | some out => if out.standby = false then do_output_standby h w OUTPUT_LOW_LATENCY else w
      | none => w) := by
    split
    · split_ifs
      · exact echo_inv_do_output_standby h w _ hinv
      · exact hinv
    · exact hinv
  simp only
  split
  · exact echo_inv_do_input_standby h _ _ h1
  · exact h1

theorem same_echo.refl (w : hal) : same_echo w w := ⟨rfl, rfl, fun _ => rfl⟩

theorem same_echo.trans {w1 w2 w3 : hal} (h12 : same_echo w1 w2) (h23 : same_echo w2 w3) :
    same_echo w1 w3 :=
  ⟨h23.1.trans h12.1, h23.2.1.trans h12.2.1, fun t => (h23.2.2 t).trans (h12.2.2 t)⟩

theorem same_echo.inv {w w' : hal} (hs : same_echo w w') (hinv : echo_inv w) : echo_inv w' := by
  obtain ⟨h1, h2, h3⟩ := hs
  refine ⟨by rw [h1, h2]; exact hinv.1, fun t out ho hb => ?_⟩
  have := h3 t
  rw [ho] at this
  cases hw : w.adev.outputs t with
  | none => simp [hw] at this
  | some o =>
    simp only [hw, Option.map_some', Option.some.injEq, out_view, Prod.mk.injEq] at this
    have hb' : o.echo_reference ≠ none := by rw [← this.2]; exact hb
    have key := hinv.2 t o hw hb'
    exact ⟨key.1, by rw [this.1]; exact key.2.1, by rw [this.2, h2]; exact key.2.2⟩

theorem same_echo_update_out (w : hal) (t : output_type)
    (g : tuna_stream_out → tuna_stream_out) (hg : ∀ o, out_view (g o) = out_view o) :
    same_echo w (w.update_out t g) := by
  refine ⟨rfl, rfl, fun k => ?_⟩
  show (if k = t then (w.adev.outputs t).map g else w.adev.outputs k).map out_view = _
  by_cases hk : k = t
  · subst hk
    simp only [if_true, Option.map_map]
    congr 1
    funext o
    exact hg o
  · simp only [hk, if_false]

theorem same_echo_of_eq {w w' : hal} (h1 : w'.echo_refs = w.echo_refs)
    (h2 : w'.adev.echo_reference = w.adev.echo_reference)
    (h3 : w'.adev.outputs = w.adev.outputs) : same_echo w w' :=
  ⟨h1, h2, fun t => by rw [h3]⟩

theorem same_echo_open_step (w : hal) (c : Prop) [Decidable c] (a : alsa_state)
    (t : output_type) (g : tuna_stream_out → tuna_stream_out)
    (hg : ∀ o, out_view (g o) = out_view o) :
    same_echo w (if c then ({ w with alsa := a }).update_out t g else w) := by
  split_ifs
  · exact same_echo.trans (@same_echo_of_eq w { w with alsa := a } rfl rfl rfl)
      (same_echo_update_out _ t g hg)
  · exact same_echo.refl w

theorem same_echo_route_step (h : audio_hw_h) (w : hal) (c : Prop) [Decidable c] :
    same_echo w (if c then w.select_output_device h else w) := by
  split_ifs
  · exact same_echo_of_eq rfl rfl rfl
  · exact same_echo.refl w

theorem same_echo_open_low_latency_pcms (h : audio_hw_h) (w : hal) (a b c : Bool) :
    same_echo w (open_low_latency_pcms h w a b c) := by
  unfold open_low_latency_pcms
  simp only
  with_reducible refine same_echo.trans ?_ (same_echo_open_step _ _ _ _ _ ?hg1)
  case hg1 => intro o; rfl
  with_reducible refine same_echo.trans ?_ (same_echo_open_step _ _ _ _ _ ?hg2)
  case hg2 => intro o; rfl
  with_reducible refine same_echo.trans ?_ (same_echo_open_step _ _ _ _ _ ?hg3)
  case hg3 => intro o; rfl
  exact same_echo_route_step h w _

/-- Binding the low-latency output to the device's echo reference while activating it keeps
the invariant. -/
theorem echo_inv_bind_activate (w : hal) (hinv : echo_inv w) :
    echo_inv ((w.update_out OUTPUT_LOW_LATENCY
      (fun o => { o with echo_reference := w.adev.echo_reference })).update_out
        OUTPUT_LOW_LATENCY (fun o => { o with standby := false })) := by
  refine ⟨hinv.1, fun t out ho hb => ?_⟩
  by_cases ht : t = OUTPUT_LOW_LATENCY
  · subst ht
    simp only [hal.update_out, hal.set_out, if_true, Option.map_map] at ho
    cases hll : w.adev.outputs OUTPUT_LOW_LATENCY with
    | none => simp [hll] at ho
    | some ll =>
      simp only [hll, Option.map_some', Option.some.injEq, Function.comp] at ho
      subst ho
      exact ⟨rfl, rfl, rfl⟩
  · simp only [hal.update_out, hal.set_out, ht, if_false] at ho
    exact hinv.2 t out ho hb

theorem same_echo_close_bad (w : hal) : same_echo w (close_bad_low_latency_pcms w).2 := by
  unfold close_bad_low_latency_pcms
  split
  · exact same_echo.refl w
  · simp only
    refine same_echo.trans (@same_echo_of_eq w { w with alsa := _ } rfl rfl rfl) ?_
    exact same_echo_update_out _ _ _ (fun o => rfl)

theorem echo_inv_start_low_latency (h : audio_hw_h) (w : hal) (a b c : Bool)
    (hinv : echo_inv w) :
    ((start_output_stream_low_latency h w a b c).1 ≠ 0 →
      echo_inv (start_output_stream_low_latency h w a b c).2) ∧
    ((start_output_stream_low_latency h w a b c).1 = 0 →
      echo_inv ((start_output_stream_low_latency h w a b c).2.update_out OUTPUT_LOW_LATENCY
        (fun o => { o with standby := false }))) := by
  have h1 : echo_inv (close_bad_low_latency_pcms (open_low_latency_pcms h w a b c)).2 :=
    (same_echo_close_bad _).inv ((same_echo_open_low_latency_pcms h w a b c).inv hinv)
  unfold start_output_stream_low_latency
  simp only
  generalize close_bad_low_latency_pcms (open_low_latency_pcms h w a b c) = r at h1
  by_cases hs : r.1 = true
  · rw [if_pos hs]
    refine ⟨fun hc => absurd rfl hc, fun _ => ?_⟩
    by_cases he : r.2.adev.echo_reference ≠ none
    · rw [if_pos he]
      exact echo_inv_bind_activate _ h1
    · rw [if_neg he]
      exact echo_inv_update_out _ _ _ (fun o => Or.inr ⟨rfl, fun _ => rfl⟩) h1
  · rw [if_neg hs]
    exact ⟨fun _ => h1, fun hc => absurd hc (by simp [ENOMEM])⟩

theorem echo_inv_opt_input_standby (h : audio_hw_h) (w : hal) (c : Bool)
    (hinv : echo_inv w) :
    echo_inv (if c = true then
        match w.adev.active_input with
        | some i => do_input_standby h w i
        | none => w
      else w) := by
  split_ifs
  · split
    · exact echo_inv_do_input_standby h w _ hinv
    · exact hinv
  · exact hinv

theorem echo_inv_write_low_latency (h : audio_hw_h) (w : hal) (bytes : Nat) (a b c : Bool)
    (ws : Int) (hinv : echo_inv w) : echo_inv (out_write_low_latency h w bytes a b c ws).2 := by
  unfold out_write_low_latency
  cases ho : w.adev.outputs OUTPUT_LOW_LATENCY with
  | none => exact hinv
  | some out =>
    simp only
    have key := echo_inv_start_low_latency h w a b c hinv
    by_cases hs : out.standby = true
    · rw [if_pos hs]
      by_cases hr : (start_output_stream_low_latency h w a b c).1 ≠ 0
      · rw [if_pos hr]
        exact key.1 hr
      · rw [if_neg hr]
        exact echo_inv_opt_input_standby h _ _ (key.2 (not_not.mp hr))
    · rw [if_neg hs]
      exact hinv

theorem map_view_comp (g : tuna_stream_out → tuna_stream_out)
    (hg : ∀ x, out_view (g x) = out_view x) (o : Option tuna_stream_out) :
    Option.map (out_view ∘ g) o = Option.map out_view o := by
  cases o with
  | none => rfl
  | some x => simp [hg]

theorem same_echo_start_deep_buffer (h : audio_hw_h) (w : hal) (ready : Bool) :
    same_echo w (start_output_stream_deep_buffer h w ready).2 := by
  unfold start_output_stream_deep_buffer
  simp only
  split_ifs <;> refine ⟨?_, ?_, fun t => ?_⟩ <;>
    simp [hal.update_out, hal.set_out, hal.select_output_device, Option.map_map] <;>
    (by_cases ht : t = OUTPUT_DEEP_BUF <;> simp [ht]) <;>
    exact map_view_comp _ (fun _ => rfl) _

theorem echo_inv_activate (w : hal) (t : output_type) (hinv : echo_inv w) :
    echo_inv (w.update_out t (fun o => { o with standby := false })) :=
  echo_inv_update_out _ _ _ (fun _ => Or.inr ⟨rfl, fun _ => rfl⟩) hinv

theorem echo_inv_write_deep_buffer (h : audio_hw_h) (w : hal) (bytes : Nat) (ready : Bool)
    (ws : Int) (hinv : echo_inv w) : echo_inv (out_write_deep_buffer h w bytes ready ws).2 := by
  have hstart := (same_echo_start_deep_buffer h w ready).inv hinv
  have hthr : ∀ w' (b : Bool) (x y : Int), echo_inv w' →
      echo_inv (w'.update_out OUTPUT_DEEP_BUF (fun o =>
        if b ≠ o.use_long_periods then
          { o with write_threshold := if b then x else y, use_long_periods := b }
        else o)) := by
    intro w' b x y hw'
    refine (same_echo_update_out w' _ _ (fun o => ?_)).inv hw'
    split_ifs <;> rfl
  unfold out_write_deep_buffer
  cases ho : w.adev.outputs OUTPUT_DEEP_BUF with
  | none => exact hinv
  | some out =>
    simp only
    by_cases hs : out.standby = true
    · rw [if_pos hs]
      by_cases hr : (start_output_stream_deep_buffer h w ready).1 ≠ 0
      · rw [if_pos hr, if_pos hr]
        exact hstart
      · rw [if_neg hr, if_neg (by simp)]
        exact hthr _ _ _ _ (echo_inv_activate _ _ hstart)
    · rw [if_neg hs, if_neg (by simp)]
      exact hthr _ _ _ _ hinv

theorem echo_inv_opt_ll_standby (h : audio_hw_h) (w : hal) (hinv : echo_inv w) :
    echo_inv (match w.adev.outputs OUTPUT_LOW_LATENCY with
      | some ll => if ll.standby = false then do_output_standby h w OUTPUT_LOW_LATENCY else w
      | none => w) := by
  split
  · split_ifs
    · exact echo_inv_do_output_standby h w _ hinv
    · exact hinv
  · exact hinv

theorem echo_inv_start_hdmi (h : audio_hw_h) (w : hal) (ready : Bool) (hinv : echo_inv w) :
    echo_inv (start_output_stream_hdmi h w ready).2 := by
  have h1 := echo_inv_opt_ll_standby h w hinv
  unfold start_output_stream_hdmi
  simp only
  generalize (match w.adev.outputs OUTPUT_LOW_LATENCY with
      | some ll => if ll.standby = false then do_output_standby h w OUTPUT_LOW_LATENCY else w
      | none => w) = w1 at h1
  split_ifs <;> refine same_echo.inv ⟨?_, ?_, fun t => ?_⟩ h1 <;>
    simp [hal.update_out, hal.set_out, Option.map_map] <;>
    (by_cases ht : t = OUTPUT_HDMI <;> simp [ht]) <;>
    exact map_view_comp _ (fun _ => rfl) _

theorem echo_inv_write_hdmi (h : audio_hw_h) (w : hal) (bytes : Nat) (ready : Bool)
    (hinv : echo_inv w) : echo_inv (out_write_hdmi h w bytes ready).2 := by
  have hstart := echo_inv_start_hdmi h w ready hinv
  unfold out_write_hdmi
  cases ho : w.adev.outputs OUTPUT_HDMI with
  | none => exact hinv
  | some out =>
    simp only
    have h1 : echo_inv (if out.standby = true then
        if (start_output_stream_hdmi h w ready).1 ≠ 0 then (start_output_stream_hdmi h w ready).2
        else (start_output_stream_hdmi h w ready).2.update_out OUTPUT_HDMI
          (fun o => { o with standby := false })
      else w) := by
      split_ifs
      · exact hstart
      · exact echo_inv_activate _ _ hstart
      · exact hinv
    generalize (if out.standby = true then
        if (start_output_stream_hdmi h w ready).1 ≠ 0 then (start_output_stream_hdmi h w ready).2
        else (start_output_stream_hdmi h w ready).2.update_out OUTPUT_HDMI
          (fun o => { o with standby := false })
      else w) = w1 at h1
    split
    · exact h1
    · have h2 : echo_inv (w1.update_out OUTPUT_HDMI
          (fun o => { o with restart_periods_cnt := o.restart_periods_cnt - 1 })) :=
        (same_echo_update_out w1 OUTPUT_HDMI
          (fun o => { o with restart_periods_cnt := o.restart_periods_cnt - 1 })
          (fun o => rfl)).inv h1
      split_ifs
      · exact echo_inv_do_output_standby h _ _ h2
      · exact h2
      · exact h1

theorem echo_inv_out_set_parameters (h : audio_hw_h) (w : hal) (t : output_type)
    (routing : Option Nat) (hinv : echo_inv w) :
    echo_inv (out_set_parameters h w t routing) := by
  unfold out_set_parameters
  split
  · rename_i val out _
    simp only
    by_cases hc : w.adev.out_device ≠ val ∧ val ≠ 0
    · rw [if_pos hc]
      have h1 : ∀ (c : Prop) [Decidable c],
          echo_inv (if c then do_output_standby h w t else w) := by
        intro c _
        split_ifs
        · exact echo_inv_do_output_standby h w t hinv
        · exact hinv
      have h2 : ∀ w1, echo_inv w1 → echo_inv (if t ≠ OUTPUT_HDMI then
          ({ w1 with adev := { w1.adev with out_device := val } }).select_output_device h
          else w1) := by
        intro w1 hw1
        split_ifs
        · exact echo_inv_congr rfl rfl rfl hw1
        · exact hw1
      exact echo_inv_opt_input_standby h _ _ (h2 _ (h1 _))
    · rw [if_neg hc]
      exact hinv
  · exact hinv

theorem echo_inv_open_output (h : audio_hw_h) (w : hal) (devices flags sample_rate
    channel_mask : Nat) (alloc_ok : Bool) (max_channels resampler_status : Int)
    (hinv : echo_inv w) :
    echo_inv (adev_open_output_stream h w devices flags sample_rate channel_mask alloc_ok
      max_channels resampler_status).2.2 := by
  unfold adev_open_output_stream
  simp only
  split_ifs <;>
    first
    | exact hinv
    | exact echo_inv_set_out _ _ _ (by intro x hx; cases hx; rfl) hinv

theorem echo_inv_close_output (h : audio_hw_h) (w : hal) (t : output_type)
    (hinv : echo_inv w) : echo_inv (adev_close_output_stream h w t) := by
  unfold adev_close_output_stream
  split
  · exact hinv
  · exact echo_inv_set_out _ _ _ (by intro x hx; cases hx) (echo_inv_do_output_standby h w t hinv)

theorem echo_inv_in_update_aux_channels (h : audio_hw_h) (w : hal) (i : Nat)
    (effect : Option Nat) (o1 o2 : reconfigure_oracle) (hinv : echo_inv w) :
    echo_inv (in_update_aux_channels h w i effect o1 o2) := by
  unfold in_update_aux_channels
  split
  · exact hinv
  · simp only
    split_ifs <;>
      first
      | exact hinv
      | exact echo_inv_do_input_standby h _ i (echo_inv_update_in _ _ _ hinv)

theorem same_echo_start_input_stream_route (h : audio_hw_h) (w : hal) (i : Nat)
    (resampler_status : Int) :
    same_echo w (start_input_stream_route h w i resampler_status) := by
  unfold start_input_stream_route
  simp only
  split_ifs <;> exact ⟨rfl, rfl, fun _ => rfl⟩

theorem echo_inv_start_input_stream_echo (w : hal) (i : Nat) (echo_status : Int)
    (hinv : echo_inv w) : echo_inv (start_input_stream_echo w i echo_status) := by
  unfold start_input_stream_echo
  simp only
  split_ifs
  · exact echo_inv_update_in _ _ _ (echo_inv_get w echo_status hinv)
  · exact hinv

theorem echo_inv_start_input_stream (h : audio_hw_h) (w : hal) (i : Nat)
    (resampler_status echo_status : Int) (pcm_ready : Bool) (hinv : echo_inv w) :
    echo_inv (start_input_stream h w i resampler_status echo_status pcm_ready).2 := by
  have h1 := echo_inv_start_input_stream_echo _ i echo_status
    ((same_echo_start_input_stream_route h w i resampler_status).inv hinv)
  unfold start_input_stream
  simp only
  generalize start_input_stream_echo (start_input_stream_route h w i resampler_status) i
    echo_status = w1 at h1
  split_ifs <;> refine same_echo.inv ?_ h1 <;> exact ⟨rfl, rfl, fun _ => rfl⟩

theorem echo_inv_in_read (h : audio_hw_h) (w : hal) (i : Nat) (bytes : Nat)
    (resampler_status echo_status : Int) (pcm_ready : Bool) (io : read_outcome)
    (hinv : echo_inv w) :
    echo_inv (in_read h w i bytes resampler_status echo_status pcm_ready io).2 := by
  have hstart := echo_inv_start_input_stream h w i resampler_status echo_status pcm_ready hinv
  unfold in_read
  split
  · exact hinv
  · simp only
    generalize start_input_stream h w i resampler_status echo_status pcm_ready = r at hstart
    split_ifs <;>
      first
      | exact hinv
      | exact hstart

theorem echo_inv_in_set_parameters (h : audio_hw_h) (w : hal) (i : Nat) (source : Option Int)
    (routing : Option Nat) (o1 o2 : reconfigure_oracle) (hinv : echo_inv w) :
    echo_inv (in_set_parameters h w i source routing o1 o2) := by
  unfold in_set_parameters
  split
  · exact hinv
  · cases source <;> cases routing <;> simp only <;> split_ifs <;>
      repeat (first
        | exact hinv
        | with_reducible apply echo_inv_do_input_standby
        | with_reducible apply echo_inv_in_update_aux_channels
        | with_reducible apply echo_inv_update_in)

theorem echo_inv_add_audio_effect (h : audio_hw_h) (w : hal) (i effect : Nat)
    (desc_status : Int) (is_aec : Bool) (reply : channel_configs_reply)
    (o1 o2 : reconfigure_oracle) (hinv : echo_inv w) :
    echo_inv (in_add_audio_effect h w i effect desc_status is_aec reply o1 o2).2 := by
  unfold in_add_audio_effect
  split
  · exact hinv
  · simp only
    have h1 := fun s => echo_inv_in_update_aux_channels h (w.set_in i s) i (some effect) o1 o2
      (echo_inv_set_in w i s hinv)
    split_ifs <;>
      first
      | exact hinv
      | exact h1 _
      | exact echo_inv_do_input_standby h _ i (echo_inv_update_in _ _ _ (h1 _))

theorem echo_inv_remove_audio_effect (h : audio_hw_h) (w : hal) (i effect : Nat)
    (desc_status : Int) (is_aec : Bool) (o1 o2 : reconfigure_oracle) (hinv : echo_inv w) :
    echo_inv (in_remove_audio_effect h w i effect desc_status is_aec o1 o2).2 := by
  unfold in_remove_audio_effect
  split
  · exact hinv
  · simp only
    have h1 := fun s => echo_inv_in_update_aux_channels h (w.set_in i s) i none o1 o2
      (echo_inv_set_in w i s hinv)
    split_ifs <;>
      first
      | exact hinv
      | exact h1 _
      | exact echo_inv_do_input_standby h _ i (echo_inv_update_in _ _ _ (h1 _))

theorem echo_inv_open_input (h : audio_hw_h) (w : hal) (devices sample_rate : Nat)
    (format : Int) (channel_mask : Nat) (alloc_ok : Bool) (resampler_status : Int)
    (hinv : echo_inv w) :
    echo_inv (adev_open_input_stream h w devices sample_rate format channel_mask alloc_ok
      resampler_status).2.2 := by
  unfold adev_open_input_stream
  simp only
  split_ifs <;> exact hinv

theorem echo_inv_close_input (h : audio_hw_h) (w : hal) (i : Nat) (hinv : echo_inv w) :
    echo_inv (adev_close_input_stream h w i) := by
  unfold adev_close_input_stream
  split
  · exact hinv
  · exact echo_inv_set_in _ _ _ (echo_inv_do_input_standby h w i hinv)

theorem echo_inv_select_mode (h : audio_hw_h) (w : hal) (dl ul : Bool) (hinv : echo_inv w) :
    echo_inv (select_mode h w dl ul) := by
  have hf := echo_inv_force_all_standby h
  unfold select_mode
  simp only
  split_ifs
  · refine echo_inv_congr rfl rfl rfl (echo_inv_start_call h _ dl ul ?_)
    exact echo_inv_congr rfl rfl rfl (hf w hinv)
  · refine echo_inv_congr rfl rfl rfl (echo_inv_start_call h _ dl ul ?_)
    exact echo_inv_congr rfl rfl rfl (hf w hinv)
  · exact hinv
  · refine echo_inv_congr rfl rfl rfl (hf _ (echo_inv_end_call _ ?_))
    exact echo_inv_congr rfl rfl rfl hinv
  · exact hinv

theorem echo_inv_adev_set_mode (h : audio_hw_h) (w : hal) (mode : Int) (dl ul : Bool)
    (hinv : echo_inv w) : echo_inv (adev_set_mode h w mode dl ul).2 := by
  unfold adev_set_mode
  split_ifs
  · exact echo_inv_select_mode h _ dl ul (echo_inv_congr rfl rfl rfl hinv)
  · exact hinv

theorem echo_inv_wb_amr (h : audio_hw_h) (w : hal) (enable : Int) (dl ul : Bool)
    (hinv : echo_inv w) : echo_inv (audio_set_wb_amr_callback h w enable dl ul) := by
  unfold audio_set_wb_amr_callback
  simp only
  split_ifs
  · refine echo_inv_start_call h _ dl ul (echo_inv_congr rfl rfl rfl (echo_inv_end_call _ ?_))
    exact echo_inv_congr rfl rfl rfl hinv
  · exact echo_inv_congr rfl rfl rfl hinv
  · exact hinv

theorem echo_inv_adev_set_parameters (h : audio_hw_h) (w : hal)
    (tty bt_nrec screen_state : Option String) (hinv : echo_inv w) :
    echo_inv (adev_set_parameters h w tty bt_nrec screen_state).2 := by
  unfold adev_set_parameters
  simp only
  split
  · exact hinv
  · rename_i w1 heq
    have h1 : echo_inv w1 := by
      split at heq
      · split at heq
        · cases heq
        · split_ifs at heq <;> cases heq <;> exact hinv
      · cases heq
        exact hinv
    cases bt_nrec <;> cases screen_state <;> exact echo_inv_congr rfl rfl rfl h1

theorem echo_inv_adev_set_mic_mute (h : audio_hw_h) (w : hal) (state : Bool)
    (hinv : echo_inv w) : echo_inv (adev_set_mic_mute h w state).2 := by
  unfold adev_set_mic_mute
  simp only
  split_ifs <;> exact echo_inv_congr rfl rfl rfl hinv

theorem echo_inv_adev_set_voice_volume (w : hal) (volume : Nat) (hinv : echo_inv w) :
    echo_inv (adev_set_voice_volume w volume).2 := by
  unfold adev_set_voice_volume
  simp only
  split_ifs <;> exact echo_inv_congr rfl rfl rfl hinv

theorem echo_inv_adev_open (h : audio_hw_h) (name_ok alloc_ok : Bool) (mixer : Option hw_state)
    (a : alsa_state) (w : hal) (hw : adev_open h name_ok alloc_ok mixer a = (0, some w)) :
    echo_inv w := by
  unfold adev_open at hw
  split_ifs at hw
  · cases hw
  · cases hw
  · cases mixer with
    | none => cases hw
    | some s =>
      simp only at hw
      split_ifs at hw
      · cases hw
      · cases hw
        exact ⟨rfl, fun t out ho => by cases ho⟩

theorem echo_inv_step (h : audio_hw_h) (w w' : hal) (hs : step h w w') (hinv : echo_inv w) :
    echo_inv w' := by
  cases hs with
  | set_mode mode dl ul => exact echo_inv_adev_set_mode h w mode dl ul hinv
  | set_parameters tty bt sc => exact echo_inv_adev_set_parameters h w tty bt sc hinv
  | set_mic_mute state => exact echo_inv_adev_set_mic_mute h w state hinv
  | set_voice_volume volume => exact echo_inv_adev_set_voice_volume w volume hinv
  | wb_amr enable dl ul => exact echo_inv_wb_amr h w enable dl ul hinv
  | open_output d f r c al m rs => exact echo_inv_open_output h w d f r c al m rs hinv
  | close_output t => exact echo_inv_close_output h w t hinv
  | out_standby t => exact echo_inv_do_output_standby h w t hinv
  | out_set_parameters t routing => exact echo_inv_out_set_parameters h w t routing hinv
  | out_set_volume_hdmi z =>
    exact (same_echo_update_out w OUTPUT_HDMI (fun o => { o with muted := z })
      (fun o => rfl)).inv hinv
  | write_low_latency b r1 r2 r3 ws => exact echo_inv_write_low_latency h w b r1 r2 r3 ws hinv
  | write_deep_buffer b r ws => exact echo_inv_write_deep_buffer h w b r ws hinv
  | write_hdmi b r => exact echo_inv_write_hdmi h w b r hinv
  | open_input d r f c al rs => exact echo_inv_open_input h w d r f c al rs hinv
  | close_input i => exact echo_inv_close_input h w i hinv
  | in_standby i => exact echo_inv_do_input_standby h w i hinv
  | in_set_parameters i so ro o1 o2 => exact echo_inv_in_set_parameters h w i so ro o1 o2 hinv
  | in_read i b rs es pr io => exact echo_inv_in_read h w i b rs es pr io hinv
  | add_audio_effect i e d ae rep o1 o2 =>
    exact echo_inv_add_audio_effect h w i e d ae rep o1 o2 hinv
  | remove_audio_effect i e d ae o1 o2 =>
    exact echo_inv_remove_audio_effect h w i e d ae o1 o2 hinv

theorem echo_inv_reachable (h : audio_hw_h) (w : hal) (hr : reachable h w) : echo_inv w := by
  induction hr with
  | opened name_ok alloc_ok mixer a w hw => exact echo_inv_adev_open h name_ok alloc_ok mixer a w hw
  | next w w' _ hs ih => exact echo_inv_step h w w' hs ih

/-! ## Lemmas on the negotiation of the auxiliary channels -/

theorem popcount_zero : popcount 0 = 0 := by simp [popcount]

theorem popcount_eq_zero (x : Nat) (hx : popcount x = 0) : x = 0 := by
  by_contra hne
  have hnil : Nat.digits 2 x ≠ [] := Nat.digits_ne_nil_iff_ne_zero.mpr hne
  have hlast := Nat.getLast_digit_ne_zero 2 hne
  have hmem := List.getLast_mem hnil
  have hz : ∀ d ∈ Nat.digits 2 x, d = 0 := List.sum_eq_zero_iff.mp hx
  exact hlast (hz _ hmem)

theorem match_loop_stuck (cur : channel_config_t) (es : List effect_info_s) (i m : Nat)
    (hne : m ≠ i) : match_loop cur es i m = m := by
  cases es with
  | nil => rfl
  | cons e rest => simp [match_loop, hne]

theorem match_loop_le (cur : channel_config_t) (es : List effect_info_s) (i : Nat) :
    match_loop cur es i i ≤ i + es.length := by
  induction es generalizing i with
  | nil => simp [match_loop]
  | cons e rest ih =>
    simp only [match_loop, if_true, List.length_cons]
    split_ifs
    · have := ih (i + 1)
      omega
    · rw [match_loop_stuck cur rest (i + 1) i (by omega)]
      omega

theorem match_loop_all (cur : channel_config_t) (es : List effect_info_s) (i : Nat) :
    match_loop cur es i i = i + es.length ↔ ∀ e ∈ es, cur ∈ e.channel_configs := by
  induction es generalizing i with
  | nil => simp [match_loop]
  | cons e rest ih =>
    simp only [match_loop, if_true, List.length_cons, List.mem_cons, forall_eq_or_imp]
    by_cases hd : effect_declares e cur = true
    · have hmem : cur ∈ e.channel_configs := by
        simp only [effect_declares, List.any_eq_true, decide_eq_true_eq] at hd
        obtain ⟨c, hc, rfl⟩ := hd
        exact hc
      rw [if_pos hd]
      have := ih (i + 1)
      constructor
      · intro heq
        exact ⟨hmem, this.mp (by omega)⟩
      · intro hall
        have := this.mpr hall.2
        omega
    · have hmem : ¬ cur ∈ e.channel_configs := by
        intro hc
        apply hd
        simp only [effect_declares, List.any_eq_true, decide_eq_true_eq]
        exact ⟨cur, hc, rfl⟩
      rw [if_neg hd, match_loop_stuck cur rest (i + 1) i (by omega)]
      constructor
      · intro heq
        omega
      · intro hall
        exact absurd hall.1 hmem

theorem effects_length (s : tuna_stream_in) (hlen : s.num_preprocessors ≤ s.preprocessors.length) :
    s.effects.length = s.num_preprocessors := by
  simp [tuna_stream_in.effects, hlen]

theorem aux_step_eq (h : audio_hw_h) (s : tuna_stream_in)
    (hlen : s.num_preprocessors ≤ s.preprocessors.length) (acc cur : channel_config_t)
    (hcur : cur ∈ h.in_aux_cnl_configs) :
    aux_step s acc cur =
      if common_config h s cur ∧ popcount cur.aux_channels > popcount acc.aux_channels
      then cur else acc := by
  have hall := match_loop_all cur s.effects 0
  rw [effects_length s hlen, Nat.zero_add] at hall
  unfold aux_step common_config
  by_cases h1 : cur.main_channels = s.main_channels
  · by_cases h2 : match_loop cur s.effects 0 0 = s.num_preprocessors
    · have h3 := hall.mp h2
      simp only [h1, h2, hcur, if_true, true_and]
      by_cases h4 : popcount cur.aux_channels > popcount acc.aux_channels
      · rw [if_pos h4, if_pos ⟨h3, h4⟩]
      · rw [if_neg h4, if_neg (fun hc => h4 hc.2)]
    · have h3 : ¬ ∀ e ∈ s.effects, cur ∈ e.channel_configs := fun hc => h2 (hall.mpr hc)
      simp [h1, h2, h3]
  · simp [h1]

/-- A left fold that replaces the accumulator by each element satisfying `P` with a strictly
larger measure ends on the first element of largest measure among those satisfying `P`, or on
the initial accumulator when none exceeds it. -/
theorem first_max_fold {α : Type} (P : α → Prop) [DecidablePred P] (m : α → Nat)
    (L : List α) (a0 : α) :
    (∀ c ∈ L, P c → m c ≤ m (L.foldl (fun acc c => if P c ∧ m c > m acc then c else acc) a0)) ∧
    m a0 ≤ m (L.foldl (fun acc c => if P c ∧ m c > m acc then c else acc) a0) ∧
    ((L.foldl (fun acc c => if P c ∧ m c > m acc then c else acc) a0 = a0 ∧
        ∀ c ∈ L, P c → m c ≤ m a0) ∨
      ∃ pre post,
        L = pre ++ L.foldl (fun acc c => if P c ∧ m c > m acc then c else acc) a0 :: post ∧
        P (L.foldl (fun acc c => if P c ∧ m c > m acc then c else acc) a0) ∧
        m a0 < m (L.foldl (fun acc c => if P c ∧ m c > m acc then c else acc) a0) ∧
        ∀ c ∈ pre, P c →
          m c < m (L.foldl (fun acc c => if P c ∧ m c > m acc then c else acc) a0)) := by
  induction L generalizing a0 with
  | nil => simp
  | cons c rest ih =>
    simp only [List.foldl_cons, List.mem_cons, forall_eq_or_imp]
    by_cases hc : P c ∧ m c > m a0
    · rw [if_pos hc]
      obtain ⟨hb, hle, hcase⟩ := ih c
      refine ⟨⟨fun _ => hle, hb⟩, by omega, Or.inr ?_⟩
      rcases hcase with ⟨heq, _⟩ | ⟨pre, post, hL, hP, hlt, hpre⟩
      · refine ⟨[], rest, by rw [heq]; rfl, by rw [heq]; exact hc.1, by rw [heq]; exact hc.2, ?_⟩
        intro x hx
        cases hx
      · refine ⟨c :: pre, post, by rw [List.cons_append, ← hL], hP, by omega, ?_⟩
        intro x hx hPx
        rcases List.mem_cons.mp hx with rfl | hx
        · exact hlt
        · exact hpre x hx hPx
    · rw [if_neg hc]
      obtain ⟨hb, hle, hcase⟩ := ih a0
      have hc0 : P c → m c ≤ m a0 := fun hp => not_lt.mp (fun hlt => hc ⟨hp, hlt⟩)
      refine ⟨⟨fun hp => le_trans (hc0 hp) hle, hb⟩, hle, ?_⟩
      rcases hcase with ⟨heq, hall⟩ | ⟨pre, post, hL, hP, hlt, hpre⟩
      · exact Or.inl ⟨heq, hc0, hall⟩
      · refine Or.inr ⟨c :: pre, post, by rw [List.cons_append, ← hL], hP, hlt, ?_⟩
        intro x hx hPx
        rcases List.mem_cons.mp hx with rfl | hx
        · exact lt_of_le_of_lt (hc0 hPx) hlt
        · exact hpre x hx hPx

theorem foldl_congr_mem {α β : Type} (f g : β → α → β) (L : List α) (b : β)
    (hfg : ∀ acc, ∀ c ∈ L, f acc c = g acc c) : L.foldl f b = L.foldl g b := by
  induction L generalizing b with
  | nil => rfl
  | cons c rest ih =>
    simp only [List.foldl_cons]
    rw [hfg b c (List.mem_cons_self _ _)]
    exact ih _ (fun acc x hx => hfg acc x (List.mem_cons_of_mem _ hx))

theorem in_get_aux_channels_fold (h : audio_hw_h) (s : tuna_stream_in)
    (hn : s.num_preprocessors ≠ 0) (hlen : s.num_preprocessors ≤ s.preprocessors.length)
    (hdev : s.device &&& (AUDIO_DEVICE_IN_BUILTIN_MIC ||| AUDIO_DEVICE_IN_BACK_MIC) ≠ 0) :
    in_get_aux_channels h s =
      (h.in_aux_cnl_configs.foldl
        (fun acc c => if common_config h s c ∧
          popcount c.aux_channels > popcount acc.aux_channels then c else acc)
        { main_channels := 0, aux_channels := 0 }).aux_channels := by
  unfold in_get_aux_channels
  rw [if_neg hn, if_neg hdev]
  congr 1
  exact foldl_congr_mem _ _ _ _ (fun acc c hc => aux_step_eq h s hlen acc c hc)

theorem remove_loop (P : List effect_info_s) (effect : Nat) (j : Nat) (hj : j ≤ P.length) :
    (List.range j).foldl
      (fun (st : Int × List effect_info_s) i =>
        if st.1 = 0 then
          (st.1, st.2.set (i - 1) (st.2.getD i { effect_itfe := none, channel_configs := [] }))
        else if (st.2.getD i { effect_itfe := none, channel_configs := [] }).effect_itfe
            = some effect then (0, st.2)
        else st)
      (-EINVAL, P) =
    if ∀ x ∈ P.take j, x.effect_itfe ≠ some effect then (-EINVAL, P)
    else (0, (P.take j).eraseP (fun x => decide (x.effect_itfe = some effect)) ++
      P.drop (j - 1)) := by
  induction j with
  | zero => simp
  | succ j ih =>
    have hjl : j < P.length := hj
    rw [List.range_succ, List.foldl_append, ih (le_of_lt hjl)]
    have htake : P.take (j + 1) = P.take j ++ [P[j]] := by
      rw [List.take_succ, List.getElem?_eq_getElem hjl]
      rfl
    simp only [List.foldl_cons, List.foldl_nil]
    by_cases hnone : ∀ x ∈ P.take j, x.effect_itfe ≠ some effect
    · rw [if_pos hnone]
      have hE : ¬ (-EINVAL : Int) = 0 := by decide
      simp only [hE, if_false]
      have hget : P.getD j { effect_itfe := none, channel_configs := [] } = P[j] := by
        simp [List.getD, List.getElem?_eq_getElem hjl]
      rw [hget]
      by_cases hp : P[j].effect_itfe = some effect
      · rw [if_pos hp]
        have hsome : ¬ ∀ x ∈ P.take (j + 1), x.effect_itfe ≠ some effect := by
          intro hall
          have hmem : P[j] ∈ P.take (j + 1) := by
            rw [htake]
            exact List.mem_append_right _ (List.mem_singleton_self _)
          exact hall P[j] hmem hp
        rw [if_neg hsome, htake, List.eraseP_append_right _ (by simpa using hnone)]
        simp [List.eraseP_cons, hp]
      · rw [if_neg hp]
        have hnone2 : ∀ x ∈ P.take (j + 1), x.effect_itfe ≠ some effect := by
          intro x hx
          rw [htake] at hx
          rcases List.mem_append.mp hx with hx | hx
          · exact hnone x hx
          · simp only [List.mem_singleton] at hx
            rw [hx]
            exact hp
        rw [if_pos hnone2]
    · rw [if_neg hnone]
      simp only [if_true]
      have hsome : ¬ ∀ x ∈ P.take (j + 1), x.effect_itfe ≠ some effect := by
        intro hall
        refine hnone (fun x hx => hall x ?_)
        rw [htake]
        exact List.mem_append_left _ hx
      rw [if_neg hsome]
      obtain ⟨y, hy, hpy⟩ : ∃ y ∈ P.take j, y.effect_itfe = some effect := by
        by_contra hc
        exact hnone (fun x hx hp => hc ⟨x, hx, hp⟩)
      have hlenE : ((P.take j).eraseP (fun x => decide (x.effect_itfe = some effect))).length
          = j - 1 := by
        rw [List.length_eraseP_of_mem hy (by simpa using hpy)]
        simp [le_of_lt hjl]
      have hj1 : 1 ≤ j := by
        cases j with
        | zero => simp at hy
        | succ k => omega
      have hD : P.drop (j - 1) = P[j - 1] :: P.drop j := by
        rw [List.drop_eq_getElem_cons (show j - 1 < P.length by omega)]
        congr 2
        omega
      rw [htake, List.eraseP_append_left (by simpa using hpy) _ hy, hD]
      generalize List.eraseP (fun x => decide (x.effect_itfe = some effect)) (List.take j P) = A
        at hlenE
      have hget : (A ++ P[j - 1] :: List.drop j P).getD j
          { effect_itfe := none, channel_configs := [] } = P[j] := by
        rw [List.getD_eq_getElem?_getD, List.getElem?_append_right (by omega), hlenE]
        have : j - (j - 1) = 1 := by omega
        rw [this]
        simp [List.getElem?_drop, List.getElem?_eq_getElem hjl]
      rw [hget, List.set_append_right _ _ (by omega), hlenE]
      simp

theorem same_fx_refl (w : hal) : same_fx w w := fun _ => rfl

theorem same_fx_trans {w1 w2 w3 : hal} (h12 : same_fx w1 w2) (h23 : same_fx w2 w3) :
    same_fx w1 w3 := fun k => (h23 k).trans (h12 k)

theorem same_fx_update_in (w : hal) (i : Nat) (g : tuna_stream_in → tuna_stream_in)
    (hg : ∀ s, fx_view (g s) = fx_view s) : same_fx w (w.update_in i g) := by
  intro k
  show (if k = i then (w.ins i).map g else w.ins k).map fx_view = _
  by_cases hk : k = i
  · subst hk
    simp only [if_true, Option.map_map]
    congr 1
    funext s
    exact hg s
  · simp only [hk, if_false]

theorem put_echo_reference_ins (w : hal) (reference : Option Nat) :
    (put_echo_reference w reference).ins = w.ins := by
  unfold put_echo_reference
  split_ifs
  · simp only
    split
    · split_ifs <;> rfl
    · rfl
  · rfl

theorem same_fx_do_input_standby (h : audio_hw_h) (w : hal) (i : Nat) :
    same_fx w (do_input_standby h w i) := by
  unfold do_input_standby
  split
  · exact same_fx_refl w
  · simp only
    split_ifs <;> intro k <;>
      simp [hal.update_in, hal.set_in, hal.select_input_device, put_echo_reference_ins,
        Option.map_map] <;>
      (by_cases hk : k = i <;> simp [hk]) <;> rfl

theorem same_fx_in_update_aux_channels (h : audio_hw_h) (w : hal) (i : Nat)
    (effect : Option Nat) (o1 o2 : reconfigure_oracle) :
    same_fx w (in_update_aux_channels h w i effect o1 o2) := by
  unfold in_update_aux_channels
  split
  · exact same_fx_refl w
  · simp only
    split_ifs <;>
      first
      | exact same_fx_refl w
      | (refine same_fx_trans ?_ (same_fx_do_input_standby h _ i)
         exact same_fx_update_in w i _ (fun _ => rfl))

theorem remove_preprocessor_absent (s : tuna_stream_in) (effect : Nat)
    (hlen : s.num_preprocessors ≤ s.preprocessors.length)
    (habs : ∀ x ∈ s.effects, x.effect_itfe ≠ some effect) :
    (remove_preprocessor s effect).1 = (if s.num_preprocessors = 0 then -ENOSYS else -EINVAL) ∧
    (remove_preprocessor s effect).1 ≠ 0 ∧ (remove_preprocessor s effect).2 = s := by
  unfold tuna_stream_in.effects at habs
  unfold remove_preprocessor
  have hS : (-ENOSYS : Int) ≠ 0 := by decide
  have hE : (-EINVAL : Int) ≠ 0 := by decide
  split_ifs with h0
  · exact ⟨rfl, hS, rfl⟩
  · simp only
    rw [remove_loop s.preprocessors effect s.num_preprocessors hlen, if_pos habs,
      if_pos (show (-EINVAL, s.preprocessors).1 ≠ 0 from hE)]
    exact ⟨rfl, hE, rfl⟩

theorem remove_preprocessor_present (s : tuna_stream_in) (effect : Nat)
    (hlen : s.num_preprocessors ≤ s.preprocessors.length)
    (hpres : ∃ x ∈ s.effects, x.effect_itfe = some effect) :
    (remove_preprocessor s effect).1 = 0 ∧
    (remove_preprocessor s effect).2 = { s with
      num_preprocessors := s.num_preprocessors - 1
      preprocessors := s.effects.eraseP (fun x => decide (x.effect_itfe = some effect)) ++
        { effect_itfe := none, channel_configs := [] } ::
          s.preprocessors.drop s.num_preprocessors } := by
  obtain ⟨y, hy, hpy⟩ := hpres
  have hsome : ¬ ∀ x ∈ s.effects, x.effect_itfe ≠ some effect := fun hall => hall y hy hpy
  have h0 : s.num_preprocessors ≠ 0 := by
    intro hz
    simp [tuna_stream_in.effects, hz] at hy
  have hlenE : (s.effects.eraseP (fun x => decide (x.effect_itfe = some effect))).length
      = s.num_preprocessors - 1 := by
    rw [List.length_eraseP_of_mem hy (by simpa using hpy)]
    simp [tuna_stream_in.effects, hlen]
  have hD : s.preprocessors.drop (s.num_preprocessors - 1) =
      s.preprocessors[s.num_preprocessors - 1] :: s.preprocessors.drop s.num_preprocessors := by
    rw [List.drop_eq_getElem_cons (show s.num_preprocessors - 1 < s.preprocessors.length by omega)]
    congr 2
    omega
  unfold remove_preprocessor
  rw [if_neg h0]
  simp only
  rw [remove_loop s.preprocessors effect s.num_preprocessors hlen]
  unfold tuna_stream_in.effects at hsome hlenE
  rw [if_neg hsome]
  simp only [ne_eq, not_true_eq_false, if_false, true_and]
  rw [hD, List.set_append_right _ _ (by omega), hlenE]
  simp [tuna_stream_in.effects]
theorem take_set_succ {α : Type} (P : List α) (n : Nat) (v : α) (hn : n < P.length) :
    (P.set n v).take (n + 1) = P.take n ++ [v] := by
  have htake : List.take n (P.set n v) = List.take n P := by
    apply List.ext_getElem?
    intro k
    by_cases hk : k < n
    · simp [List.getElem?_take, hk, List.getElem?_set, Nat.ne_of_gt hk]
    · simp [List.getElem?_take, hk]
  rw [List.take_succ, List.getElem?_set_self (by simpa using hn), htake]
  rfl

theorem append_preprocessor_effects (s : tuna_stream_in) (effect : Nat)
    (reply : channel_configs_reply) (hn : s.num_preprocessors < s.preprocessors.length) :
    ∃ slot, slot.effect_itfe = some effect ∧
      (append_preprocessor s effect reply).effects = s.effects ++ [slot] := by
  unfold append_preprocessor tuna_stream_in.effects
  simp only
  rw [take_set_succ _ _ _ hn]
  refine ⟨_, ?_, rfl⟩
  split_ifs <;> rfl

theorem aux_popcount_mono (h : audio_hw_h) (s s' : tuna_stream_in)
    (hn : s.num_preprocessors ≠ 0) (hn' : s'.num_preprocessors ≠ 0)
    (hlen : s.num_preprocessors ≤ s.preprocessors.length)
    (hlen' : s'.num_preprocessors ≤ s'.preprocessors.length)
    (hdev : s'.device = s.device) (hmain : s'.main_channels = s.main_channels)
    (hsub : ∀ e ∈ s'.effects, e ∈ s.effects) :
    popcount (in_get_aux_channels h s) ≤ popcount (in_get_aux_channels h s') := by
  by_cases hd : s.device &&& (AUDIO_DEVICE_IN_BUILTIN_MIC ||| AUDIO_DEVICE_IN_BACK_MIC) = 0
  · have hd' : s'.device &&& (AUDIO_DEVICE_IN_BUILTIN_MIC ||| AUDIO_DEVICE_IN_BACK_MIC) = 0 := by
      rw [hdev]
      exact hd
    unfold in_get_aux_channels
    rw [if_neg hn, if_neg hn', if_pos hd, if_pos hd']
  · have hd' : s'.device &&& (AUDIO_DEVICE_IN_BUILTIN_MIC ||| AUDIO_DEVICE_IN_BACK_MIC) ≠ 0 := by
      rw [hdev]
      exact hd
    rw [in_get_aux_channels_fold h s hn hlen hd, in_get_aux_channels_fold h s' hn' hlen' hd']
    obtain ⟨_, _, hcase⟩ := first_max_fold (common_config h s)
      (fun c => popcount c.aux_channels) h.in_aux_cnl_configs
      { main_channels := 0, aux_channels := 0 }
    obtain ⟨hb', hle', _⟩ := first_max_fold (common_config h s')
      (fun c => popcount c.aux_channels) h.in_aux_cnl_configs
      { main_channels := 0, aux_channels := 0 }
    simp only at hcase hb' hle'
    rcases hcase with ⟨heq, _⟩ | ⟨pre, post, hL, hP, _, _⟩
    · rw [heq]
      exact hle'
    · refine hb' _ hP.1 ⟨hP.1, ?_, fun e he => hP.2.2 e (hsub e he)⟩
      rw [hmain]
      exact hP.2.1
theorem same_fx_at {w w' : hal} (hfx : same_fx w w') (i : Nat) (s : tuna_stream_in)
    (hs : w.ins i = some s) : ∃ s', w'.ins i = some s' ∧ fx_view s' = fx_view s := by
  have := hfx i
  rw [hs] at this
  cases hw : w'.ins i with
  | none => rw [hw] at this; cases this
  | some s' =>
    rw [hw] at this
    exact ⟨s', rfl, Option.some.inj this⟩

theorem set_in_self (w : hal) (i : Nat) (s : Option tuna_stream_in) :
    (w.set_in i s).ins i = s := by
  simp [hal.set_in]

theorem in_remove_audio_effect_absent (h : audio_hw_h) (w : hal) (i effect : Nat)
    (desc_status : Int) (is_aec : Bool) (o1 o2 : reconfigure_oracle) (s : tuna_stream_in)
    (hs : w.ins i = some s) (h0 : (remove_preprocessor s effect).1 ≠ 0) :
    in_remove_audio_effect h w i effect desc_status is_aec o1 o2 =
      ((remove_preprocessor s effect).1, w) := by
  unfold in_remove_audio_effect
  rw [hs]
  simp only
  rw [if_pos h0]

theorem in_remove_audio_effect_fx (h : audio_hw_h) (w : hal) (i effect : Nat)
    (desc_status : Int) (is_aec : Bool) (o1 o2 : reconfigure_oracle) (s : tuna_stream_in)
    (hs : w.ins i = some s) (h0 : (remove_preprocessor s effect).1 = 0) :
    ∃ s', (in_remove_audio_effect h w i effect desc_status is_aec o1 o2).2.ins i = some s' ∧
      fx_view s' = fx_view (remove_preprocessor s effect).2 := by
  have h1 := same_fx_in_update_aux_channels h
    (w.set_in i (some (remove_preprocessor s effect).2)) i none o1 o2
  have key : same_fx (w.set_in i (some (remove_preprocessor s effect).2))
      (in_remove_audio_effect h w i effect desc_status is_aec o1 o2).2 := by
    unfold in_remove_audio_effect
    rw [hs]
    simp only
    rw [if_neg (not_not.mpr h0)]
    split_ifs
    · exact h1
    · refine same_fx_trans h1 (same_fx_trans ?_ (same_fx_do_input_standby h _ i))
      exact same_fx_update_in _ i _ (fun _ => rfl)
    · exact h1
  exact same_fx_at key i _ (set_in_self w i _)

theorem in_add_audio_effect_fx (h : audio_hw_h) (w : hal) (i effect : Nat)
    (is_aec : Bool) (reply : channel_configs_reply) (o1 o2 : reconfigure_oracle)
    (s : tuna_stream_in) (hs : w.ins i = some s)
    (hfree : s.num_preprocessors < h.MAX_PREPROCESSORS) :
    (in_add_audio_effect h w i effect 0 is_aec reply o1 o2).1 = 0 ∧
    ∃ s', (in_add_audio_effect h w i effect 0 is_aec reply o1 o2).2.ins i = some s' ∧
      fx_view s' = fx_view (append_preprocessor s effect reply) := by
  have h1 := same_fx_in_update_aux_channels h
    (w.set_in i (some (append_preprocessor s effect reply))) i (some effect) o1 o2
  have key : (in_add_audio_effect h w i effect 0 is_aec reply o1 o2).1 = 0 ∧
      same_fx (w.set_in i (some (append_preprocessor s effect reply)))
        (in_add_audio_effect h w i effect 0 is_aec reply o1 o2).2 := by
    unfold in_add_audio_effect
    rw [hs]
    simp only
    rw [if_neg (not_le.mpr hfree), if_neg (by simp)]
    refine ⟨rfl, ?_⟩
    split_ifs
    · refine same_fx_trans h1 (same_fx_trans ?_ (same_fx_do_input_standby h _ i))
      exact same_fx_update_in _ i _ (fun _ => rfl)
    · exact h1
  exact ⟨key.1, same_fx_at key.2 i _ (set_in_self w i _)⟩
/-! ## Lemmas on the stream and device entry points -/

theorem check_input_parameters_spec (sample_rate : Nat) (format : Int) (channel_mask : Nat) :
    check_input_parameters sample_rate format (popcount channel_mask) ≠ 0 ↔
      (format ≠ AUDIO_FORMAT_PCM_16_BIT ∨
        (popcount channel_mask ≠ 1 ∧ popcount channel_mask ≠ 2) ∨
        sample_rate ∉ [8000, 11025, 16000, 22050, 24000, 32000, 44100, 48000]) := by
  have hE : (-EINVAL : Int) ≠ 0 := by decide
  unfold check_input_parameters
  by_cases hf : format ≠ AUDIO_FORMAT_PCM_16_BIT
  · simp [hf, hE]
  · rw [if_neg hf]
    by_cases hc : ((popcount channel_mask : Nat) : Int) < 1 ∨ ((popcount channel_mask : Nat) : Int) > 2
    · rw [if_pos hc]
      have : popcount channel_mask ≠ 1 ∧ popcount channel_mask ≠ 2 := by omega
      simp [hE, this]
    · rw [if_neg hc]
      have hc2 : ¬ (popcount channel_mask ≠ 1 ∧ popcount channel_mask ≠ 2) := by omega
      by_cases hr : sample_rate = 8000 ∨ sample_rate = 11025 ∨ sample_rate = 16000 ∨
          sample_rate = 22050 ∨ sample_rate = 24000 ∨ sample_rate = 32000 ∨
          sample_rate = 44100 ∨ sample_rate = 48000
      · rw [if_pos hr]
        have hmem : sample_rate ∈ [8000, 11025, 16000, 22050, 24000, 32000, 44100, 48000] := by
          simpa using hr
        simp only [ne_eq, not_true_eq_false, false_iff]
        rintro (h1 | h1 | h1)
        · exact hf h1
        · exact hc2 h1
        · exact h1 hmem
      · rw [if_neg hr]
        have hmem : sample_rate ∉ [8000, 11025, 16000, 22050, 24000, 32000, 44100, 48000] := by
          simpa using hr
        simp [hE, hmem]

theorem put_echo_reference_adev (w : hal) (r : Option Nat) :
    (put_echo_reference w r).adev.out_device = w.adev.out_device ∧
    (put_echo_reference w r).adev.mode = w.adev.mode ∧
    (put_echo_reference w r).adev.in_call = w.adev.in_call ∧
    (put_echo_reference w r).adev.in_device = w.adev.in_device ∧
    (put_echo_reference w r).adev.active_input = w.adev.active_input := by
  unfold put_echo_reference
  split_ifs
  · simp only
    split
    · split_ifs <;> exact ⟨rfl, rfl, rfl, rfl, rfl⟩
    · exact ⟨rfl, rfl, rfl, rfl, rfl⟩
  · exact ⟨rfl, rfl, rfl, rfl, rfl⟩

theorem put_echo_reference_pcm_view (w : hal) (r : Option Nat) (t : output_type) :
    ((put_echo_reference w r).adev.outputs t).map pcm_view =
      (w.adev.outputs t).map pcm_view := by
  unfold put_echo_reference
  split_ifs
  · simp only
    split
    · rename_i out hout
      split_ifs
      · simp only [hal.set_out]
        by_cases ht : t = OUTPUT_LOW_LATENCY
        · subst ht
          rw [if_pos rfl, hout]
          unfold remove_echo_reference
          split_ifs <;> rfl
        · rw [if_neg ht]
      · rfl
    · rfl
  · rfl

theorem do_input_standby_adev (h : audio_hw_h) (w : hal) (i : Nat) :
    (do_input_standby h w i).adev.out_device = w.adev.out_device ∧
    (do_input_standby h w i).adev.mode = w.adev.mode ∧
    (do_input_standby h w i).adev.in_call = w.adev.in_call ∧
    (w.adev.mode = AUDIO_MODE_IN_CALL →
      (do_input_standby h w i).adev.in_device = w.adev.in_device) := by
  unfold do_input_standby
  split
  · exact ⟨rfl, rfl, rfl, fun _ => rfl⟩
  · simp only
    split_ifs <;>
      simp [hal.update_in, hal.set_in, hal.select_input_device, put_echo_reference_adev] <;>
      intro hc <;> contradiction

theorem do_input_standby_pcm_view (h : audio_hw_h) (w : hal) (i : Nat) (t : output_type) :
    ((do_input_standby h w i).adev.outputs t).map pcm_view =
      (w.adev.outputs t).map pcm_view := by
  unfold do_input_standby
  split
  · rfl
  · simp only
    split_ifs <;>
      simp [hal.update_in, hal.set_in, hal.select_input_device, put_echo_reference_pcm_view]
theorem do_output_standby_ll_active (h : audio_hw_h) (w : hal) (out : tuna_stream_out)
    (ho : w.adev.outputs OUTPUT_LOW_LATENCY = some out) (hs : out.standby = false) :
    (do_output_standby h w OUTPUT_LOW_LATENCY).adev.outputs OUTPUT_LOW_LATENCY =
      some { out with standby := true, pcm_normal := none, pcm_spdif := none,
                      pcm_hdmi := none, echo_reference := none } ∧
    (do_output_standby h w OUTPUT_LOW_LATENCY).adev.out_device = w.adev.out_device ∧
    (do_output_standby h w OUTPUT_LOW_LATENCY).adev.in_device = w.adev.in_device ∧
    (do_output_standby h w OUTPUT_LOW_LATENCY).adev.mode = w.adev.mode ∧
    (do_output_standby h w OUTPUT_LOW_LATENCY).adev.in_call = w.adev.in_call ∧
    (do_output_standby h w OUTPUT_LOW_LATENCY).adev.active_input = w.adev.active_input ∧
    (do_output_standby h w OUTPUT_LOW_LATENCY).ins = w.ins := by
  unfold do_output_standby do_output_standby_body
  rw [ho]
  simp only [hs, if_true]
  have hne : ¬ (OUTPUT_LOW_LATENCY = OUTPUT_HDMI) := by decide
  simp only [hne, if_false]
  split_ifs <;> simp [hal.update_out, hal.set_out]

theorem do_output_standby_frame (h : audio_hw_h) (w : hal) (t : output_type) :
    (do_output_standby h w t).adev.out_device = w.adev.out_device ∧
    (do_output_standby h w t).adev.in_device = w.adev.in_device ∧
    (do_output_standby h w t).adev.mode = w.adev.mode ∧
    (do_output_standby h w t).adev.in_call = w.adev.in_call ∧
    (do_output_standby h w t).adev.active_input = w.adev.active_input ∧
    (do_output_standby h w t).ins = w.ins := by
  have hbody : ∀ (w : hal) (t : output_type) (clause : hal → hal),
      (∀ w', (clause w').adev.out_device = w'.adev.out_device ∧
        (clause w').adev.in_device = w'.adev.in_device ∧
        (clause w').adev.mode = w'.adev.mode ∧
        (clause w').adev.in_call = w'.adev.in_call ∧
        (clause w').adev.active_input = w'.adev.active_input ∧
        (clause w').ins = w'.ins) →
      (do_output_standby_body h w t clause).adev.out_device = w.adev.out_device ∧
      (do_output_standby_body h w t clause).adev.in_device = w.adev.in_device ∧
      (do_output_standby_body h w t clause).adev.mode = w.adev.mode ∧
      (do_output_standby_body h w t clause).adev.in_call = w.adev.in_call ∧
      (do_output_standby_body h w t clause).adev.active_input = w.adev.active_input ∧
      (do_output_standby_body h w t clause).ins = w.ins := by
    intro w t clause hcl
    unfold do_output_standby_body
    split
    · exact ⟨rfl, rfl, rfl, rfl, rfl, rfl⟩
    · simp only
      split_ifs <;> simp [hal.update_out, hal.set_out, hcl]
  unfold do_output_standby
  apply hbody
  intro w'
  split_ifs
  · split
    · split_ifs
      · exact hbody _ _ _ (fun _ => ⟨rfl, rfl, rfl, rfl, rfl, rfl⟩)
      · exact ⟨rfl, rfl, rfl, rfl, rfl, rfl⟩
    · exact ⟨rfl, rfl, rfl, rfl, rfl, rfl⟩
  · exact ⟨rfl, rfl, rfl, rfl, rfl, rfl⟩

theorem opt_input_standby_frame (h : audio_hw_h) (w : hal) (c : Bool) (t : output_type) :
    (if c = true then
        match w.adev.active_input with
        | some i => do_input_standby h w i
        | none => w
      else w).adev.out_device = w.adev.out_device ∧
    ((if c = true then
        match w.adev.active_input with
        | some i => do_input_standby h w i
        | none => w
      else w).adev.outputs t).map pcm_view = (w.adev.outputs t).map pcm_view := by
  split_ifs
  · split
    · exact ⟨(do_input_standby_adev h w _).1, do_input_standby_pcm_view h w _ t⟩
    · exact ⟨rfl, rfl⟩
  · exact ⟨rfl, rfl⟩

theorem opt_input_standby_ll (h : audio_hw_h) (w : hal) (c : Bool)
    (v : Bool × Option pcm × Option pcm × Option pcm)
    (hw : (w.adev.outputs OUTPUT_LOW_LATENCY).map pcm_view = some v) :
    ∃ out', (if c = true then
        match w.adev.active_input with
        | some i => do_input_standby h w i
        | none => w
      else w).adev.outputs OUTPUT_LOW_LATENCY = some out' ∧
      out'.standby = v.1 ∧ out'.pcm_normal = v.2.1 ∧ out'.pcm_spdif = v.2.2.1 ∧
      out'.pcm_hdmi = v.2.2.2 := by
  have h2 := (opt_input_standby_frame h w c OUTPUT_LOW_LATENCY).2
  rw [hw] at h2
  generalize (if c = true then
        match w.adev.active_input with
        | some i => do_input_standby h w i
        | none => w
      else w) = w3 at h2
  cases hout : w3.adev.outputs OUTPUT_LOW_LATENCY with
  | none => rw [hout] at h2; cases h2
  | some o =>
    rw [hout] at h2
    have hv := Option.some.inj h2
    subst hv
    exact ⟨o, rfl, rfl, rfl, rfl, rfl⟩

theorem do_input_standby_standby (h : audio_hw_h) (w : hal) (i : Nat) :
    ((do_input_standby h w i).ins i).map (fun s => s.standby) =
      (w.ins i).map (fun _ => true) := by
  unfold do_input_standby
  cases hi : w.ins i with
  | none => simp [hi]
  | some s =>
    simp only
    by_cases hs : s.standby = false
    · rw [if_pos hs]
      split_ifs <;>
        simp [hal.update_in, hal.set_in, hal.select_input_device, put_echo_reference_ins, hi]
    · rw [if_neg hs, hi]
      simpa using hs

theorem start_call_frame (h : audio_hw_h) (w : hal) (dl ul : Bool) :
    (start_call h w dl ul).2.adev.outputs = w.adev.outputs ∧
    (start_call h w dl ul).2.ins = w.ins ∧
    (start_call h w dl ul).2.adev.out_device = w.adev.out_device ∧
    (start_call h w dl ul).2.adev.in_device = w.adev.in_device ∧
    (start_call h w dl ul).2.adev.mode = w.adev.mode ∧
    (start_call h w dl ul).2.adev.in_call = w.adev.in_call ∧
    (start_call h w dl ul).2.adev.active_input = w.adev.active_input := by
  unfold start_call
  simp only
  split_ifs <;> (repeat' split) <;> exact ⟨rfl, rfl, rfl, rfl, rfl, rfl, rfl⟩

theorem force_all_standby_frame (h : audio_hw_h) (w : hal) :
    (force_all_standby h w).adev.out_device = w.adev.out_device ∧
    (force_all_standby h w).adev.mode = w.adev.mode ∧
    (force_all_standby h w).adev.in_call = w.adev.in_call ∧
    (w.adev.mode = AUDIO_MODE_IN_CALL →
      (force_all_standby h w).adev.in_device = w.adev.in_device) := by
  have h1 : ∀ w1 : hal, w1.adev.out_device = w.adev.out_device →
      w1.adev.mode = w.adev.mode → w1.adev.in_call = w.adev.in_call →
      w1.adev.in_device = w.adev.in_device →
      (match w1.adev.active_input with
        | some i => do_input_standby h w1 i
        | none => w1).adev.out_device = w.adev.out_device ∧
      (match w1.adev.active_input with
        | some i => do_input_standby h w1 i
        | none => w1).adev.mode = w.adev.mode ∧
      (match w1.adev.active_input with
        | some i => do_input_standby h w1 i
        | none => w1).adev.in_call = w.adev.in_call ∧
      (w.adev.mode = AUDIO_MODE_IN_CALL →
        (match w1.adev.active_input with
          | some i => do_input_standby h w1 i
          | none => w1).adev.in_device = w.adev.in_device) := by
    intro w1 e1 e2 e3 e4
    split
    · rename_i i _
      obtain ⟨a1, a2, a3, a4⟩ := do_input_standby_adev h w1 i
      exact ⟨a1.trans e1, a2.trans e2, a3.trans e3, fun hm => (a4 (e2.trans hm)).trans e4⟩
    · exact ⟨e1, e2, e3, fun _ => e4⟩
  unfold force_all_standby
  simp only
  apply h1
  all_goals split
  all_goals first
    | rfl
    | (split_ifs
       · first
         | exact (do_output_standby_frame h w _).1
         | exact (do_output_standby_frame h w _).2.2.1
         | exact (do_output_standby_frame h w _).2.2.2.1
         | exact (do_output_standby_frame h w _).2.1
       · rfl)

theorem standby_of_pcm_view {x y : Option tuna_stream_out}
    (hxy : x.map pcm_view = y.map pcm_view) :
    x.map (fun o : tuna_stream_out => o.standby) = y.map (fun o : tuna_stream_out => o.standby) := by
  have := congrArg (Option.map Prod.fst) hxy
  simpa [Option.map_map, Function.comp_def, pcm_view] using this

theorem ll_standby_step (h : audio_hw_h) (w : hal) :
    ((match w.adev.outputs OUTPUT_LOW_LATENCY with
      | some out => if out.standby = false then do_output_standby h w OUTPUT_LOW_LATENCY else w
      | none => w).adev.outputs OUTPUT_LOW_LATENCY).map (fun o : tuna_stream_out => o.standby) =
      (w.adev.outputs OUTPUT_LOW_LATENCY).map (fun _ => true) ∧
    (match w.adev.outputs OUTPUT_LOW_LATENCY with
      | some out => if out.standby = false then do_output_standby h w OUTPUT_LOW_LATENCY else w
      | none => w).adev.active_input = w.adev.active_input ∧
    (match w.adev.outputs OUTPUT_LOW_LATENCY with
      | some out => if out.standby = false then do_output_standby h w OUTPUT_LOW_LATENCY else w
      | none => w).ins = w.ins := by
  cases ho : w.adev.outputs OUTPUT_LOW_LATENCY with
  | none => simp [ho]
  | some out =>
    simp only
    by_cases hs : out.standby = false
    · rw [if_pos hs]
      obtain ⟨h1, _, _, _, _, h6, h7⟩ := do_output_standby_ll_active h w out ho hs
      rw [h1]
      exact ⟨rfl, h6, h7⟩
    · rw [if_neg hs, ho]
      refine ⟨?_, rfl, rfl⟩
      simpa using hs

theorem force_all_standby_standby (h : audio_hw_h) (w : hal) :
    ((force_all_standby h w).adev.outputs OUTPUT_LOW_LATENCY).map (fun o : tuna_stream_out => o.standby) =
      (w.adev.outputs OUTPUT_LOW_LATENCY).map (fun _ => true) ∧
    ∀ i, w.adev.active_input = some i →
      ((force_all_standby h w).ins i).map (fun s : tuna_stream_in => s.standby) =
        (w.ins i).map (fun _ => true) := by
  obtain ⟨h1, h2, h3⟩ := ll_standby_step h w
  unfold force_all_standby
  simp only
  generalize (match w.adev.outputs OUTPUT_LOW_LATENCY with
      | some out => if out.standby = false then do_output_standby h w OUTPUT_LOW_LATENCY else w
      | none => w) = w1 at h1 h2 h3
  constructor
  · rw [← h1]
    split
    · exact standby_of_pcm_view (do_input_standby_pcm_view h w1 _ _)
    · rfl
  · intro i hi
    rw [h2, hi, ← h3]
    exact do_input_standby_standby h w1 i

theorem select_mode_enters_call (h : audio_hw_h) (w : hal) (dl_ready ul_ready : Bool)
    (hmode : w.adev.mode = AUDIO_MODE_IN_CALL) (hcall : w.adev.in_call = false) :
    (select_mode h w dl_ready ul_ready).adev.in_call = true ∧
    (w.adev.out_device = AUDIO_DEVICE_OUT_SPEAKER →
      (select_mode h w dl_ready ul_ready).adev.out_device = AUDIO_DEVICE_OUT_EARPIECE ∧
      (select_mode h w dl_ready ul_ready).adev.in_device
        = AUDIO_DEVICE_IN_BUILTIN_MIC &&& not32 AUDIO_DEVICE_BIT_IN) ∧
    (w.adev.out_device ≠ AUDIO_DEVICE_OUT_SPEAKER →
      (select_mode h w dl_ready ul_ready).adev.out_device
        = w.adev.out_device &&& not32 AUDIO_DEVICE_OUT_SPEAKER ∧
      (select_mode h w dl_ready ul_ready).adev.in_device = w.adev.in_device) ∧
    ((select_mode h w dl_ready ul_ready).adev.outputs OUTPUT_LOW_LATENCY).map
        (fun o : tuna_stream_out => o.standby) = (w.adev.outputs OUTPUT_LOW_LATENCY).map (fun _ => true) ∧
    (∀ i, w.adev.active_input = some i →
      ((select_mode h w dl_ready ul_ready).ins i).map (fun s : tuna_stream_in => s.standby) =
        (w.ins i).map (fun _ => true)) := by
  obtain ⟨f1, _, _, f4⟩ := force_all_standby_frame h w
  have f4' := f4 hmode
  obtain ⟨s1, s2⟩ := force_all_standby_standby h w
  unfold select_mode
  rw [if_pos hmode, if_pos hcall]
  simp only
  generalize force_all_standby h w = w1 at f1 f4' s1 s2
  by_cases hsp : w1.adev.out_device = AUDIO_DEVICE_OUT_SPEAKER
  · rw [if_pos hsp]
    refine ⟨trivial, fun _ => ⟨?_, ?_⟩, fun hn => absurd (f1 ▸ hsp) hn, ?_, fun i hi => ?_⟩
    · exact Eq.trans (start_call_frame h _ dl_ready ul_ready).2.2.1 rfl
    · exact Eq.trans (start_call_frame h _ dl_ready ul_ready).2.2.2.1 rfl
    · rw [← s1]
      exact congrArg (fun f => (f OUTPUT_LOW_LATENCY).map (fun o : tuna_stream_out => o.standby))
        (start_call_frame h _ dl_ready ul_ready).1
    · rw [← s2 i hi]
      exact congrArg (fun f => (f i).map (fun s : tuna_stream_in => s.standby))
        (start_call_frame h _ dl_ready ul_ready).2.1
  · rw [if_neg hsp]
    refine ⟨trivial, fun hp => absurd (f1 ▸ hp) hsp, fun _ => ⟨?_, ?_⟩, ?_, fun i hi => ?_⟩
    · rw [← f1]
      exact Eq.trans (start_call_frame h _ dl_ready ul_ready).2.2.1 rfl
    · rw [← f4']
      exact Eq.trans (start_call_frame h _ dl_ready ul_ready).2.2.2.1 rfl
    · rw [← s1]
      exact congrArg (fun f => (f OUTPUT_LOW_LATENCY).map (fun o : tuna_stream_out => o.standby))
        (start_call_frame h _ dl_ready ul_ready).1
    · rw [← s2 i hi]
      exact congrArg (fun f => (f i).map (fun s : tuna_stream_in => s.standby))
        (start_call_frame h _ dl_ready ul_ready).2.1


theorem do_input_standby_ins_view {α : Type} (h : audio_hw_h) (w : hal) (i k : Nat)
    (g : tuna_stream_in → α)
    (hg : ∀ s p e b, g { s with pcm := p, echo_reference := e, standby := b } = g s) :
    ((do_input_standby h w i).ins k).map g = (w.ins k).map g := by
  unfold do_input_standby
  cases hi : w.ins i with
  | none => rfl
  | some s =>
    simp only
    split_ifs <;>
      simp [hal.update_in, hal.set_in, hal.select_input_device, put_echo_reference_ins, hi] <;>
      (by_cases hk : k = i <;> simp [hk, hi]) <;>
      exact hg s _ _ _


/-- The receive-path classification in a call without a Bluetooth SCO bit, by TTY mode. -/
theorem rx_flags_tty (adev : tuna_audio_device) (hcall : adev.mode = AUDIO_MODE_IN_CALL)
    (hbt : adev.out_device &&& AUDIO_DEVICE_OUT_ALL_SCO = 0) :
    rx_flags adev =
      match adev.tty_mode with
      | TTY_MODE_FULL | TTY_MODE_VCO =>
        { headphone_on := 1, headset_on := 0, speaker_on := 0, earpiece_on := 0, bt_on := 0,
          tty_volume := true }
      | TTY_MODE_HCO =>
        { headphone_on := 0, headset_on := 0, speaker_on := 1, earpiece_on := 0, bt_on := 0,
          tty_volume := false }
      | TTY_MODE_OFF =>
        { headphone_on := adev.out_device &&& AUDIO_DEVICE_OUT_WIRED_HEADPHONE,
          headset_on := adev.out_device &&& AUDIO_DEVICE_OUT_WIRED_HEADSET,
          speaker_on :=
            if adev.out_device &&&
                (AUDIO_DEVICE_OUT_AUX_DIGITAL ||| AUDIO_DEVICE_OUT_DGTL_DOCK_HEADSET) ≠ 0
            then 1 else adev.out_device &&& AUDIO_DEVICE_OUT_SPEAKER,
          earpiece_on := adev.out_device &&& AUDIO_DEVICE_OUT_EARPIECE, bt_on := 0,
          tty_volume := false } := by
  unfold rx_flags
  simp only [hcall, hbt, and_self, if_true]

/-! ## Requests that leave the voice uplink volume alone -/

theorem avoids_id (n : String) : Avoids n [] [] (fun s => s) :=
  fun s => ⟨[], by simp, by simp⟩

theorem avoids_comp {n : String} {pre post : List hw_event} {f g : hw_state → hw_state}
    (hg : Avoids n [] post g) (hf : Avoids n pre [] f) : Avoids n pre post (fun s => g (f s)) := by
  intro s
  obtain ⟨es, he, hes⟩ := hf s
  obtain ⟨es', he', hes'⟩ := hg (f s)
  refine ⟨es ++ es', ?_, ?_⟩
  · rw [he', he]; simp
  · intro e hmem
    rcases List.mem_append.mp hmem with hm | hm
    · exact hes e hm
    · exact hes' e hm

theorem avoids_emit {n : String} (e : hw_event) (he : e.target ≠ some n) :
    Avoids n [] [] (fun s => s.emit e) :=
  fun s => ⟨[e], by simp [hw_state.emit], by simpa using he⟩

theorem avoids_ite {n : String} {pre post : List hw_event} {f g : hw_state → hw_state}
    (c : Prop) [Decidable c] (hf : Avoids n pre post f) (hg : Avoids n pre post g) :
    Avoids n pre post (fun s => if c then f s else g s) := by
  by_cases hc : c
  · simpa [hc] using hf
  · simpa [hc] using hg

theorem avoids_set_value {n : String} {pre : List hw_event} {f : hw_state → hw_state}
    (hf : Avoids n pre [] f) (ctl : String) (id : Nat) (v : Int) (hc : ctl ≠ n) :
    Avoids n pre [] (fun s => mixer_ctl_set_value (f s) ctl id v) :=
  avoids_comp (avoids_emit _ (by simpa [hw_event.target] using hc)) hf

theorem avoids_set_enum {n : String} {pre : List hw_event} {f : hw_state → hw_state}
    (hf : Avoids n pre [] f) (ctl : String) (v : String) (hc : ctl ≠ n) :
    Avoids n pre [] (fun s => mixer_ctl_set_enum_by_string (f s) ctl v) :=
  avoids_comp (avoids_emit _ (by simpa [hw_event.target] using hc)) hf

theorem avoids_ril_path {n : String} {pre : List hw_event} {f : hw_state → hw_state}
    (hf : Avoids n pre [] f) (p : Int) :
    Avoids n pre [] (fun s => ril_set_call_audio_path (f s) p) :=
  avoids_comp (avoids_emit _ (by simp [hw_event.target])) hf

theorem avoids_set_all_values_base {n : String} (ctl : String) (v : Int) (hc : ctl ≠ n) :
    Avoids n [] [] (fun s => set_all_values s ctl v) := by
  intro s
  refine ⟨(List.range (mixer_ctl_get_num_values s ctl)).map
    (fun j => hw_event.set_value ctl j v), ?_, ?_⟩
  · show (set_all_values s ctl v).trace = _
    unfold set_all_values
    have := foldl_emit (List.range (mixer_ctl_get_num_values s ctl))
      (fun j => hw_event.set_value ctl j v) s
    simp only [mixer_ctl_set_value]
    rw [this, emits_trace]
    simp
  · intro e he
    obtain ⟨j, _, rfl⟩ := List.mem_map.mp he
    simpa [hw_event.target] using hc

theorem avoids_set_route_base {n : String} (route : List route_setting) (enable : Bool)
    (hr : ∀ r ∈ route, r.ctl_name ≠ n) :
    Avoids n [] [] (fun s => (set_route_by_array s route enable).2) := by
  induction route with
  | nil => exact avoids_id n
  | cons r rest ih =>
    have ih' := ih (fun r' hr' => hr r' (List.mem_cons_of_mem _ hr'))
    have hn := hr r (List.mem_cons_self _ _)
    have hstep : Avoids n [] [] (fun s =>
        match r.strval with
        | some str =>
          if enable = true then mixer_ctl_set_enum_by_string s r.ctl_name str
          else mixer_ctl_set_enum_by_string s r.ctl_name "Off"
        | none =>
          if enable = true then set_all_values s r.ctl_name r.intval
          else set_all_values s r.ctl_name 0) := by
      cases r.strval with
      | some str =>
        exact avoids_ite _ (avoids_set_enum (avoids_id n) _ _ hn)
          (avoids_set_enum (avoids_id n) _ _ hn)
      | none =>
        exact avoids_ite _ (avoids_set_all_values_base _ _ hn)
          (avoids_set_all_values_base _ _ hn)
    intro s
    simp only [set_route_by_array, mixer_get_ctl_by_name]
    by_cases hs : (s.ctls r.ctl_name).isSome = true
    · simp only [hs, if_true]
      exact avoids_comp ih' hstep s
    · simp only [hs]
      exact avoids_id n s

theorem avoids_set_route {n : String} {pre : List hw_event} {f : hw_state → hw_state}
    (hf : Avoids n pre [] f) (route : List route_setting) (enable : Bool)
    (hr : ∀ r ∈ route, r.ctl_name ≠ n) :
    Avoids n pre [] (fun s => (set_route_by_array (f s) route enable).2) :=
  avoids_comp (avoids_set_route_base route enable hr) hf

theorem avoids_post {n : String} {pre : List hw_event} {g f : hw_state → hw_state}
    (hg : Avoids n [] [] g) (hf : Avoids n pre [] f) : Avoids n pre [] (fun s => g (f s)) :=
  avoids_comp hg hf

theorem avoids_mute (n : String) :
    Avoids n [.set_value n 0 0, .set_value n 1 0] []
      (fun s => mixer_ctl_set_value (mixer_ctl_set_value s n 0 0) n 1 0) :=
  fun s => ⟨[], by simp [mixer_ctl_set_value, hw_state.emit], by simp⟩

theorem avoids_close3 {n : String} {pre : List hw_event} {f : hw_state → hw_state}
    (hf : Avoids n pre [] f) (a b c : String) (i j k : Nat) (v w x : Int) :
    Avoids n pre [.set_value a i v, .set_value b j w, .set_value c k x]
      (fun s => mixer_ctl_set_value (mixer_ctl_set_value (mixer_ctl_set_value (f s) a i v) b j w)
        c k x) := by
  intro s
  obtain ⟨es, he, hes⟩ := hf s
  exact ⟨es, by simp [mixer_ctl_set_value, hw_state.emit, he], hes⟩

theorem avoids_set_eq_filter_base (h : audio_hw_h) (adev : tuna_audio_device)
    (hx : vul_exclusive h adev.mixer_ctls) :
    Avoids adev.mixer_ctls.voice_ul_volume [] [] (set_eq_filter h adev) := by
  show Avoids _ [] [] (fun s => set_eq_filter h adev s)
  simp only [set_eq_filter]
  exact avoids_ite _ (avoids_set_enum (avoids_id _) _ _ (hx.1 _ (by simp [other_ctls])))
    (avoids_set_enum (avoids_id _) _ _ (hx.1 _ (by simp [other_ctls])))

theorem avoids_set_incall_device_base (h : audio_hw_h) (adev : tuna_audio_device) (n : String) :
    Avoids n [] [] (set_incall_device h adev) :=
  avoids_ril_path (avoids_id n) _

theorem avoids_set_input_volumes_base (h : audio_hw_h) (adev : tuna_audio_device)
    (act : Option tuna_stream_in) (a b c : Bool) (hx : vul_exclusive h adev.mixer_ctls) :
    Avoids adev.mixer_ctls.voice_ul_volume [] [] (set_input_volumes h adev act a b c) := by
  show Avoids _ [] [] (fun s => set_input_volumes h adev act a b c s)
  simp only [set_input_volumes]
  exact avoids_set_value (avoids_set_value (avoids_id _) _ _ _ (hx.1 _ (by simp [other_ctls])))
    _ _ _ (hx.1 _ (by simp [other_ctls]))

theorem avoids_write_output_volumes_base (h : audio_hw_h) (adev : tuna_audio_device)
    (v : output_volumes) (hx : vul_exclusive h adev.mixer_ctls) :
    Avoids adev.mixer_ctls.voice_ul_volume [] [] (write_output_volumes h adev v) := by
  show Avoids _ [] [] (fun s => write_output_volumes h adev v s)
  simp only [write_output_volumes]
  repeat' (first
    | exact avoids_id _
    | with_reducible apply avoids_set_value
    | with_reducible apply avoids_ite)
  all_goals exact hx.1 _ (by simp [other_ctls])

theorem avoids_set_output_volumes_base (h : audio_hw_h) (adev : tuna_audio_device)
    (tty_volume : Bool) (hx : vul_exclusive h adev.mixer_ctls) :
    Avoids adev.mixer_ctls.voice_ul_volume [] [] (set_output_volumes h adev tty_volume) :=
  fun s => avoids_write_output_volumes_base h adev _ hx s

theorem avoids_select_output_device_switch_base (h : audio_hw_h) (adev : tuna_audio_device)
    (hcall : adev.mode = AUDIO_MODE_IN_CALL) (hx : vul_exclusive h adev.mixer_ctls) :
    Avoids adev.mixer_ctls.voice_ul_volume
      [.set_value adev.mixer_ctls.voice_ul_volume 0 0,
        .set_value adev.mixer_ctls.voice_ul_volume 1 0] []
      (select_output_device_switch h adev) := by
  show Avoids _ _ [] (fun s => select_output_device_switch h adev s)
  simp only [select_output_device_switch, hcall, decide_True, if_true]
  repeat' (first
    | exact avoids_mute _
    | with_reducible apply avoids_set_value
    | with_reducible apply avoids_set_route
    | with_reducible apply avoids_post (avoids_set_eq_filter_base h adev hx))
  all_goals first
    | exact hx.1 _ (by simp [other_ctls])
    | exact fun r hr => hx.2 r (by simp [hr])

theorem avoids_select_output_device_capture_base (h : audio_hw_h) (adev : tuna_audio_device)
    (act : Option tuna_stream_in)
    (hcall : adev.mode = AUDIO_MODE_IN_CALL) (hx : vul_exclusive h adev.mixer_ctls) :
    ∃ x, Avoids adev.mixer_ctls.voice_ul_volume []
      [.set_value adev.mixer_ctls.voice_ul_volume 0 h.MIXER_ABE_GAIN_0DB,
        .set_value adev.mixer_ctls.voice_ul_volume 1 h.MIXER_ABE_GAIN_0DB,
        .set_value adev.mixer_ctls.sidetone_capture 0 x]
      (select_output_device_capture h adev act) := by
  refine ⟨?x, ?_⟩
  case x => exact ((if (decide (adev.mode = AUDIO_MODE_IN_CALL) = true) ∧ (rx_flags adev).bt_on = 0
      then (tx_flags adev (rx_flags adev)).earpiece_on else 0 : Nat) : Int)
  show Avoids _ _ _ (fun s => select_output_device_capture h adev act s)
  simp only [select_output_device_capture, hcall, decide_True, if_true]
  refine avoids_close3 ?_ _ _ _ _ _ _ _ _ _
  repeat' (first
    | exact avoids_id _
    | with_reducible apply avoids_set_value
    | with_reducible apply avoids_set_enum
    | with_reducible apply avoids_set_route
    | with_reducible apply avoids_ite
    | with_reducible apply avoids_post (avoids_set_incall_device_base h adev _)
    | with_reducible apply avoids_post (avoids_set_input_volumes_base h adev act _ _ _ hx))
  all_goals first
    | exact hx.1 _ (by simp [other_ctls])
    | exact fun r hr => hx.2 r (by simp [hr])

theorem apply_all_avoid (n : String) (es : List hw_event) (m : String → Option mixer_ctl)
    (hes : ∀ e ∈ es, e.target ≠ some n) : apply_all es m n = m n := by
  induction es generalizing m with
  | nil => rfl
  | cons e rest ih =>
    have h1 : e.apply m n = m n := by
      have := hes e (List.mem_cons_self _ _)
      unfold hw_event.apply
      cases ht : e.target with
      | none => rfl
      | some k =>
        rw [ht] at this
        have hk : n ≠ k := fun hc => this (by rw [hc])
        simp [modify_ctl, hk]
    show apply_all rest (e.apply m) n = m n
    rw [ih (e.apply m) (fun e' he' => hes e' (List.mem_cons_of_mem _ he')), h1]

/-! ## The single active input: preservation by the entry points -/

theorem same_in_refl (w : hal) : same_in w w := ⟨rfl, fun _ => rfl⟩

theorem same_in_trans {w1 w2 w3 : hal} (h12 : same_in w1 w2) (h23 : same_in w2 w3) :
    same_in w1 w3 :=
  ⟨h23.1.trans h12.1, fun k => (h23.2 k).trans (h12.2 k)⟩

theorem same_in_inv {w w' : hal} (hs : same_in w w') (hinv : in_inv w) : in_inv w' := by
  intro k s hk hst
  have h2 := hs.2 k
  rw [hk] at h2
  cases hw : w.ins k with
  | none => rw [hw] at h2; cases h2
  | some s0 =>
    rw [hw] at h2
    have h3 : s.standby = s0.standby := Option.some.inj h2
    rw [hs.1]
    exact hinv k s0 hw (h3 ▸ hst)

theorem same_in_of_eq {w w' : hal} (h1 : w'.adev.active_input = w.adev.active_input)
    (h2 : w'.ins = w.ins) : same_in w w' :=
  ⟨h1, fun k => by rw [h2]⟩

theorem same_in_update_in (w : hal) (i : Nat) (g : tuna_stream_in → tuna_stream_in)
    (hg : ∀ s, (g s).standby = s.standby) : same_in w (w.update_in i g) := by
  refine ⟨rfl, fun k => ?_⟩
  simp only [hal.update_in, hal.set_in]
  by_cases hk : k = i
  · subst hk
    simp only [if_true, Option.map_map]
    cases w.ins k with
    | none => rfl
    | some s => simp [hg]
  · simp only [hk, if_false]

theorem same_in_set_in (w : hal) (i : Nat) (s s' : tuna_stream_in) (hi : w.ins i = some s)
    (hs : s'.standby = s.standby) : same_in w (w.set_in i (some s')) := by
  refine ⟨rfl, fun k => ?_⟩
  simp only [hal.set_in]
  by_cases hk : k = i
  · subst hk
    simp [hi, hs]
  · simp only [hk, if_false]

theorem in_inv_all_standby (w : hal) (hall : ∀ k t, w.ins k = some t → t.standby = true) :
    in_inv w := by
  intro k s hk hs
  rw [hall k s hk] at hs
  cases hs

theorem do_input_standby_idle (h : audio_hw_h) (w : hal) (i : Nat)
    (hidle : ∀ s, w.ins i = some s → s.standby = true) : do_input_standby h w i = w := by
  unfold do_input_standby
  cases hi : w.ins i with
  | none => rfl
  | some s =>
    simp only
    rw [if_neg (by simp [hidle s hi])]

theorem do_input_standby_active (h : audio_hw_h) (w : hal) (i : Nat) (s : tuna_stream_in)
    (hi : w.ins i = some s) (hs : s.standby = false) :
    (do_input_standby h w i).adev.active_input = none ∧
    ∀ k, k ≠ i → (do_input_standby h w i).ins k = w.ins k := by
  unfold do_input_standby
  rw [hi]
  simp only
  rw [if_pos hs]
  constructor
  · split_ifs <;>
      simp [hal.update_in, hal.set_in, hal.select_input_device, put_echo_reference_adev]
  · intro k hk
    split_ifs <;>
      simp [hal.update_in, hal.set_in, hal.select_input_device, put_echo_reference_ins, hk]

theorem in_inv_do_input_standby (h : audio_hw_h) (w : hal) (i : Nat) (hinv : in_inv w) :
    in_inv (do_input_standby h w i) := by
  by_cases hidle : ∀ s, w.ins i = some s → s.standby = true
  · rw [do_input_standby_idle h w i hidle]
    exact hinv
  · push_neg at hidle
    obtain ⟨s, hi, hs⟩ := hidle
    have hs' : s.standby = false := by simpa using hs
    obtain ⟨_, hother⟩ := do_input_standby_active h w i s hi hs'
    have hself := do_input_standby_standby h w i
    have hai := hinv i s hi hs'
    intro k t hk ht
    by_cases hki : k = i
    · subst hki
      rw [hk] at hself
      rw [hi] at hself
      simp at hself
      rw [hself] at ht
      cases ht
    · rw [hother k hki] at hk
      have := hinv k t hk ht
      rw [hai] at this
      exact absurd (Option.some.inj this).symm hki

theorem in_inv_opt_input_standby (h : audio_hw_h) (w : hal) (c : Bool) (hinv : in_inv w) :
    in_inv (if c = true then
        match w.adev.active_input with
        | some i => do_input_standby h w i
        | none => w
      else w) := by
  split_ifs
  · split
    · exact in_inv_do_input_standby h w _ hinv
    · exact hinv
  · exact hinv

theorem same_in_do_output_standby (h : audio_hw_h) (w : hal) (t : output_type) :
    same_in w (do_output_standby h w t) :=
  same_in_of_eq (do_output_standby_frame h w t).2.2.2.2.1 (do_output_standby_frame h w t).2.2.2.2.2

theorem same_in_start_call (h : audio_hw_h) (w : hal) (dl ul : Bool) :
    same_in w (start_call h w dl ul).2 :=
  same_in_of_eq (start_call_frame h w dl ul).2.2.2.2.2.2 (start_call_frame h w dl ul).2.1

theorem in_inv_force_all_standby (h : audio_hw_h) (w : hal) (hinv : in_inv w) :
    in_inv (force_all_standby h w) := by
  unfold force_all_standby
  simp only
  have h1 : in_inv (match w.adev.outputs OUTPUT_LOW_LATENCY with
      | some out => if out.standby = false then do_output_standby h w OUTPUT_LOW_LATENCY else w
      | none => w) := by
    split
    · split_ifs
      · exact same_in_inv (same_in_do_output_standby h w _) hinv
      · exact hinv
    · exact hinv
  generalize (match w.adev.outputs OUTPUT_LOW_LATENCY with
      | some out => if out.standby = false then do_output_standby h w OUTPUT_LOW_LATENCY else w
      | none => w) = w1 at h1
  split
  · exact in_inv_do_input_standby h w1 _ h1
  · exact h1

theorem in_inv_select_mode (h : audio_hw_h) (w : hal) (dl ul : Bool) (hinv : in_inv w) :
    in_inv (select_mode h w dl ul) := by
  unfold select_mode
  split_ifs
  · have h1 := in_inv_force_all_standby h w hinv
    generalize force_all_standby h w = w1 at h1
    simp only
    split_ifs <;>
      refine same_in_inv (same_in_of_eq ?_ ?_) h1 <;>
      first
      | exact (start_call_frame h _ dl ul).2.2.2.2.2.2
      | exact (start_call_frame h _ dl ul).2.1
  · exact hinv
  · have h1 := in_inv_force_all_standby h
      (end_call { w with adev := { w.adev with in_call := false } })
      (same_in_inv (same_in_of_eq rfl rfl) hinv)
    exact same_in_inv (same_in_of_eq rfl rfl) h1
  · exact hinv

theorem in_inv_adev_set_mode (h : audio_hw_h) (w : hal) (mode : Int) (dl ul : Bool)
    (hinv : in_inv w) : in_inv (adev_set_mode h w mode dl ul).2 := by
  unfold adev_set_mode
  split_ifs
  · exact in_inv_select_mode h _ dl ul (same_in_inv (same_in_of_eq rfl rfl) hinv)
  · exact hinv

theorem in_inv_wb_amr (h : audio_hw_h) (w : hal) (enable : Int) (dl ul : Bool)
    (hinv : in_inv w) : in_inv (audio_set_wb_amr_callback h w enable dl ul) := by
  unfold audio_set_wb_amr_callback
  simp only
  split_ifs
  · refine same_in_inv (same_in_of_eq ?_ ?_) hinv
    · exact (start_call_frame h _ dl ul).2.2.2.2.2.2
    · exact (start_call_frame h _ dl ul).2.1
  · exact same_in_inv (same_in_of_eq rfl rfl) hinv
  · exact hinv

theorem same_in_adev_set_parameters (h : audio_hw_h) (w : hal)
    (tty bt_nrec screen_state : Option String) :
    same_in w (adev_set_parameters h w tty bt_nrec screen_state).2 := by
  unfold adev_set_parameters
  simp only
  split
  · exact same_in_refl w
  · rename_i w1 heq
    have h1 : same_in w w1 := by
      split at heq
      · split at heq
        · cases heq
        · split_ifs at heq <;> cases heq <;> exact same_in_of_eq rfl rfl
      · cases heq
        exact same_in_refl w
    cases bt_nrec <;> cases screen_state <;> exact same_in_trans h1 (same_in_of_eq rfl rfl)

theorem same_in_adev_set_mic_mute (h : audio_hw_h) (w : hal) (state : Bool) :
    same_in w (adev_set_mic_mute h w state).2 := by
  unfold adev_set_mic_mute
  simp only
  split_ifs <;> exact same_in_of_eq rfl rfl

theorem same_in_adev_set_voice_volume (w : hal) (volume : Nat) :
    same_in w (adev_set_voice_volume w volume).2 := by
  unfold adev_set_voice_volume
  simp only
  split_ifs <;> exact same_in_of_eq rfl rfl

theorem same_in_update_out (w : hal) (t : output_type) (g : tuna_stream_out → tuna_stream_out) :
    same_in w (w.update_out t g) := same_in_of_eq rfl rfl

theorem same_in_open_low_latency_pcms (h : audio_hw_h) (w : hal) (a b c : Bool) :
    same_in w (open_low_latency_pcms h w a b c) := by
  unfold open_low_latency_pcms
  simp only
  split_ifs <;> exact same_in_of_eq rfl rfl

theorem same_in_close_bad (w : hal) : same_in w (close_bad_low_latency_pcms w).2 := by
  unfold close_bad_low_latency_pcms
  split
  · exact same_in_refl w
  · exact same_in_of_eq rfl rfl

theorem same_in_start_low_latency (h : audio_hw_h) (w : hal) (a b c : Bool) :
    same_in w (start_output_stream_low_latency h w a b c).2 := by
  have h1 := same_in_trans (same_in_open_low_latency_pcms h w a b c)
    (same_in_close_bad (open_low_latency_pcms h w a b c))
  unfold start_output_stream_low_latency
  simp only
  generalize (close_bad_low_latency_pcms (open_low_latency_pcms h w a b c)) = r at h1
  split_ifs <;> exact same_in_trans h1 (same_in_of_eq rfl rfl)

theorem in_inv_write_low_latency (h : audio_hw_h) (w : hal) (bytes : Nat) (a b c : Bool)
    (ws : Int) (hinv : in_inv w) :
    in_inv (out_write_low_latency h w bytes a b c ws).2 := by
  have h1 := same_in_inv (same_in_start_low_latency h w a b c) hinv
  unfold out_write_low_latency
  split
  · exact hinv
  · simp only
    generalize start_output_stream_low_latency h w a b c = r at h1
    split_ifs
    · exact h1
    · split
      · exact in_inv_do_input_standby h _ _ (same_in_inv (same_in_of_eq rfl rfl) h1)
      · exact same_in_inv (same_in_of_eq rfl rfl) h1
    · exact same_in_inv (same_in_of_eq rfl rfl) h1
    · exact hinv

theorem same_in_start_deep_buffer (h : audio_hw_h) (w : hal) (ready : Bool) :
    same_in w (start_output_stream_deep_buffer h w ready).2 := by
  unfold start_output_stream_deep_buffer
  simp only
  split_ifs <;> exact same_in_of_eq rfl rfl

theorem same_in_write_deep_buffer (h : audio_hw_h) (w : hal) (bytes : Nat) (ready : Bool)
    (ws : Int) : same_in w (out_write_deep_buffer h w bytes ready ws).2 := by
  have h1 := same_in_start_deep_buffer h w ready
  unfold out_write_deep_buffer
  split
  · exact same_in_refl w
  · simp only
    generalize start_output_stream_deep_buffer h w ready = r at h1
    split_ifs <;> first
      | exact same_in_trans h1 (same_in_of_eq rfl rfl)
      | exact same_in_of_eq rfl rfl

theorem same_in_start_hdmi (h : audio_hw_h) (w : hal) (ready : Bool) :
    same_in w (start_output_stream_hdmi h w ready).2 := by
  have h1 : same_in w (match w.adev.outputs OUTPUT_LOW_LATENCY with
      | some ll => if ll.standby = false then do_output_standby h w OUTPUT_LOW_LATENCY else w
      | none => w) := by
    split
    · split_ifs
      · exact same_in_do_output_standby h w _
      · exact same_in_refl w
    · exact same_in_refl w
  unfold start_output_stream_hdmi
  simp only
  generalize (match w.adev.outputs OUTPUT_LOW_LATENCY with
      | some ll => if ll.standby = false then do_output_standby h w OUTPUT_LOW_LATENCY else w
      | none => w) = w1 at h1
  split_ifs <;> exact same_in_trans h1 (same_in_of_eq rfl rfl)

theorem same_in_write_hdmi (h : audio_hw_h) (w : hal) (bytes : Nat) (ready : Bool) :
    same_in w (out_write_hdmi h w bytes ready).2 := by
  have h0 := same_in_start_hdmi h w ready
  unfold out_write_hdmi
  split
  · exact same_in_refl w
  · rename_i out hout
    simp only
    have h1 : same_in w (if out.standby = true then
        if (start_output_stream_hdmi h w ready).1 ≠ 0 then (start_output_stream_hdmi h w ready).2
        else (start_output_stream_hdmi h w ready).2.update_out OUTPUT_HDMI
          (fun o => { o with standby := false })
      else w) := by
      split_ifs
      · exact h0
      · exact same_in_trans h0 (same_in_of_eq rfl rfl)
      · exact same_in_refl w
    generalize (if out.standby = true then
        if (start_output_stream_hdmi h w ready).1 ≠ 0 then (start_output_stream_hdmi h w ready).2
        else (start_output_stream_hdmi h w ready).2.update_out OUTPUT_HDMI
          (fun o => { o with standby := false })
      else w) = w1 at h1
    split
    · exact h1
    · split_ifs
      · exact same_in_trans h1 (same_in_trans (same_in_of_eq rfl rfl)
          (same_in_do_output_standby h _ OUTPUT_HDMI))
      · exact same_in_trans h1 (same_in_of_eq rfl rfl)
      · exact h1

theorem in_inv_out_set_parameters (h : audio_hw_h) (w : hal) (t : output_type)
    (routing : Option Nat) (hinv : in_inv w) : in_inv (out_set_parameters h w t routing) := by
  unfold out_set_parameters
  split
  · rename_i val out _
    simp only
    by_cases hc : w.adev.out_device ≠ val ∧ val ≠ 0
    · rw [if_pos hc]
      have h1 : ∀ (c : Prop) [Decidable c],
          in_inv (if c then do_output_standby h w t else w) := by
        intro c _
        split_ifs
        · exact same_in_inv (same_in_do_output_standby h w t) hinv
        · exact hinv
      have h2 : ∀ w1, in_inv w1 → in_inv (if t ≠ OUTPUT_HDMI then
          ({ w1 with adev := { w1.adev with out_device := val } }).select_output_device h
          else w1) := by
        intro w1 hw1
        split_ifs
        · exact same_in_inv (same_in_of_eq rfl rfl) hw1
        · exact hw1
      exact in_inv_opt_input_standby h _ _ (h2 _ (h1 _))
    · rw [if_neg hc]
      exact hinv
  · exact hinv

theorem same_in_open_output (h : audio_hw_h) (w : hal) (devices flags sample_rate
    channel_mask : Nat) (alloc_ok : Bool) (max_channels resampler_status : Int) :
    same_in w (adev_open_output_stream h w devices flags sample_rate channel_mask alloc_ok
      max_channels resampler_status).2.2 := by
  unfold adev_open_output_stream
  simp only
  split_ifs <;> exact same_in_refl w

theorem same_in_close_output (h : audio_hw_h) (w : hal) (t : output_type) :
    same_in w (adev_close_output_stream h w t) := by
  unfold adev_close_output_stream
  split
  · exact same_in_refl w
  · exact same_in_trans (same_in_do_output_standby h w t) (same_in_of_eq rfl rfl)

theorem in_inv_open_input (h : audio_hw_h) (w : hal) (devices sample_rate : Nat) (format : Int)
    (channel_mask : Nat) (alloc_ok : Bool) (resampler_status : Int) (hinv : in_inv w) :
    in_inv (adev_open_input_stream h w devices sample_rate format channel_mask alloc_ok
      resampler_status).2.2 := by
  have hnew : ∀ r : Option Nat, in_inv
      { w.set_in w.next_in (some (new_stream_in h devices sample_rate channel_mask r)) with
        next_in := w.next_in + 1 } := by
    intro r k s hk hs
    simp only [hal.set_in] at hk
    by_cases hki : k = w.next_in
    · rw [if_pos hki] at hk
      have := Option.some.inj hk
      subst this
      cases hs
    · rw [if_neg hki] at hk
      exact hinv k s hk hs
  unfold adev_open_input_stream
  simp only
  split_ifs <;> first
    | exact hinv
    | exact hnew _

theorem in_inv_set_in_none (w : hal) (i : Nat) (hinv : in_inv w) : in_inv (w.set_in i none) := by
  intro k s hk hs
  simp only [hal.set_in] at hk
  by_cases hki : k = i
  · rw [if_pos hki] at hk
    cases hk
  · rw [if_neg hki] at hk
    exact hinv k s hk hs

theorem in_inv_close_input (h : audio_hw_h) (w : hal) (i : Nat) (hinv : in_inv w) :
    in_inv (adev_close_input_stream h w i) := by
  unfold adev_close_input_stream
  split
  · exact hinv
  · exact in_inv_set_in_none _ i (in_inv_do_input_standby h w i hinv)

theorem in_inv_in_update_aux_channels (h : audio_hw_h) (w : hal) (i : Nat)
    (effect : Option Nat) (o1 o2 : reconfigure_oracle) (hinv : in_inv w) :
    in_inv (in_update_aux_channels h w i effect o1 o2) := by
  unfold in_update_aux_channels
  split
  · exact hinv
  · simp only
    split_ifs <;> first
      | exact hinv
      | exact in_inv_do_input_standby h _ i
          (same_in_inv (same_in_update_in w i _ (fun _ => rfl)) hinv)

theorem in_inv_in_set_parameters (h : audio_hw_h) (w : hal) (i : Nat) (source : Option Int)
    (routing : Option Nat) (o1 o2 : reconfigure_oracle) (hinv : in_inv w) :
    in_inv (in_set_parameters h w i source routing o1 o2) := by
  unfold in_set_parameters
  split
  · exact hinv
  · rename_i s hs
    simp only
    have h1 : in_inv (match source with
        | some val =>
          if (match source with
              | some val => decide (s.source ≠ val ∧ val ≠ 0)
              | none => false) = true then
            w.update_in i (fun s => { s with source := val })
          else w
        | none => w) := by
      split
      · split_ifs
        · exact same_in_inv (same_in_update_in w i _ (fun _ => rfl)) hinv
        · exact hinv
      · exact hinv
    generalize (match source with
        | some val =>
          if (match source with
              | some val => decide (s.source ≠ val ∧ val ≠ 0)
              | none => false) = true then
            w.update_in i (fun s => { s with source := val })
          else w
        | none => w) = w1 at h1
    have h2 : in_inv (match routing with
        | some v =>
          if (match routing with
              | some v => decide (s.device ≠ v &&& not32 AUDIO_DEVICE_BIT_IN ∧
                  v &&& not32 AUDIO_DEVICE_BIT_IN ≠ 0)
              | none => false) = true then
            in_update_aux_channels h
              (w1.update_in i (fun s => { s with device := v &&& not32 AUDIO_DEVICE_BIT_IN }))
              i none o1 o2
          else w1
        | none => w1) := by
      split
      · split_ifs
        · exact in_inv_in_update_aux_channels h _ i none o1 o2
            (same_in_inv (same_in_update_in w1 i _ (fun _ => rfl)) h1)
        · exact h1
      · exact h1
    generalize (match routing with
        | some v =>
          if (match routing with
              | some v => decide (s.device ≠ v &&& not32 AUDIO_DEVICE_BIT_IN ∧
                  v &&& not32 AUDIO_DEVICE_BIT_IN ≠ 0)
              | none => false) = true then
            in_update_aux_channels h
              (w1.update_in i (fun s => { s with device := v &&& not32 AUDIO_DEVICE_BIT_IN }))
              i none o1 o2
          else w1
        | none => w1) = w2 at h2
    split_ifs
    · exact in_inv_do_input_standby h w2 i h2
    · exact h2

theorem in_inv_add_audio_effect (h : audio_hw_h) (w : hal) (i effect : Nat) (desc_status : Int)
    (is_aec : Bool) (reply : channel_configs_reply) (o1 o2 : reconfigure_oracle)
    (hinv : in_inv w) :
    in_inv (in_add_audio_effect h w i effect desc_status is_aec reply o1 o2).2 := by
  unfold in_add_audio_effect
  split
  · exact hinv
  · rename_i s hs
    split_ifs
    · exact hinv
    · exact hinv
    · have h1 := in_inv_in_update_aux_channels h _ i (some effect) o1 o2
        (same_in_inv (same_in_set_in w i s (append_preprocessor s effect reply) hs rfl) hinv)
      exact in_inv_do_input_standby h _ i
        (same_in_inv (same_in_update_in _ i _ (fun _ => rfl)) h1)
    · exact in_inv_in_update_aux_channels h _ i (some effect) o1 o2
        (same_in_inv (same_in_set_in w i s (append_preprocessor s effect reply) hs rfl) hinv)

theorem remove_preprocessor_standby (s : tuna_stream_in) (effect : Nat) :
    (remove_preprocessor s effect).2.standby = s.standby := by
  unfold remove_preprocessor
  simp only
  split_ifs <;> rfl

theorem in_inv_remove_audio_effect (h : audio_hw_h) (w : hal) (i effect : Nat)
    (desc_status : Int) (is_aec : Bool) (o1 o2 : reconfigure_oracle) (hinv : in_inv w) :
    in_inv (in_remove_audio_effect h w i effect desc_status is_aec o1 o2).2 := by
  unfold in_remove_audio_effect
  split
  · exact hinv
  · rename_i s hs
    simp only
    have h1 := in_inv_in_update_aux_channels h _ i none o1 o2
      (same_in_inv (same_in_set_in w i s (remove_preprocessor s effect).2 hs
        (remove_preprocessor_standby s effect)) hinv)
    split_ifs
    · exact hinv
    · exact h1
    · exact in_inv_do_input_standby h _ i
        (same_in_inv (same_in_update_in _ i _ (fun _ => rfl)) h1)
    · exact h1

theorem get_echo_reference_in (w : hal) (status : Int) :
    (get_echo_reference w status).2.adev.active_input = w.adev.active_input ∧
    (get_echo_reference w status).2.ins = w.ins := by
  have h1 := (put_echo_reference_adev w w.adev.echo_reference).2.2.2.2
  have h2 := put_echo_reference_ins w w.adev.echo_reference
  unfold get_echo_reference
  simp only
  generalize put_echo_reference w w.adev.echo_reference = w1 at h1 h2
  split
  · split_ifs <;> exact ⟨h1, h2⟩
  · exact ⟨h1, h2⟩

theorem same_in_flags_update_in (w : hal) (i : Nat) (g : tuna_stream_in → tuna_stream_in)
    (hg : ∀ s, (g s).standby = s.standby) (k : Nat) :
    ((w.update_in i g).ins k).map (fun s => s.standby) = (w.ins k).map (fun s => s.standby) :=
  (same_in_update_in w i g hg).2 k

theorem start_input_stream_route_in (h : audio_hw_h) (w : hal) (i : Nat)
    (resampler_status : Int) :
    (start_input_stream_route h w i resampler_status).adev.active_input = some i ∧
    ∀ k, ((start_input_stream_route h w i resampler_status).ins k).map (fun s => s.standby) =
      (w.ins k).map (fun s => s.standby) := by
  unfold start_input_stream_route
  simp only
  constructor
  · split_ifs <;> rfl
  · intro k
    refine (same_in_flags_update_in _ i _ ?_ k).trans ?_
    · intro s
      split_ifs <;> rfl
    · split_ifs <;> rfl

theorem start_input_stream_echo_in (w : hal) (i : Nat) (echo_status : Int) :
    (start_input_stream_echo w i echo_status).adev.active_input = w.adev.active_input ∧
    ∀ k, ((start_input_stream_echo w i echo_status).ins k).map (fun s => s.standby) =
      (w.ins k).map (fun s => s.standby) := by
  unfold start_input_stream_echo
  simp only
  split_ifs
  · refine ⟨(get_echo_reference_in w echo_status).1, fun k => ?_⟩
    refine (same_in_flags_update_in _ i _ ?_ k).trans ?_
    · exact fun _ => rfl
    · rw [(get_echo_reference_in w echo_status).2]
  · exact ⟨rfl, fun _ => rfl⟩

theorem start_input_stream_in (h : audio_hw_h) (w : hal) (i : Nat)
    (resampler_status echo_status : Int) (pcm_ready : Bool) :
    ((start_input_stream h w i resampler_status echo_status pcm_ready).1 = 0 →
      (start_input_stream h w i resampler_status echo_status pcm_ready).2.adev.active_input
        = some i) ∧
    ∀ k, ((start_input_stream h w i resampler_status echo_status pcm_ready).2.ins k).map
        (fun s => s.standby) = (w.ins k).map (fun s => s.standby) := by
  have h1 := start_input_stream_route_in h w i resampler_status
  have h2 := start_input_stream_echo_in (start_input_stream_route h w i resampler_status) i
    echo_status
  have ha := h2.1.trans h1.1
  have hf := fun k => (h2.2 k).trans (h1.2 k)
  unfold start_input_stream
  simp only
  generalize start_input_stream_echo (start_input_stream_route h w i resampler_status) i
    echo_status = w1 at ha hf
  have hE : (-ENOMEM : Int) ≠ 0 := by decide
  split_ifs
  · refine ⟨fun hc => absurd hc hE, fun k => ?_⟩
    refine (same_in_flags_update_in _ i _ ?_ k).trans (hf k)
    exact fun _ => rfl
  · refine ⟨fun _ => ha, fun k => ?_⟩
    refine (same_in_flags_update_in _ i _ ?_ k).trans ?_
    · exact fun _ => rfl
    · refine (same_in_flags_update_in _ i _ ?_ k).trans (hf k)
      exact fun _ => rfl

theorem flags_all_standby {w w' : hal}
    (hf : ∀ k, (w'.ins k).map (fun s => s.standby) = (w.ins k).map (fun s => s.standby))
    (hall : ∀ k t, w.ins k = some t → t.standby = true) :
    ∀ k t, w'.ins k = some t → t.standby = true := by
  intro k t hk
  have h1 := hf k
  rw [hk] at h1
  cases hw : w.ins k with
  | none => rw [hw] at h1; cases h1
  | some t0 =>
    rw [hw] at h1
    have h2 : t.standby = t0.standby := Option.some.inj h1
    rw [h2]
    exact hall k t0 hw

theorem in_inv_in_read (h : audio_hw_h) (w : hal) (i : Nat) (bytes : Nat)
    (resampler_status echo_status : Int) (pcm_ready : Bool) (io : read_outcome)
    (hinv : in_inv w) (alone : start_alone w i) :
    in_inv (in_read h w i bytes resampler_status echo_status pcm_ready io).2 := by
  have hstart := start_input_stream_in h w i resampler_status echo_status pcm_ready
  unfold in_read
  cases hi : w.ins i with
  | none => exact hinv
  | some s =>
    simp only
    by_cases hs : s.standby = true
    · have hall := alone s hi hs
      have hall1 := flags_all_standby hstart.2 hall
      rw [if_pos hs]
      generalize start_input_stream h w i resampler_status echo_status pcm_ready = r
        at hstart hall1
      by_cases hr : r.1 = 0
      · rw [if_pos hr]
        simp only [lt_irrefl, if_false]
        intro k t hk ht
        by_cases hki : k = i
        · subst hki
          exact hstart.1 hr
        · simp only [hal.update_in, hal.set_in, if_neg hki] at hk
          have := hall1 k t hk
          rw [this] at ht
          cases ht
      · rw [if_neg hr]
        split_ifs
        · exact in_inv_all_standby _ hall1
        · refine in_inv_all_standby _ (flags_all_standby (fun k => ?_) hall1)
          refine same_in_flags_update_in r.2 i _ ?_ k
          exact fun _ => rfl
    · rw [if_neg hs]
      simp only [lt_irrefl, if_false]
      exact same_in_inv (same_in_update_in w i _ (fun _ => rfl)) hinv

theorem in_inv_adev_open (h : audio_hw_h) (name_ok alloc_ok : Bool) (mixer : Option hw_state)
    (a : alsa_state) (w : hal) (hw : adev_open h name_ok alloc_ok mixer a = (0, some w)) :
    in_inv w := by
  unfold adev_open at hw
  split_ifs at hw
  · cases hw
  · cases hw
  · cases mixer with
    | none => cases hw
    | some s =>
      simp only at hw
      split_ifs at hw
      · cases hw
      · cases hw
        exact fun k s hk => by cases hk

theorem in_inv_solo_step (h : audio_hw_h) (w w' : hal) (hs : solo_step h w w')
    (hinv : in_inv w) : in_inv w' := by
  cases hs with
  | set_mode mode dl ul => exact in_inv_adev_set_mode h w mode dl ul hinv
  | set_parameters tty bt sc => exact same_in_inv (same_in_adev_set_parameters h w tty bt sc) hinv
  | set_mic_mute state => exact same_in_inv (same_in_adev_set_mic_mute h w state) hinv
  | set_voice_volume volume => exact same_in_inv (same_in_adev_set_voice_volume w volume) hinv
  | wb_amr enable dl ul => exact in_inv_wb_amr h w enable dl ul hinv
  | open_output d f r c al m rs => exact same_in_inv (same_in_open_output h w d f r c al m rs) hinv
  | close_output t => exact same_in_inv (same_in_close_output h w t) hinv
  | out_standby t => exact same_in_inv (same_in_do_output_standby h w t) hinv
  | out_set_parameters t routing => exact in_inv_out_set_parameters h w t routing hinv
  | out_set_volume_hdmi z => exact same_in_inv (same_in_update_out w OUTPUT_HDMI _) hinv
  | write_low_latency b r1 r2 r3 ws => exact in_inv_write_low_latency h w b r1 r2 r3 ws hinv
  | write_deep_buffer b r ws => exact same_in_inv (same_in_write_deep_buffer h w b r ws) hinv
  | write_hdmi b r => exact same_in_inv (same_in_write_hdmi h w b r) hinv
  | open_input d r f c al rs => exact in_inv_open_input h w d r f c al rs hinv
  | close_input i => exact in_inv_close_input h w i hinv
  | in_standby i => exact in_inv_do_input_standby h w i hinv
  | in_set_parameters i so ro o1 o2 => exact in_inv_in_set_parameters h w i so ro o1 o2 hinv
  | in_read i b rs es pr io alone => exact in_inv_in_read h w i b rs es pr io hinv alone
  | add_audio_effect i e d ae rep o1 o2 =>
    exact in_inv_add_audio_effect h w i e d ae rep o1 o2 hinv
  | remove_audio_effect i e d ae o1 o2 =>
    exact in_inv_remove_audio_effect h w i e d ae o1 o2 hinv

theorem in_inv_solo_reachable (h : audio_hw_h) (w : hal) (hr : solo_reachable h w) :
    in_inv w := by
  induction hr with
  | opened name_ok alloc_ok mixer a w hw => exact in_inv_adev_open h name_ok alloc_ok mixer a w hw
  | next w w' _ hs ih => exact in_inv_solo_step h w w' hs ih

theorem sample_open_input (w : hal) :
    adev_open_input_stream sample_h w AUDIO_DEVICE_IN_BUILTIN_MIC 44100
      AUDIO_FORMAT_PCM_16_BIT 0x10 true 0 =
    (0, some w.next_in,
      { w.set_in w.next_in
          (some (new_stream_in sample_h AUDIO_DEVICE_IN_BUILTIN_MIC 44100 0x10 none)) with
        next_in := w.next_in + 1 }) := by
  have hp : popcount 0x10 = 1 := by simp [popcount]
  unfold adev_open_input_stream
  simp only [hp]
  rfl

/-! ## Capture buffer size, capture delay and the capture data path: lemmas -/

theorem round16 (n : Nat) :
    16 ∣ (n + 15) / 16 * 16 ∧ n ≤ (n + 15) / 16 * 16 ∧ (n + 15) / 16 * 16 ≤ n + 15 ∧
    ∀ m, 16 ∣ m → n ≤ m → (n + 15) / 16 * 16 ≤ m := by
  refine ⟨Dvd.intro_left _ rfl, by omega, by omega, ?_⟩
  rintro m ⟨k, rfl⟩ hn
  omega

theorem to_int32_id (x : Int) (h1 : -2147483648 ≤ x) (h2 : x < 2147483648) : to_int32 x = x := by
  unfold to_int32
  omega

theorem all_ctls_found_iff (s : hw_state) (c : mixer_ctls) :
    all_ctls_found s c = true ↔ ∀ n ∈ named_ctls c, (s.ctls n).isSome = true := by
  unfold all_ctls_found named_ctls mixer_get_ctl_by_name
  simp only [List.all_eq_true]
  constructor
  · intro hall n hn
    have := hall n hn
    by_cases hs : (s.ctls n).isSome = true
    · exact hs
    · simp [hs] at this
  · intro hall n hn
    simp [hall n hn]

theorem start_call_modem (h : audio_hw_h) (w : hal) (dl ul : Bool)
    (hpre : w.adev.pcm_modem_dl.isSome = w.adev.pcm_modem_ul.isSome) :
    (start_call h w dl ul).2.adev.in_call = w.adev.in_call ∧
    (start_call h w dl ul).2.adev.pcm_modem_dl.isSome =
      (start_call h w dl ul).2.adev.pcm_modem_ul.isSome ∧
    (dl = true → ul = true →
      (start_call h w dl ul).2.adev.pcm_modem_dl.isSome = true ∧
      (start_call h w dl ul).2.adev.pcm_modem_ul.isSome = true) := by
  unfold start_call
  simp only
  cases hd : w.adev.pcm_modem_dl <;> cases hu : w.adev.pcm_modem_ul <;>
    cases dl <;> cases ul <;> simp [pcm_open, hd, hu] <;> simp [hd, hu] at hpre

theorem put_echo_reference_modem (w : hal) (r : Option Nat) :
    (put_echo_reference w r).adev.pcm_modem_dl = w.adev.pcm_modem_dl ∧
    (put_echo_reference w r).adev.pcm_modem_ul = w.adev.pcm_modem_ul := by
  unfold put_echo_reference
  split_ifs
  · simp only
    split
    · split_ifs <;> exact ⟨rfl, rfl⟩
    · exact ⟨rfl, rfl⟩
  · exact ⟨rfl, rfl⟩

theorem do_input_standby_modem (h : audio_hw_h) (w : hal) (i : Nat) :
    (do_input_standby h w i).adev.pcm_modem_dl = w.adev.pcm_modem_dl ∧
    (do_input_standby h w i).adev.pcm_modem_ul = w.adev.pcm_modem_ul := by
  unfold do_input_standby
  split
  · exact ⟨rfl, rfl⟩
  · simp only
    split_ifs <;>
      simp [hal.update_in, hal.set_in, hal.select_input_device, put_echo_reference_modem]

theorem do_output_standby_modem (h : audio_hw_h) (w : hal) (t : output_type) :
    (do_output_standby h w t).adev.pcm_modem_dl = w.adev.pcm_modem_dl ∧
    (do_output_standby h w t).adev.pcm_modem_ul = w.adev.pcm_modem_ul := by
  have hbody : ∀ (w : hal) (t : output_type) (clause : hal → hal),
      (∀ w', (clause w').adev.pcm_modem_dl = w'.adev.pcm_modem_dl ∧
        (clause w').adev.pcm_modem_ul = w'.adev.pcm_modem_ul) →
      (do_output_standby_body h w t clause).adev.pcm_modem_dl = w.adev.pcm_modem_dl ∧
      (do_output_standby_body h w t clause).adev.pcm_modem_ul = w.adev.pcm_modem_ul := by
    intro w t clause hcl
    unfold do_output_standby_body
    split
    · exact ⟨rfl, rfl⟩
    · simp only
      split_ifs <;> simp [hal.update_out, hal.set_out, hcl]
  unfold do_output_standby
  apply hbody
  intro w'
  split_ifs
  · split
    · split_ifs
      · exact hbody _ _ _ (fun _ => ⟨rfl, rfl⟩)
      · exact ⟨rfl, rfl⟩
    · exact ⟨rfl, rfl⟩
  · exact ⟨rfl, rfl⟩

theorem force_all_standby_modem (h : audio_hw_h) (w : hal) :
    (force_all_standby h w).adev.pcm_modem_dl = w.adev.pcm_modem_dl ∧
    (force_all_standby h w).adev.pcm_modem_ul = w.adev.pcm_modem_ul := by
  have h1 : (match w.adev.outputs OUTPUT_LOW_LATENCY with
      | some out => if out.standby = false then do_output_standby h w OUTPUT_LOW_LATENCY else w
      | none => w).adev.pcm_modem_dl = w.adev.pcm_modem_dl ∧
      (match w.adev.outputs OUTPUT_LOW_LATENCY with
      | some out => if out.standby = false then do_output_standby h w OUTPUT_LOW_LATENCY else w
      | none => w).adev.pcm_modem_ul = w.adev.pcm_modem_ul := by
    split
    · split_ifs
      · exact do_output_standby_modem h w _
      · exact ⟨rfl, rfl⟩
    · exact ⟨rfl, rfl⟩
  unfold force_all_standby
  simp only
  generalize (match w.adev.outputs OUTPUT_LOW_LATENCY with
      | some out => if out.standby = false then do_output_standby h w OUTPUT_LOW_LATENCY else w
      | none => w) = w1 at h1
  split
  · exact ⟨(do_input_standby_modem h w1 _).1.trans h1.1, (do_input_standby_modem h w1 _).2.trans h1.2⟩
  · exact h1

theorem modem_inv_enter (h : audio_hw_h) (ok : Bool) (x : hal) (dl ul : Bool)
    (hok : ok = true → dl = true ∧ ul = true)
    (hpre : x.adev.pcm_modem_dl.isSome = x.adev.pcm_modem_ul.isSome) (w : hal)
    (hd : w.adev.pcm_modem_dl = (start_call h x dl ul).2.adev.pcm_modem_dl)
    (hu : w.adev.pcm_modem_ul = (start_call h x dl ul).2.adev.pcm_modem_ul)
    (hc : w.adev.in_call = true) : modem_inv ok w := by
  refine ⟨?_, fun hf => ?_, fun ho _ => ?_⟩
  · rw [hd, hu]
    exact (start_call_modem h x dl ul hpre).2.1
  · rw [hc] at hf
    cases hf
  · rw [hd, hu]
    exact (start_call_modem h x dl ul hpre).2.2 (hok ho).1 (hok ho).2

theorem modem_inv_select_mode (h : audio_hw_h) (ok : Bool) (w : hal) (dl ul : Bool)
    (hok : ok = true → dl = true ∧ ul = true)
    (hinv : w.adev.pcm_modem_dl.isSome = w.adev.pcm_modem_ul.isSome ∧
      (w.adev.in_call = false → w.adev.pcm_modem_dl = none ∧ w.adev.pcm_modem_ul = none) ∧
      (ok = true → w.adev.in_call = true →
        w.adev.pcm_modem_dl.isSome = true ∧ w.adev.pcm_modem_ul.isSome = true)) :
    modem_inv ok (select_mode h w dl ul) := by
  unfold select_mode
  by_cases hm : w.adev.mode = AUDIO_MODE_IN_CALL
  · rw [if_pos hm]
    by_cases hc : w.adev.in_call = false
    · rw [if_pos hc]
      simp only
      have hd := (force_all_standby_modem h w).1
      have hu := (force_all_standby_modem h w).2
      generalize force_all_standby h w = w1 at hd hu
      have hpre : w1.adev.pcm_modem_dl.isSome = w1.adev.pcm_modem_ul.isSome := by
        rw [hd, hu]
        exact hinv.1
      split_ifs
      · refine modem_inv_enter h ok _ dl ul hok ?_ _ rfl rfl rfl
        exact hpre
      · refine modem_inv_enter h ok _ dl ul hok ?_ _ rfl rfl rfl
        exact hpre
    · rw [if_neg hc]
      exact hinv
  · rw [if_neg hm]
    by_cases hc : w.adev.in_call = true
    · rw [if_pos hc]
      have hd := (force_all_standby_modem h
        (end_call { w with adev := { w.adev with in_call := false } })).1
      have hu := (force_all_standby_modem h
        (end_call { w with adev := { w.adev with in_call := false } })).2
      have hcall := (force_all_standby_frame h
        (end_call { w with adev := { w.adev with in_call := false } })).2.2.1
      have ed : (end_call { w with adev := { w.adev with in_call := false } }).adev.pcm_modem_dl
          = none := rfl
      have eu : (end_call { w with adev := { w.adev with in_call := false } }).adev.pcm_modem_ul
          = none := rfl
      have ec : (end_call { w with adev := { w.adev with in_call := false } }).adev.in_call
          = false := rfl
      rw [ed] at hd
      rw [eu] at hu
      rw [ec] at hcall
      refine ⟨?_, fun _ => ⟨hd, hu⟩, fun _ hf => ?_⟩
      · show (force_all_standby h _).adev.pcm_modem_dl.isSome =
          (force_all_standby h _).adev.pcm_modem_ul.isSome
        rw [hd, hu]
      · have : (force_all_standby h
            (end_call { w with adev := { w.adev with in_call := false } })).adev.in_call
              = true := hf
        rw [hcall] at this
        cases this
    · rw [if_neg hc]
      exact hinv

theorem modem_inv_adev_set_mode (h : audio_hw_h) (ok : Bool) (w : hal) (mode : Int)
    (dl ul : Bool) (hok : ok = true → dl = true ∧ ul = true) (hinv : modem_inv ok w) :
    modem_inv ok (adev_set_mode h w mode dl ul).2 := by
  unfold adev_set_mode
  split_ifs
  · exact modem_inv_select_mode h ok _ dl ul hok hinv
  · exact hinv

theorem modem_inv_wb_amr (h : audio_hw_h) (ok : Bool) (w : hal) (enable : Int)
    (dl ul : Bool) (hok : ok = true → dl = true ∧ ul = true) (hinv : modem_inv ok w) :
    modem_inv ok (audio_set_wb_amr_callback h w enable dl ul) := by
  unfold audio_set_wb_amr_callback
  simp only
  split_ifs with hw hc
  · have e := start_call_modem h
      { end_call { w with adev := { w.adev with wb_amr := enable } } with
        hw := set_eq_filter h
          (end_call { w with adev := { w.adev with wb_amr := enable } }).adev
          (end_call { w with adev := { w.adev with wb_amr := enable } }).hw }
      dl ul rfl
    refine ⟨e.2.1, fun hf => ?_, fun ho _ => e.2.2 (hok ho).1 (hok ho).2⟩
    have e1 := Eq.trans (Eq.symm e.1) hf
    exact absurd (hc.symm.trans e1) (by decide)
  · exact hinv
  · exact hinv

theorem modem_inv_adev_open (h : audio_hw_h) (ok : Bool) (name_ok alloc_ok : Bool)
    (mixer : Option hw_state) (a : alsa_state) (w : hal)
    (hw : adev_open h name_ok alloc_ok mixer a = (0, some w)) : modem_inv ok w := by
  unfold adev_open at hw
  split_ifs at hw
  · cases hw
  · cases hw
  · cases mixer with
    | none => cases hw
    | some s =>
      simp only at hw
      split_ifs at hw
      · cases hw
      · cases hw
        exact ⟨rfl, fun _ => ⟨rfl, rfl⟩, fun _ hf => by cases hf⟩

theorem modem_inv_call_reachable (h : audio_hw_h) (ok : Bool) (w : hal)
    (hr : call_reachable h ok w) : modem_inv ok w := by
  induction hr with
  | opened name_ok alloc_ok mixer a w hw =>
    exact modem_inv_adev_open h ok name_ok alloc_ok mixer a w hw
  | set_mode w mode dl ul _ hok ih => exact modem_inv_adev_set_mode h ok w mode dl ul hok ih
  | wb_amr w enable dl ul _ hok ih => exact modem_inv_wb_amr h ok w enable dl ul hok ih
/-! ## The write threshold of the deep-buffer output -/

theorem deep_keep_refl (w : hal) : deep_keep w w := fun _ ho _ => ho

theorem deep_keep_trans {w1 w2 w3 : hal} (h12 : deep_keep w1 w2) (h23 : deep_keep w2 w3) :
    deep_keep w1 w3 := fun o ho hs => h12 o (h23 o ho hs) hs

theorem deep_keep_of_eq {w1 w2 : hal} (he : deep_out w2 = deep_out w1) : deep_keep w1 w2 :=
  fun _ ho _ => he ▸ ho

theorem deep_keep_inv {h : audio_hw_h} {w1 w2 : hal} (hk : deep_keep w1 w2)
    (hinv : deep_inv h w1) : deep_inv h w2 :=
  fun o ho hs => hinv o (hk o ho hs) hs

theorem deep_out_set_out_ne (w : hal) (t : output_type) (o : Option tuna_stream_out)
    (ht : t ≠ OUTPUT_DEEP_BUF) : deep_out (w.set_out t o) = deep_out w := by
  simp [deep_out, hal.set_out, Ne.symm ht]

theorem deep_out_update_out_ne (w : hal) (t : output_type)
    (g : tuna_stream_out → tuna_stream_out) (ht : t ≠ OUTPUT_DEEP_BUF) :
    deep_out (w.update_out t g) = deep_out w :=
  deep_out_set_out_ne w t _ ht

theorem deep_out_update_out (w : hal) (g : tuna_stream_out → tuna_stream_out) :
    deep_out (w.update_out OUTPUT_DEEP_BUF g) = (deep_out w).map g := by
  simp [deep_out, hal.update_out, hal.set_out]

theorem deep_out_put_echo_reference (w : hal) (r : Option Nat) :
    deep_out (put_echo_reference w r) = deep_out w := by
  unfold put_echo_reference
  split_ifs
  · simp only
    split
    · split_ifs
      · simp [deep_out, hal.set_out]
      · rfl
    · rfl
  · rfl

theorem deep_out_get_echo_reference (w : hal) (status : Int) :
    deep_out (get_echo_reference w status).2 = deep_out w := by
  unfold get_echo_reference
  simp only
  split
  · split_ifs
    · rw [deep_out_update_out_ne _ OUTPUT_LOW_LATENCY _ (by decide)]
      exact deep_out_put_echo_reference w _
    · exact deep_out_put_echo_reference w _
    · exact deep_out_put_echo_reference w _
  · exact deep_out_put_echo_reference w _

theorem deep_out_do_input_standby (h : audio_hw_h) (w : hal) (i : Nat) :
    deep_out (do_input_standby h w i) = deep_out w := by
  unfold do_input_standby
  split
  · rfl
  · simp only
    split_ifs <;>
      simp [deep_out, hal.update_in, hal.set_in, hal.select_input_device] <;>
      exact deep_out_put_echo_reference _ _

theorem deep_out_standby_body_ne (h : audio_hw_h) (w : hal) (t : output_type)
    (clause : hal → hal) (ht : t ≠ OUTPUT_DEEP_BUF)
    (hcl : ∀ x, deep_out (clause x) = deep_out x) :
    deep_out (do_output_standby_body h w t clause) = deep_out w := by
  unfold do_output_standby_body
  split
  · rfl
  · simp only
    split_ifs <;> first
      | rfl
      | (rw [deep_out_update_out_ne _ t _ ht, hcl]
         simp [deep_out, hal.set_out, Ne.symm ht])

theorem deep_keep_standby_body (h : audio_hw_h) (w : hal) (t : output_type)
    (clause : hal → hal) (hcl : ∀ x, deep_out (clause x) = deep_out x) :
    deep_keep w (do_output_standby_body h w t clause) := by
  by_cases ht : t = OUTPUT_DEEP_BUF
  · subst ht
    unfold do_output_standby_body
    split
    · exact deep_keep_refl w
    · simp only
      split_ifs
      · intro o ho hso
        rw [deep_out_update_out, hcl] at ho
        simp [deep_out, hal.set_out] at ho
        subst ho
        simp at hso
      · intro o ho hso
        rw [deep_out_update_out, hcl] at ho
        simp [deep_out, hal.set_out] at ho
        subst ho
        simp at hso
      · exact deep_keep_refl w
  · exact deep_keep_of_eq (deep_out_standby_body_ne h w t clause ht hcl)

theorem deep_out_ll_clause (h : audio_hw_h) (t : output_type) (x : hal) :
    deep_out (if t = OUTPUT_HDMI then
      match x.adev.outputs OUTPUT_LOW_LATENCY with
      | some ll =>
        if ll.standby = false then do_output_standby_body h x OUTPUT_LOW_LATENCY (fun w => w)
        else x
      | none => x
    else x) = deep_out x := by
  split_ifs
  · split
    · split_ifs
      · exact deep_out_standby_body_ne h x OUTPUT_LOW_LATENCY _ (by decide) (fun _ => rfl)
      · rfl
    · rfl
  · rfl

theorem deep_keep_do_output_standby (h : audio_hw_h) (w : hal) (t : output_type) :
    deep_keep w (do_output_standby h w t) := by
  unfold do_output_standby
  exact deep_keep_standby_body h w t _ (deep_out_ll_clause h t)

theorem deep_out_do_output_standby_ne (h : audio_hw_h) (w : hal) (t : output_type)
    (ht : t ≠ OUTPUT_DEEP_BUF) : deep_out (do_output_standby h w t) = deep_out w := by
  unfold do_output_standby
  exact deep_out_standby_body_ne h w t _ ht (deep_out_ll_clause h t)

theorem deep_out_opt_input_standby (h : audio_hw_h) (w : hal) :
    deep_out (match w.adev.active_input with
      | some i => do_input_standby h w i
      | none => w) = deep_out w := by
  split
  · exact deep_out_do_input_standby h w _
  · rfl

theorem deep_out_opt_ll_standby (h : audio_hw_h) (w : hal) :
    deep_out (match w.adev.outputs OUTPUT_LOW_LATENCY with
      | some out => if out.standby = false then do_output_standby h w OUTPUT_LOW_LATENCY else w
      | none => w) = deep_out w := by
  split
  · split_ifs
    · exact deep_out_do_output_standby_ne h w OUTPUT_LOW_LATENCY (by decide)
    · rfl
  · rfl

theorem deep_out_force_all_standby (h : audio_hw_h) (w : hal) :
    deep_out (force_all_standby h w) = deep_out w := by
  unfold force_all_standby
  exact (deep_out_opt_input_standby h _).trans (deep_out_opt_ll_standby h w)

theorem deep_out_start_call (h : audio_hw_h) (w : hal) (dl ul : Bool) :
    deep_out (start_call h w dl ul).2 = deep_out w := by
  unfold start_call
  simp only
  split_ifs <;> (repeat' split) <;> rfl

theorem deep_out_select_mode (h : audio_hw_h) (w : hal) (dl ul : Bool) :
    deep_out (select_mode h w dl ul) = deep_out w := by
  have hsc : ∀ x, (start_call h x dl ul).2.adev.outputs OUTPUT_DEEP_BUF =
      x.adev.outputs OUTPUT_DEEP_BUF := fun x => deep_out_start_call h x dl ul
  have hfa : ∀ x, (force_all_standby h x).adev.outputs OUTPUT_DEEP_BUF =
      x.adev.outputs OUTPUT_DEEP_BUF := fun x => deep_out_force_all_standby h x
  unfold select_mode
  split_ifs
  · simp only [deep_out, hsc, hal.select_output_device]
    split_ifs <;> exact hfa w
  · rfl
  · simp only [deep_out, hal.select_output_device, hal.select_input_device, hfa, end_call]
  · rfl

theorem deep_out_adev_set_mode (h : audio_hw_h) (w : hal) (mode : Int) (dl ul : Bool) :
    deep_out (adev_set_mode h w mode dl ul).2 = deep_out w := by
  unfold adev_set_mode
  split_ifs
  · exact deep_out_select_mode h _ dl ul
  · rfl

theorem deep_out_wb_amr (h : audio_hw_h) (w : hal) (enable : Int) (dl ul : Bool) :
    deep_out (audio_set_wb_amr_callback h w enable dl ul) = deep_out w := by
  unfold audio_set_wb_amr_callback
  split_ifs
  · simp only
    split_ifs
    · rw [deep_out_start_call]
      rfl
    · rfl
  · rfl

theorem deep_out_adev_set_voice_volume (w : hal) (volume : Nat) :
    deep_out (adev_set_voice_volume w volume).2 = deep_out w := by
  unfold adev_set_voice_volume
  simp only
  split_ifs <;> rfl

theorem deep_out_adev_set_mic_mute (h : audio_hw_h) (w : hal) (state : Bool) :
    deep_out (adev_set_mic_mute h w state).2 = deep_out w := by
  unfold adev_set_mic_mute
  simp only
  split_ifs <;> rfl

theorem deep_out_adev_set_parameters (h : audio_hw_h) (w : hal)
    (tty bt_nrec screen_state : Option String) :
    deep_out (adev_set_parameters h w tty bt_nrec screen_state).2 = deep_out w := by
  unfold adev_set_parameters
  simp only
  have h1 : ∀ x : hal, deep_out (match bt_nrec with
      | some value => { x with adev := { x.adev with bluetooth_nrec := decide (value = "on") } }
      | none => x) = deep_out x := by
    intro x
    split <;> rfl
  have h2 : ∀ x : hal, deep_out (match screen_state with
      | some value => { x with adev := { x.adev with screen_off := !decide (value = "on") } }
      | none => x) = deep_out x := by
    intro x
    split <;> rfl
  split
  · rfl
  · rename_i w1 hw1
    simp only
    rw [h2, h1]
    revert hw1
    split
    · split
      · intro hc
        cases hc
      · split_ifs <;> intro hc <;> cases hc <;> rfl
    · intro hc
      cases hc
      rfl

theorem deep_out_open_low_latency_pcms (h : audio_hw_h) (w : hal) (a b c : Bool) :
    deep_out (open_low_latency_pcms h w a b c) = deep_out w := by
  unfold open_low_latency_pcms
  simp only
  split_ifs <;> simp [deep_out, hal.update_out, hal.set_out, hal.select_output_device]

theorem deep_out_close_bad (w : hal) :
    deep_out (close_bad_low_latency_pcms w).2 = deep_out w := by
  unfold close_bad_low_latency_pcms
  split
  · rfl
  · simp [deep_out, hal.update_out, hal.set_out]

theorem deep_out_start_low_latency (h : audio_hw_h) (w : hal) (a b c : Bool) :
    deep_out (start_output_stream_low_latency h w a b c).2 = deep_out w := by
  have h1 := (deep_out_close_bad (open_low_latency_pcms h w a b c)).trans
    (deep_out_open_low_latency_pcms h w a b c)
  unfold start_output_stream_low_latency
  simp only
  generalize (close_bad_low_latency_pcms (open_low_latency_pcms h w a b c)) = r at h1
  split_ifs <;> exact h1

theorem deep_out_write_low_latency (h : audio_hw_h) (w : hal) (bytes : Nat) (a b c : Bool)
    (ws : Int) : deep_out (out_write_low_latency h w bytes a b c ws).2 = deep_out w := by
  have h1 := deep_out_start_low_latency h w a b c
  unfold out_write_low_latency
  split
  · rfl
  · simp only
    generalize start_output_stream_low_latency h w a b c = r at h1
    split_ifs
    · exact h1
    · exact (deep_out_opt_input_standby h _).trans
        ((deep_out_update_out_ne _ OUTPUT_LOW_LATENCY _ (by decide)).trans h1)
    · exact (deep_out_update_out_ne _ OUTPUT_LOW_LATENCY _ (by decide)).trans h1
    · rfl

theorem deep_out_start_hdmi (h : audio_hw_h) (w : hal) (ready : Bool) :
    deep_out (start_output_stream_hdmi h w ready).2 = deep_out w := by
  have h1 := deep_out_opt_ll_standby h w
  unfold start_output_stream_hdmi
  simp only
  generalize (match w.adev.outputs OUTPUT_LOW_LATENCY with
      | some ll => if ll.standby = false then do_output_standby h w OUTPUT_LOW_LATENCY else w
      | none => w) = w1 at h1
  split_ifs <;> (simp [deep_out, hal.update_out, hal.set_out]; exact h1)

theorem deep_out_write_hdmi (h : audio_hw_h) (w : hal) (bytes : Nat) (ready : Bool) :
    deep_out (out_write_hdmi h w bytes ready).2 = deep_out w := by
  have h0 := deep_out_start_hdmi h w ready
  unfold out_write_hdmi
  split
  · rfl
  · rename_i out hout
    simp only
    have h1 : deep_out (if out.standby = true then
        if (start_output_stream_hdmi h w ready).1 ≠ 0 then (start_output_stream_hdmi h w ready).2
        else (start_output_stream_hdmi h w ready).2.update_out OUTPUT_HDMI
          (fun o => { o with standby := false })
      else w) = deep_out w := by
      split_ifs
      · exact h0
      · exact (deep_out_update_out_ne _ OUTPUT_HDMI _ (by decide)).trans h0
      · rfl
    generalize (if out.standby = true then
        if (start_output_stream_hdmi h w ready).1 ≠ 0 then (start_output_stream_hdmi h w ready).2
        else (start_output_stream_hdmi h w ready).2.update_out OUTPUT_HDMI
          (fun o => { o with standby := false })
      else w) = w1 at h1
    split
    · exact h1
    · split_ifs
      · exact (deep_out_do_output_standby_ne h _ OUTPUT_HDMI (by decide)).trans
          ((deep_out_update_out_ne _ OUTPUT_HDMI _ (by decide)).trans h1)
      · exact (deep_out_update_out_ne _ OUTPUT_HDMI _ (by decide)).trans h1
      · exact h1

theorem deep_keep_out_set_parameters (h : audio_hw_h) (w : hal) (t : output_type)
    (routing : Option Nat) : deep_keep w (out_set_parameters h w t routing) := by
  unfold out_set_parameters
  split
  · rename_i val out _
    simp only
    by_cases hc : w.adev.out_device ≠ val ∧ val ≠ 0
    · rw [if_pos hc]
      have h1 : ∀ (c : Prop) [Decidable c],
          deep_keep w (if c then do_output_standby h w t else w) := by
        intro c _
        split_ifs
        · exact deep_keep_do_output_standby h w t
        · exact deep_keep_refl w
      have h2 : ∀ w1, deep_out (if t ≠ OUTPUT_HDMI then
          ({ w1 with adev := { w1.adev with out_device := val } }).select_output_device h
          else w1) = deep_out w1 := by
        intro w1
        split_ifs <;> rfl
      have h3 : ∀ (c : Bool) (w1 : hal), deep_out (if c = true then
          match w1.adev.active_input with
          | some i => do_input_standby h w1 i
          | none => w1
          else w1) = deep_out w1 := by
        intro c w1
        split_ifs
        · exact deep_out_opt_input_standby h w1
        · rfl
      exact deep_keep_trans (h1 _) (deep_keep_of_eq ((h3 _ _).trans (h2 _)))
    · rw [if_neg hc]
      exact deep_keep_refl w
  · exact deep_keep_refl w

theorem deep_keep_open_output (h : audio_hw_h) (w : hal) (devices flags sample_rate
    channel_mask : Nat) (alloc_ok : Bool) (max_channels resampler_status : Int) :
    deep_keep w (adev_open_output_stream h w devices flags sample_rate channel_mask alloc_ok
      max_channels resampler_status).2.2 := by
  unfold adev_open_output_stream
  simp only
  split_ifs <;> first
    | exact deep_keep_refl w
    | (intro o ho hs
       simp [deep_out, hal.set_out] at ho
       subst ho
       simp [new_stream_out] at hs)

theorem deep_keep_close_output (h : audio_hw_h) (w : hal) (t : output_type) :
    deep_keep w (adev_close_output_stream h w t) := by
  unfold adev_close_output_stream
  split
  · exact deep_keep_refl w
  · by_cases ht : t = OUTPUT_DEEP_BUF
    · subst ht
      intro o ho _
      simp [deep_out, hal.set_out] at ho
    · exact deep_keep_trans (deep_keep_do_output_standby h w t)
        (deep_keep_of_eq (deep_out_set_out_ne _ t _ ht))

theorem deep_out_open_input (h : audio_hw_h) (w : hal) (devices sample_rate : Nat)
    (format : Int) (channel_mask : Nat) (alloc_ok : Bool) (resampler_status : Int) :
    deep_out (adev_open_input_stream h w devices sample_rate format channel_mask alloc_ok
      resampler_status).2.2 = deep_out w := by
  unfold adev_open_input_stream
  simp only
  split_ifs <;> rfl

theorem deep_out_close_input (h : audio_hw_h) (w : hal) (i : Nat) :
    deep_out (adev_close_input_stream h w i) = deep_out w := by
  unfold adev_close_input_stream
  split
  · rfl
  · exact deep_out_do_input_standby h w i

theorem deep_out_in_update_aux_channels (h : audio_hw_h) (w : hal) (i : Nat)
    (effect : Option Nat) (o1 o2 : reconfigure_oracle) :
    deep_out (in_update_aux_channels h w i effect o1 o2) = deep_out w := by
  unfold in_update_aux_channels
  split
  · rfl
  · simp only
    split_ifs <;> first | rfl | exact deep_out_do_input_standby h _ i

theorem deep_out_in_set_parameters (h : audio_hw_h) (w : hal) (i : Nat) (source : Option Int)
    (routing : Option Nat) (o1 o2 : reconfigure_oracle) :
    deep_out (in_set_parameters h w i source routing o1 o2) = deep_out w := by
  unfold in_set_parameters
  split
  · rfl
  · rename_i s hs
    simp only
    have h1 : deep_out (match source with
        | some val =>
          if (match source with
              | some val => decide (s.source ≠ val ∧ val ≠ 0)
              | none => false) = true then
            w.update_in i (fun s => { s with source := val })
          else w
        | none => w) = deep_out w := by
      split
      · split_ifs <;> rfl
      · rfl
    generalize (match source with
        | some val =>
          if (match source with
              | some val => decide (s.source ≠ val ∧ val ≠ 0)
              | none => false) = true then
            w.update_in i (fun s => { s with source := val })
          else w
        | none => w) = w1 at h1
    have h2 : deep_out (match routing with
        | some v =>
          if (match routing with
              | some v => decide (s.device ≠ v &&& not32 AUDIO_DEVICE_BIT_IN ∧
                  v &&& not32 AUDIO_DEVICE_BIT_IN ≠ 0)
              | none => false) = true then
            in_update_aux_channels h
              (w1.update_in i (fun s => { s with device := v &&& not32 AUDIO_DEVICE_BIT_IN }))
              i none o1 o2
          else w1
        | none => w1) = deep_out w := by
      split
      · split_ifs
        · exact (deep_out_in_update_aux_channels h _ i none o1 o2).trans h1
        · exact h1
      · exact h1
    generalize (match routing with
        | some v =>
          if (match routing with
              | some v => decide (s.device ≠ v &&& not32 AUDIO_DEVICE_BIT_IN ∧
                  v &&& not32 AUDIO_DEVICE_BIT_IN ≠ 0)
              | none => false) = true then
            in_update_aux_channels h
              (w1.update_in i (fun s => { s with device := v &&& not32 AUDIO_DEVICE_BIT_IN }))
              i none o1 o2
          else w1
        | none => w1) = w2 at h2
    split_ifs
    · exact (deep_out_do_input_standby h w2 i).trans h2
    · exact h2

theorem deep_out_add_audio_effect (h : audio_hw_h) (w : hal) (i effect : Nat)
    (desc_status : Int) (is_aec : Bool) (reply : channel_configs_reply)
    (o1 o2 : reconfigure_oracle) :
    deep_out (in_add_audio_effect h w i effect desc_status is_aec reply o1 o2).2 =
      deep_out w := by
  unfold in_add_audio_effect
  split
  · rfl
  · rename_i s hs
    split_ifs
    · rfl
    · rfl
    · exact (deep_out_do_input_standby h _ i).trans
        (deep_out_in_update_aux_channels h _ i (some effect) o1 o2)
    · exact deep_out_in_update_aux_channels h _ i (some effect) o1 o2

theorem deep_out_remove_audio_effect (h : audio_hw_h) (w : hal) (i effect : Nat)
    (desc_status : Int) (is_aec : Bool) (o1 o2 : reconfigure_oracle) :
    deep_out (in_remove_audio_effect h w i effect desc_status is_aec o1 o2).2 =
      deep_out w := by
  unfold in_remove_audio_effect
  split
  · rfl
  · rename_i s hs
    simp only
    have h1 := deep_out_in_update_aux_channels h
      (w.set_in i (some (remove_preprocessor s effect).2)) i none o1 o2
    split_ifs
    · rfl
    · exact h1
    · exact (deep_out_do_input_standby h _ i).trans h1
    · exact h1

theorem deep_out_start_input_stream_route (h : audio_hw_h) (w : hal) (i : Nat)
    (resampler_status : Int) :
    deep_out (start_input_stream_route h w i resampler_status) = deep_out w := by
  unfold start_input_stream_route
  simp only
  split_ifs <;> rfl

theorem deep_out_start_input_stream_echo (w : hal) (i : Nat) (echo_status : Int) :
    deep_out (start_input_stream_echo w i echo_status) = deep_out w := by
  unfold start_input_stream_echo
  simp only
  split_ifs
  · exact deep_out_get_echo_reference w echo_status
  · rfl

theorem deep_out_start_input_stream (h : audio_hw_h) (w : hal) (i : Nat)
    (resampler_status echo_status : Int) (pcm_ready : Bool) :
    deep_out (start_input_stream h w i resampler_status echo_status pcm_ready).2 =
      deep_out w := by
  have h1 := (deep_out_start_input_stream_echo
    (start_input_stream_route h w i resampler_status) i echo_status).trans
    (deep_out_start_input_stream_route h w i resampler_status)
  unfold start_input_stream
  simp only
  split_ifs <;> exact h1

theorem deep_out_in_read (h : audio_hw_h) (w : hal) (i : Nat) (bytes : Nat)
    (resampler_status echo_status : Int) (pcm_ready : Bool) (io : read_outcome) :
    deep_out (in_read h w i bytes resampler_status echo_status pcm_ready io).2 =
      deep_out w := by
  have h1 := deep_out_start_input_stream h w i resampler_status echo_status pcm_ready
  unfold in_read
  split
  · rfl
  · simp only
    generalize start_input_stream h w i resampler_status echo_status pcm_ready = r at h1
    split_ifs <;> first | exact h1 | rfl

theorem deep_inv_adev_open (h : audio_hw_h) (name_ok alloc_ok : Bool)
    (mixer : Option hw_state) (a : alsa_state) (w : hal)
    (hw : adev_open h name_ok alloc_ok mixer a = (0, some w)) : deep_inv h w := by
  unfold adev_open at hw
  split_ifs at hw
  · cases hw
  · cases hw
  · cases mixer with
    | none => cases hw
    | some s =>
      simp only at hw
      split_ifs at hw
      · cases hw
      · cases hw
        exact fun o ho => by cases ho

theorem deep_out_start_deep_buffer (h : audio_hw_h) (w : hal) (ready : Bool) :
    deep_out (start_output_stream_deep_buffer h w ready).2 =
      (deep_out w).map (fun out =>
        if ready = false then { out with pcm_normal := none }
        else { out with
          pcm_normal :=
            some (pcm_open w.alsa h.PORT_MM false h.MM_FULL_POWER_SAMPLING_RATE ready).1
          use_long_periods := w.adev.screen_off && w.adev.active_input.isNone
          write_threshold :=
            if (w.adev.screen_off && w.adev.active_input.isNone) = true then
              h.DEEP_BUFFER_LONG_PERIOD_WRITE_THRES
            else h.DEEP_BUFFER_SHORT_PERIOD_WRITE_THRES }) ∧
    ((start_output_stream_deep_buffer h w ready).1 ≠ 0 ↔ ready = false) ∧
    (start_output_stream_deep_buffer h w ready).2.adev.screen_off = w.adev.screen_off ∧
    (start_output_stream_deep_buffer h w ready).2.adev.active_input =
      w.adev.active_input := by
  have hE : (-ENOMEM : Int) ≠ 0 := by decide
  unfold start_output_stream_deep_buffer
  cases ready <;> cases hd : w.adev.outputs OUTPUT_DEEP_BUF <;>
    simp [deep_out, hal.update_out, hal.set_out, hal.select_output_device, pcm_open, hd, hE] <;>
    split_ifs <;> simp [hd]

theorem deep_out_write_deep_buffer (h : audio_hw_h) (w : hal) (bytes : Nat) (ready : Bool)
    (ws : Int) :
    deep_out (out_write_deep_buffer h w bytes ready ws).2 =
      (deep_out w).map (fun out =>
        if out.standby = true then
          if ready = false then { out with pcm_normal := none }
          else { out with
            standby := false
            pcm_normal :=
              some (pcm_open w.alsa h.PORT_MM false h.MM_FULL_POWER_SAMPLING_RATE ready).1
            use_long_periods := w.adev.screen_off && w.adev.active_input.isNone
            write_threshold :=
              if (w.adev.screen_off && w.adev.active_input.isNone) = true then
                h.DEEP_BUFFER_LONG_PERIOD_WRITE_THRES
              else h.DEEP_BUFFER_SHORT_PERIOD_WRITE_THRES }
        else if (w.adev.screen_off && w.adev.active_input.isNone) ≠ out.use_long_periods then
          { out with
            write_threshold :=
              if (w.adev.screen_off && w.adev.active_input.isNone) = true then
                h.DEEP_BUFFER_LONG_PERIOD_WRITE_THRES
              else h.DEEP_BUFFER_SHORT_PERIOD_WRITE_THRES
            use_long_periods := w.adev.screen_off && w.adev.active_input.isNone }
        else out) := by
  obtain ⟨h1, h2, h3, h4⟩ := deep_out_start_deep_buffer h w ready
  unfold out_write_deep_buffer
  cases hd : w.adev.outputs OUTPUT_DEEP_BUF with
  | none => simp [deep_out, hd]
  | some out =>
    have hdo : deep_out w = some out := hd
    rw [hdo] at h1 ⊢
    simp only [Option.map_some']
    generalize start_output_stream_deep_buffer h w ready = r at h1 h2 h3 h4
    simp only [Option.map_some'] at h1
    by_cases hs : out.standby = true
    · rw [if_pos hs, if_pos hs]
      by_cases hr : ready = false
      · rw [if_pos (h2.2 hr), if_pos hr]
        simp only [ne_eq, not_true_eq_false, if_false, (h2.2 hr), not_false_eq_true, if_true]
        rw [h1, if_pos hr]
      · have hr0 : ¬ r.1 ≠ 0 := fun hc => hr (h2.1 hc)
        rw [if_neg hr0, if_neg hr]
        simp only [deep_out] at h1
        simp [deep_out, hal.update_out, hal.set_out, h1, h3, h4, hr]
    · rw [if_neg hs, if_neg hs]
      simp only [ne_eq, not_true_eq_false, if_false]
      rw [deep_out_update_out, hdo]
      simp only [Option.map_some']

theorem alsa_write_deep_buffer (h : audio_hw_h) (w : hal) (bytes : Nat) (ready : Bool)
    (ws : Int) (out : tuna_stream_out) (hd : deep_out w = some out)
    (hs : out.standby = false) :
    (out_write_deep_buffer h w bytes ready ws).2.alsa = w.alsa := by
  unfold out_write_deep_buffer
  have hd1 : w.adev.outputs OUTPUT_DEEP_BUF = some out := hd
  rw [hd1]
  simp [hs, hal.update_out, hal.set_out]

theorem deep_inv_write_deep_buffer (h : audio_hw_h) (w : hal) (bytes : Nat) (ready : Bool)
    (ws : Int) (hinv : deep_inv h w) :
    deep_inv h (out_write_deep_buffer h w bytes ready ws).2 := by
  intro o ho hso
  rw [deep_out_write_deep_buffer] at ho
  cases hd : deep_out w with
  | none => rw [hd] at ho; cases ho
  | some out =>
    rw [hd] at ho
    simp only [Option.map_some', Option.some.injEq] at ho
    subst ho
    have hth : out.standby = false → threshold_ok h out := hinv out hd
    unfold threshold_ok at hth ⊢
    split_ifs at hso ⊢ <;> simp_all

theorem deep_inv_step (h : audio_hw_h) (w w' : hal) (hs : step h w w')
    (hinv : deep_inv h w) : deep_inv h w' := by
  cases hs with
  | set_mode mode dl ul =>
    exact deep_keep_inv (deep_keep_of_eq (deep_out_adev_set_mode h w mode dl ul)) hinv
  | set_parameters tty bt sc =>
    exact deep_keep_inv (deep_keep_of_eq (deep_out_adev_set_parameters h w tty bt sc)) hinv
  | set_mic_mute state =>
    exact deep_keep_inv (deep_keep_of_eq (deep_out_adev_set_mic_mute h w state)) hinv
  | set_voice_volume volume =>
    exact deep_keep_inv (deep_keep_of_eq (deep_out_adev_set_voice_volume w volume)) hinv
  | wb_amr enable dl ul =>
    exact deep_keep_inv (deep_keep_of_eq (deep_out_wb_amr h w enable dl ul)) hinv
  | open_output d f r c al m rs =>
    exact deep_keep_inv (deep_keep_open_output h w d f r c al m rs) hinv
  | close_output t => exact deep_keep_inv (deep_keep_close_output h w t) hinv
  | out_standby t => exact deep_keep_inv (deep_keep_do_output_standby h w t) hinv
  | out_set_parameters t routing =>
    exact deep_keep_inv (deep_keep_out_set_parameters h w t routing) hinv
  | out_set_volume_hdmi z =>
    exact deep_keep_inv
      (deep_keep_of_eq (deep_out_update_out_ne w OUTPUT_HDMI _ (by decide))) hinv
  | write_low_latency b r1 r2 r3 ws =>
    exact deep_keep_inv (deep_keep_of_eq (deep_out_write_low_latency h w b r1 r2 r3 ws)) hinv
  | write_deep_buffer b r ws => exact deep_inv_write_deep_buffer h w b r ws hinv
  | write_hdmi b r =>
    exact deep_keep_inv (deep_keep_of_eq (deep_out_write_hdmi h w b r)) hinv
  | open_input d r f c al rs =>
    exact deep_keep_inv (deep_keep_of_eq (deep_out_open_input h w d r f c al rs)) hinv
  | close_input i => exact deep_keep_inv (deep_keep_of_eq (deep_out_close_input h w i)) hinv
  | in_standby i => exact deep_keep_inv (deep_keep_of_eq (deep_out_do_input_standby h w i)) hinv
  | in_set_parameters i so ro o1 o2 =>
    exact deep_keep_inv (deep_keep_of_eq (deep_out_in_set_parameters h w i so ro o1 o2)) hinv
  | in_read i b rs es pr io =>
    exact deep_keep_inv (deep_keep_of_eq (deep_out_in_read h w i b rs es pr io)) hinv
  | add_audio_effect i e d ae rep o1 o2 =>
    exact deep_keep_inv
      (deep_keep_of_eq (deep_out_add_audio_effect h w i e d ae rep o1 o2)) hinv
  | remove_audio_effect i e d ae o1 o2 =>
    exact deep_keep_inv
      (deep_keep_of_eq (deep_out_remove_audio_effect h w i e d ae o1 o2)) hinv

theorem deep_inv_reachable (h : audio_hw_h) (w : hal) (hr : reachable h w) : deep_inv h w := by
  induction hr with
  | opened name_ok alloc_ok mixer a w hw =>
    exact deep_inv_adev_open h name_ok alloc_ok mixer a w hw
  | next w w' _ hs ih => exact deep_inv_step h w w' hs ih

/-! ## Renegotiation of the auxiliary channels -/

theorem GET_COMMAND_STATUS_zero (status fct_status cmd_status : Int) :
    GET_COMMAND_STATUS status fct_status cmd_status = 0 ↔
      fct_status = 0 ∧ cmd_status = 0 ∧ status = 0 := by
  unfold GET_COMMAND_STATUS
  split_ifs with h1 h2
  · exact ⟨fun hc => absurd hc h1, fun hc => absurd hc.1 h1⟩
  · exact ⟨fun hc => absurd hc h2, fun hc => absurd hc.2.1 h2⟩
  · exact ⟨fun hc => ⟨not_not.mp h1, not_not.mp h2, hc⟩, fun hc => hc.2.2⟩

theorem in_configure_effect_channels_zero (o : configure_outcome) :
    in_configure_effect_channels o = 0 ↔ commands_succeed o := by
  unfold in_configure_effect_channels commands_succeed
  by_cases hg : o.get_config ≠ 0
  · rw [if_pos hg]
    exact ⟨fun hc => absurd hc hg, fun hc => absurd hc.1 hg⟩
  · rw [if_neg hg]
    simp only [GET_COMMAND_STATUS_zero]
    have hg0 : o.get_config = 0 := not_not.mp hg
    constructor
    · rintro ⟨e1, e2, s1, s2, f1, f2, _⟩
      exact ⟨hg0, f1, f2, s1, s2, e1, e2⟩
    · rintro ⟨_, f1, f2, s1, s2, e1, e2⟩
      exact ⟨e1, e2, s1, s2, f1, f2, trivial⟩

theorem status_fold_zero (f : Nat → Int) (n : Nat) :
    (List.range n).foldl (fun status i => if f i ≠ 0 then f i else status) 0 = 0 ↔
      ∀ k < n, f k = 0 := by
  induction n with
  | zero => simp
  | succ n ih =>
    rw [List.range_succ, List.foldl_append]
    simp only [List.foldl_cons, List.foldl_nil]
    by_cases hn : f n ≠ 0
    · rw [if_pos hn]
      exact ⟨fun hc => absurd hc hn, fun hc => absurd (hc n (Nat.lt_succ_self n)) hn⟩
    · rw [if_neg hn, ih]
      have hn0 : f n = 0 := not_not.mp hn
      constructor
      · intro hall k hk
        rcases Nat.lt_succ_iff_lt_or_eq.mp hk with hlt | heq
        · exact hall k hlt
        · rw [heq]
          exact hn0
      · intro hall k hk
        exact hall k (Nat.lt_succ_of_lt hk)

theorem in_reconfigure_channels_zero (s : tuna_stream_in) (effect : Option Nat)
    (channel_config : channel_config_t) (config_changed : Bool) (o : reconfigure_oracle) :
    in_reconfigure_channels s effect channel_config config_changed o = 0 ↔
      reconfigure_succeeds s effect channel_config.aux_channels config_changed o := by
  unfold in_reconfigure_channels reconfigure_succeeds
  split_ifs with h1 h2
  · simp only
    rw [status_fold_zero (fun i => in_configure_effect_channels (o.each i))]
    simp only [in_configure_effect_channels_zero]
  · exact in_configure_effect_channels_zero o.added
  · exact ⟨fun _ => trivial, fun _ => rfl⟩

/-- After `in_update_aux_channels` the stream's `aux_channels` is the value negotiated by
`in_get_aux_channels` if the reconfiguration of the effects returned 0 and is 0 if it returned
an error; if that value differs from the `aux_channels` held before the call, the stream is in
standby and `aux_channels_changed` is set, and if it is equal the stream is unchanged. -/
theorem in_update_aux_channels_status (h : audio_hw_h) (w : hal) (i : Nat)
    (effect : Option Nat) (o1 o2 : reconfigure_oracle) (s : tuna_stream_in)
    (hs : w.ins i = some s) :
    ∃ s', (in_update_aux_channels h w i effect o1 o2).ins i = some s' ∧
      (in_reconfigure_channels s effect
          { main_channels := s.main_channels, aux_channels := in_get_aux_channels h s }
          (decide (in_get_aux_channels h s ≠ s.aux_channels)) o1 = 0 →
        s'.aux_channels = in_get_aux_channels h s) ∧
      (in_reconfigure_channels s effect
          { main_channels := s.main_channels, aux_channels := in_get_aux_channels h s }
          (decide (in_get_aux_channels h s ≠ s.aux_channels)) o1 ≠ 0 →
        s'.aux_channels = 0) ∧
      (s'.aux_channels ≠ s.aux_channels →
        s'.standby = true ∧ s'.aux_channels_changed = true) ∧
      (s'.aux_channels = s.aux_channels → s' = s) := by
  have hsb : ∀ (a : Nat), ∃ s',
      (do_input_standby h (w.update_in i
        (fun s => { s with aux_channels_changed := true, aux_channels := a })) i).ins i
          = some s' ∧
      s'.aux_channels = a ∧ s'.standby = true ∧ s'.aux_channels_changed = true := by
    intro a
    have e1 := do_input_standby_standby h (w.update_in i
      (fun s => { s with aux_channels_changed := true, aux_channels := a })) i
    have e2 := do_input_standby_ins_view h (w.update_in i
      (fun s => { s with aux_channels_changed := true, aux_channels := a })) i i
      (fun s => (s.aux_channels, s.aux_channels_changed)) (fun _ _ _ _ => rfl)
    have e0 : (w.update_in i
        (fun s => { s with aux_channels_changed := true, aux_channels := a })).ins i =
        some { s with aux_channels_changed := true, aux_channels := a } := by
      simp [hal.update_in, hal.set_in, hs]
    rw [e0] at e1 e2
    cases hr : (do_input_standby h (w.update_in i
        (fun s => { s with aux_channels_changed := true, aux_channels := a })) i).ins i with
    | none => rw [hr] at e1; cases e1
    | some s' =>
      rw [hr] at e1 e2
      have e1' := Option.some.inj e1
      have e2' := Option.some.inj e2
      simp only [Prod.mk.injEq] at e2'
      exact ⟨s', rfl, e2'.1, e1', e2'.2⟩
  unfold in_update_aux_channels
  rw [hs]
  simp only
  by_cases hst : in_reconfigure_channels s effect
      { main_channels := s.main_channels, aux_channels := in_get_aux_channels h s }
      (decide (in_get_aux_channels h s ≠ s.aux_channels)) o1 ≠ 0
  · simp only [hst, if_true, ne_eq, not_true_eq_false, not_false_eq_true]
    by_cases hch : s.aux_channels ≠ 0
    · rw [if_pos hch]
      obtain ⟨s', e, a1, a2, a3⟩ := hsb 0
      refine ⟨s', e, fun hc => hc.elim, fun _ => a1, fun _ => ⟨a2, a3⟩, fun hc => ?_⟩
      rw [a1] at hc
      exact absurd hc.symm hch
    · rw [if_neg hch]
      have hz : s.aux_channels = 0 := not_not.mp hch
      exact ⟨s, hs, fun hc => hc.elim, fun _ => hz, fun hc => absurd rfl hc, fun _ => rfl⟩
  · have hst0 := not_not.mp hst
    simp only [hst, if_false]
    by_cases hch : s.aux_channels ≠ in_get_aux_channels h s
    · rw [if_pos hch]
      obtain ⟨s', e, a1, a2, a3⟩ := hsb (in_get_aux_channels h s)
      refine ⟨s', e, fun _ => a1, fun hc => hc.elim, fun _ => ⟨a2, a3⟩, fun hc => ?_⟩
      rw [a1] at hc
      exact absurd hc.symm hch
    · rw [if_neg hch]
      have hz := not_not.mp hch
      exact ⟨s, hs, fun _ => hz, fun hc => hc.elim, fun hc => absurd rfl hc, fun _ => rfl⟩

/-! ## The data path of the low-latency write -/

theorem get_playback_delay_defined (h : audio_hw_h) (out : tuna_stream_out) (frames : Nat)
    (ts : pcm → htimestamp_reply) :
    (get_playback_delay h out frames ts).isSome = true ↔
      (out.pcm_normal ≠ none ∨ out.pcm_spdif ≠ none ∨ out.pcm_hdmi ≠ none) := by
  unfold get_playback_delay
  cases h1 : out.pcm_normal <;> cases h2 : out.pcm_spdif <;> cases h3 : out.pcm_hdmi <;>
    simp [tuna_stream_out.pcms, find_primary_pcm, h1, h2, h3] <;> split_ifs <;> simp

theorem out_write_low_latency_full_spec (h : audio_hw_h) (w : hal) (bytes : Nat)
    (a b c : Bool) (out_frames : Nat) (o : write_outcome) (r : Int × hal)
    (hr : out_write_low_latency_full h w bytes a b c out_frames o = some r) :
    r.1 = bytes ∧ ∀ ws, r = out_write_low_latency h w bytes a b c ws := by
  unfold out_write_low_latency_full at hr
  unfold out_write_low_latency
  cases hout : w.adev.outputs OUTPUT_LOW_LATENCY with
  | none =>
    rw [hout] at hr
    cases hr
    exact ⟨rfl, fun _ => rfl⟩
  | some out =>
    rw [hout] at hr
    simp only at hr ⊢
    by_cases hs : out.standby = true
    · by_cases hst : (start_output_stream_low_latency h w a b c).1 ≠ 0
      · rw [if_pos ⟨hs, hst⟩] at hr
        cases hr
        simp [hs, hst]
      · rw [if_neg (fun hc => hst hc.2)] at hr
        simp only [hs, if_true, Bool.true_and] at hr
        split at hr
        · cases hr
        · split_ifs at hr <;> cases hr <;> simp [hs, hst, *]
    · rw [if_neg (fun hc => hs hc.1)] at hr
      have hsf : out.standby = false := by simpa using hs
      simp only [hsf, Bool.false_eq_true, if_false, Bool.false_and] at hr
      rw [hout] at hr
      simp only at hr
      split_ifs at hr <;> cases hr <;> simp [hsf]

theorem out_write_low_latency_full_defined (h : audio_hw_h) (w : hal) (bytes : Nat)
    (a b c : Bool) (out_frames : Nat) (o : write_outcome) (out : tuna_stream_out)
    (hout : w.adev.outputs OUTPUT_LOW_LATENCY = some out) (hs : out.standby = false)
    (hok : out.echo_reference = none ∨
      out.pcm_normal ≠ none ∨ out.pcm_spdif ≠ none ∨ out.pcm_hdmi ≠ none) :
    (out_write_low_latency_full h w bytes a b c out_frames o).isSome = true := by
  unfold out_write_low_latency_full
  rw [hout]
  simp only [hs, Bool.false_eq_true, false_and, if_false]
  rw [hout]
  simp only
  by_cases he : out.echo_reference ≠ none
  · have hd := (get_playback_delay_defined h out out_frames o.ts).mpr
      (hok.resolve_left he)
    simp [he, hd]
  · simp [he]

/-- Every exit of `out_write_low_latency`, `out_write_deep_buffer` and `in_read` is
`return bytes`: the value of a call that returns is the byte count passed by the caller,
whatever the outcome of the stream activation and the status of the transport write or read. -/
theorem write_models_return_bytes (h : audio_hw_h) (w : hal) (bytes : Nat)
    (r_normal r_spdif r_hdmi ready pcm_ready : Bool) (write_status : Int) (i : Nat)
    (resampler_status echo_status : Int) (io : read_outcome) :
    (out_write_low_latency h w bytes r_normal r_spdif r_hdmi write_status).1 = bytes ∧
    (out_write_deep_buffer h w bytes ready write_status).1 = bytes ∧
    (in_read h w i bytes resampler_status echo_status pcm_ready io).1 = bytes := by
  refine ⟨?_, ?_, ?_⟩
  · unfold out_write_low_latency
    split
    · rfl
    · simp only
      split_ifs <;> rfl
  · unfold out_write_deep_buffer
    split
    · rfl
    · simp only
      split_ifs <;> rfl
  · unfold in_read
    split
    · rfl
    · simp only
      split_ifs <;> rfl

/-! ## Claims -/

/-- C1: running `select_output_device` twice in succession leaves every mixer control exactly
as after running it once, whatever the device state and the initial mixer, and
`select_output_device` changes no field of the device structure (nor any stream). -/
theorem select_output_device_idempotent (h : audio_hw_h) (w : hal) :
    (∀ name, ((w.select_output_device h).select_output_device h).hw.ctls name =
        (w.select_output_device h).hw.ctls name) ∧
    (w.select_output_device h).adev = w.adev ∧
    (w.select_output_device h).ins = w.ins := by
  refine ⟨fun name => ?_, rfl, rfl⟩
  have key := Emits.idem (Emits.select_output_device_base h w.adev w.act) w.hw
  exact congrFun key name

/-- C3: whatever the mode and the hardware maximum `speaker_max_db`, `set_output_volumes` writes
the analog speaker gain `min requested speaker_max_db` on both channels; with the speaker
selected and `requested > speaker_max_db` the DL2 stages carry the overrange
`MIXER_ABE_GAIN_0DB + (requested - speaker_max_db)`, so that analog plus digital is the
requested gain; with `requested <= speaker_max_db`, or the speaker not selected, the overrange
term is exactly `MIXER_ABE_GAIN_0DB`. -/
theorem set_output_volumes_speaker_overrange (h : audio_hw_h) (adev : tuna_audio_device)
    (tty_volume : Bool) (s : hw_state) :
    let c := adev.mixer_ctls
    let speaker_max_db :=
      h.DB_FROM_SPEAKER_VOLUME (mixer_ctl_get_range_max s c.speaker_volume)
    let requested :=
      if adev.mode = AUDIO_MODE_IN_CALL then h.VOICE_CALL_SPEAKER_VOLUME
      else if adev.mode = AUDIO_MODE_IN_COMMUNICATION then h.VOIP_SPEAKER_VOLUME
      else h.NORMAL_SPEAKER_VOLUME
    let speaker_on : Bool := decide (adev.out_device &&& AUDIO_DEVICE_OUT_SPEAKER ≠ 0)
    let correction := if speaker_on then h.NORMAL_SPEAKER_VOLUME - requested else 0
    let overrange :=
      if speaker_on ∧ requested > speaker_max_db then
        h.MIXER_ABE_GAIN_0DB + (requested - speaker_max_db)
      else h.MIXER_ABE_GAIN_0DB
    let new := issued s (set_output_volumes h adev tty_volume s)
    hw_event.set_value c.speaker_volume 0
        (h.DB_TO_SPEAKER_VOLUME (min requested speaker_max_db)) ∈ new ∧
    hw_event.set_value c.speaker_volume 1
        (h.DB_TO_SPEAKER_VOLUME (min requested speaker_max_db)) ∈ new ∧
    hw_event.set_value c.mm_dl2_volume 0 (overrange + correction) ∈ new ∧
    (adev.mode = AUDIO_MODE_IN_CALL →
      hw_event.set_value c.vx_dl2_volume 0 overrange ∈ new ∧
      hw_event.set_value c.tones_dl2_volume 0 (overrange + correction) ∈ new) ∧
    (speaker_on = true → min requested speaker_max_db + (overrange - h.MIXER_ABE_GAIN_0DB)
      = requested) ∧
    (requested ≤ speaker_max_db → overrange = h.MIXER_ABE_GAIN_0DB) ∧
    (speaker_on = false → overrange = h.MIXER_ABE_GAIN_0DB) := by
  intro c speaker_max_db requested speaker_on correction overrange new
  have hnew : new = issued s (write_output_volumes h adev
      (compute_output_volumes h adev tty_volume speaker_max_db) s) := rfl
  have hv1 := compute_speaker_volume h adev tty_volume speaker_max_db
  have hv2 := compute_speaker_volume_overrange h adev tty_volume speaker_max_db
  have hv3 := compute_dl2_volume_correction h adev tty_volume speaker_max_db
  rw [issued_write_output_volumes, hv1, hv2, hv3] at hnew
  refine ⟨?_, ?_, ?_, ?_, ?_, ?_, ?_⟩
  · rw [hnew]; simp [c, requested]
  · rw [hnew]; simp [c, requested]
  · rw [hnew]; simp [c, overrange, correction, speaker_on, requested]
  · intro hm
    rw [hnew]; simp [c, overrange, correction, speaker_on, requested, hm]
  · intro hs
    simp only [overrange]
    split_ifs with h1
    · have := h1.2
      rw [min_eq_right (le_of_lt this)]; ring
    · have : requested ≤ speaker_max_db := by
        by_contra hc
        exact h1 ⟨hs, not_le.mp hc⟩
      rw [min_eq_left this]; ring
  · intro hle
    simp only [overrange]
    rw [if_neg]
    intro hc
    exact absurd hc.2 (not_lt.mpr hle)
  · intro hs
    simp only [overrange]
    rw [if_neg]
    intro hc
    rw [hs] at hc
    exact absurd hc.1 (by simp)

/-- C2, as stated, fails: in a call with TTY mode HCO and a wired headset selected, the routing
enables the speaker path (the speaker stage is switched to its DAC), the analog speaker gain
written is 29 (6 dB, where the normal speaker gain is 4 dB) and the DL2 media stage is written
120 (`MIXER_ABE_GAIN_0DB`, offset 0): no gain in dB that converts to the value written adds up
with the DL2 media offset to the normal speaker gain. -/
theorem loudness_invariance_counterexample :
    (rx_flags sample_adev_hco).speaker_on = 1 ∧
    hw_event.set_enum "Handsfree Left Playback" "HF DAC" ∈
      (select_output_device sample_h sample_adev_hco none sample_hw).trace ∧
    (select_output_device sample_h sample_adev_hco none sample_hw).ctls
        sample_adev_hco.mixer_ctls.speaker_volume =
      some { values := [29, 29], range_max := 29, enum_value := "Off" } ∧
    (select_output_device sample_h sample_adev_hco none sample_hw).ctls
        sample_adev_hco.mixer_ctls.mm_dl2_volume =
      some { values := [120, 0], range_max := 29, enum_value := "Off" } ∧
    ¬ ∃ g : Int, sample_h.DB_TO_SPEAKER_VOLUME g = 29 ∧
        g + (120 - sample_h.MIXER_ABE_GAIN_0DB) = sample_h.NORMAL_SPEAKER_VOLUME := by
  refine ⟨by decide, by decide, by decide, by decide, ?_⟩
  rintro ⟨g, h1, h2⟩
  simp only [sample_h] at h1 h2
  omega

/-- C2, amended: `select_output_device` writes the analog gains and the media digital stages
computed by `set_output_volumes` from the `out_device` bits (not from the paths the routing
enabled): with `WIRED_HEADPHONE` selected the headset gain in dB plus the DL1 media offset
(`mm_dl1_volume - MIXER_ABE_GAIN_0DB`) is the normal headphone gain; otherwise with
`WIRED_HEADSET` selected it is the normal headset gain; otherwise the earpiece gain plus the
DL1 media offset is the normal earpiece gain; and with `SPEAKER` selected the speaker gain plus
the DL2 media offset (`mm_dl2_volume - MIXER_ABE_GAIN_0DB`) is the normal speaker gain, in
every mode and TTY mode. -/
theorem select_output_device_gain_compensation (h : audio_hw_h) (adev : tuna_audio_device)
    (act : Option tuna_stream_in) (s : hw_state) :
    let c := adev.mixer_ctls
    let v := compute_output_volumes h adev (rx_flags adev).tty_volume
      (h.DB_FROM_SPEAKER_VOLUME (mixer_ctl_get_range_max s c.speaker_volume))
    let dl1_offset := v.dl1_volume_correction
    let dl2_offset := v.speaker_volume_overrange + v.dl2_volume_correction - h.MIXER_ABE_GAIN_0DB
    let new := issued s (select_output_device h adev act s)
    hw_event.set_value c.headset_volume 0 (h.DB_TO_HEADSET_VOLUME v.headset_volume) ∈ new ∧
    hw_event.set_value c.headset_volume 1 (h.DB_TO_HEADSET_VOLUME v.headset_volume) ∈ new ∧
    hw_event.set_value c.earpiece_volume 0 (h.DB_TO_EARPIECE_VOLUME v.earpiece_volume) ∈ new ∧
    hw_event.set_value c.speaker_volume 0 (h.DB_TO_SPEAKER_VOLUME v.speaker_volume) ∈ new ∧
    hw_event.set_value c.speaker_volume 1 (h.DB_TO_SPEAKER_VOLUME v.speaker_volume) ∈ new ∧
    hw_event.set_value c.mm_dl1_volume 0 (h.MIXER_ABE_GAIN_0DB + dl1_offset) ∈ new ∧
    hw_event.set_value c.mm_dl2_volume 0 (h.MIXER_ABE_GAIN_0DB + dl2_offset) ∈ new ∧
    (if adev.out_device &&& AUDIO_DEVICE_OUT_WIRED_HEADPHONE ≠ 0 then
       v.headset_volume + dl1_offset = h.NORMAL_HEADPHONE_VOLUME
     else if adev.out_device &&& AUDIO_DEVICE_OUT_WIRED_HEADSET ≠ 0 then
       v.headset_volume + dl1_offset = h.NORMAL_HEADSET_VOLUME
     else v.earpiece_volume + dl1_offset = h.NORMAL_EARPIECE_VOLUME) ∧
    (if adev.out_device &&& AUDIO_DEVICE_OUT_SPEAKER ≠ 0 then
       v.speaker_volume + dl2_offset = h.NORMAL_SPEAKER_VOLUME
     else dl2_offset = 0) := by
  intro c v dl1_offset dl2_offset new
  have hmax : mixer_ctl_get_range_max (select_output_device_switch h adev s) c.speaker_volume
      = mixer_ctl_get_range_max s c.speaker_volume :=
    (Emits.select_output_device_switch_base h adev).range_max_eq s _
  have hin : ∀ e, e ∈ issued (select_output_device_switch h adev s)
      (write_output_volumes h adev v (select_output_device_switch h adev s)) → e ∈ new := by
    intro e he
    have := issued_mid (Emits.select_output_device_switch_base h adev)
      (Emits.set_output_volumes_base h adev (rx_flags adev).tty_volume)
      (Emits.select_output_device_capture_base h adev act) s e
    apply this
    rw [issued_set_output_volumes, hmax]
    exact he
  have hoff : h.MIXER_ABE_GAIN_0DB + dl2_offset =
      v.speaker_volume_overrange + v.dl2_volume_correction := by
    simp only [dl2_offset]; ring
  refine ⟨hin _ ?_, hin _ ?_, hin _ ?_, hin _ ?_, hin _ ?_, hin _ ?_, hin _ ?_, ?_, ?_⟩
  · rw [issued_write_output_volumes]; simp [c]
  · rw [issued_write_output_volumes]; simp [c]
  · rw [issued_write_output_volumes]; simp [c]
  · rw [issued_write_output_volumes]; simp [c]
  · rw [issued_write_output_volumes]; simp [c]
  · rw [issued_write_output_volumes]; simp [c, dl1_offset]
  · rw [issued_write_output_volumes, hoff]; simp [c]
  · simp only [dl1_offset, v, compute_output_volumes]
    split_ifs <;> ring
  · have h1 := compute_speaker_volume h adev (rx_flags adev).tty_volume
      (h.DB_FROM_SPEAKER_VOLUME (mixer_ctl_get_range_max s c.speaker_volume))
    have h2 := compute_speaker_volume_overrange h adev (rx_flags adev).tty_volume
      (h.DB_FROM_SPEAKER_VOLUME (mixer_ctl_get_range_max s c.speaker_volume))
    have h3 := compute_dl2_volume_correction h adev (rx_flags adev).tty_volume
      (h.DB_FROM_SPEAKER_VOLUME (mixer_ctl_get_range_max s c.speaker_volume))
    simp only [dl2_offset, v]
    rw [h1, h2, h3]
    generalize (if adev.mode = AUDIO_MODE_IN_CALL then h.VOICE_CALL_SPEAKER_VOLUME
      else if adev.mode = AUDIO_MODE_IN_COMMUNICATION then h.VOIP_SPEAKER_VOLUME
      else h.NORMAL_SPEAKER_VOLUME) = req
    generalize h.DB_FROM_SPEAKER_VOLUME (mixer_ctl_get_range_max s c.speaker_volume) = mx
    rcases le_or_lt req mx with hle | hlt
    · rw [min_eq_left hle]
      have hn : ¬ req > mx := not_lt.mpr hle
      split_ifs <;> omega
    · rw [min_eq_right (le_of_lt hlt)]
      split_ifs <;> omega

/-- C4: with both modem endpoints closed, `start_call` returns `-ENOMEM` when the downlink or
the uplink endpoint fails to become ready, leaving both `pcm_modem_dl` and `pcm_modem_ul` none
and no endpoint open that was not open before; when both become ready it returns 0 with both
endpoints open and ready on the modem port, at `VX_WB_SAMPLING_RATE` if `wb_amr` is set and at
`VX_NB_SAMPLING_RATE` otherwise. -/
theorem start_call_transactional (h : audio_hw_h) (w : hal) (dl_ready ul_ready : Bool)
    (hdl : w.adev.pcm_modem_dl = none) (hul : w.adev.pcm_modem_ul = none) :
    if dl_ready = true ∧ ul_ready = true then
      (start_call h w dl_ready ul_ready).1 = 0 ∧
      ∃ dl ul, (start_call h w dl_ready ul_ready).2.adev.pcm_modem_dl = some dl ∧
        (start_call h w dl_ready ul_ready).2.adev.pcm_modem_ul = some ul ∧
        dl ∈ (start_call h w dl_ready ul_ready).2.alsa.open_pcms ∧
        ul ∈ (start_call h w dl_ready ul_ready).2.alsa.open_pcms ∧
        dl.id ≠ ul.id ∧ dl.ready = true ∧ ul.ready = true ∧
        dl.port = h.PORT_MODEM ∧ ul.port = h.PORT_MODEM ∧
        dl.capture = false ∧ ul.capture = true ∧
        dl.rate = (if w.adev.wb_amr ≠ 0 then h.VX_WB_SAMPLING_RATE
                   else h.VX_NB_SAMPLING_RATE) ∧
        ul.rate = (if w.adev.wb_amr ≠ 0 then h.VX_WB_SAMPLING_RATE
                   else h.VX_NB_SAMPLING_RATE)
    else
      (start_call h w dl_ready ul_ready).1 = -ENOMEM ∧
      (start_call h w dl_ready ul_ready).2.adev.pcm_modem_dl = none ∧
      (start_call h w dl_ready ul_ready).2.adev.pcm_modem_ul = none ∧
      ∀ p ∈ (start_call h w dl_ready ul_ready).2.alsa.open_pcms, p ∈ w.alsa.open_pcms := by
  cases dl_ready <;> cases ul_ready <;>
    simp [start_call, hdl, hul, pcm_open, pcm_close, List.filter_cons] <;>
    intros <;> assumption

/-- Witness for C4 on the concrete state: both opens succeed. -/
theorem start_call_transactional_witness :
    sample_hal.adev.pcm_modem_dl = none ∧ sample_hal.adev.pcm_modem_ul = none ∧
    (start_call sample_h sample_hal true true).1 = 0 ∧
    ((start_call sample_h sample_hal true true).2.adev.pcm_modem_dl).isSome = true := by
  have key := start_call_transactional sample_h sample_hal true true rfl rfl
  simp only [and_self, if_true] at key
  obtain ⟨h0, dl, ul, hdl, _⟩ := key
  exact ⟨rfl, rfl, h0, by rw [hdl]; rfl⟩


/-- C5: in every state reachable from a successful `adev_open` by any sequence of entry points,
each taken as atomic, at most one echo reference exists, namely the one in the device's
`echo_reference` slot, and every output stream with a binding is the low-latency output, is
not in standby and is bound to the device's echo reference; the deep-buffer and HDMI outputs
have no binding. -/
theorem echo_reference_unique (h : audio_hw_h) (w : hal) (hr : reachable h w) :
    w.echo_refs.length ≤ 1 ∧ w.echo_refs = w.adev.echo_reference.toList ∧
    (∀ t out, w.adev.outputs t = some out → out.echo_reference ≠ none →
      t = OUTPUT_LOW_LATENCY ∧ out.standby = false ∧
        out.echo_reference = w.adev.echo_reference) ∧
    (∀ out, w.adev.outputs OUTPUT_DEEP_BUF = some out → out.echo_reference = none) ∧
    (∀ out, w.adev.outputs OUTPUT_HDMI = some out → out.echo_reference = none) := by
  have hinv := echo_inv_reachable h w hr
  refine ⟨?_, hinv.1, hinv.2, fun out ho => ?_, fun out ho => ?_⟩
  · rw [hinv.1]
    cases w.adev.echo_reference <;> simp
  · exact echo_inv_no_binding hinv ho (by decide)
  · exact echo_inv_no_binding hinv ho (by decide)

/-- Witness for C5: the voice-over-IP session is reachable on the concrete device. -/
theorem echo_reference_unique_witness :
    reachable sample_h voip_hal ∧ voip_hal.echo_refs.length ≤ 1 ∧
    voip_hal.echo_refs = voip_hal.adev.echo_reference.toList := by
  have r0 : reachable sample_h opened_hal :=
    reachable.opened true true (some sample_hw) { open_pcms := [], next_id := 0 } opened_hal rfl
  have r1 := reachable.next _ _ r0 (step.open_output opened_hal AUDIO_DEVICE_OUT_SPEAKER 0
    44100 AUDIO_CHANNEL_OUT_STEREO true 0 0)
  have r2 := reachable.next _ _ r1 (step.write_low_latency _ 4096 true true true 0)
  have r3 := reachable.next _ _ r2 (step.open_input _ AUDIO_DEVICE_IN_BUILTIN_MIC 44100
    AUDIO_FORMAT_PCM_16_BIT 0x10 true 0)
  have r4 := reachable.next _ _ r3 (step.add_audio_effect _ 0 7 0 true
    { cmd_status := 0, reply_status := 0, configs := [] } sample_oracle sample_oracle)
  have hr : reachable sample_h voip_hal :=
    reachable.next _ _ r4 (step.in_read _ 0 4096 0 0 true ⟨0, 0, 0, 0, 0⟩)
  have key := echo_reference_unique sample_h voip_hal hr
  exact ⟨hr, key.1, key.2.1⟩

/-- C6, counterexample: the only attached effect of `wide_in` declares (0x10, 0x20) and
(0x10, 0x60), both with the stream's main mask, so (0x10, 0x60) is common to all attached
effects and has the larger auxiliary popcount; `in_get_aux_channels` returns 0x20, because
(0x10, 0x60) is not in the driver's table. -/
theorem aux_table_counterexample :
    wide_in.num_preprocessors ≠ 0 ∧
    wide_in.device &&& (AUDIO_DEVICE_IN_BUILTIN_MIC ||| AUDIO_DEVICE_IN_BACK_MIC) ≠ 0 ∧
    declared_by_all wide_in { main_channels := 0x10, aux_channels := 0x60 } ∧
    { main_channels := 0x10, aux_channels := 0x60 } ∉ sample_h.in_aux_cnl_configs ∧
    in_get_aux_channels sample_h wide_in = 0x20 ∧
    popcount 0x20 < popcount 0x60 := by
  refine ⟨by decide, by decide, by decide, by decide, ?_, by simp [popcount]⟩
  simp [in_get_aux_channels, aux_step, match_loop, effect_declares, wide_in, sample_in,
    sample_h, tuna_stream_in.effects, new_stream_in, popcount,
    AUDIO_DEVICE_IN_BUILTIN_MIC, AUDIO_DEVICE_IN_BACK_MIC, not32, AUDIO_DEVICE_BIT_IN]

/-- C6, amended: for an input stream with at least one attached effect (and the attached
effects within the slots of `preprocessors`) and a built-in or back microphone selected,
`in_get_aux_channels` chooses among the pairs of the driver's table `in_aux_cnl_configs` that
have the stream's main mask and are declared by every attached effect (`common_config`): it
returns 0 when no such pair has a non-zero auxiliary mask; otherwise it returns the auxiliary
mask of such a pair whose auxiliary popcount is the largest among them, and which is the
earliest such pair in the order of the table. -/
theorem in_get_aux_channels_selects (h : audio_hw_h) (s : tuna_stream_in)
    (hn : s.num_preprocessors ≠ 0) (hlen : s.num_preprocessors ≤ s.preprocessors.length)
    (hdev : s.device &&& (AUDIO_DEVICE_IN_BUILTIN_MIC ||| AUDIO_DEVICE_IN_BACK_MIC) ≠ 0) :
    (∀ c, common_config h s c ↔ c ∈ h.in_aux_cnl_configs ∧ declared_by_all s c) ∧
    ((∀ c, common_config h s c → c.aux_channels = 0) → in_get_aux_channels h s = 0) ∧
    ((∃ c, common_config h s c ∧ c.aux_channels ≠ 0) →
      ∃ pre c0 post, h.in_aux_cnl_configs = pre ++ c0 :: post ∧ common_config h s c0 ∧
        c0.aux_channels ≠ 0 ∧ in_get_aux_channels h s = c0.aux_channels ∧
        (∀ c, common_config h s c →
          popcount c.aux_channels ≤ popcount c0.aux_channels) ∧
        (∀ c ∈ pre, common_config h s c →
          popcount c.aux_channels < popcount c0.aux_channels)) := by
  refine ⟨fun c => Iff.rfl, ?_⟩
  rw [in_get_aux_channels_fold h s hn hlen hdev]
  obtain ⟨hb, _, hcase⟩ := first_max_fold (common_config h s)
    (fun c => popcount c.aux_channels) h.in_aux_cnl_configs
    { main_channels := 0, aux_channels := 0 }
  simp only at hb hcase
  generalize h.in_aux_cnl_configs.foldl
    (fun acc c => if common_config h s c ∧
      popcount c.aux_channels > popcount acc.aux_channels then c else acc)
    { main_channels := 0, aux_channels := 0 } = r at hb hcase
  rw [popcount_zero] at hcase
  constructor
  · intro hzero
    rcases hcase with ⟨heq, _⟩ | ⟨_, _, _, hP, _, _⟩
    · rw [heq]
    · exact hzero r hP
  · rintro ⟨c, hc, hne⟩
    rcases hcase with ⟨_, hall⟩ | ⟨pre, post, hL, hP, hlt, hpre⟩
    · exact absurd (popcount_eq_zero _ (Nat.le_zero.mp (hall c hc.1 hc))) hne
    · refine ⟨pre, r, post, hL, hP, ?_, rfl, fun c hc => hb c hc.1 hc, hpre⟩
      intro hz
      rw [hz, popcount_zero] at hlt
      exact absurd hlt (lt_irrefl 0)

/-- Witness for C6: the stream `sample_in` has one attached effect and the built-in microphone
selected; the pair (0x10, 0x20) is a common configuration and the result is the auxiliary mask
of a common configuration. -/
theorem in_get_aux_channels_selects_witness :
    sample_in.num_preprocessors ≠ 0 ∧
    sample_in.num_preprocessors ≤ sample_in.preprocessors.length ∧
    ∃ c0, common_config sample_h sample_in c0 ∧ c0.aux_channels ≠ 0 ∧
      in_get_aux_channels sample_h sample_in = c0.aux_channels := by
  obtain ⟨_, c0, _, _, hc, hne, heq, _⟩ :=
    (in_get_aux_channels_selects sample_h sample_in (by decide) (by decide)
      (by decide)).2.2 ⟨⟨0x10, 0x20⟩, by decide, by decide⟩
  exact ⟨by decide, by decide, c0, hc, hne, heq⟩

/-- C7 fails on `sample_in`, whose only attached effect declares (0x10, 0x20): removing that
effect lowers the negotiated popcount from 1 to 0; and appending the same effect to the stream
without effects raises it from 0 to 1. -/
theorem aux_popcount_counterexample :
    (remove_preprocessor sample_in 7).1 = 0 ∧
    popcount (in_get_aux_channels sample_h (remove_preprocessor sample_in 7).2) <
      popcount (in_get_aux_channels sample_h sample_in) ∧
    popcount (in_get_aux_channels sample_h empty_in) <
      popcount (in_get_aux_channels sample_h (append_preprocessor empty_in 7
        { cmd_status := 0, reply_status := 0,
          configs := [{ main_channels := 0x10, aux_channels := 0x20 }] })) := by
  have h0 : (remove_preprocessor sample_in 7).2.num_preprocessors = 0 := by decide
  have h1 : in_get_aux_channels sample_h (remove_preprocessor sample_in 7).2 = 0 := by
    simp [in_get_aux_channels, h0]
  have h2 : in_get_aux_channels sample_h sample_in = 0x20 := by
    simp [in_get_aux_channels, aux_step, match_loop, effect_declares, sample_in, sample_h,
      tuna_stream_in.effects, new_stream_in, sample_effect, popcount,
      AUDIO_DEVICE_IN_BUILTIN_MIC, AUDIO_DEVICE_IN_BACK_MIC, not32, AUDIO_DEVICE_BIT_IN]
  have h3 : in_get_aux_channels sample_h empty_in = 0 := by
    simp [in_get_aux_channels, empty_in]
  have h4 : append_preprocessor empty_in 7
      { cmd_status := 0, reply_status := 0,
        configs := [{ main_channels := 0x10, aux_channels := 0x20 }] } = sample_in := rfl
  refine ⟨by decide, ?_, ?_⟩
  · rw [h1, h2]
    simp [popcount]
  · rw [h3, h4, h2]
    simp [popcount]

/-- C7, amended: for an input stream whose attached effects fit its slots, if the removal of an
effect succeeds and leaves at least one effect attached, the negotiated auxiliary popcount
after the removal is at least the one before; and if at least one effect is attached and a
slot is free, appending an effect does not increase the negotiated popcount. -/
theorem aux_popcount_monotone (h : audio_hw_h) (s : tuna_stream_in) (effect : Nat)
    (reply : channel_configs_reply)
    (hlen : s.num_preprocessors ≤ s.preprocessors.length) :
    ((remove_preprocessor s effect).1 = 0 →
      (remove_preprocessor s effect).2.num_preprocessors ≠ 0 →
      popcount (in_get_aux_channels h s) ≤
        popcount (in_get_aux_channels h (remove_preprocessor s effect).2)) ∧
    (s.num_preprocessors ≠ 0 → s.num_preprocessors < s.preprocessors.length →
      popcount (in_get_aux_channels h (append_preprocessor s effect reply)) ≤
        popcount (in_get_aux_channels h s)) := by
  constructor
  · intro hst hrem
    have hpres : ∃ x ∈ s.effects, x.effect_itfe = some effect := by
      by_contra hc
      exact (remove_preprocessor_absent s effect hlen
        (fun x hx hp => hc ⟨x, hx, hp⟩)).2.1 hst
    obtain ⟨y, hy, hpy⟩ := hpres
    have hspec := (remove_preprocessor_present s effect hlen ⟨y, hy, hpy⟩).2
    have hn : s.num_preprocessors ≠ 0 := by
      intro hz
      simp [tuna_stream_in.effects, hz] at hy
    have hlenE : (s.effects.eraseP (fun x => decide (x.effect_itfe = some effect))).length
        = s.num_preprocessors - 1 := by
      rw [List.length_eraseP_of_mem hy (by simpa using hpy)]
      simp [tuna_stream_in.effects, hlen]
    rw [hspec] at hrem ⊢
    refine aux_popcount_mono h s _ hn hrem hlen ?_ rfl rfl ?_
    · simp only [List.length_append, hlenE, List.length_cons]
      omega
    · intro e he
      simp only [tuna_stream_in.effects] at he hlenE
      rw [List.take_append_of_le_length (by rw [hlenE]), List.take_of_length_le (by rw [hlenE])]
        at he
      exact List.mem_of_mem_eraseP he
  · intro hn hfree
    obtain ⟨slot, _, heff⟩ := append_preprocessor_effects s effect reply hfree
    refine aux_popcount_mono h _ s (Nat.succ_ne_zero _) hn ?_ hlen rfl rfl ?_
    · simp only [append_preprocessor, List.length_set]
      omega
    · intro e he
      rw [heff]
      exact List.mem_append_left _ he

/-- Witness for C7: removing the effect with handle 8 from `sample_in2` leaves one effect
attached. -/
theorem aux_popcount_monotone_witness :
    sample_in2.num_preprocessors ≤ sample_in2.preprocessors.length ∧
    popcount (in_get_aux_channels sample_h sample_in2) ≤
      popcount (in_get_aux_channels sample_h (remove_preprocessor sample_in2 8).2) :=
  ⟨by decide,
    (aux_popcount_monotone sample_h sample_in2 8
      { cmd_status := 0, reply_status := 0, configs := [] } (by decide)).1
      (by decide) (by decide)⟩

/-- C8: for an input stream (with `MAX_PREPROCESSORS` slots), if `num_preprocessors` is at
least `MAX_PREPROCESSORS` then `in_add_audio_effect` returns the non-zero error `-ENOSYS` and
leaves the whole state unchanged (so the effect list, its length, `aux_channels` and the
standby flag); otherwise, when the descriptor query succeeds, it returns 0, the new effect list
is the old one with an entry for the effect appended as last element, `num_preprocessors`
grows by exactly 1 and stays at most `MAX_PREPROCESSORS`. -/
theorem in_add_audio_effect_bounded (h : audio_hw_h) (w : hal) (i effect : Nat)
    (desc_status : Int) (is_aec : Bool) (reply : channel_configs_reply)
    (o1 o2 : reconfigure_oracle) (s : tuna_stream_in)
    (hs : w.ins i = some s) (hsize : s.preprocessors.length = h.MAX_PREPROCESSORS) :
    (s.num_preprocessors ≥ h.MAX_PREPROCESSORS →
      (in_add_audio_effect h w i effect desc_status is_aec reply o1 o2).1 = -ENOSYS ∧
      (in_add_audio_effect h w i effect desc_status is_aec reply o1 o2).1 ≠ 0 ∧
      (in_add_audio_effect h w i effect desc_status is_aec reply o1 o2).2 = w) ∧
    (s.num_preprocessors < h.MAX_PREPROCESSORS → desc_status = 0 →
      (in_add_audio_effect h w i effect desc_status is_aec reply o1 o2).1 = 0 ∧
      ∃ s' slot,
        (in_add_audio_effect h w i effect desc_status is_aec reply o1 o2).2.ins i = some s' ∧
        slot.effect_itfe = some effect ∧ s'.effects = s.effects ++ [slot] ∧
        s'.num_preprocessors = s.num_preprocessors + 1 ∧
        s'.num_preprocessors ≤ h.MAX_PREPROCESSORS) := by
  constructor
  · intro hfull
    unfold in_add_audio_effect
    rw [hs]
    simp only
    rw [if_pos hfull]
    have hS : (-ENOSYS : Int) ≠ 0 := by decide
    exact ⟨rfl, hS, rfl⟩
  · intro hfree hdesc
    subst hdesc
    obtain ⟨h0, s', hs', hview⟩ := in_add_audio_effect_fx h w i effect is_aec reply o1 o2 s hs hfree
    obtain ⟨slot, hslot, heff⟩ := append_preprocessor_effects s effect reply
      (by rw [hsize]; exact hfree)
    have hp : s'.preprocessors = (append_preprocessor s effect reply).preprocessors :=
      congrArg Prod.fst hview
    have hnum : s'.num_preprocessors = (append_preprocessor s effect reply).num_preprocessors :=
      congrArg Prod.snd hview
    refine ⟨h0, s', slot, hs', hslot, ?_, ?_, ?_⟩
    · rw [← heff]
      unfold tuna_stream_in.effects
      rw [hp, hnum]
    · rw [hnum]
      rfl
    · rw [hnum]
      exact hfree

/-- Witness for C8: attaching a second effect (handle 9) to `sample_in` succeeds. -/
theorem in_add_audio_effect_bounded_witness :
    sample_hal_in.ins 0 = some sample_in ∧
    sample_in.preprocessors.length = sample_h.MAX_PREPROCESSORS ∧
    (in_add_audio_effect sample_h sample_hal_in 0 9 0 false
      { cmd_status := 0, reply_status := 0, configs := [] } sample_oracle sample_oracle).1 = 0 :=
  ⟨rfl, by decide,
    ((in_add_audio_effect_bounded sample_h sample_hal_in 0 9 0 false
      { cmd_status := 0, reply_status := 0, configs := [] } sample_oracle sample_oracle
      sample_in rfl (by decide)).2 (by decide) rfl).1⟩

/-- C9: for an input stream (its attached effects within the slots) and an effect handle: if
the handle is not in the effect list, `in_remove_audio_effect` returns a non-zero error
(`-ENOSYS` when the list is empty, `-EINVAL` otherwise) and leaves the whole state unchanged;
if it is in the list, the resulting list is the old list with the first occurrence of the
handle deleted, the other entries keeping their order and content, the length decreases by
exactly 1 and the vacated last slot is cleared. -/
theorem in_remove_audio_effect_compacts (h : audio_hw_h) (w : hal) (i effect : Nat)
    (desc_status : Int) (is_aec : Bool) (o1 o2 : reconfigure_oracle) (s : tuna_stream_in)
    (hs : w.ins i = some s) (hlen : s.num_preprocessors ≤ s.preprocessors.length) :
    ((∀ x ∈ s.effects, x.effect_itfe ≠ some effect) →
      (in_remove_audio_effect h w i effect desc_status is_aec o1 o2).1 =
        (if s.num_preprocessors = 0 then -ENOSYS else -EINVAL) ∧
      (in_remove_audio_effect h w i effect desc_status is_aec o1 o2).1 ≠ 0 ∧
      (in_remove_audio_effect h w i effect desc_status is_aec o1 o2).2 = w) ∧
    ((∃ x ∈ s.effects, x.effect_itfe = some effect) →
      ∃ pre x post s',
        s.effects = pre ++ x :: post ∧ (∀ y ∈ pre, y.effect_itfe ≠ some effect) ∧
        x.effect_itfe = some effect ∧
        (in_remove_audio_effect h w i effect desc_status is_aec o1 o2).2.ins i = some s' ∧
        s'.effects = pre ++ post ∧
        s'.num_preprocessors + 1 = s.num_preprocessors ∧
        s'.preprocessors[s'.num_preprocessors]? =
          some { effect_itfe := none, channel_configs := [] }) := by
  constructor
  · intro habs
    obtain ⟨hval, hne, _⟩ := remove_preprocessor_absent s effect hlen habs
    rw [in_remove_audio_effect_absent h w i effect desc_status is_aec o1 o2 s hs hne]
    exact ⟨hval, hne, rfl⟩
  · rintro ⟨y, hy, hpy⟩
    obtain ⟨h0, hspec⟩ := remove_preprocessor_present s effect hlen ⟨y, hy, hpy⟩
    obtain ⟨s', hs', hview⟩ :=
      in_remove_audio_effect_fx h w i effect desc_status is_aec o1 o2 s hs h0
    rw [hspec] at hview
    have hp : s'.preprocessors =
        s.effects.eraseP (fun x => decide (x.effect_itfe = some effect)) ++
          { effect_itfe := none, channel_configs := [] } ::
            s.preprocessors.drop s.num_preprocessors := congrArg Prod.fst hview
    have hnum : s'.num_preprocessors = s.num_preprocessors - 1 := congrArg Prod.snd hview
    have hn : s.num_preprocessors ≠ 0 := by
      intro hz
      simp [tuna_stream_in.effects, hz] at hy
    have hlenE : (s.effects.eraseP (fun x => decide (x.effect_itfe = some effect))).length
        = s.num_preprocessors - 1 := by
      rw [List.length_eraseP_of_mem hy (by simpa using hpy)]
      simp [tuna_stream_in.effects, hlen]
    have hdec : (fun x : effect_info_s => decide (x.effect_itfe = some effect)) y = true := by
      simpa using hpy
    obtain ⟨x, pre, post, hpre, hx, hsplit, herase⟩ :=
      @List.exists_of_eraseP _ (fun x => decide (x.effect_itfe = some effect)) _ _ hy hdec
    refine ⟨pre, x, post, s', hsplit, ?_, by simpa using hx, hs', ?_, by omega, ?_⟩
    · intro z hz
      simpa using hpre z hz
    · rw [← herase]
      show s'.preprocessors.take s'.num_preprocessors = _
      rw [hp, hnum]
      rw [List.take_append_of_le_length (by rw [hlenE]), List.take_of_length_le (by rw [hlenE])]
    · rw [hp, hnum]
      rw [List.getElem?_append_right (by rw [hlenE]), hlenE]
      simp

/-- Witness for C9: detaching the attached effect (handle 7) from `sample_in` leaves an empty
effect list. -/
theorem in_remove_audio_effect_compacts_witness :
    sample_hal_in.ins 0 = some sample_in ∧
    sample_in.num_preprocessors ≤ sample_in.preprocessors.length ∧
    ∃ s', (in_remove_audio_effect sample_h sample_hal_in 0 7 0 false sample_oracle
        sample_oracle).2.ins 0 = some s' ∧
      s'.num_preprocessors + 1 = sample_in.num_preprocessors := by
  obtain ⟨_, _, _, s', _, _, _, hs', _, hnum, _⟩ :=
    (in_remove_audio_effect_compacts sample_h sample_hal_in 0 7 0 false sample_oracle
      sample_oracle sample_in rfl (by decide)).2 ⟨sample_effect, by decide, by decide⟩
  exact ⟨rfl, by decide, s', hs', hnum⟩

/-- C10 fails when the allocation of the stream fails: with the low-latency slot occupied, a
low-latency open request whose `calloc` fails returns `-ENOMEM`, not `-ENOSYS`. -/
theorem open_occupied_counterexample :
    requested_output_type AUDIO_DEVICE_OUT_SPEAKER 0 = OUTPUT_LOW_LATENCY ∧
    (occupied_hal.adev.outputs OUTPUT_LOW_LATENCY).isSome = true ∧
    (adev_open_output_stream sample_h occupied_hal AUDIO_DEVICE_OUT_SPEAKER 0 44100
      AUDIO_CHANNEL_OUT_STEREO false 0 0).1 = -ENOMEM ∧
    (adev_open_output_stream sample_h occupied_hal AUDIO_DEVICE_OUT_SPEAKER 0 44100
      AUDIO_CHANNEL_OUT_STEREO false 0 0).1 ≠ -ENOSYS := by
  refine ⟨by decide, by decide, by decide, by decide⟩

/-- C10, amended: when the allocation of the stream fails, `adev_open_output_stream` returns
`-ENOMEM` with no handle and the state unchanged; when it succeeds and the slot of the
requested variant is already occupied, the call fails with `-ENOSYS`, returns no handle and
leaves the state (so the outputs table) unchanged; and a successful open returns the slot of
the requested variant, which was empty, filled with a stream in standby, the other slots
unchanged. -/
theorem adev_open_output_stream_slot (h : audio_hw_h) (w : hal) (devices flags : Nat)
    (sample_rate channel_mask : Nat) (alloc_ok : Bool) (max_channels resampler_status : Int) :
    (alloc_ok = false →
      adev_open_output_stream h w devices flags sample_rate channel_mask alloc_ok max_channels
        resampler_status = (-ENOMEM, none, w)) ∧
    (alloc_ok = true →
      (w.adev.outputs (requested_output_type devices flags)).isSome = true →
      adev_open_output_stream h w devices flags sample_rate channel_mask alloc_ok max_channels
        resampler_status = (-ENOSYS, none, w)) ∧
    ((adev_open_output_stream h w devices flags sample_rate channel_mask alloc_ok max_channels
        resampler_status).1 = 0 →
      (adev_open_output_stream h w devices flags sample_rate channel_mask alloc_ok max_channels
        resampler_status).2.1 = some (requested_output_type devices flags) ∧
      w.adev.outputs (requested_output_type devices flags) = none ∧
      (∃ out, (adev_open_output_stream h w devices flags sample_rate channel_mask alloc_ok
          max_channels resampler_status).2.2.adev.outputs (requested_output_type devices flags)
            = some out ∧ out.standby = true) ∧
      ∀ k, k ≠ requested_output_type devices flags →
        (adev_open_output_stream h w devices flags sample_rate channel_mask alloc_ok
          max_channels resampler_status).2.2.adev.outputs k = w.adev.outputs k) := by
  have hS : (-ENOSYS : Int) ≠ 0 := by decide
  have hM : (-ENOMEM : Int) ≠ 0 := by decide
  refine ⟨?_, ?_, ?_⟩
  · intro ha
    unfold adev_open_output_stream
    rw [if_pos ha]
  · intro ha hocc
    unfold requested_output_type at hocc
    unfold adev_open_output_stream
    rw [if_neg (by rw [ha]; decide)]
    by_cases c1 : flags &&& AUDIO_OUTPUT_FLAG_DIRECT ≠ 0 ∧ devices = AUDIO_DEVICE_OUT_AUX_DIGITAL
    · rw [if_pos c1] at hocc
      simp only [if_pos c1, hocc, if_true, if_pos hS]
    · rw [if_neg c1] at hocc
      by_cases c2 : flags &&& AUDIO_OUTPUT_FLAG_DEEP_BUFFER ≠ 0
      · rw [if_pos c2] at hocc
        simp only [if_neg c1, if_pos c2, hocc, if_true, if_pos hS]
      · rw [if_neg c2] at hocc
        simp only [if_neg c1, if_neg c2, hocc, if_true, if_pos hS]
  · unfold requested_output_type adev_open_output_stream
    have hfin : ∀ (t : output_type) (o : tuna_stream_out), o.standby = true →
        w.adev.outputs t = none →
        ((if resampler_status ≠ 0 then (resampler_status, (none : Option output_type), w)
          else (0, some t, w.set_out t (some o))).1 = 0 →
        (if resampler_status ≠ 0 then (resampler_status, (none : Option output_type), w)
          else (0, some t, w.set_out t (some o))).2.1 = some t ∧
        w.adev.outputs t = none ∧
        (∃ out, (if resampler_status ≠ 0 then (resampler_status, (none : Option output_type), w)
          else (0, some t, w.set_out t (some o))).2.2.adev.outputs t = some out ∧
            out.standby = true) ∧
        ∀ k, k ≠ t →
          (if resampler_status ≠ 0 then (resampler_status, (none : Option output_type), w)
            else (0, some t, w.set_out t (some o))).2.2.adev.outputs k = w.adev.outputs k) := by
      intro t o ho hfree
      by_cases hr : resampler_status ≠ 0
      · rw [if_pos hr]
        intro h0
        exact absurd h0 hr
      · rw [if_neg hr]
        intro _
        refine ⟨rfl, hfree, ⟨o, ?_, ho⟩, fun k hk => ?_⟩
        · simp [hal.set_out]
        · simp [hal.set_out, hk]
    have hnone : ∀ {t : output_type}, ¬ (w.adev.outputs t).isSome = true →
        w.adev.outputs t = none := by
      intro t ht
      cases hw : w.adev.outputs t with
      | none => rfl
      | some o => rw [hw] at ht; exact absurd rfl ht
    by_cases ha : alloc_ok = false
    · rw [if_pos ha]
      intro h0
      exact absurd h0 hM
    · rw [if_neg ha]
      by_cases c1 : flags &&& AUDIO_OUTPUT_FLAG_DIRECT ≠ 0 ∧ devices = AUDIO_DEVICE_OUT_AUX_DIGITAL
      · simp only [if_pos c1]
        by_cases hocc : (w.adev.outputs OUTPUT_HDMI).isSome = true
        · simp only [if_pos hocc, if_pos hS]
          intro h0
          exact absurd h0 hS
        · simp only [if_neg hocc]
          by_cases hm : out_read_hdmi_channel_masks max_channels ≠ 0
          · simp only [if_pos hm]
            intro h0
            exact absurd h0 hm
          · simp only [if_neg hm, ne_eq, not_true_eq_false, if_false]
            exact hfin OUTPUT_HDMI _ rfl (hnone hocc)
      · simp only [if_neg c1]
        by_cases c2 : flags &&& AUDIO_OUTPUT_FLAG_DEEP_BUFFER ≠ 0
        · simp only [if_pos c2]
          by_cases hocc : (w.adev.outputs OUTPUT_DEEP_BUF).isSome = true
          · simp only [if_pos hocc, if_pos hS]
            intro h0
            exact absurd h0 hS
          · simp only [if_neg hocc, ne_eq, not_true_eq_false, if_false]
            exact hfin OUTPUT_DEEP_BUF _ rfl (hnone hocc)
        · simp only [if_neg c2]
          by_cases hocc : (w.adev.outputs OUTPUT_LOW_LATENCY).isSome = true
          · simp only [if_pos hocc, if_pos hS]
            intro h0
            exact absurd h0 hS
          · simp only [if_neg hocc, ne_eq, not_true_eq_false, if_false]
            exact hfin OUTPUT_LOW_LATENCY _ rfl (hnone hocc)

/-- C12: with allocation and resampler creation succeeding, `adev_open_input_stream` returns
`-EINVAL` and produces no stream if and only if the format is not 16-bit PCM, or the channel
count `popcount(channel_mask)` is not 1 or 2, or the sample rate is not one of 8000, 11025,
16000, 22050, 24000, 32000, 44100, 48000; otherwise it returns 0 with a stream in standby whose
requested rate and main channel mask are those of the request. -/
theorem adev_open_input_stream_validates (h : audio_hw_h) (w : hal) (devices sample_rate : Nat)
    (format : Int) (channel_mask : Nat) (alloc_ok : Bool) (resampler_status : Int)
    (halloc : alloc_ok = true) (hres : resampler_status = 0) :
    (((adev_open_input_stream h w devices sample_rate format channel_mask alloc_ok
          resampler_status).1 = -EINVAL ∧
        (adev_open_input_stream h w devices sample_rate format channel_mask alloc_ok
          resampler_status).2.1 = none) ↔
      (format ≠ AUDIO_FORMAT_PCM_16_BIT ∨
        (popcount channel_mask ≠ 1 ∧ popcount channel_mask ≠ 2) ∨
        sample_rate ∉ [8000, 11025, 16000, 22050, 24000, 32000, 44100, 48000])) ∧
    (¬ (format ≠ AUDIO_FORMAT_PCM_16_BIT ∨
        (popcount channel_mask ≠ 1 ∧ popcount channel_mask ≠ 2) ∨
        sample_rate ∉ [8000, 11025, 16000, 22050, 24000, 32000, 44100, 48000]) →
      (adev_open_input_stream h w devices sample_rate format channel_mask alloc_ok
        resampler_status).1 = 0 ∧
      ∃ i s,
        (adev_open_input_stream h w devices sample_rate format channel_mask alloc_ok
          resampler_status).2.1 = some i ∧
        (adev_open_input_stream h w devices sample_rate format channel_mask alloc_ok
          resampler_status).2.2.ins i = some s ∧
        s.standby = true ∧ s.requested_rate = sample_rate ∧
        s.main_channels = channel_mask) := by
  have hspec := check_input_parameters_spec sample_rate format channel_mask
  have hE : (-EINVAL : Int) ≠ 0 := by decide
  subst halloc hres
  unfold adev_open_input_stream
  simp only
  by_cases hbad : check_input_parameters sample_rate format (popcount channel_mask) ≠ 0
  · rw [if_pos hbad]
    exact ⟨⟨fun _ => hspec.mp hbad, fun _ => ⟨rfl, rfl⟩⟩, fun hgood => absurd (hspec.mp hbad) hgood⟩
  · rw [if_neg hbad]
    have hgood := fun hb => hbad (hspec.mpr hb)
    rw [if_neg (show ¬ (true = false) by decide),
      if_neg (show ¬ (sample_rate ≠ h.MM_UL_SAMPLING_RATE ∧ (0 : Int) ≠ 0) from
        fun hc => hc.2 rfl)]
    refine ⟨⟨fun hc => absurd hc.1.symm hE, fun hb => absurd hb hgood⟩, fun _ => ⟨rfl, ?_⟩⟩
    refine ⟨w.next_in, new_stream_in h devices sample_rate channel_mask
      (if sample_rate ≠ h.MM_UL_SAMPLING_RATE then some 0 else none), rfl, ?_, rfl, rfl, rfl⟩
    simp [hal.set_in]

/-- Witness for C12: a mono capture at 44100 Hz in 16-bit PCM is accepted. -/
theorem adev_open_input_stream_validates_witness :
    (adev_open_input_stream sample_h sample_hal AUDIO_DEVICE_IN_BUILTIN_MIC 44100
      AUDIO_FORMAT_PCM_16_BIT 0x10 true 0).1 = 0 :=
  ((adev_open_input_stream_validates sample_h sample_hal AUDIO_DEVICE_IN_BUILTIN_MIC 44100
    AUDIO_FORMAT_PCM_16_BIT 0x10 true 0 rfl rfl).2
      (by simp [popcount, AUDIO_FORMAT_PCM_16_BIT])).1

/-- C13: on the concrete device, in the reachable state `bare_hal` the low-latency output is
active with no endpoint open and has the echo reference bound; there `get_playback_delay` has
no result for any frame count and any answer of the transport (its search ends at `PCM_TOTAL`
and `out->pcm[PCM_TOTAL]` is read past the end of the array), and so `out_write_low_latency`
has no defined result for any byte count and any outcome of its external calls. -/
theorem write_past_endpoints :
    reachable sample_h bare_hal ∧
    (bare_hal.adev.outputs OUTPUT_LOW_LATENCY).map
        (fun out => (out.standby, out.pcms, out.echo_reference)) =
      some (false, [none, none, none], some 0) ∧
    (∀ frames ts, (bare_hal.adev.outputs OUTPUT_LOW_LATENCY).bind
        (fun out => get_playback_delay sample_h out frames ts) = none) ∧
    ∀ bytes r_normal r_spdif r_hdmi out_frames o,
      out_write_low_latency_full sample_h bare_hal bytes r_normal r_spdif r_hdmi out_frames o
        = none := by
  have r0 : reachable sample_h opened_hal :=
    reachable.opened true true (some sample_hw) { open_pcms := [], next_id := 0 } opened_hal rfl
  have r1 := reachable.next _ _ r0 (step.open_output opened_hal AUDIO_DEVICE_OUT_SPEAKER 0 44100
    AUDIO_CHANNEL_OUT_STEREO true 0 0)
  have r2 := reachable.next _ _ r1 (step.open_output _ AUDIO_DEVICE_OUT_AUX_DIGITAL
    AUDIO_OUTPUT_FLAG_DIRECT 44100 0 true 6 0)
  have r3 := reachable.next _ _ r2 (step.write_hdmi _ 4096 true)
  have r4 := reachable.next _ _ r3
    (step.out_set_parameters _ OUTPUT_LOW_LATENCY (some AUDIO_DEVICE_OUT_AUX_DIGITAL))
  have r5 := reachable.next _ _ r4 (step.write_low_latency _ 4096 true true true 0)
  have r6 := reachable.next _ _ r5 (step.open_input _ AUDIO_DEVICE_IN_BUILTIN_MIC 44100
    AUDIO_FORMAT_PCM_16_BIT 0x10 true 0)
  have r7 := reachable.next _ _ r6 (step.add_audio_effect _ 0 7 0 true
    { cmd_status := 0, reply_status := 0, configs := [] } sample_oracle sample_oracle)
  have r8 : reachable sample_h bare_hal :=
    reachable.next _ _ r7 (step.in_read _ 0 4096 0 0 true ⟨0, 0, 0, 0, 0⟩)
  have hout : bare_hal.adev.outputs OUTPUT_LOW_LATENCY =
      some { standby := false, pcm_normal := none, pcm_spdif := none, pcm_hdmi := none,
             echo_reference := some 0, use_long_periods := false, write_threshold := 0,
             muted := false, restart_periods_cnt := 0, channel_mask := 3, hdmi_rate := 0 } := by
    unfold bare_hal
    simp only [sample_open_input]
    decide
  refine ⟨r8, ?_, ?_, ?_⟩
  · rw [hout]
    rfl
  · intro frames ts
    rw [hout]
    rfl
  · intro bytes r_normal r_spdif r_hdmi out_frames o
    unfold out_write_low_latency_full
    rw [hout]
    simp only [Bool.false_eq_true, false_and, if_false]
    rw [hout]
    rfl

/-- C14: on the concrete device with speaker and digital dock selected, when the analog
endpoint opens and the S/PDIF endpoint fails to open, `start_output_stream_low_latency` returns
`-ENOMEM` and leaves the stream in standby, but the analog endpoint that opened successfully
is still set in `pcm[PCM_NORMAL]` and still open in the transport: only the endpoint that
failed was closed. -/
theorem start_low_latency_keeps_opened_endpoint :
    (start_output_stream_low_latency sample_h dock_hal true false true).1 = -ENOMEM ∧
    ((start_output_stream_low_latency sample_h dock_hal true false true).2.adev.outputs
        OUTPUT_LOW_LATENCY).map (fun o => (o.standby, o.pcm_normal.isSome, o.pcm_spdif.isSome))
      = some (true, true, false) ∧
    (start_output_stream_low_latency sample_h dock_hal true false true).2.alsa.open_pcms.map
      (fun p => (p.port, p.ready)) = [(sample_h.PORT_TONES, true)] := by
  refine ⟨by decide, by decide, by decide⟩

/-- C16 fails for the noise-reduction key: the value "maybe" is neither "on" nor "off", yet
`adev_set_parameters` does not return `-EINVAL` and clears `bluetooth_nrec`. -/
theorem set_parameters_counterexample :
    sample_hal.adev.bluetooth_nrec = true ∧
    (adev_set_parameters sample_h sample_hal none (some "maybe") none).1 ≠ -EINVAL ∧
    (adev_set_parameters sample_h sample_hal none (some "maybe") none).2.adev.bluetooth_nrec
      = false := by
  refine ⟨by decide, by decide, by decide⟩

/-- C16, amended: if the TTY-mode key carries a value that is not one of off/vco/hco/full,
`adev_set_parameters` returns `-EINVAL` and leaves the whole state unchanged; otherwise it
does not return `-EINVAL`, any noise-reduction value other than "on" clears `bluetooth_nrec`
("on" sets it) and any screen-state value other than "on" sets `screen_off` ("on" clears
it). -/
theorem adev_set_parameters_values (h : audio_hw_h) (w : hal)
    (tty bt_nrec screen_state : Option String) :
    ((∃ v, tty = some v ∧ v ≠ "tty_off" ∧ v ≠ "tty_vco" ∧ v ≠ "tty_hco" ∧ v ≠ "tty_full") →
      adev_set_parameters h w tty bt_nrec screen_state = (-EINVAL, w)) ∧
    ((tty = none ∨ ∃ v, tty = some v ∧
        (v = "tty_off" ∨ v = "tty_vco" ∨ v = "tty_hco" ∨ v = "tty_full")) →
      (adev_set_parameters h w tty bt_nrec screen_state).1 ≠ -EINVAL ∧
      (adev_set_parameters h w tty bt_nrec screen_state).2.adev.bluetooth_nrec =
        (match bt_nrec with
          | some v => decide (v = "on")
          | none => w.adev.bluetooth_nrec) ∧
      (adev_set_parameters h w tty bt_nrec screen_state).2.adev.screen_off =
        (match screen_state with
          | some v => !decide (v = "on")
          | none => w.adev.screen_off)) := by
  constructor
  · rintro ⟨v, rfl, h1, h2, h3, h4⟩
    simp [adev_set_parameters, h1, h2, h3, h4]
  · intro htty
    unfold adev_set_parameters
    simp only
    rcases htty with rfl | ⟨v, rfl, hv⟩
    · cases bt_nrec <;> cases screen_state <;> simp [EINVAL]
    · rcases hv with rfl | rfl | rfl | rfl <;> cases bt_nrec <;> cases screen_state <;>
        simp [EINVAL, hal.select_output_device] <;> split_ifs <;> simp

/-- C15 fails when the current device already contains HDMI: with HDMI and a wired headset
selected, not in a call, a routing change to HDMI and wired headphones keeps the
AUX_DIGITAL, DGTL_DOCK_HEADSET and SPEAKER bits the same, yet the active low-latency output
is forced into standby. -/
theorem out_set_parameters_counterexample :
    (digital_headset_hal.adev.outputs OUTPUT_LOW_LATENCY).map (fun o => o.standby)
      = some false ∧
    digital_headset_hal.adev.out_device
      ≠ AUDIO_DEVICE_OUT_AUX_DIGITAL ||| AUDIO_DEVICE_OUT_WIRED_HEADPHONE ∧
    (AUDIO_DEVICE_OUT_AUX_DIGITAL ||| AUDIO_DEVICE_OUT_WIRED_HEADPHONE) &&&
        (AUDIO_DEVICE_OUT_AUX_DIGITAL ||| AUDIO_DEVICE_OUT_DGTL_DOCK_HEADSET |||
          AUDIO_DEVICE_OUT_SPEAKER) =
      digital_headset_hal.adev.out_device &&&
        (AUDIO_DEVICE_OUT_AUX_DIGITAL ||| AUDIO_DEVICE_OUT_DGTL_DOCK_HEADSET |||
          AUDIO_DEVICE_OUT_SPEAKER) ∧
    digital_headset_hal.adev.mode ≠ AUDIO_MODE_IN_CALL ∧
    ((out_set_parameters sample_h digital_headset_hal OUTPUT_LOW_LATENCY
      (some (AUDIO_DEVICE_OUT_AUX_DIGITAL ||| AUDIO_DEVICE_OUT_WIRED_HEADPHONE))).adev.outputs
        OUTPUT_LOW_LATENCY).map (fun o => o.standby) = some true := by
  refine ⟨by decide, by decide, by decide, by decide, by decide⟩

/-- C15, amended: for an active low-latency output and a routing value `val` with `val != 0`
and `val != out_device`, `out_set_parameters` sets `out_device` to `val`; it forces the stream
into standby (closing its endpoints) exactly when the AUX_DIGITAL or the DGTL_DOCK_HEADSET bit
differs between `val` and the current `out_device`, or the current `out_device` contains one of
these two bits, or the SPEAKER bit differs, or the mode is IN_CALL; otherwise the stream stays
active and keeps its endpoints. -/
theorem out_set_parameters_standby (h : audio_hw_h) (w : hal) (val : Nat)
    (out : tuna_stream_out) (ho : w.adev.outputs OUTPUT_LOW_LATENCY = some out)
    (hs : out.standby = false) (hv : val ≠ 0) (hd : w.adev.out_device ≠ val) :
    (out_set_parameters h w OUTPUT_LOW_LATENCY (some val)).adev.out_device = val ∧
    ((((val &&& AUDIO_DEVICE_OUT_AUX_DIGITAL) ^^^
          (w.adev.out_device &&& AUDIO_DEVICE_OUT_AUX_DIGITAL) ≠ 0) ∨
        ((val &&& AUDIO_DEVICE_OUT_DGTL_DOCK_HEADSET) ^^^
          (w.adev.out_device &&& AUDIO_DEVICE_OUT_DGTL_DOCK_HEADSET) ≠ 0) ∨
        (w.adev.out_device &&&
          (AUDIO_DEVICE_OUT_AUX_DIGITAL ||| AUDIO_DEVICE_OUT_DGTL_DOCK_HEADSET) ≠ 0) ∨
        ((val &&& AUDIO_DEVICE_OUT_SPEAKER) ^^^
          (w.adev.out_device &&& AUDIO_DEVICE_OUT_SPEAKER) ≠ 0) ∨
        w.adev.mode = AUDIO_MODE_IN_CALL) →
      ∃ out', (out_set_parameters h w OUTPUT_LOW_LATENCY (some val)).adev.outputs
          OUTPUT_LOW_LATENCY = some out' ∧
        out'.standby = true ∧ out'.pcm_normal = none ∧ out'.pcm_spdif = none ∧
        out'.pcm_hdmi = none) ∧
    (¬ (((val &&& AUDIO_DEVICE_OUT_AUX_DIGITAL) ^^^
          (w.adev.out_device &&& AUDIO_DEVICE_OUT_AUX_DIGITAL) ≠ 0) ∨
        ((val &&& AUDIO_DEVICE_OUT_DGTL_DOCK_HEADSET) ^^^
          (w.adev.out_device &&& AUDIO_DEVICE_OUT_DGTL_DOCK_HEADSET) ≠ 0) ∨
        (w.adev.out_device &&&
          (AUDIO_DEVICE_OUT_AUX_DIGITAL ||| AUDIO_DEVICE_OUT_DGTL_DOCK_HEADSET) ≠ 0) ∨
        ((val &&& AUDIO_DEVICE_OUT_SPEAKER) ^^^
          (w.adev.out_device &&& AUDIO_DEVICE_OUT_SPEAKER) ≠ 0) ∨
        w.adev.mode = AUDIO_MODE_IN_CALL) →
      ∃ out', (out_set_parameters h w OUTPUT_LOW_LATENCY (some val)).adev.outputs
          OUTPUT_LOW_LATENCY = some out' ∧
        out'.standby = false ∧ out'.pcm_normal = out.pcm_normal ∧
        out'.pcm_spdif = out.pcm_spdif ∧ out'.pcm_hdmi = out.pcm_hdmi) := by
  have hne : OUTPUT_LOW_LATENCY ≠ OUTPUT_HDMI := by decide
  unfold out_set_parameters
  rw [ho]
  simp only
  rw [if_pos ⟨hd, hv⟩]
  simp only [hs, hne, ne_eq, not_false_eq_true, if_true, decide_True, Bool.not_false,
    Bool.and_self, true_and, Bool.true_and]
  by_cases hc : (((val &&& AUDIO_DEVICE_OUT_AUX_DIGITAL) ^^^
          (w.adev.out_device &&& AUDIO_DEVICE_OUT_AUX_DIGITAL) ≠ 0) ∨
        ((val &&& AUDIO_DEVICE_OUT_DGTL_DOCK_HEADSET) ^^^
          (w.adev.out_device &&& AUDIO_DEVICE_OUT_DGTL_DOCK_HEADSET) ≠ 0) ∨
        (w.adev.out_device &&&
          (AUDIO_DEVICE_OUT_AUX_DIGITAL ||| AUDIO_DEVICE_OUT_DGTL_DOCK_HEADSET) ≠ 0) ∨
        ((val &&& AUDIO_DEVICE_OUT_SPEAKER) ^^^
          (w.adev.out_device &&& AUDIO_DEVICE_OUT_SPEAKER) ≠ 0) ∨
        w.adev.mode = AUDIO_MODE_IN_CALL)
  · rw [if_pos hc]
    refine ⟨Eq.trans (opt_input_standby_frame h _ _ OUTPUT_LOW_LATENCY).1 rfl,
      fun _ => opt_input_standby_ll h _ _ (true, none, none, none) ?_,
      fun hn => absurd hc hn⟩
    show ((do_output_standby h w OUTPUT_LOW_LATENCY).adev.outputs OUTPUT_LOW_LATENCY).map
      pcm_view = _
    rw [(do_output_standby_ll_active h w out ho hs).1]
    rfl
  · rw [if_neg hc]
    refine ⟨Eq.trans (opt_input_standby_frame h _ _ OUTPUT_LOW_LATENCY).1 rfl,
      fun hp => absurd hp hc,
      fun _ => opt_input_standby_ll h _ _
        (false, out.pcm_normal, out.pcm_spdif, out.pcm_hdmi) ?_⟩
    show (w.adev.outputs OUTPUT_LOW_LATENCY).map pcm_view = _
    rw [ho]
    simp [pcm_view, hs]

/-- Witness for C15: the routing change of the counterexample on `digital_headset_hal`. -/
theorem out_set_parameters_standby_witness :
    digital_headset_hal.adev.outputs OUTPUT_LOW_LATENCY = some digital_headset_out ∧
    (out_set_parameters sample_h digital_headset_hal OUTPUT_LOW_LATENCY
      (some (AUDIO_DEVICE_OUT_AUX_DIGITAL ||| AUDIO_DEVICE_OUT_WIRED_HEADPHONE))).adev.out_device
      = AUDIO_DEVICE_OUT_AUX_DIGITAL ||| AUDIO_DEVICE_OUT_WIRED_HEADPHONE :=
  ⟨by decide,
    (out_set_parameters_standby sample_h digital_headset_hal
      (AUDIO_DEVICE_OUT_AUX_DIGITAL ||| AUDIO_DEVICE_OUT_WIRED_HEADPHONE) digital_headset_out
      (by decide) (by decide) (by decide) (by decide)).1⟩

/-- C19: from a state with `in_call = 0` and a mode other than IN_CALL, `adev_set_mode` to
IN_CALL ends with `in_call = 1`; if `out_device` was exactly SPEAKER it becomes EARPIECE and
`in_device` becomes BUILTIN_MIC without the direction bit, otherwise `out_device` is the old one
with the SPEAKER bit cleared and `in_device` is unchanged; the low-latency output, if open, is
in standby, and so is the stream that was the active input. -/
theorem adev_set_mode_enters_call (h : audio_hw_h) (w : hal) (dl_ready ul_ready : Bool)
    (hcall : w.adev.in_call = false) (hmode : w.adev.mode ≠ AUDIO_MODE_IN_CALL) :
    (adev_set_mode h w AUDIO_MODE_IN_CALL dl_ready ul_ready).2.adev.in_call = true ∧
    (w.adev.out_device = AUDIO_DEVICE_OUT_SPEAKER →
      (adev_set_mode h w AUDIO_MODE_IN_CALL dl_ready ul_ready).2.adev.out_device
        = AUDIO_DEVICE_OUT_EARPIECE ∧
      (adev_set_mode h w AUDIO_MODE_IN_CALL dl_ready ul_ready).2.adev.in_device
        = AUDIO_DEVICE_IN_BUILTIN_MIC &&& not32 AUDIO_DEVICE_BIT_IN) ∧
    (w.adev.out_device ≠ AUDIO_DEVICE_OUT_SPEAKER →
      (adev_set_mode h w AUDIO_MODE_IN_CALL dl_ready ul_ready).2.adev.out_device
        = w.adev.out_device &&& not32 AUDIO_DEVICE_OUT_SPEAKER ∧
      (adev_set_mode h w AUDIO_MODE_IN_CALL dl_ready ul_ready).2.adev.in_device
        = w.adev.in_device) ∧
    ((adev_set_mode h w AUDIO_MODE_IN_CALL dl_ready ul_ready).2.adev.outputs
        OUTPUT_LOW_LATENCY).map (fun o : tuna_stream_out => o.standby) =
      (w.adev.outputs OUTPUT_LOW_LATENCY).map (fun _ => true) ∧
    (∀ i, w.adev.active_input = some i →
      ((adev_set_mode h w AUDIO_MODE_IN_CALL dl_ready ul_ready).2.ins i).map
          (fun s : tuna_stream_in => s.standby) = (w.ins i).map (fun _ => true)) := by
  unfold adev_set_mode
  rw [if_pos hmode]
  exact select_mode_enters_call h { w with adev := { w.adev with mode := AUDIO_MODE_IN_CALL } }
    dl_ready ul_ready rfl hcall

/-- Witness for C19: entering a call from the concrete state, whose output device is the
speaker alone. -/
theorem adev_set_mode_enters_call_witness :
    (adev_set_mode sample_h sample_hal AUDIO_MODE_IN_CALL true true).2.adev.in_call = true ∧
    (adev_set_mode sample_h sample_hal AUDIO_MODE_IN_CALL true true).2.adev.out_device
      = AUDIO_DEVICE_OUT_EARPIECE := by
  have key := adev_set_mode_enters_call sample_h sample_hal true true (by decide) (by decide)
  exact ⟨key.1, (key.2.1 (by decide)).1⟩

/-- C20: for every outcome of the effects' configuration commands, after
`in_update_aux_channels` the stream's `aux_channels` is the value negotiated by
`in_get_aux_channels` if the reconfiguration of the effects succeeded, and is 0 if it failed.
The reconfiguration addresses every attached effect when the negotiated value differs from the
stored one, only the effect being added when it does not differ and is non-zero, and no effect
otherwise; it succeeds when every command sent to every effect addressed returns 0 and replies
status 0.  If the resulting value differs from the `aux_channels` held before the call, the
stream is in standby and `aux_channels_changed` is set, and if it is equal the stream is
unchanged. -/
theorem in_update_aux_channels_result (h : audio_hw_h) (w : hal) (i : Nat)
    (effect : Option Nat) (o1 o2 : reconfigure_oracle) (s : tuna_stream_in)
    (hs : w.ins i = some s) :
    ∃ s', (in_update_aux_channels h w i effect o1 o2).ins i = some s' ∧
      (in_get_aux_channels h s ≠ s.aux_channels →
        ((∀ k < s.num_preprocessors, commands_succeed (o1.each k)) →
          s'.aux_channels = in_get_aux_channels h s) ∧
        ((∃ k < s.num_preprocessors, ¬ commands_succeed (o1.each k)) →
          s'.aux_channels = 0)) ∧
      (in_get_aux_channels h s = s.aux_channels →
        ((effect ≠ none ∧ s.aux_channels ≠ 0 ∧ ¬ commands_succeed o1.added) →
          s'.aux_channels = 0) ∧
        (¬ (effect ≠ none ∧ s.aux_channels ≠ 0 ∧ ¬ commands_succeed o1.added) →
          s'.aux_channels = s.aux_channels)) ∧
      (s'.aux_channels ≠ s.aux_channels →
        s'.standby = true ∧ s'.aux_channels_changed = true) ∧
      (s'.aux_channels = s.aux_channels → s' = s) := by
  obtain ⟨s', e, hz, hnz, hch, hsame⟩ := in_update_aux_channels_status h w i effect o1 o2 s hs
  rw [in_reconfigure_channels_zero] at hz
  rw [Ne, in_reconfigure_channels_zero] at hnz
  unfold reconfigure_succeeds at hz hnz
  simp only at hz hnz
  refine ⟨s', e, fun hne => ?_, fun heq => ?_, hch, hsame⟩
  · have hd : decide (in_get_aux_channels h s ≠ s.aux_channels) = true := by simpa using hne
    rw [hd] at hz hnz
    simp only [if_true] at hz hnz
    refine ⟨hz, fun hex => hnz (fun hall => ?_)⟩
    obtain ⟨k, hk, hf⟩ := hex
    exact hf (hall k hk)
  · have hd : decide (in_get_aux_channels h s ≠ s.aux_channels) = false := by simpa using heq
    rw [hd] at hz hnz
    simp only [Bool.false_eq_true, if_false] at hz hnz
    rw [heq] at hz hnz
    constructor
    · rintro ⟨he, ha, hf⟩
      refine hnz ?_
      rw [if_pos ⟨he, ha⟩]
      exact hf
    · intro hno
      refine hz ?_
      split_ifs with hc
      by_contra hf
      exact hno ⟨hc.1, hc.2, hf⟩

/-- Witness for C20: renegotiation on `sample_in`, whose attached effect supports the pair
(0x10, 0x20) while the stream holds no auxiliary channel yet: with an effect that accepts every
command the stream takes the negotiated mask 0x20, is in standby and has
`aux_channels_changed` set. -/
theorem in_update_aux_channels_result_witness :
    sample_hal_in.ins 0 = some sample_in ∧
    ∃ s', (in_update_aux_channels sample_h sample_hal_in 0 none sample_oracle
        sample_oracle).ins 0 = some s' ∧
      s'.aux_channels = 0x20 ∧ s'.standby = true ∧ s'.aux_channels_changed = true := by
  have hneg : in_get_aux_channels sample_h sample_in = 0x20 := by
    simp [in_get_aux_channels, aux_step, match_loop, effect_declares, sample_in, sample_h,
      tuna_stream_in.effects, new_stream_in, sample_effect, popcount,
      AUDIO_DEVICE_IN_BUILTIN_MIC, AUDIO_DEVICE_IN_BACK_MIC, not32, AUDIO_DEVICE_BIT_IN]
  obtain ⟨s', hs', hchg, _, hch, _⟩ := in_update_aux_channels_result sample_h sample_hal_in 0
    none sample_oracle sample_oracle sample_in rfl
  have hne : in_get_aux_channels sample_h sample_in ≠ sample_in.aux_channels := by
    rw [hneg]
    decide
  have ha : s'.aux_channels = 0x20 := by
    rw [← hneg]
    exact (hchg hne).1 (fun _ _ => ⟨rfl, rfl, rfl, rfl, rfl, rfl, rfl⟩)
  have hne2 : s'.aux_channels ≠ sample_in.aux_channels := by
    rw [ha]
    decide
  exact ⟨rfl, s', hs', ha, hch hne2⟩

/-- C17: in a call with no Bluetooth SCO bit in `out_device`, `select_output_device` routes the
receive path by the TTY mode.  With TTY full or VCO it writes DL2 switches 0 (voice included),
DL1 switches 1, earpiece switch 0, enables the headset stage `hs_output`, disables the speaker
stage `hf_output` and uses the TTY gains, whatever `out_device` is; with TTY HCO it writes the
DL2 switches 1, the DL1 switches 0, earpiece switch 0, disables `hs_output` and enables
`hf_output`; with TTY off the switches follow the bits of `out_device`, except that the speaker
flag is 1 whenever the AUX_DIGITAL or DGTL_DOCK_HEADSET bit is set. -/
theorem select_output_device_tty_receive (h : audio_hw_h) (adev : tuna_audio_device)
    (act : Option tuna_stream_in) (s : hw_state) (hcall : adev.mode = AUDIO_MODE_IN_CALL)
    (hbt : adev.out_device &&& AUDIO_DEVICE_OUT_ALL_SCO = 0) :
    (adev.tty_mode = TTY_MODE_FULL ∨ adev.tty_mode = TTY_MODE_VCO →
      select_output_device h adev act s =
        select_output_device_capture h adev act (set_output_volumes h adev true
          (set_eq_filter h adev
            (set_route_by_array
              (set_route_by_array
                (s.emits
                  [ .set_value adev.mixer_ctls.voice_ul_volume 0 0,
                    .set_value adev.mixer_ctls.voice_ul_volume 1 0,
                    .set_value adev.mixer_ctls.mm_dl2 0 0,
                    .set_value adev.mixer_ctls.tones_dl2 0 0,
                    .set_value adev.mixer_ctls.vx_dl2 0 0,
                    .set_value adev.mixer_ctls.mm_dl1 0 1,
                    .set_value adev.mixer_ctls.tones_dl1 0 1,
                    .set_value adev.mixer_ctls.vx_dl1 0 1,
                    .set_value adev.mixer_ctls.dl1_headset 0 1,
                    .set_value adev.mixer_ctls.dl1_bt 0 0,
                    .set_value adev.mixer_ctls.dl2_mono 0 0,
                    .set_value adev.mixer_ctls.earpiece_enable 0 0 ])
                h.hs_output true).2
              h.hf_output false).2))) ∧
    (adev.tty_mode = TTY_MODE_HCO →
      select_output_device h adev act s =
        select_output_device_capture h adev act (set_output_volumes h adev false
          (set_eq_filter h adev
            (set_route_by_array
              (set_route_by_array
                (s.emits
                  [ .set_value adev.mixer_ctls.voice_ul_volume 0 0,
                    .set_value adev.mixer_ctls.voice_ul_volume 1 0,
                    .set_value adev.mixer_ctls.mm_dl2 0 1,
                    .set_value adev.mixer_ctls.tones_dl2 0 1,
                    .set_value adev.mixer_ctls.vx_dl2 0 1,
                    .set_value adev.mixer_ctls.mm_dl1 0 0,
                    .set_value adev.mixer_ctls.tones_dl1 0 0,
                    .set_value adev.mixer_ctls.vx_dl1 0 0,
                    .set_value adev.mixer_ctls.dl1_headset 0 0,
                    .set_value adev.mixer_ctls.dl1_bt 0 0,
                    .set_value adev.mixer_ctls.dl2_mono 0 0,
                    .set_value adev.mixer_ctls.earpiece_enable 0 0 ])
                h.hs_output false).2
              h.hf_output true).2))) ∧
    (adev.tty_mode = TTY_MODE_OFF →
      let hs : Nat := adev.out_device &&& AUDIO_DEVICE_OUT_WIRED_HEADSET |||
        adev.out_device &&& AUDIO_DEVICE_OUT_WIRED_HEADPHONE
      let ep : Nat := adev.out_device &&& AUDIO_DEVICE_OUT_EARPIECE
      let spk : Nat :=
        if adev.out_device &&&
            (AUDIO_DEVICE_OUT_AUX_DIGITAL ||| AUDIO_DEVICE_OUT_DGTL_DOCK_HEADSET) ≠ 0
        then 1 else adev.out_device &&& AUDIO_DEVICE_OUT_SPEAKER
      select_output_device h adev act s =
        select_output_device_capture h adev act (set_output_volumes h adev false
          (set_eq_filter h adev
            (set_route_by_array
              (set_route_by_array
                (s.emits
                  [ .set_value adev.mixer_ctls.voice_ul_volume 0 0,
                    .set_value adev.mixer_ctls.voice_ul_volume 1 0,
                    .set_value adev.mixer_ctls.mm_dl2 0 spk,
                    .set_value adev.mixer_ctls.tones_dl2 0 spk,
                    .set_value adev.mixer_ctls.vx_dl2 0 (b2i (decide (spk ≠ 0))),
                    .set_value adev.mixer_ctls.mm_dl1 0 (hs ||| ep : Nat),
                    .set_value adev.mixer_ctls.tones_dl1 0 (hs ||| ep : Nat),
                    .set_value adev.mixer_ctls.vx_dl1 0 (b2i (decide (hs ||| ep ≠ 0))),
                    .set_value adev.mixer_ctls.dl1_headset 0 (hs ||| ep : Nat),
                    .set_value adev.mixer_ctls.dl1_bt 0 0,
                    .set_value adev.mixer_ctls.dl2_mono 0 0,
                    .set_value adev.mixer_ctls.earpiece_enable 0 ep ])
                h.hs_output (decide (hs ≠ 0))).2
              h.hf_output (decide (spk ≠ 0))).2))) := by
  have hf := rx_flags_tty adev hcall hbt
  refine ⟨fun htty => ?_, fun htty => ?_, fun htty => ?_⟩
  · have hf' : rx_flags adev = ⟨0, 1, 0, 0, 0, true⟩ := by
      rw [hf]
      rcases htty with ht | ht <;> rw [ht]
    unfold select_output_device select_output_device_switch
    simp only [hf', hcall]
    simp [hw_state.emits, mixer_ctl_set_value, b2i]
  · have hf' : rx_flags adev = ⟨0, 0, 1, 0, 0, false⟩ := by
      rw [hf, htty]
    unfold select_output_device select_output_device_switch
    simp only [hf', hcall]
    simp [hw_state.emits, mixer_ctl_set_value, b2i]
  · rw [htty] at hf
    unfold select_output_device select_output_device_switch
    simp only [hf, hcall]
    simp [hw_state.emits, mixer_ctl_set_value, b2i]

/-- Witness for C17: the concrete in-call device in TTY HCO mode with the wired headset
selected; the speaker stage is enabled and the headset stage disabled. -/
theorem select_output_device_tty_receive_witness :
    sample_adev_hco.mode = AUDIO_MODE_IN_CALL ∧
    sample_adev_hco.out_device &&& AUDIO_DEVICE_OUT_ALL_SCO = 0 ∧
    sample_adev_hco.tty_mode = TTY_MODE_HCO ∧
    select_output_device sample_h sample_adev_hco none sample_hw =
      select_output_device_capture sample_h sample_adev_hco none
        (set_output_volumes sample_h sample_adev_hco false
          (set_eq_filter sample_h sample_adev_hco
            (set_route_by_array
              (set_route_by_array
                (sample_hw.emits
                  [ .set_value sample_adev_hco.mixer_ctls.voice_ul_volume 0 0,
                    .set_value sample_adev_hco.mixer_ctls.voice_ul_volume 1 0,
                    .set_value sample_adev_hco.mixer_ctls.mm_dl2 0 1,
                    .set_value sample_adev_hco.mixer_ctls.tones_dl2 0 1,
                    .set_value sample_adev_hco.mixer_ctls.vx_dl2 0 1,
                    .set_value sample_adev_hco.mixer_ctls.mm_dl1 0 0,
                    .set_value sample_adev_hco.mixer_ctls.tones_dl1 0 0,
                    .set_value sample_adev_hco.mixer_ctls.vx_dl1 0 0,
                    .set_value sample_adev_hco.mixer_ctls.dl1_headset 0 0,
                    .set_value sample_adev_hco.mixer_ctls.dl1_bt 0 0,
                    .set_value sample_adev_hco.mixer_ctls.dl2_mono 0 0,
                    .set_value sample_adev_hco.mixer_ctls.earpiece_enable 0 0 ])
                sample_h.hs_output false).2
              sample_h.hf_output true).2)) :=
  ⟨by decide, by decide, by decide,
    (select_output_device_tty_receive sample_h sample_adev_hco none sample_hw
      (by decide) (by decide)).2.1 (by decide)⟩

/-- C18, counterexample: in a call on the earpiece, the last request of `select_output_device`
is the write of the sidetone capture switch, a control of the mixer other than the voice uplink
volume, issued after the two writes that restore the voice uplink volume. -/
theorem unmute_last_counterexample :
    sample_adev_call.mode = AUDIO_MODE_IN_CALL ∧
    (sample_hw.ctls sample_ctls.sidetone_capture).isSome = true ∧
    sample_ctls.sidetone_capture ≠ sample_ctls.voice_ul_volume ∧
    ((issued sample_hw
        (select_output_device sample_h sample_adev_call none sample_hw)).reverse.take 3).reverse =
      [.set_value sample_ctls.voice_ul_volume 0 sample_h.MIXER_ABE_GAIN_0DB,
        .set_value sample_ctls.voice_ul_volume 1 sample_h.MIXER_ABE_GAIN_0DB,
        .set_value sample_ctls.sidetone_capture 0 1] := by
  refine ⟨by decide, by decide, by decide, by decide⟩

/-- C18, amended: in a call, provided the voice uplink volume control shares its name with no
other control and no route table entry, the requests of one `select_output_device` call are: the
writes of 0 to both channels of the voice uplink volume, then requests none of which addresses
that control, so that its two channels hold 0 after each of them, then the two writes that
restore it to `MIXER_ABE_GAIN_0DB`, and last the write of the sidetone capture switch. -/
theorem select_output_device_mute_window (h : audio_hw_h) (adev : tuna_audio_device)
    (act : Option tuna_stream_in) (s : hw_state) (hcall : adev.mode = AUDIO_MODE_IN_CALL)
    (hx : vul_exclusive h adev.mixer_ctls) :
    ∃ (mid : List hw_event) (x : Int),
      issued s (select_output_device h adev act s) =
        [.set_value adev.mixer_ctls.voice_ul_volume 0 0,
          .set_value adev.mixer_ctls.voice_ul_volume 1 0] ++ mid ++
        [.set_value adev.mixer_ctls.voice_ul_volume 0 h.MIXER_ABE_GAIN_0DB,
          .set_value adev.mixer_ctls.voice_ul_volume 1 h.MIXER_ABE_GAIN_0DB,
          .set_value adev.mixer_ctls.sidetone_capture 0 x] ∧
      (∀ e ∈ mid, e.target ≠ some adev.mixer_ctls.voice_ul_volume) ∧
      (∀ p, p <+: mid → ∀ c, s.ctls adev.mixer_ctls.voice_ul_volume = some c →
        apply_all
          ([.set_value adev.mixer_ctls.voice_ul_volume 0 0,
            .set_value adev.mixer_ctls.voice_ul_volume 1 0] ++ p) s.ctls
          adev.mixer_ctls.voice_ul_volume =
        some { c with values := (c.values.set 0 0).set 1 0 }) := by
  obtain ⟨x, hcap⟩ := avoids_select_output_device_capture_base h adev act hcall hx
  have hall := avoids_comp hcap (avoids_post
    (avoids_set_output_volumes_base h adev (rx_flags adev).tty_volume hx)
    (avoids_select_output_device_switch_base h adev hcall hx))
  obtain ⟨mid, ht, hmid⟩ := hall s
  refine ⟨mid, x, ?_, hmid, ?_⟩
  · unfold issued
    show ((select_output_device_capture h adev act
      (set_output_volumes h adev (rx_flags adev).tty_volume
        (select_output_device_switch h adev s))).trace.drop s.trace.length) = _
    rw [ht]
    simp
  · intro p hp c hc
    have hp' : ∀ e ∈ p, e.target ≠ some adev.mixer_ctls.voice_ul_volume :=
      fun e he => hmid e (hp.subset he)
    rw [apply_all_append, apply_all_avoid _ p _ hp']
    simp [apply_all, hw_event.apply, hw_event.target, modify_ctl, hw_event.on_ctl, hc]

/-- Witness for C18: the concrete call on the earpiece. -/
theorem select_output_device_mute_window_witness :
    sample_adev_call.mode = AUDIO_MODE_IN_CALL ∧ vul_exclusive sample_h sample_adev_call.mixer_ctls ∧
    ∃ (mid : List hw_event) (x : Int),
      issued sample_hw (select_output_device sample_h sample_adev_call none sample_hw) =
        [.set_value sample_adev_call.mixer_ctls.voice_ul_volume 0 0,
          .set_value sample_adev_call.mixer_ctls.voice_ul_volume 1 0] ++ mid ++
        [.set_value sample_adev_call.mixer_ctls.voice_ul_volume 0 sample_h.MIXER_ABE_GAIN_0DB,
          .set_value sample_adev_call.mixer_ctls.voice_ul_volume 1 sample_h.MIXER_ABE_GAIN_0DB,
          .set_value sample_adev_call.mixer_ctls.sidetone_capture 0 x] ∧
      (∀ e ∈ mid, e.target ≠ some sample_adev_call.mixer_ctls.voice_ul_volume) := by
  refine ⟨by decide, by decide, ?_⟩
  obtain ⟨mid, x, h1, h2, _⟩ :=
    select_output_device_mute_window sample_h sample_adev_call none sample_hw
      (by decide) (by decide)
  exact ⟨mid, x, h1, h2⟩

/-- C11, counterexample: after opening and reading a first input stream and then opening and
reading a second one, both input streams are active and `active_input` refers to the second. -/
theorem two_active_inputs_counterexample :
    reachable sample_h two_inputs_hal ∧
    (two_inputs_hal.ins 0).map (fun s => s.standby) = some false ∧
    (two_inputs_hal.ins 1).map (fun s => s.standby) = some false ∧
    two_inputs_hal.adev.active_input = some 1 := by
  have r0 : reachable sample_h opened_hal :=
    reachable.opened true true (some sample_hw) { open_pcms := [], next_id := 0 } opened_hal rfl
  have r1 := reachable.next _ _ r0 (step.open_input opened_hal AUDIO_DEVICE_IN_BUILTIN_MIC 44100
    AUDIO_FORMAT_PCM_16_BIT 0x10 true 0)
  have r2 := reachable.next _ _ r1 (step.in_read _ 0 4096 0 0 true ⟨0, 0, 0, 0, 0⟩)
  have r3 := reachable.next _ _ r2 (step.open_input _ AUDIO_DEVICE_IN_BUILTIN_MIC 44100
    AUDIO_FORMAT_PCM_16_BIT 0x10 true 0)
  have r4 : reachable sample_h two_inputs_hal :=
    reachable.next _ _ r3 (step.in_read _ 1 4096 0 0 true ⟨0, 0, 0, 0, 0⟩)
  refine ⟨r4, ?_⟩
  unfold two_inputs_hal
  simp only [sample_open_input]
  decide

/-- C11, amended: in every state reachable from `adev_open` by entry points among which
`in_read` starts an input stream (reads a stream in standby) only while no input stream is
active, at most one input stream is active, and an active input stream is the one the device's
`active_input` refers to. -/
theorem single_active_input (h : audio_hw_h) (w : hal) (hr : solo_reachable h w) :
    (∀ k1 k2 s1 s2, w.ins k1 = some s1 → w.ins k2 = some s2 →
      s1.standby = false → s2.standby = false → k1 = k2) ∧
    (∀ k s, w.ins k = some s → s.standby = false → w.adev.active_input = some k) := by
  have hinv := in_inv_solo_reachable h w hr
  refine ⟨fun k1 k2 s1 s2 h1 h2 a1 a2 => ?_, hinv⟩
  have e1 := hinv k1 s1 h1 a1
  have e2 := hinv k2 s2 h2 a2
  rw [e1] at e2
  exact Option.some.inj e2

/-- Witness for C11: one capture client on the concrete device; its stream is active and is the
one `active_input` refers to. -/
theorem single_active_input_witness :
    solo_reachable sample_h one_input_hal ∧ one_input_hal.adev.active_input = some 0 := by
  have r0 : solo_reachable sample_h opened_hal :=
    solo_reachable.opened true true (some sample_hw) { open_pcms := [], next_id := 0 }
      opened_hal rfl
  have r1 := solo_reachable.next _ _ r0 (solo_step.open_input opened_hal
    AUDIO_DEVICE_IN_BUILTIN_MIC 44100 AUDIO_FORMAT_PCM_16_BIT 0x10 true 0)
  have alone : start_alone (adev_open_input_stream sample_h opened_hal
      AUDIO_DEVICE_IN_BUILTIN_MIC 44100 AUDIO_FORMAT_PCM_16_BIT 0x10 true 0).2.2 0 := by
    intro s _ _ k t hk
    rw [sample_open_input] at hk
    simp only [hal.set_in, opened_hal] at hk
    split_ifs at hk
    cases hk
    rfl
  have hr : solo_reachable sample_h one_input_hal :=
    solo_reachable.next _ _ r1 (solo_step.in_read _ 0 4096 0 0 true ⟨0, 0, 0, 0, 0⟩ alone)
  refine ⟨hr, ?_⟩
  have hs : (one_input_hal.ins 0).map (fun s => s.standby) = some false := by
    unfold one_input_hal
    simp only [sample_open_input]
    decide
  cases hi : one_input_hal.ins 0 with
  | none => rw [hi] at hs; cases hs
  | some s =>
    rw [hi] at hs
    exact (single_active_input sample_h one_input_hal hr).2 0 s hi (Option.some.inj hs)

/-- C24: for a period size that keeps the 32-bit arithmetic in range and a non-zero native
rate, `get_input_buffer_size` returns, for every rate, format and channel count accepted by
`check_input_parameters`, `F * channel_count * 2` bytes where `F` is the least multiple of 16
that is at least `floor(period_size * sample_rate / native_rate)`; for every rejected
combination it returns 0; `adev_get_input_buffer_size` is the same function of the popcount
of the channel mask. -/
theorem get_input_buffer_size_blocks (h : audio_hw_h) (sample_rate : Nat) (format : Int)
    (channel_count : Int) (channel_mask : Nat) (_hrate : h.MM_UL_SAMPLING_RATE ≠ 0)
    (hfit : (h.CAPTURE_PERIOD_SIZE * 48000 + 15) * 4 < 2 ^ 32) :
    (check_input_parameters sample_rate format channel_count = 0 →
      ∃ F : Nat, (get_input_buffer_size h sample_rate format channel_count : Int) =
          F * channel_count * 2 ∧
        16 ∣ F ∧ h.CAPTURE_PERIOD_SIZE * sample_rate / h.MM_UL_SAMPLING_RATE ≤ F ∧
        ∀ m, 16 ∣ m → h.CAPTURE_PERIOD_SIZE * sample_rate / h.MM_UL_SAMPLING_RATE ≤ m →
          F ≤ m) ∧
    (check_input_parameters sample_rate format channel_count ≠ 0 →
      get_input_buffer_size h sample_rate format channel_count = 0) ∧
    adev_get_input_buffer_size h sample_rate format channel_mask =
      get_input_buffer_size h sample_rate format (popcount channel_mask) := by
  refine ⟨fun hok => ?_, fun hbad => ?_, ?_⟩
  · have key : ¬ (channel_count < 1 ∨ channel_count > 2) ∧
        (sample_rate = 8000 ∨ sample_rate = 11025 ∨ sample_rate = 16000 ∨
          sample_rate = 22050 ∨ sample_rate = 24000 ∨ sample_rate = 32000 ∨
          sample_rate = 44100 ∨ sample_rate = 48000) := by
      have hE : (-EINVAL : Int) ≠ 0 := by decide
      unfold check_input_parameters at hok
      by_cases h1 : format ≠ AUDIO_FORMAT_PCM_16_BIT
      · rw [if_pos h1] at hok
        exact absurd hok hE
      · rw [if_neg h1] at hok
        by_cases h2 : channel_count < 1 ∨ channel_count > 2
        · rw [if_pos h2] at hok
          exact absurd hok hE
        · rw [if_neg h2] at hok
          refine ⟨h2, ?_⟩
          by_contra h3
          rw [if_neg h3] at hok
          exact absurd hok hE
    have hsr : sample_rate ≤ 48000 := by
      rcases key.2 with e | e | e | e | e | e | e | e <;> omega
    have hcc : channel_count = 1 ∨ channel_count = 2 := by
      have := key.1
      omega
    have hprod : h.CAPTURE_PERIOD_SIZE * sample_rate ≤ h.CAPTURE_PERIOD_SIZE * 48000 :=
      Nat.mul_le_mul_left _ hsr
    have hdiv : h.CAPTURE_PERIOD_SIZE * sample_rate / h.MM_UL_SAMPLING_RATE ≤
        h.CAPTURE_PERIOD_SIZE * sample_rate := Nat.div_le_self _ _
    obtain ⟨r1, r2, r3, r4⟩ :=
      round16 (h.CAPTURE_PERIOD_SIZE * sample_rate / h.MM_UL_SAMPLING_RATE)
    refine ⟨(h.CAPTURE_PERIOD_SIZE * sample_rate / h.MM_UL_SAMPLING_RATE + 15) / 16 * 16,
      ?_, r1, r2, r4⟩
    unfold get_input_buffer_size
    rw [if_neg (by simpa using hok)]
    simp only [u32]
    generalize h.CAPTURE_PERIOD_SIZE * sample_rate = P at *
    generalize h.MM_UL_SAMPLING_RATE = R at *
    generalize h.CAPTURE_PERIOD_SIZE * 48000 = Q at *
    have e1 : P % 2 ^ 32 = P := Nat.mod_eq_of_lt (by omega)
    rw [e1]
    generalize P / R = S at *
    have e2 : (S + 15) % 2 ^ 32 = S + 15 := Nat.mod_eq_of_lt (by omega)
    rw [e2]
    generalize (S + 15) / 16 * 16 = F at *
    have e3 : F % 2 ^ 32 = F := Nat.mod_eq_of_lt (by omega)
    rw [e3]
    rcases hcc with rfl | rfl
    · have e4 : (F * (1 : Int).toNat * 2) % 2 ^ 32 = F * 2 := by
        simp only [Int.toNat_one, Nat.mul_one]
        exact Nat.mod_eq_of_lt (by omega)
      rw [e4]
      push_cast
      ring
    · have e4 : (F * (2 : Int).toNat * 2) % 2 ^ 32 = F * 2 * 2 := by
        have : (2 : Int).toNat = 2 := rfl
        rw [this]
        exact Nat.mod_eq_of_lt (by omega)
      rw [e4]
      push_cast
      ring
  · unfold get_input_buffer_size
    rw [if_pos hbad]
  · unfold adev_get_input_buffer_size
    simp only
    split_ifs with hc
    · unfold get_input_buffer_size
      rw [if_pos hc]
    · rfl

/-- Witness for C24: a mono capture at 44100 Hz with the concrete header constants, where one
period of 1024 frames gives 2048 bytes. -/
theorem get_input_buffer_size_blocks_witness :
    sample_h.MM_UL_SAMPLING_RATE ≠ 0 ∧
    (sample_h.CAPTURE_PERIOD_SIZE * 48000 + 15) * 4 < 2 ^ 32 ∧
    adev_get_input_buffer_size sample_h 44100 AUDIO_FORMAT_PCM_16_BIT 0x10 =
      get_input_buffer_size sample_h 44100 AUDIO_FORMAT_PCM_16_BIT (popcount 0x10) ∧
    get_input_buffer_size sample_h 44100 AUDIO_FORMAT_PCM_16_BIT 1 = 2048 :=
  ⟨by decide, by decide,
    (get_input_buffer_size_blocks sample_h 44100 AUDIO_FORMAT_PCM_16_BIT 1 0x10
      (by decide) (by decide)).2.2, by decide⟩

/-- C23, counterexample: a mixer that has all the named controls but lacks a control named in
the default route table; `adev_open` succeeds and produces a device. -/
theorem adev_open_default_route_counterexample :
    (∃ r ∈ sample_h_eq.defaults, sparse_hw.ctls r.ctl_name = none) ∧
    (adev_open sample_h_eq true true (some sparse_hw) { open_pcms := [], next_id := 0 }).1 = 0 ∧
    (adev_open sample_h_eq true true (some sparse_hw)
      { open_pcms := [], next_id := 0 }).2.isSome = true := by
  refine ⟨⟨_, List.mem_cons_self _ _, by decide⟩, by decide, by decide⟩

/-- C23, amended: `adev_open` fails, returning an error and no device, if the mixer cannot be
opened or lacks one of the controls looked up by name (or the interface name is wrong or the
allocation fails); otherwise it returns 0 and a device, whatever controls the default route
table names. -/
theorem adev_open_fatal_controls (h : audio_hw_h) (name_ok alloc_ok : Bool)
    (mixer : Option hw_state) (a : alsa_state) :
    ((name_ok = false ∨ alloc_ok = false ∨ mixer = none ∨
        ∃ s, mixer = some s ∧ ∃ n ∈ named_ctls h.ctl_names, s.ctls n = none) →
      (adev_open h name_ok alloc_ok mixer a).1 ≠ 0 ∧
      (adev_open h name_ok alloc_ok mixer a).2 = none) ∧
    (¬ (name_ok = false ∨ alloc_ok = false ∨ mixer = none ∨
        ∃ s, mixer = some s ∧ ∃ n ∈ named_ctls h.ctl_names, s.ctls n = none) →
      (adev_open h name_ok alloc_ok mixer a).1 = 0 ∧
      ∃ w, (adev_open h name_ok alloc_ok mixer a).2 = some w) := by
  have hE : (-EINVAL : Int) ≠ 0 := by decide
  have hM : (-ENOMEM : Int) ≠ 0 := by decide
  unfold adev_open
  by_cases h1 : name_ok = false
  · rw [if_pos h1]
    exact ⟨fun _ => ⟨hE, rfl⟩, fun hn => absurd (Or.inl h1) hn⟩
  rw [if_neg h1]
  by_cases h2 : alloc_ok = false
  · rw [if_pos h2]
    exact ⟨fun _ => ⟨hM, rfl⟩, fun hn => absurd (Or.inr (Or.inl h2)) hn⟩
  rw [if_neg h2]
  cases mixer with
  | none => exact ⟨fun _ => ⟨hE, rfl⟩, fun hn => absurd (Or.inr (Or.inr (Or.inl rfl))) hn⟩
  | some s =>
    simp only
    by_cases h3 : all_ctls_found s h.ctl_names = false
    · rw [if_pos h3]
      refine ⟨fun _ => ⟨hE, rfl⟩, fun hn => ?_⟩
      exfalso
      apply hn
      refine Or.inr (Or.inr (Or.inr ⟨s, rfl, ?_⟩))
      by_contra hall
      push_neg at hall
      have : all_ctls_found s h.ctl_names = true :=
        (all_ctls_found_iff s h.ctl_names).mpr
          (fun n hn' => Option.isSome_iff_ne_none.mpr (hall n hn'))
      rw [this] at h3
      cases h3
    · rw [if_neg h3]
      refine ⟨fun hbad => ?_, fun _ => ⟨rfl, _, rfl⟩⟩
      exfalso
      rcases hbad with hb | hb | hb | ⟨s', hs', n, hn, hnone⟩
      · exact h1 hb
      · exact h2 hb
      · cases hb
      · cases hs'
        have hfound : all_ctls_found s h.ctl_names = true := by simpa using h3
        have := (all_ctls_found_iff s h.ctl_names).mp hfound n hn
        rw [hnone] at this
        cases this

/-- C25, counterexample: in mode IN_COMMUNICATION on the speaker the speaker gain of the mode
(9 dB) differs from the normal one (4 dB), yet `tones_dl2_volume` is written with the
overrange alone (123) and not with the overrange plus the correction (118). -/
theorem tones_correction_counterexample :
    sample_adev_voip.out_device &&& AUDIO_DEVICE_OUT_SPEAKER ≠ 0 ∧
    (compute_output_volumes sample_h sample_adev_voip false
        (sample_h.DB_FROM_SPEAKER_VOLUME
          (mixer_ctl_get_range_max sample_hw sample_ctls.speaker_volume))).speaker_volume_overrange
      + (sample_h.NORMAL_SPEAKER_VOLUME - sample_h.VOIP_SPEAKER_VOLUME) = 118 ∧
    (set_output_volumes sample_h sample_adev_voip false sample_hw).ctls
        sample_ctls.tones_dl2_volume =
      some { values := [123, 0], range_max := 29, enum_value := "Off" } := by
  refine ⟨by decide, by decide, by decide⟩

/-- C25, amended: `set_output_volumes` writes the tones digital stages with the mode-driven
correction in every mode other than IN_COMMUNICATION and RINGTONE (so in the normal and the
in-call mode): `tones_dl1_volume = MIXER_ABE_GAIN_0DB + (normal gain of the DL1 analog path -
gain applied to it)` and `tones_dl2_volume = overrange + dl2 correction`, where with the speaker
selected the dl2 correction is `NORMAL_SPEAKER_VOLUME` minus the speaker gain of the mode and
without it is 0; in the modes IN_COMMUNICATION and RINGTONE it writes them without correction:
`tones_dl1_volume = MIXER_ABE_GAIN_0DB` and `tones_dl2_volume = overrange`. -/
theorem set_output_volumes_tones (h : audio_hw_h) (adev : tuna_audio_device)
    (tty_volume : Bool) (s : hw_state) :
    let c := adev.mixer_ctls
    let v := compute_output_volumes h adev tty_volume
      (h.DB_FROM_SPEAKER_VOLUME (mixer_ctl_get_range_max s c.speaker_volume))
    let new := issued s (set_output_volumes h adev tty_volume s)
    (¬ (adev.mode = AUDIO_MODE_IN_COMMUNICATION ∨ adev.mode = AUDIO_MODE_RINGTONE) →
      hw_event.set_value c.tones_dl1_volume 0 (h.MIXER_ABE_GAIN_0DB + v.dl1_volume_correction)
        ∈ new ∧
      hw_event.set_value c.tones_dl2_volume 0
        (v.speaker_volume_overrange + v.dl2_volume_correction) ∈ new) ∧
    (adev.mode = AUDIO_MODE_IN_COMMUNICATION ∨ adev.mode = AUDIO_MODE_RINGTONE →
      hw_event.set_value c.tones_dl1_volume 0 h.MIXER_ABE_GAIN_0DB ∈ new ∧
      hw_event.set_value c.tones_dl2_volume 0 v.speaker_volume_overrange ∈ new) ∧
    v.dl1_volume_correction =
      (if adev.out_device &&& AUDIO_DEVICE_OUT_WIRED_HEADPHONE ≠ 0 then
         h.NORMAL_HEADPHONE_VOLUME - v.headset_volume
       else if adev.out_device &&& AUDIO_DEVICE_OUT_WIRED_HEADSET ≠ 0 then
         h.NORMAL_HEADSET_VOLUME - v.headset_volume
       else h.NORMAL_EARPIECE_VOLUME - v.earpiece_volume) ∧
    v.dl2_volume_correction =
      (if adev.out_device &&& AUDIO_DEVICE_OUT_SPEAKER ≠ 0 then
         h.NORMAL_SPEAKER_VOLUME -
           (if adev.mode = AUDIO_MODE_IN_CALL then h.VOICE_CALL_SPEAKER_VOLUME
            else if adev.mode = AUDIO_MODE_IN_COMMUNICATION then h.VOIP_SPEAKER_VOLUME
            else h.NORMAL_SPEAKER_VOLUME)
       else 0) := by
  intro c v new
  have hnew : new = issued s (write_output_volumes h adev v s) := rfl
  rw [hnew, issued_write_output_volumes]
  refine ⟨fun hm => ?_, fun hm => ?_, ?_, ?_⟩
  · by_cases hcall : adev.mode = AUDIO_MODE_IN_CALL
    · simp [hcall, c]
    · simp [hcall, hm, c]
  · have hcall : adev.mode ≠ AUDIO_MODE_IN_CALL := by
      rcases hm with hm | hm <;> rw [hm] <;> decide
    simp [hcall, hm, c]
  · simp only [v, compute_output_volumes]
  · exact compute_dl2_volume_correction h adev tty_volume _

/-- C27, counterexample: with the wired headset microphone as the input device and an active
input stream of the general capture source with a non-zero auxiliary channel mask,
`select_input_device` disables the dual-microphone front end, switches the right capture
route off and sets the left capture route to the headset microphone. -/
theorem dual_mic_counterexample :
    sample_adev_headset_in.in_device &&& AUDIO_DEVICE_IN_ALL_SCO = 0 ∧
    sample_in_aux.aux_channels ≠ 0 ∧
    issued sample_hw
        (select_input_device sample_h sample_adev_headset_in (some sample_in_aux) sample_hw) =
      issued sample_hw (set_route_by_array sample_hw sample_h.mm_ul2_amic_dual_main_sub false).2
      ++ [ .set_enum sample_ctls.right_capture "Off",
           .set_enum sample_ctls.left_capture sample_h.MIXER_HS_MIC,
           .set_value sample_ctls.amic_ul_volume 0
             (sample_h.DB_TO_ABE_GAIN sample_h.CAPTURE_HEADSET_MIC_VOLUME),
           .set_value sample_ctls.amic_ul_volume 1
             (sample_h.DB_TO_ABE_GAIN sample_h.CAPTURE_HEADSET_MIC_VOLUME) ] := by
  refine ⟨by decide, by decide, by decide⟩

/-- C27, amended: with no Bluetooth SCO input selected and an active input stream that has a
non-zero auxiliary channel mask or the front+back main mask, `select_input_device` turns both
microphones on (right capture route on the sub microphone, left capture route on the main
microphone, a dual-microphone front-end route enabled) exactly when the use case selects the
sub microphone (camcorder, or voice communication on the speaker, outside of a call) or
`in_device` contains the built-in microphone; otherwise it disables the dual-microphone front
end, switches the right capture route off and sets the left capture route to the headset
microphone if `in_device` contains the wired headset and to off if not. -/
theorem select_input_device_dual_mic (h : audio_hw_h) (adev : tuna_audio_device)
    (ai : tuna_stream_in) (s : hw_state)
    (hbt : adev.in_device &&& AUDIO_DEVICE_IN_ALL_SCO = 0)
    (hmulti : ai.aux_channels ≠ 0 ∨ ai.main_channels = AUDIO_CHANNEL_IN_FRONT_BACK) :
    let c := adev.mixer_ctls
    let sub : Prop := adev.mode ≠ AUDIO_MODE_IN_CALL ∧
      (ai.source = AUDIO_SOURCE_CAMCORDER ∨
        (adev.out_device &&& AUDIO_DEVICE_OUT_SPEAKER ≠ 0 ∧
          ai.source = AUDIO_SOURCE_VOICE_COMMUNICATION))
    let headset : Bool := decide (adev.in_device &&& AUDIO_DEVICE_IN_WIRED_HEADSET ≠ 0)
    (sub →
      select_input_device h adev (some ai) s =
        set_input_volumes h adev (some ai) true false true
          ((set_route_by_array s h.mm_ul2_amic_dual_sub_main true).2.emits
            [ .set_enum c.right_capture h.MIXER_SUB_MIC,
              .set_enum c.left_capture h.MIXER_MAIN_MIC ])) ∧
    (¬ sub → adev.in_device &&& AUDIO_DEVICE_IN_BUILTIN_MIC ≠ 0 →
      select_input_device h adev (some ai) s =
        set_input_volumes h adev (some ai) true headset true
          ((set_route_by_array s h.mm_ul2_amic_dual_main_sub true).2.emits
            [ .set_enum c.right_capture h.MIXER_SUB_MIC,
              .set_enum c.left_capture h.MIXER_MAIN_MIC ])) ∧
    (¬ sub → adev.in_device &&& AUDIO_DEVICE_IN_BUILTIN_MIC = 0 →
      select_input_device h adev (some ai) s =
        set_input_volumes h adev (some ai) false headset false
          ((set_route_by_array s h.mm_ul2_amic_dual_main_sub false).2.emits
            [ .set_enum c.right_capture "Off",
              .set_enum c.left_capture (if headset then h.MIXER_HS_MIC else "Off") ])) := by
  intro c sub headset
  have hm : (decide (ai.aux_channels ≠ 0) ||
      decide (ai.main_channels = AUDIO_CHANNEL_IN_FRONT_BACK)) = true := by
    rcases hmulti with hx | hx <;> simp [hx]
  refine ⟨fun hsub => ?_, fun hsub hmain => ?_, fun hsub hmain => ?_⟩
  · have hs : (if adev.mode ≠ AUDIO_MODE_IN_CALL then
          decide (ai.source = AUDIO_SOURCE_CAMCORDER) ||
            (decide (adev.out_device &&& AUDIO_DEVICE_OUT_SPEAKER ≠ 0) &&
              decide (ai.source = AUDIO_SOURCE_VOICE_COMMUNICATION))
        else false) = true := by
      rw [if_pos hsub.1]
      rcases hsub.2 with hx | hx
      · simp [hx]
      · simp [hx.1, hx.2]
    unfold select_input_device
    simp only [hbt, hm, hs]
    simp [hw_state.emits, mixer_ctl_set_enum_by_string, c]
  · have hs : (if adev.mode ≠ AUDIO_MODE_IN_CALL then
          decide (ai.source = AUDIO_SOURCE_CAMCORDER) ||
            (decide (adev.out_device &&& AUDIO_DEVICE_OUT_SPEAKER ≠ 0) &&
              decide (ai.source = AUDIO_SOURCE_VOICE_COMMUNICATION))
        else false) = false := by
      split_ifs with hc
      · by_contra hne
        apply hsub
        refine ⟨hc, ?_⟩
        simp at hne
        tauto
      · rfl
    unfold select_input_device
    simp only [hbt, hm, hs]
    simp [hw_state.emits, mixer_ctl_set_enum_by_string, c, hmain, headset]
  · have hs : (if adev.mode ≠ AUDIO_MODE_IN_CALL then
          decide (ai.source = AUDIO_SOURCE_CAMCORDER) ||
            (decide (adev.out_device &&& AUDIO_DEVICE_OUT_SPEAKER ≠ 0) &&
              decide (ai.source = AUDIO_SOURCE_VOICE_COMMUNICATION))
        else false) = false := by
      split_ifs with hc
      · by_contra hne
        apply hsub
        refine ⟨hc, ?_⟩
        simp at hne
        tauto
      · rfl
    unfold select_input_device
    simp only [hbt, hm, hs]
    simp [hw_state.emits, mixer_ctl_set_enum_by_string, c, hmain, headset]

/-- Witness for C27: the built-in microphone with the general capture source and a non-zero
auxiliary mask; both microphones are turned on. -/
theorem select_input_device_dual_mic_witness :
    sample_adev.in_device &&& AUDIO_DEVICE_IN_ALL_SCO = 0 ∧
    sample_in_aux.aux_channels ≠ 0 ∧
    select_input_device sample_h sample_adev (some sample_in_aux) sample_hw =
      set_input_volumes sample_h sample_adev (some sample_in_aux) true false true
        ((set_route_by_array sample_hw sample_h.mm_ul2_amic_dual_main_sub true).2.emits
          [ .set_enum sample_ctls.right_capture sample_h.MIXER_SUB_MIC,
            .set_enum sample_ctls.left_capture sample_h.MIXER_MAIN_MIC ]) :=
  ⟨by decide, by decide,
    (select_input_device_dual_mic sample_h sample_adev sample_in_aux sample_hw (by decide)
      (Or.inl (by decide))).2.1 (by decide) (by decide)⟩

/-- C29: on the concrete device with one effect (handle 7) attached to the input stream, when
the descriptor query of the effect fails, `in_remove_audio_effect` returns the non-zero status
of the query although the effect has been removed: the list is empty afterwards. -/
theorem in_remove_audio_effect_failed_query :
    reachable sample_h effect_hal ∧
    (effect_hal.ins 0).map
        (fun s => (s.num_preprocessors, s.preprocessors.map (fun e => e.effect_itfe))) =
      some (1, [some 7, none, none]) ∧
    (in_remove_audio_effect sample_h effect_hal 0 7 (-EINVAL) false sample_oracle
      sample_oracle).1 = -EINVAL ∧
    ((in_remove_audio_effect sample_h effect_hal 0 7 (-EINVAL) false sample_oracle
      sample_oracle).2.ins 0).map
        (fun s => (s.num_preprocessors, s.preprocessors.map (fun e => e.effect_itfe))) =
      some (0, [none, none, none]) := by
  have r0 : reachable sample_h opened_hal :=
    reachable.opened true true (some sample_hw) { open_pcms := [], next_id := 0 } opened_hal rfl
  have r1 := reachable.next _ _ r0 (step.open_input opened_hal AUDIO_DEVICE_IN_BUILTIN_MIC 44100
    AUDIO_FORMAT_PCM_16_BIT 0x10 true 0)
  have r2 : reachable sample_h effect_hal :=
    reachable.next _ _ r1 (step.add_audio_effect _ 0 7 0 false
      { cmd_status := 0, reply_status := 0, configs := [] } sample_oracle sample_oracle)
  refine ⟨r2, ?_⟩
  unfold effect_hal
  simp only [sample_open_input]
  decide

/-- C30: on the concrete device, after entering a call, muting the microphone and changing the
TTY mode (which re-runs `select_output_device`), `mic_mute` is still set and the mode is
IN_CALL, but both channels of the voice uplink volume hold `MIXER_ABE_GAIN_0DB`. -/
theorem route_switch_unmutes_microphone :
    reachable sample_h muted_call_hal ∧
    muted_call_hal.adev.mode = AUDIO_MODE_IN_CALL ∧
    muted_call_hal.adev.mic_mute = true ∧
    ((adev_set_mic_mute sample_h
        (adev_set_mode sample_h opened_hal AUDIO_MODE_IN_CALL true true).2 true).2.hw.ctls
        sample_ctls.voice_ul_volume).map (fun c => c.values) = some [0, 0] ∧
    (muted_call_hal.hw.ctls sample_ctls.voice_ul_volume).map (fun c => c.values) =
      some [sample_h.MIXER_ABE_GAIN_0DB, sample_h.MIXER_ABE_GAIN_0DB] := by
  have r0 : reachable sample_h opened_hal :=
    reachable.opened true true (some sample_hw) { open_pcms := [], next_id := 0 } opened_hal rfl
  have r1 := reachable.next _ _ r0 (step.set_mode opened_hal AUDIO_MODE_IN_CALL true true)
  have r2 := reachable.next _ _ r1 (step.set_mic_mute _ true)
  have r3 : reachable sample_h muted_call_hal :=
    reachable.next _ _ r2 (step.set_parameters _ (some "tty_hco") none none)
  refine ⟨r3, by decide, by decide, by decide, by decide⟩

/-- C28, counterexample: entering a call on the concrete device while the downlink modem
endpoint cannot be opened leaves `in_call = 1` with both modem endpoints closed. -/
theorem call_flag_counterexample :
    call_reachable sample_h false
      (adev_set_mode sample_h opened_hal AUDIO_MODE_IN_CALL false true).2 ∧
    (adev_set_mode sample_h opened_hal AUDIO_MODE_IN_CALL false true).2.adev.in_call = true ∧
    (adev_set_mode sample_h opened_hal AUDIO_MODE_IN_CALL false true).2.adev.pcm_modem_dl
      = none ∧
    (adev_set_mode sample_h opened_hal AUDIO_MODE_IN_CALL false true).2.adev.pcm_modem_ul
      = none := by
  have r0 : call_reachable sample_h false opened_hal :=
    call_reachable.opened true true (some sample_hw) { open_pcms := [], next_id := 0 }
      opened_hal rfl
  exact ⟨call_reachable.set_mode opened_hal AUDIO_MODE_IN_CALL false true r0
    (fun hc => by cases hc), by decide, by decide, by decide⟩

/-- C28, amended: in every state reachable from `adev_open` by `adev_set_mode` calls and
wideband-AMR notifications, with any outcome of the modem transport opens, the two modem
endpoints are both open or both closed and `in_call = 0` implies that both are closed; if
every modem transport open succeeds, `in_call = 1` implies that both are open. -/
theorem call_flag_modem_endpoints (h : audio_hw_h) (ok : Bool) (w : hal)
    (hr : call_reachable h ok w) :
    w.adev.pcm_modem_dl.isSome = w.adev.pcm_modem_ul.isSome ∧
    (w.adev.in_call = false → w.adev.pcm_modem_dl = none ∧ w.adev.pcm_modem_ul = none) ∧
    (ok = true → w.adev.in_call = true →
      w.adev.pcm_modem_dl.isSome = true ∧ w.adev.pcm_modem_ul.isSome = true) :=
  modem_inv_call_reachable h ok w hr

/-- Witness for C28: entering a call on the concrete device with both modem endpoints opening;
both are open afterwards. -/
theorem call_flag_modem_endpoints_witness :
    call_reachable sample_h true
      (adev_set_mode sample_h opened_hal AUDIO_MODE_IN_CALL true true).2 ∧
    (adev_set_mode sample_h opened_hal AUDIO_MODE_IN_CALL true true).2.adev.pcm_modem_dl.isSome
      = true ∧
    (adev_set_mode sample_h opened_hal AUDIO_MODE_IN_CALL true true).2.adev.pcm_modem_ul.isSome
      = true := by
  have r0 : call_reachable sample_h true opened_hal :=
    call_reachable.opened true true (some sample_hw) { open_pcms := [], next_id := 0 }
      opened_hal rfl
  have r1 := call_reachable.set_mode opened_hal AUDIO_MODE_IN_CALL true true r0
    (fun _ => ⟨rfl, rfl⟩)
  exact ⟨r1, (call_flag_modem_endpoints sample_h true _ r1).2.2 rfl (by decide)⟩

/-- C26: in every state reachable from a successful `adev_open`, after a call of
`out_write_deep_buffer` the deep-buffer output, if it is active, has `use_long_periods` equal
to the screen-off flag and the absence of an active input as they are during the call, and
`write_threshold` equal to the long-period threshold in long-period mode and to the
short-period threshold otherwise; a stream that was active before the call is still active,
with the same endpoint and no transport open or close, and a stream in standby becomes active
when its endpoint opens. -/
theorem deep_buffer_write_threshold (h : audio_hw_h) (w : hal) (hr : reachable h w)
    (bytes : Nat) (ready : Bool) (write_status : Int) :
    (∀ o, (out_write_deep_buffer h w bytes ready write_status).2.adev.outputs OUTPUT_DEEP_BUF
        = some o → o.standby = false →
      o.use_long_periods = (w.adev.screen_off && w.adev.active_input.isNone) ∧
      o.write_threshold =
        (if o.use_long_periods = true then h.DEEP_BUFFER_LONG_PERIOD_WRITE_THRES
         else h.DEEP_BUFFER_SHORT_PERIOD_WRITE_THRES)) ∧
    (∀ out, w.adev.outputs OUTPUT_DEEP_BUF = some out → out.standby = false →
      ∃ o, (out_write_deep_buffer h w bytes ready write_status).2.adev.outputs OUTPUT_DEEP_BUF
          = some o ∧
        o.standby = false ∧ o.pcm_normal = out.pcm_normal ∧
        (out_write_deep_buffer h w bytes ready write_status).2.alsa = w.alsa) ∧
    (∀ out, w.adev.outputs OUTPUT_DEEP_BUF = some out → out.standby = true → ready = true →
      ∃ o, (out_write_deep_buffer h w bytes ready write_status).2.adev.outputs OUTPUT_DEEP_BUF
          = some o ∧ o.standby = false) := by
  have hinv := deep_inv_write_deep_buffer h w bytes ready write_status
    (deep_inv_reachable h w hr)
  have hch := deep_out_write_deep_buffer h w bytes ready write_status
  refine ⟨?_, ?_, ?_⟩
  · intro o ho hso
    refine ⟨?_, hinv o ho hso⟩
    have ho1 : deep_out (out_write_deep_buffer h w bytes ready write_status).2 = some o := ho
    rw [hch] at ho1
    cases hd : deep_out w with
    | none => rw [hd] at ho1; cases ho1
    | some out =>
      rw [hd] at ho1
      simp only [Option.map_some', Option.some.injEq] at ho1
      subst ho1
      split_ifs at hso ⊢ <;> simp_all
  · intro out hd hs
    have hd1 : deep_out w = some out := hd
    rw [hd1] at hch
    simp only [Option.map_some', hs, Bool.false_eq_true, if_false] at hch
    refine ⟨_, hch, ?_, ?_, alsa_write_deep_buffer h w bytes ready write_status out hd1 hs⟩
    · split_ifs <;> first | rfl | exact hs
    · split_ifs <;> rfl
  · intro out hd hs hready
    subst hready
    have hd1 : deep_out w = some out := hd
    rw [hd1] at hch
    simp only [Option.map_some', hs, if_true, Bool.true_eq_false, if_false] at hch
    exact ⟨_, hch, rfl⟩

/-- Witness for C26: on the device whose deep-buffer output was activated with the screen on,
a write after the screen was turned off leaves the stream active in long-period mode with the
long-period threshold. -/
theorem deep_buffer_write_threshold_witness :
    reachable sample_h deep_hal ∧
    ∃ o, (out_write_deep_buffer sample_h deep_hal 4096 true 0).2.adev.outputs OUTPUT_DEEP_BUF
        = some o ∧ o.standby = false ∧ o.use_long_periods = true ∧
      o.write_threshold = sample_h.DEEP_BUFFER_LONG_PERIOD_WRITE_THRES := by
  have r0 : reachable sample_h opened_hal :=
    reachable.opened true true (some sample_hw) { open_pcms := [], next_id := 0 } opened_hal rfl
  have r1 := reachable.next _ _ r0 (step.open_output opened_hal AUDIO_DEVICE_OUT_SPEAKER
    AUDIO_OUTPUT_FLAG_DEEP_BUFFER 44100 AUDIO_CHANNEL_OUT_STEREO true 2 0)
  have r2 := reachable.next _ _ r1 (step.write_deep_buffer _ 4096 true 0)
  have r3 : reachable sample_h deep_hal :=
    reachable.next _ _ r2 (step.set_parameters _ none none (some "off"))
  refine ⟨r3, ?_⟩
  have key := deep_buffer_write_threshold sample_h deep_hal r3 4096 true 0
  have hout : ∃ out, deep_hal.adev.outputs OUTPUT_DEEP_BUF = some out ∧ out.standby = false :=
    ⟨_, rfl, rfl⟩
  obtain ⟨out, hd, hs⟩ := hout
  obtain ⟨o, ho, hso, _, _⟩ := key.2.1 out hd hs
  have hp := key.1 o ho hso
  have hb : (deep_hal.adev.screen_off && deep_hal.adev.active_input.isNone) = true := rfl
  rw [hb] at hp
  refine ⟨o, ho, hso, hp.1, ?_⟩
  rw [hp.2, if_pos hp.1]

end Tuna
